import Mathlib

/-!
AsteroidsGameLib: game-flow, collision and audio model.

A shallow embedding of `src/AstroLib.cpp`, `src/AudioEngine.cpp` and `src/GameData.h`, with
`wrapAround` of `src/AsteroidsGame.cpp`.

Modelling conventions
* `float` values are rationals (`ℚ`); `int` values are unbounded integers (`ℤ`). In the
  collision test (`collides`) and in the thrust pitch (`startThrustSound`) every `float`
  operation is rounded to binary32 by `f32` (round to nearest, ties to even, subnormals
  included; infinities and NaN are not modelled); elsewhere `float` arithmetic is exact.
* `unsigned long` times are naturals reduced modulo `2^32` (`millis`, `usub`, `uadd`).
* The fixed arrays `bullets[MAX_BULLETS]` and `asteroids[MAX_ASTEROIDS]` are functions on `Fin`.
* The C library (`cos`, `sin`, `atan2`, `sqrt`) and the generator behind `random()` are an
  environment `Env`; every statement holds for all environments unless it says otherwise.
  `rngPos` counts the raw draws consumed so far.
* All `millis()` calls of one tick read the same clock value, except after `delay(1500)`.
* The rejection loops `do ... while (sqrt(d2) < c)` take a bound `fuel` on their iterations
  and yield `none` when it is exhausted; `sqrt(d2) < c` with `0 ≤ c` is tested as `d2 < c * c`.
* Drawing and `Serial` calls have no effect on the modelled state and are omitted.
  `Preferences::putInt` appends to `nvsWrites`; `tone`/`noTone` append to `buzzer`.
-/

/-! ## GameData.h -/

abbrev SCREEN_WIDTH : ℤ := 128
abbrev SCREEN_HEIGHT : ℤ := 64

inductive GameState where
  | START
  | GAME
  | GAME_OVER
  deriving DecidableEq, Repr

structure Vector2D where
  x : ℚ
  y : ℚ
  deriving DecidableEq, Repr

structure GameObject where
  pos : Vector2D
  vel : Vector2D
  angle : ℚ
  radius : ℚ
  active : Bool
  lifetime : ℤ
  size : ℤ
  deriving DecidableEq, Repr

abbrev JOYSTICK_CENTER : ℤ := 2048
abbrev JOYSTICK_DEAD_ZONE : ℤ := 400
abbrev JOYSTICK_MAX_THROW : ℤ := 2047

def SHIP_TURN_SPEED : ℚ := 12 / 100
def SHIP_THRUST : ℚ := 20 / 100
def SHIP_FRICTION : ℚ := 97 / 100
def BULLET_SPEED : ℚ := 35 / 10
abbrev BULLET_LIFETIME : ℤ := 40
abbrev MAX_BULLETS : ℕ := 5
def ASTEROID_SPEED_MIN : ℚ := 5 / 10
def ASTEROID_SPEED_MAX : ℚ := 15 / 10
abbrev MAX_ASTEROIDS : ℕ := 10
abbrev STARTING_ASTEROIDS : ℕ := 3
def SHIP_COLLISION_RADIUS : ℚ := 4
def BULLET_COLLISION_RADIUS : ℚ := 1
abbrev ASTEROID_SIZE_LARGE : ℤ := 10
abbrev ASTEROID_SIZE_MEDIUM : ℤ := 6
abbrev ASTEROID_SIZE_SMALL : ℤ := 3
abbrev INVINCIBILITY_DURATION : ℕ := 2000
abbrev FIRE_DEBOUNCE_DELAY : ℕ := 150
abbrev HYPERSPACE_COOLDOWN : ℕ := 5000
abbrev HYPERSPACE_INVINCIBILITY : ℕ := 750

abbrev SND_SHOOT_FREQ : ℕ := 2500
abbrev SND_EXPLODE_FREQ : ℕ := 300
abbrev SND_THRUST_FREQ_LOW : ℕ := 100
abbrev SND_THRUST_FREQ_HIGH : ℕ := 250
abbrev SND_HYPERSPACE_FREQ : ℕ := 4000
abbrev SND_SHORT_DURATION : ℕ := 50
abbrev SND_HYPERSPACE_DURATION : ℕ := 300

/-- The value of the `double` constant `M_PI`. -/
def M_PI : ℚ := 884279719003555 / 281474976710656

/-! ## Machine arithmetic and the environment -/

/-- Number of values of a 32-bit `unsigned long`. -/
abbrev U32 : ℕ := 4294967296

/-- Reading of `millis()` when `clock` milliseconds have passed since power-up. -/
def millis (clock : ℕ) : ℕ := clock % U32

/-- Subtraction of two `unsigned long` values. -/
def usub (a b : ℕ) : ℕ := (a % U32 + U32 - b % U32) % U32

/-- Addition of two `unsigned long` values. -/
def uadd (a b : ℕ) : ℕ := (a + b) % U32

/-- Conversion of a `float` to an integer type: truncation toward zero. -/
def truncQ (q : ℚ) : ℤ := if 0 ≤ q then ⌊q⌋ else ⌈q⌉

/-- Rounding to the nearest integer, ties to the even one. -/
def roundEven (q : ℚ) : ℤ :=
  if q - (⌊q⌋ : ℚ) < 1 / 2 then ⌊q⌋
  else if 1 / 2 < q - (⌊q⌋ : ℚ) then ⌊q⌋ + 1
  else if ⌊q⌋ % 2 = 0 then ⌊q⌋ else ⌊q⌋ + 1

/-- The power of two `2^z` as a rational. -/
def pow2 (z : ℤ) : ℚ :=
  if 0 ≤ z then ((2 ^ z.toNat : ℕ) : ℚ) else 1 / ((2 ^ (-z).toNat : ℕ) : ℚ)

/-- Binary search for the exponent of `q`: the largest `e` with `lo ≤ e < lo + 2^k` and
`2^e ≤ q`, or `lo` when there is none. -/
def binade (q : ℚ) : ℤ → ℕ → ℤ
  | lo, 0 => lo
  | lo, k + 1 =>
    if pow2 (lo + 2 ^ k) ≤ q then binade q (lo + 2 ^ k) k else binade q lo k

/-- Spacing of the binary32 numbers around `q ≥ 0`: `2^(e - 23)` with `e` the exponent of
`q`, kept within `-126 .. 127` (below `2^-126` the subnormal spacing `2^-149`). -/
def ulp32 (q : ℚ) : ℚ := pow2 (max (-126) (binade q (-128) 8) - 23)

/-- Rounding of `q ≥ 0` to binary32: the nearest multiple of the spacing, ties to even. -/
def f32abs (q : ℚ) : ℚ := (roundEven (q / ulp32 q) : ℚ) * ulp32 q

/-- Rounding of the exact result of a `float` operation to binary32. -/
def f32 (q : ℚ) : ℚ := if q < 0 then -f32abs (-q) else f32abs q

/-- Arduino `random(howsmall, howbig)` applied to the raw draw `raw`:
`howsmall` when the range is empty, else `howsmall + raw % (howbig - howsmall)`. -/
def random (lo hi : ℤ) (raw : ℕ) : ℤ :=
  if hi ≤ lo then lo else lo + (raw : ℤ) % (hi - lo)

/-- The C library functions and the raw random stream used by the game. -/
structure Env where
  cos : ℚ → ℚ
  sin : ℚ → ℚ
  atan2 : ℚ → ℚ → ℚ
  sqrt : ℚ → ℚ
  rand : ℕ → ℕ

/-! ## AudioEngine.cpp -/

/-- One call to the buzzer driver: `tone(pin, f)`, `tone(pin, f, d)` or `noTone(pin)`. -/
inductive BuzzerCall where
  | tone (freq : ℕ) (duration : Option ℕ)
  | noTone
  deriving DecidableEq, Repr

structure AudioEngine where
  buzzerPin : ℤ
  initialized : Bool
  thrustSoundActive : Bool
  currentContinuousFreq : ℕ
  soundEndTime : ℕ
  buzzer : List BuzzerCall
  deriving DecidableEq, Repr

/-- The constructor `AudioEngine::AudioEngine()`. -/
def AudioEngine.new : AudioEngine :=
  { buzzerPin := -1, initialized := false, thrustSoundActive := false,
    currentContinuousFreq := 0, soundEndTime := 0, buzzer := [] }

def AudioEngine.stopTone (a : AudioEngine) : AudioEngine :=
  if !a.initialized then a
  else { a with buzzer := a.buzzer ++ [BuzzerCall.noTone],
                currentContinuousFreq := 0, soundEndTime := 0 }

def AudioEngine.begin (a : AudioEngine) (pin : ℤ) : AudioEngine :=
  let a1 := { a with buzzerPin := pin }
  let a2 := a1.stopTone
  { a2 with initialized := true }

def AudioEngine.playTone (a : AudioEngine) (clock : ℕ) (freq duration : ℕ) : AudioEngine :=
  if !a.initialized then a
  else if 0 < freq then
    if 0 < duration then
      { a with buzzer := a.buzzer ++ [BuzzerCall.tone freq (some duration)],
               soundEndTime := uadd (uadd (millis clock) duration) 5,
               currentContinuousFreq := 0 }
    else
      { a with buzzer := a.buzzer ++ [BuzzerCall.tone freq none],
               soundEndTime := 0,
               currentContinuousFreq := freq }
  else a.stopTone

/-- The test `currentContinuousFreq >= SND_THRUST_FREQ_LOW && ... <= SND_THRUST_FREQ_HIGH`. -/
def AudioEngine.inThrustRange (a : AudioEngine) : Bool :=
  decide (SND_THRUST_FREQ_LOW ≤ a.currentContinuousFreq) &&
    decide (a.currentContinuousFreq ≤ SND_THRUST_FREQ_HIGH)

def AudioEngine.playShootSound (a : AudioEngine) (clock : ℕ) : AudioEngine :=
  if !a.initialized then a
  else
    let a1 := if a.inThrustRange then a.stopTone else a
    a1.playTone clock SND_SHOOT_FREQ SND_SHORT_DURATION

def AudioEngine.playExplosionSound (a : AudioEngine) (clock : ℕ) : AudioEngine :=
  if !a.initialized then a
  else
    let a0 := { a with thrustSoundActive := false }
    let a1 := if a0.inThrustRange then a0.stopTone else a0
    a1.playTone clock SND_EXPLODE_FREQ (SND_SHORT_DURATION * 2)

def AudioEngine.playHyperspaceSound (a : AudioEngine) (clock : ℕ) : AudioEngine :=
  if !a.initialized then a
  else
    let a0 := { a with thrustSoundActive := false }
    let a1 := if a0.inThrustRange then a0.stopTone else a0
    a1.playTone clock SND_HYPERSPACE_FREQ SND_HYPERSPACE_DURATION

def AudioEngine.startThrustSound (a : AudioEngine) (clock : ℕ) (intensity : ℚ) : AudioEngine :=
  if !a.initialized || a.thrustSoundActive then a
  else
    let a1 := { a with thrustSoundActive := true }
    let i := max 0 (min 1 intensity)
    let thrustFreq : ℕ := (SND_THRUST_FREQ_LOW +
      (truncQ (f32 (((SND_THRUST_FREQ_HIGH : ℤ) - (SND_THRUST_FREQ_LOW : ℤ) : ℤ) * i))).toNat
        % 65536) % 65536
    let currentTime := millis clock
    if a1.soundEndTime = 0 ∨ a1.soundEndTime ≤ currentTime then a1.playTone clock thrustFreq 0
    else a1

def AudioEngine.stopThrustSound (a : AudioEngine) : AudioEngine :=
  if !a.initialized || !a.thrustSoundActive then a
  else
    let a1 := { a with thrustSoundActive := false }
    if a1.inThrustRange then a1.stopTone else a1

def AudioEngine.stopAllSounds (a : AudioEngine) : AudioEngine :=
  ({ a with thrustSoundActive := false }).stopTone

def AudioEngine.update (a : AudioEngine) (clock : ℕ) : AudioEngine :=
  if !a.initialized then a
  else
    let currentTime := millis clock
    if 0 < a.soundEndTime ∧ a.soundEndTime ≤ currentTime then
      let a1 := { a with currentContinuousFreq := 0, soundEndTime := 0 }
      if a1.thrustSoundActive then a1.startThrustSound clock 1 else a1
    else if a.thrustSoundActive ∧ a.currentContinuousFreq = 0 ∧ a.soundEndTime = 0 then
      a.startThrustSound clock 1
    else a

/-! ## AstroLib.h: the game session -/

structure AstroLib where
  audio : AudioEngine
  fireButtonPin : ℤ
  hyperspaceButtonPin : ℤ
  currentState : GameState
  ship : GameObject
  bullets : Fin MAX_BULLETS → GameObject
  asteroids : Fin MAX_ASTEROIDS → GameObject
  score : ℤ
  lives : ℤ
  highScore : ℤ
  fireButtonPressedLastFrame : Bool
  hyperspaceButtonPressedLastFrame : Bool
  lastFireTime : ℕ
  shipSpawnTime : ℕ
  lastHyperspaceTime : ℕ
  isThrusting : Bool
  /-- Values passed to `preferences.putInt(PREF_KEY_HIGH_SCORE, _)`, oldest first. -/
  nvsWrites : List ℤ
  /-- Number of raw draws taken from `Env.rand` so far. -/
  rngPos : ℕ

/-- What one call of `update` reads from outside: its arguments, the two `digitalRead`
results (`true` = `LOW`) and the clock. -/
structure TickInput where
  joyX : ℤ
  joyY : ℤ
  joyButtonDown : Bool
  firePinLow : Bool
  hyperspacePinLow : Bool
  clock : ℕ

namespace AstroLib

/-- Next value of `random(lo, hi)`; the cursor moves by one. -/
def nextRandom (env : Env) (lo hi : ℤ) (s : AstroLib) : ℤ × AstroLib :=
  (random lo hi (env.rand s.rngPos), { s with rngPos := s.rngPos + 1 })

def findInactiveBulletSlot (s : AstroLib) : Option (Fin MAX_BULLETS) :=
  (List.finRange MAX_BULLETS).find? (fun i => !(s.bullets i).active)

def findInactiveAsteroidSlot (s : AstroLib) : Option (Fin MAX_ASTEROIDS) :=
  (List.finRange MAX_ASTEROIDS).find? (fun i => !(s.asteroids i).active)

def wrapAround (obj : GameObject) : GameObject :=
  let x :=
    if obj.pos.x < -obj.radius then (SCREEN_WIDTH : ℚ) + obj.radius
    else if obj.pos.x > (SCREEN_WIDTH : ℚ) + obj.radius then -obj.radius
    else obj.pos.x
  let y :=
    if obj.pos.y < -obj.radius then (SCREEN_HEIGHT : ℚ) + obj.radius
    else if obj.pos.y > (SCREEN_HEIGHT : ℚ) + obj.radius then -obj.radius
    else obj.pos.y
  { obj with pos := { x := x, y := y } }

/-- Position chosen by `spawnAsteroid` (draws only when `x < 0 || y < 0`). -/
def spawnPosition (env : Env) (size : ℤ) (x y : ℚ) (s : AstroLib) : Vector2D × AstroLib :=
  if x < 0 ∨ y < 0 then
    let (r0, s0) := s.nextRandom env 0 2
    if r0 = 0 then
      let (px, s1) := s0.nextRandom env 0 SCREEN_WIDTH
      let (r1, s2) := s1.nextRandom env 0 2
      ({ x := (px : ℚ), y := if r1 = 0 then ((0 - size : ℤ) : ℚ) else ((SCREEN_HEIGHT + size : ℤ) : ℚ) }, s2)
    else
      let (r1, s1) := s0.nextRandom env 0 2
      let (py, s2) := s1.nextRandom env 0 SCREEN_HEIGHT
      ({ x := if r1 = 0 then ((0 - size : ℤ) : ℚ) else ((SCREEN_WIDTH + size : ℤ) : ℚ), y := (py : ℚ) }, s2)
  else ({ x := x, y := y }, s)

/-- Velocity chosen by `spawnAsteroid`: random, or inherited from `(initial_vx, initial_vy)`. -/
def spawnVelocity (env : Env) (initial_vx initial_vy : ℚ) (s : AstroLib) : Vector2D × AstroLib :=
  if initial_vx = 0 ∧ initial_vy = 0 then
    let (r0, s0) := s.nextRandom env (truncQ (ASTEROID_SPEED_MIN * 100)) (truncQ (ASTEROID_SPEED_MAX * 100))
    let speed : ℚ := (r0 : ℚ) / 100
    let (r1, s1) := s0.nextRandom env 0 (truncQ (200 * M_PI))
    let angle : ℚ := (r1 : ℚ) / 100
    ({ x := env.cos angle * speed, y := env.sin angle * speed }, s1)
  else
    let (r0, s0) := s.nextRandom env 80 120
    let speed_variation : ℚ := (r0 : ℚ) / 100
    let (r1, s1) := s0.nextRandom env (-25) 26
    let angle_variation : ℚ := (r1 : ℚ) / 100
    let parent_angle := env.atan2 initial_vy initial_vx
    let parent_speed := env.sqrt (initial_vx * initial_vx + initial_vy * initial_vy)
    let new_speed0 := parent_speed * speed_variation
    let new_speed := if new_speed0 < ASTEROID_SPEED_MIN then ASTEROID_SPEED_MIN else new_speed0
    ({ x := env.cos (parent_angle + angle_variation) * new_speed,
       y := env.sin (parent_angle + angle_variation) * new_speed }, s1)

def spawnAsteroid (env : Env) (size : ℤ) (x y initial_vx initial_vy : ℚ) (s : AstroLib) : AstroLib :=
  match s.findInactiveAsteroidSlot with
  | none => s
  | some slot =>
    let (pos, s1) := s.spawnPosition env size x y
    let (vel, s2) := s1.spawnVelocity env initial_vx initial_vy
    let newAsteroid : GameObject :=
      { pos := pos, vel := vel, angle := 0, radius := (size : ℚ), active := true,
        lifetime := 0, size := size }
    { s2 with asteroids := Function.update s2.asteroids slot newAsteroid }

/-- The loop `do { spawnX = random(0, SCREEN_WIDTH); spawnY = random(0, SCREEN_HEIGHT); }
while (sqrt(pow(spawnX - ship.pos.x, 2) + pow(spawnY - ship.pos.y, 2)) < c)`, run for at most
`fuel` iterations from cursor `p`; `c2` is `c * c`. Returns the sample and the new cursor. -/
def sampleSpawn (rand : ℕ → ℕ) (shipPos : Vector2D) (c2 : ℚ) : ℕ → ℕ → Option (ℚ × ℚ × ℕ)
  | 0, _ => none
  | fuel + 1, p =>
    let spawnX : ℚ := (random 0 SCREEN_WIDTH (rand p) : ℤ)
    let spawnY : ℚ := (random 0 SCREEN_HEIGHT (rand (p + 1)) : ℤ)
    if (spawnX - shipPos.x) ^ 2 + (spawnY - shipPos.y) ^ 2 < c2 then
      sampleSpawn rand shipPos c2 fuel (p + 2)
    else some (spawnX, spawnY, p + 2)

/-- The loop `for (i = 0; i < n; ++i) { do ... while (...); spawnAsteroid(LARGE, spawnX, spawnY); }`
shared by `resetGame` and `spawnNewWave`. -/
def spawnLargeAsteroids (env : Env) (c2 : ℚ) (fuel : ℕ) : ℕ → AstroLib → Option AstroLib
  | 0, s => some s
  | n + 1, s =>
    match sampleSpawn env.rand s.ship.pos c2 fuel s.rngPos with
    | none => none
    | some (spawnX, spawnY, p) =>
      spawnLargeAsteroids env c2 fuel n
        (({ s with rngPos := p }).spawnAsteroid env ASTEROID_SIZE_LARGE spawnX spawnY 0 0)

/-- The assignments of `resetGame` that precede its spawn loop. -/
def resetFields (clock : ℕ) (s : AstroLib) : AstroLib :=
  { s with
    score := 0
    lives := 3
    ship :=
      { s.ship with
        pos := { x := (SCREEN_WIDTH : ℚ) / 2, y := (SCREEN_HEIGHT : ℚ) / 2 }
        vel := { x := 0, y := 0 }
        angle := -M_PI / 2
        radius := SHIP_COLLISION_RADIUS
        active := true
        lifetime := INVINCIBILITY_DURATION }
    shipSpawnTime := millis clock
    bullets := fun i => { s.bullets i with active := false }
    asteroids := fun i => { s.asteroids i with active := false } }

def resetGame (env : Env) (fuel clock : ℕ) (s : AstroLib) : Option AstroLib :=
  (spawnLargeAsteroids env (((ASTEROID_SIZE_LARGE : ℚ) * (5 / 2)) ^ 2) fuel STARTING_ASTEROIDS
      (s.resetFields clock)).map
    fun s2 =>
      { s2 with
        fireButtonPressedLastFrame := true
        hyperspaceButtonPressedLastFrame := true
        lastHyperspaceTime := usub (millis clock) HYPERSPACE_COOLDOWN
        isThrusting := false
        audio := s2.audio.stopAllSounds }

def triggerHyperspace (env : Env) (clock : ℕ) (s : AstroLib) : AstroLib :=
  if !s.ship.active then s
  else
    let s1 := { s with audio := s.audio.playHyperspaceSound clock }
    let (px, s2) := s1.nextRandom env (truncQ (s1.ship.radius * 2))
      (truncQ ((SCREEN_WIDTH : ℚ) - s1.ship.radius * 2))
    let (py, s3) := s2.nextRandom env (truncQ (s2.ship.radius * 2))
      (truncQ ((SCREEN_HEIGHT : ℚ) - s2.ship.radius * 2))
    let s4 : AstroLib :=
      { s3 with
        ship :=
          { s3.ship with
            pos := { x := (px : ℚ), y := (py : ℚ) }
            vel := { x := 0, y := 0 }
            lifetime := HYPERSPACE_INVINCIBILITY }
        shipSpawnTime := millis clock }
    if s4.isThrusting then
      { s4 with audio := s4.audio.stopThrustSound, isThrusting := false }
    else s4

/-- The value of `turnScale` computed by `handleInput` for the axis reading `joyX`: `0.0f`
unless the dead zone is left. -/
def turnScale (joyX : ℤ) : ℚ :=
  let xDelta := joyX - JOYSTICK_CENTER
  if |xDelta| > JOYSTICK_DEAD_ZONE then
    max 0 (min 1 (((|xDelta| - JOYSTICK_DEAD_ZONE : ℤ) : ℚ) /
      ((JOYSTICK_MAX_THROW - JOYSTICK_DEAD_ZONE : ℤ) : ℚ)))
  else 0

/-- Block `--- Rotation (Variable Speed) ---` of `handleInput`. -/
def handleRotation (joyX : ℤ) (s : AstroLib) : AstroLib :=
  let xDelta := joyX - JOYSTICK_CENTER
  if |xDelta| > JOYSTICK_DEAD_ZONE then
    let scale := turnScale joyX
    let a1 : ℚ :=
      if xDelta < 0 then s.ship.angle - SHIP_TURN_SPEED * scale
      else s.ship.angle + SHIP_TURN_SPEED * scale
    let a2 : ℚ := if a1 < 0 then a1 + 2 * M_PI else a1
    let a3 : ℚ := if a2 ≥ 2 * M_PI then a2 - 2 * M_PI else a2
    { s with ship := { s.ship with angle := a3 } }
  else s

/-- The value of `thrustScale` computed by `handleInput` for the axis reading `joyY`. -/
def thrustScale (joyY : ℤ) : ℚ :=
  let yDelta := joyY - JOYSTICK_CENTER
  if yDelta < -JOYSTICK_DEAD_ZONE then
    max 0 (min 1 (((|yDelta| - JOYSTICK_DEAD_ZONE : ℤ) : ℚ) /
      ((JOYSTICK_MAX_THROW - JOYSTICK_DEAD_ZONE : ℤ) : ℚ)))
  else 0

/-- Block `--- Thrust (Variable Speed & Sound) ---` of `handleInput`. -/
def handleThrust (env : Env) (clock : ℕ) (joyY : ℤ) (s : AstroLib) : AstroLib :=
  let yDelta := joyY - JOYSTICK_CENTER
  let wantsToThrust : Bool := decide (yDelta < -JOYSTICK_DEAD_ZONE)
  let scale := thrustScale joyY
  let s1 : AstroLib :=
    if wantsToThrust then
      { s with ship := { s.ship with vel :=
          { x := s.ship.vel.x + env.cos s.ship.angle * SHIP_THRUST * scale,
            y := s.ship.vel.y + env.sin s.ship.angle * SHIP_THRUST * scale } } }
    else s
  let s2 : AstroLib :=
    if wantsToThrust && !s1.isThrusting then
      { s1 with audio := s1.audio.startThrustSound clock scale }
    else if !wantsToThrust && s1.isThrusting then
      { s1 with audio := s1.audio.stopThrustSound }
    else s1
  { s2 with isThrusting := wantsToThrust }

/-- Block `--- Firing ---` of `handleInput`. -/
def handleFire (env : Env) (clock : ℕ) (anyFireButtonDown : Bool) (s : AstroLib) : AstroLib :=
  let currentTime := millis clock
  if anyFireButtonDown && !s.fireButtonPressedLastFrame &&
      decide (usub currentTime s.lastFireTime > FIRE_DEBOUNCE_DELAY) then
    match s.findInactiveBulletSlot with
    | none => s
    | some slot =>
      let noseX := s.ship.pos.x + env.cos s.ship.angle * (s.ship.radius + 2)
      let noseY := s.ship.pos.y + env.sin s.ship.angle * (s.ship.radius + 2)
      let newBullet : GameObject :=
        { pos := { x := noseX, y := noseY }
          vel := { x := env.cos s.ship.angle * BULLET_SPEED + s.ship.vel.x,
                   y := env.sin s.ship.angle * BULLET_SPEED + s.ship.vel.y }
          angle := 0
          radius := BULLET_COLLISION_RADIUS
          active := true
          lifetime := BULLET_LIFETIME
          size := 0 }
      { s with
        bullets := Function.update s.bullets slot newBullet
        lastFireTime := currentTime
        audio := s.audio.playShootSound clock }
  else s

/-- Block `--- Hyperspace ---` of `handleInput`. -/
def handleHyperspace (env : Env) (clock : ℕ) (digitalHyperspaceDown : Bool) (s : AstroLib) :
    AstroLib :=
  let currentTime := millis clock
  if digitalHyperspaceDown && !s.hyperspaceButtonPressedLastFrame then
    if usub currentTime s.lastHyperspaceTime > HYPERSPACE_COOLDOWN then
      let s1 := s.triggerHyperspace env clock
      { s1 with lastHyperspaceTime := currentTime }
    else s
  else s

def handleInput (env : Env) (clock : ℕ) (joyX joyY : ℤ)
    (anyFireButtonDown digitalHyperspaceDown : Bool) (s : AstroLib) : AstroLib :=
  if !s.ship.active then
    if s.isThrusting then
      { s with audio := s.audio.stopThrustSound, isThrusting := false }
    else s
  else
    let s1 := s.handleRotation joyX
    let s2 := s1.handleThrust env clock joyY
    let s3 := s2.handleFire env clock anyFireButtonDown
    s3.handleHyperspace env clock digitalHyperspaceDown

/-- Body of the bullet loop of `updateGameObjects` for one slot. -/
def updateBullet (b : GameObject) : GameObject :=
  if b.active then
    let b1 : GameObject :=
      { b with pos := { x := b.pos.x + b.vel.x, y := b.pos.y + b.vel.y }
               lifetime := b.lifetime - 1 }
    let b2 := wrapAround b1
    if b2.lifetime ≤ 0 then { b2 with active := false } else b2
  else b

/-- Body of the asteroid loop of `updateGameObjects` for one slot. -/
def updateAsteroid (a : GameObject) : GameObject :=
  if a.active then
    wrapAround { a with pos := { x := a.pos.x + a.vel.x, y := a.pos.y + a.vel.y } }
  else a

def updateGameObjects (clock : ℕ) (s : AstroLib) : AstroLib :=
  let currentTime := millis clock
  let ship1 : GameObject :=
    if s.ship.active then
      let v : Vector2D := { x := s.ship.vel.x * SHIP_FRICTION, y := s.ship.vel.y * SHIP_FRICTION }
      let moved : GameObject :=
        wrapAround { s.ship with vel := v, pos := { x := s.ship.pos.x + v.x, y := s.ship.pos.y + v.y } }
      if usub currentTime s.shipSpawnTime > INVINCIBILITY_DURATION then
        { moved with lifetime := 0 }
      else
        { moved with lifetime := ((usub INVINCIBILITY_DURATION (usub currentTime s.shipSpawnTime) : ℕ) : ℤ) }
    else s.ship
  { s with
    ship := ship1
    bullets := fun i => updateBullet (s.bullets i)
    asteroids := fun i => updateAsteroid (s.asteroids i) }

/-- The test `distanceSquared < radiiSum * radiiSum` of `handleCollisions`. -/
def collides (a b : GameObject) : Bool :=
  let dx := f32 (a.pos.x - b.pos.x)
  let dy := f32 (a.pos.y - b.pos.y)
  let distanceSquared := f32 (f32 (dx * dx) + f32 (dy * dy))
  let radiiSum := f32 (a.radius + b.radius)
  decide (distanceSquared < f32 (radiiSum * radiiSum))

/-- Points awarded for an asteroid of the given `size`. -/
def award (size : ℤ) : ℤ :=
  if size = ASTEROID_SIZE_LARGE then 20
  else if size = ASTEROID_SIZE_MEDIUM then 50
  else 100

/-- First half of the body of `if (distanceSquared < radiiSum * radiiSum)` in the bullet
pass: both objects are deactivated, the explosion cue is played, the score is awarded. -/
def hitEffects (clock : ℕ) (i : Fin MAX_BULLETS) (j : Fin MAX_ASTEROIDS) (s : AstroLib) :
    AstroLib :=
  let s1 : AstroLib :=
    { s with
      bullets := Function.update s.bullets i { s.bullets i with active := false }
      asteroids := Function.update s.asteroids j { s.asteroids j with active := false }
      audio := s.audio.playExplosionSound clock }
  { s1 with score := s1.score + award (s1.asteroids j).size }

/-- Second half (`// Break asteroid`): two `spawnAsteroid` calls for a `LARGE` or `MEDIUM`
asteroid in slot `j`; the arguments of each call are read from slot `j` at the time of
that call. -/
def breakAsteroid (env : Env) (j : Fin MAX_ASTEROIDS) (s : AstroLib) : AstroLib :=
  if (s.asteroids j).size = ASTEROID_SIZE_LARGE then
    let s1 := s.spawnAsteroid env ASTEROID_SIZE_MEDIUM (s.asteroids j).pos.x (s.asteroids j).pos.y
      (s.asteroids j).vel.x (s.asteroids j).vel.y
    s1.spawnAsteroid env ASTEROID_SIZE_MEDIUM (s1.asteroids j).pos.x (s1.asteroids j).pos.y
      (s1.asteroids j).vel.x (s1.asteroids j).vel.y
  else if (s.asteroids j).size = ASTEROID_SIZE_MEDIUM then
    let s1 := s.spawnAsteroid env ASTEROID_SIZE_SMALL (s.asteroids j).pos.x (s.asteroids j).pos.y
      (s.asteroids j).vel.x (s.asteroids j).vel.y
    s1.spawnAsteroid env ASTEROID_SIZE_SMALL (s1.asteroids j).pos.x (s1.asteroids j).pos.y
      (s1.asteroids j).vel.x (s1.asteroids j).vel.y
  else s

/-- Body of `if (distanceSquared < radiiSum * radiiSum)` in the bullet pass: bullet `i`
has hit asteroid `j`. -/
def bulletHit (env : Env) (clock : ℕ) (i : Fin MAX_BULLETS) (j : Fin MAX_ASTEROIDS)
    (s : AstroLib) : AstroLib :=
  (s.hitEffects clock i j).breakAsteroid env j

/-- The inner loop `for (j ...)` of the bullet pass for bullet `i`, over the remaining
asteroid indices; it stops at the first hit (`break`). -/
def bulletScan (env : Env) (clock : ℕ) (i : Fin MAX_BULLETS) :
    List (Fin MAX_ASTEROIDS) → AstroLib → AstroLib
  | [], s => s
  | j :: js, s =>
    if !(s.asteroids j).active then bulletScan env clock i js s
    else if collides (s.bullets i) (s.asteroids j) then s.bulletHit env clock i j
    else bulletScan env clock i js s

/-- Body of the outer loop `for (i ...)` of the bullet pass. -/
def bulletStep (env : Env) (clock : ℕ) (s : AstroLib) (i : Fin MAX_BULLETS) : AstroLib :=
  if !(s.bullets i).active then s
  else bulletScan env clock i (List.finRange MAX_ASTEROIDS) s

/-- Part `--- Bullet-Asteroid Collisions ---` of `handleCollisions`. -/
def bulletPass (env : Env) (clock : ℕ) (s : AstroLib) : AstroLib :=
  (List.finRange MAX_BULLETS).foldl (bulletStep env clock) s

/-- Body of `if (distanceSquared < radiiSum * radiiSum)` in the ship pass: the ship has
hit asteroid `j`. -/
def shipHit (clock : ℕ) (j : Fin MAX_ASTEROIDS) (s : AstroLib) : AstroLib :=
  let s1 : AstroLib :=
    { s with
      lives := s.lives - 1
      asteroids := Function.update s.asteroids j { s.asteroids j with active := false }
      audio := s.audio.playExplosionSound clock }
  if s1.lives > 0 then
    { s1 with
      ship :=
        { s1.ship with
          pos := { x := (SCREEN_WIDTH : ℚ) / 2, y := (SCREEN_HEIGHT : ℚ) / 2 }
          vel := { x := 0, y := 0 }
          angle := -M_PI / 2
          lifetime := INVINCIBILITY_DURATION }
      shipSpawnTime := millis clock }
  else { s1 with ship := { s1.ship with active := false } }

/-- The loop `for (j ...)` of the ship pass over the remaining asteroid indices; it stops
at the first hit (`break`). -/
def shipScan (clock : ℕ) : List (Fin MAX_ASTEROIDS) → AstroLib → AstroLib
  | [], s => s
  | j :: js, s =>
    if !(s.asteroids j).active then shipScan clock js s
    else if collides s.ship (s.asteroids j) then s.shipHit clock j
    else shipScan clock js s

/-- Part `--- Ship-Asteroid Collisions ---` of `handleCollisions`. -/
def shipPass (clock : ℕ) (s : AstroLib) : AstroLib :=
  let currentlyInvincible : Bool := decide (s.ship.lifetime > 0)
  if s.ship.active && !currentlyInvincible then shipScan clock (List.finRange MAX_ASTEROIDS) s
  else s

def handleCollisions (env : Env) (clock : ℕ) (s : AstroLib) : AstroLib :=
  (s.bulletPass env clock).shipPass clock

def checkLevelClear (s : AstroLib) : Bool :=
  (List.finRange MAX_ASTEROIDS).all (fun i => !(s.asteroids i).active)

def spawnNewWave (env : Env) (fuel : ℕ) (s : AstroLib) : Option AstroLib :=
  let s1 := { s with audio := s.audio.stopAllSounds }
  let num_to_spawn0 : ℤ := (STARTING_ASTEROIDS : ℤ) + Int.tdiv s1.score 500
  let num_to_spawn : ℤ := if num_to_spawn0 > (MAX_ASTEROIDS : ℤ) then (MAX_ASTEROIDS : ℤ) else num_to_spawn0
  spawnLargeAsteroids env (((ASTEROID_SIZE_LARGE : ℚ) * 3) ^ 2) fuel num_to_spawn.toNat s1

/-- The statements after the `switch` of `update`. -/
def endOfTick (clock : ℕ) (anyFireButtonDown digitalHyperspaceDown : Bool) (s : AstroLib) :
    AstroLib :=
  { s with
    audio := s.audio.update clock
    fireButtonPressedLastFrame := anyFireButtonDown
    hyperspaceButtonPressedLastFrame := digitalHyperspaceDown }

/-- The value of `anyFireButtonDown` in `update`. -/
def anyFireButtonDown (s : AstroLib) (inp : TickInput) : Bool :=
  inp.joyButtonDown || (decide (0 ≤ s.fireButtonPin) && inp.firePinLow)

/-- The value of `digitalHyperspaceDown` in `update`. -/
def digitalHyperspaceDown (s : AstroLib) (inp : TickInput) : Bool :=
  decide (0 ≤ s.hyperspaceButtonPin) && inp.hyperspacePinLow

/-- The state of a `GAME` tick after `handleInput`, `updateGameObjects` and
`handleCollisions`, before the game-over and level-clear checks. -/
def afterCollisions (env : Env) (inp : TickInput) (s : AstroLib) : AstroLib :=
  ((s.handleInput env inp.clock inp.joyX inp.joyY (s.anyFireButtonDown inp)
    (s.digitalHyperspaceDown inp)).updateGameObjects inp.clock).handleCollisions env inp.clock

/-- Body of `case START:` of `update`, with the statements after the `switch` when the
case ends in `break`. -/
def updateStart (env : Env) (fuel : ℕ) (inp : TickInput) (s : AstroLib) : Option AstroLib :=
  let fire := s.anyFireButtonDown inp
  let hyper := s.digitalHyperspaceDown inp
  if fire && !s.fireButtonPressedLastFrame then
    (s.resetGame env fuel inp.clock).map fun s1 =>
      { s1 with
        currentState := GameState.GAME
        fireButtonPressedLastFrame := true
        hyperspaceButtonPressedLastFrame := true }
  else some (s.endOfTick inp.clock fire hyper)

/-- Body of `if (lives <= 0 && !ship.active)` in `case GAME:` (`--- Game Over Transition ---`),
applied to the state after the collision pass. -/
def enterGameOver (s1 : AstroLib) : AstroLib :=
  let s2 : AstroLib := { s1 with currentState := GameState.GAME_OVER }
  let s3 : AstroLib :=
    if s2.score > s2.highScore then
      { s2 with highScore := s2.score, nvsWrites := s2.nvsWrites ++ [s2.score] }
    else s2
  { s3 with
    fireButtonPressedLastFrame := true
    hyperspaceButtonPressedLastFrame := true
    audio := s3.audio.stopAllSounds }

/-- Body of `case GAME:` of `update`, with the statements after the `switch` when the case
ends in `break`; `delay(1500)` in `spawnNewWave` moves the clock read by `audio.update`. -/
def updateGame (env : Env) (fuel : ℕ) (inp : TickInput) (s : AstroLib) : Option AstroLib :=
  let fire := s.anyFireButtonDown inp
  let hyper := s.digitalHyperspaceDown inp
  let s1 := s.afterCollisions env inp
  if s1.lives ≤ 0 ∧ s1.ship.active = false then some s1.enterGameOver
  else if s1.checkLevelClear = true ∧ s1.lives > 0 then
    (s1.spawnNewWave env fuel).map fun s2 => s2.endOfTick (inp.clock + 1500) fire hyper
  else some (s1.endOfTick inp.clock fire hyper)

/-- Body of `case GAME_OVER:` of `update`, with the statements after the `switch` when the
case ends in `break`. -/
def updateGameOver (inp : TickInput) (s : AstroLib) : Option AstroLib :=
  let fire := s.anyFireButtonDown inp
  let hyper := s.digitalHyperspaceDown inp
  if fire && !s.fireButtonPressedLastFrame then
    some
      { s with
        currentState := GameState.START
        fireButtonPressedLastFrame := true
        hyperspaceButtonPressedLastFrame := true }
  else some (s.endOfTick inp.clock fire hyper)

def update (env : Env) (fuel : ℕ) (inp : TickInput) (s : AstroLib) : Option AstroLib :=
  match s.currentState with
  | GameState.START => s.updateStart env fuel inp
  | GameState.GAME => s.updateGame env fuel inp
  | GameState.GAME_OVER => s.updateGameOver inp

/-- The constructor `AstroLib::AstroLib`; fields it leaves uninitialised are parameters. -/
def new (ship0 : GameObject) (bullets0 : Fin MAX_BULLETS → GameObject)
    (asteroids0 : Fin MAX_ASTEROIDS → GameObject) : AstroLib :=
  { audio := AudioEngine.new
    fireButtonPin := -1
    hyperspaceButtonPin := -1
    currentState := GameState.START
    ship := { ship0 with active := false }
    bullets := bullets0
    asteroids := asteroids0
    score := 0
    lives := 3
    highScore := 0
    fireButtonPressedLastFrame := false
    hyperspaceButtonPressedLastFrame := false
    lastFireTime := 0
    shipSpawnTime := 0
    lastHyperspaceTime := 0
    isThrusting := false
    nvsWrites := []
    rngPos := 0 }

/-- The method `begin(audioPin)`; `stored` is what `preferences.getInt` returns. -/
def begin (env : Env) (fuel clock : ℕ) (audioPin : ℤ) (stored : ℤ) (s : AstroLib) :
    Option AstroLib :=
  let s1 : AstroLib :=
    { s with
      bullets := fun i => { s.bullets i with active := false }
      asteroids := fun i => { s.asteroids i with active := false } }
  let s2 : AstroLib := { s1 with highScore := stored }
  (s2.resetGame env fuel clock).map fun s3 =>
    let s4 : AstroLib := { s3 with currentState := GameState.START }
    { s4 with audio := s4.audio.begin audioPin }

def attachFireButtonPin (pin : ℤ) (s : AstroLib) : AstroLib :=
  { s with fireButtonPin := pin }

def attachHyperspaceButtonPin (pin : ℤ) (s : AstroLib) : AstroLib :=
  { s with hyperspaceButtonPin := pin }

def resetHighScore (s : AstroLib) : AstroLib :=
  { s with highScore := 0, nvsWrites := s.nvsWrites ++ [0] }

end AstroLib

/-! ## Specification vocabulary -/

/-- Number of active slots of a pool. -/
def activeCount {n : ℕ} (a : Fin n → GameObject) : ℕ :=
  (Finset.univ.filter (fun i => (a i).active = true)).card

/-- The sample drawn at cursor `p` by the spawn loops. -/
def sampleAt (rand : ℕ → ℕ) (p : ℕ) : Vector2D :=
  { x := (random 0 SCREEN_WIDTH (rand p) : ℤ), y := (random 0 SCREEN_HEIGHT (rand (p + 1)) : ℤ) }

/-- Squared distance between two points. -/
def dist2 (a b : Vector2D) : ℚ := (a.x - b.x) ^ 2 + (a.y - b.y) ^ 2

/-- The random stream lets every rejection loop around `c` with squared clearance `c2`
  finish: from every cursor an accepted sample comes up after finitely many rejected ones. -/
def FairAt (rand : ℕ → ℕ) (c : Vector2D) (c2 : ℚ) : Prop :=
  ∀ p, ∃ k, ¬ dist2 (sampleAt rand (p + 2 * k)) c < c2

/-- Squared clearance `(ASTEROID_SIZE_LARGE * 2.5f)^2` of `resetGame`. -/
def resetClearance2 : ℚ := ((ASTEROID_SIZE_LARGE : ℚ) * (5 / 2)) ^ 2

/-- Squared clearance `(ASTEROID_SIZE_LARGE * 3.0f)^2` of `spawnNewWave`. -/
def waveClearance2 : ℚ := ((ASTEROID_SIZE_LARGE : ℚ) * 3) ^ 2

/-- Where `resetGame` puts the ship. -/
def screenCentre : Vector2D := { x := (SCREEN_WIDTH : ℚ) / 2, y := (SCREEN_HEIGHT : ℚ) / 2 }

/-- An asteroid as the spawn loops of `resetGame` and `spawnNewWave` create it: active, of
size `LARGE`, at squared distance at least `c2` from `shipPos`. -/
def FreshLarge (shipPos : Vector2D) (c2 : ℚ) (o : GameObject) : Prop :=
  o.active = true ∧ o.size = ASTEROID_SIZE_LARGE ∧ o.radius = 10 ∧ o.angle = 0 ∧ o.lifetime = 0 ∧
    0 ≤ o.pos.x ∧ 0 ≤ o.pos.y ∧ ¬ dist2 o.pos shipPos < c2

/-- The fields that only `update` itself, `resetGame` and the configuration methods write:
two states agree on the game-flow state, the high score, the stored values, the pins and
the two button latches. -/
def SameControl (s s' : AstroLib) : Prop :=
  s'.currentState = s.currentState ∧ s'.highScore = s.highScore ∧ s'.nvsWrites = s.nvsWrites ∧
  s'.fireButtonPin = s.fireButtonPin ∧ s'.hyperspaceButtonPin = s.hyperspaceButtonPin ∧
  s'.fireButtonPressedLastFrame = s.fireButtonPressedLastFrame ∧
  s'.hyperspaceButtonPressedLastFrame = s.hyperspaceButtonPressedLastFrame

/-- An environment for concrete runs: constant library functions, every raw draw `0`. -/
def demoEnv : Env :=
  { cos := fun _ => 1, sin := fun _ => 0, atan2 := fun _ _ => 0, sqrt := fun x => x,
    rand := fun _ => 0 }

/-- An inactive object with all fields zero. -/
def blankObject : GameObject :=
  { pos := { x := 0, y := 0 }, vel := { x := 0, y := 0 }, angle := 0, radius := 0,
    active := false, lifetime := 0, size := 0 }

/-- The session right after construction, with zeroed memory. -/
def powerOnState : AstroLib :=
  AstroLib.new blankObject (fun _ => blankObject) (fun _ => blankObject)

/-- A tick at clock `0` with the joystick centred and its button down. -/
def firePressed : TickInput :=
  { joyX := 2048, joyY := 2048, joyButtonDown := true, firePinLow := false,
    hyperspacePinLow := false, clock := 0 }

/-- A tick at clock `0` with the joystick centred and no button down. -/
def idleInput : TickInput :=
  { joyX := 2048, joyY := 2048, joyButtonDown := false, firePinLow := false,
    hyperspacePinLow := false, clock := 0 }

/-- A session in `GAME` whose last ship is already lost, with score 120 above the high
score 100. -/
def lostState : AstroLib :=
  { powerOnState with currentState := GameState.GAME, lives := 0, score := 120, highScore := 100 }

/-- The session `lostState` one idle tick later. -/
def lostStateAfter : AstroLib :=
  { powerOnState with
    currentState := GameState.GAME_OVER, lives := 0, score := 120, highScore := 120,
    nvsWrites := [120], fireButtonPressedLastFrame := true,
    hyperspaceButtonPressedLastFrame := true }

/-- A session showing the game-over screen, fire latch clear. -/
def gameOverState : AstroLib :=
  { powerOnState with currentState := GameState.GAME_OVER }

/-- The session `gameOverState` after a tick with fire pressed. -/
def gameOverStateAfterFire : AstroLib :=
  { powerOnState with
    currentState := GameState.START, fireButtonPressedLastFrame := true,
    hyperspaceButtonPressedLastFrame := true }

/-- The pairs (state before, state after) that a call of `update` may produce. -/
def allowedTransitions : List (GameState × GameState) :=
  [(GameState.START, GameState.START), (GameState.START, GameState.GAME),
   (GameState.GAME, GameState.GAME), (GameState.GAME, GameState.GAME_OVER),
   (GameState.GAME_OVER, GameState.GAME_OVER), (GameState.GAME_OVER, GameState.START)]

/-- The asteroid that bullet `i` destroys when its scan starts in state `s`: the
lowest-index active asteroid that passes the collision test, if any. -/
def firstHit (s : AstroLib) (i : Fin MAX_BULLETS) : Option (Fin MAX_ASTEROIDS) :=
  (List.finRange MAX_ASTEROIDS).find?
    (fun j => (s.asteroids j).active && AstroLib.collides (s.bullets i) (s.asteroids j))

/-- The asteroid that the ship runs into in state `s`: the lowest-index active asteroid
that passes the collision test with the ship, if any. -/
def shipFirstHit (s : AstroLib) : Option (Fin MAX_ASTEROIDS) :=
  (List.finRange MAX_ASTEROIDS).find?
    (fun j => (s.asteroids j).active && AstroLib.collides s.ship (s.asteroids j))

/-- No bullet slot is activated between `s` and `s'`, and the fire timer is untouched. -/
def NoBulletFired (s s' : AstroLib) : Prop :=
  (∀ i, (s'.bullets i).active = true → (s.bullets i).active = true) ∧
    s'.lastFireTime = s.lastFireTime

/-- The session `gameOverStateAfterFire` after a second tick with fire still pressed. -/
def gameOverStateAfterHold : AstroLib :=
  { powerOnState with
    currentState := GameState.START, fireButtonPressedLastFrame := true,
    hyperspaceButtonPressedLastFrame := false }

/-- A session in `GAME` with three lives, the ship at rest in the screen centre and every
asteroid and bullet slot free. -/
def clearedState : AstroLib :=
  { powerOnState with
    currentState := GameState.GAME
    ship := { blankObject with pos := screenCentre, radius := SHIP_COLLISION_RADIUS, active := true }
    lives := 3
    fireButtonPressedLastFrame := true }

/-- The state of a `GAME` tick after `handleInput` and `updateGameObjects` (integration),
before `handleCollisions`. -/
def AstroLib.afterIntegration (env : Env) (inp : TickInput) (s : AstroLib) : AstroLib :=
  (s.handleInput env inp.clock inp.joyX inp.joyY (s.anyFireButtonDown inp)
    (s.digitalHyperspaceDown inp)).updateGameObjects inp.clock

/-- The state of a `GAME` tick between the bullet pass and the ship pass of
`handleCollisions`. -/
def AstroLib.afterBulletPass (env : Env) (inp : TickInput) (s : AstroLib) : AstroLib :=
  (s.afterIntegration env inp).bulletPass env inp.clock

/-- What the last-life scenario looks at in a state: game-flow state, lives, ship flag. -/
def lifeView (s : AstroLib) : GameState × ℤ × Bool :=
  (s.currentState, s.lives, s.ship.active)

/-- A small asteroid at rest in the screen centre. -/
def centreRock : GameObject :=
  { pos := screenCentre, vel := { x := 0, y := 0 }, angle := 0, radius := 3, active := true,
    lifetime := 0, size := ASTEROID_SIZE_SMALL }

/-- A small asteroid at rest in the top-left corner. -/
def cornerRock : GameObject :=
  { pos := { x := 0, y := 0 }, vel := { x := 0, y := 0 }, angle := 0, radius := 3, active := true,
    lifetime := 0, size := ASTEROID_SIZE_SMALL }

/-- A bullet at rest in the screen centre with ten ticks left. -/
def centreBullet : GameObject :=
  { pos := screenCentre, vel := { x := 0, y := 0 }, angle := 0, radius := BULLET_COLLISION_RADIUS,
    active := true, lifetime := 10, size := 0 }

/-- A session in `GAME` on its last life: the ship rests in the screen centre, spawned at
clock `0`, with a small asteroid on top of it (slot 0) and another one far away (slot 1). -/
def lastLifeState : AstroLib :=
  { powerOnState with
    currentState := GameState.GAME
    ship := { blankObject with pos := screenCentre, radius := SHIP_COLLISION_RADIUS, active := true }
    asteroids := fun j => if j = 0 then centreRock else if j = 1 then cornerRock else blankObject
    lives := 1
    fireButtonPressedLastFrame := true }

/-- The session `lastLifeState` with, in addition, a bullet resting on the same spot. -/
def lastLifeShotState : AstroLib :=
  { lastLifeState with
    bullets := fun i => if i = 0 then centreBullet else blankObject }

/-- An idle tick at clock `3000`, after the invincibility window of a ship spawned at `0`. -/
def lateInput : TickInput :=
  { joyX := 2048, joyY := 2048, joyButtonDown := false, firePinLow := false,
    hyperspacePinLow := false, clock := 3000 }

/-- Sizes of the asteroids that bullets destroy, in order, when the bullet pass of
`handleCollisions` runs over the bullet indices `is` from state `s`: one entry for each
active bullet whose scan finds an asteroid. -/
def destroyedSizes (env : Env) (clock : ℕ) : List (Fin MAX_BULLETS) → AstroLib → List ℤ
  | [], _ => []
  | i :: is, s =>
    (if (s.bullets i).active = true then
      match firstHit s i with
      | some j => [(s.asteroids j).size]
      | none => []
    else []) ++ destroyedSizes env clock is (s.bulletStep env clock i)

/-- An asteroid as `spawnAsteroid` writes it for the size class `size`: active, of that
size, with radius equal to the size, angle 0 and lifetime 0. -/
def Fragment (size : ℤ) (o : GameObject) : Prop :=
  o.active = true ∧ o.size = size ∧ o.radius = (size : ℚ) ∧ o.angle = 0 ∧ o.lifetime = 0

/-- Pool `a'` arises from pool `a` by filling free slots with fragments of class `size`:
every slot is unchanged or was free and now holds such a fragment. -/
def FilledWith (size : ℤ) (a a' : Fin MAX_ASTEROIDS → GameObject) : Prop :=
  ∀ k, a' k = a k ∨ ((a k).active = false ∧ Fragment size (a' k))

/-- The ship pass of `handleCollisions` does not run in `s`: the ship is inactive or
invincible. -/
def ShipImmune (s : AstroLib) : Prop :=
  s.ship.active = false ∨ s.ship.lifetime > 0

/-- Active asteroid count after one bullet hit on an asteroid of size `size` in a pool with
`n` active asteroids, as the splitting law gives it. -/
def countAfterHit (size : ℤ) (n : ℕ) : ℕ :=
  if size = ASTEROID_SIZE_LARGE ∨ size = ASTEROID_SIZE_MEDIUM then min MAX_ASTEROIDS (n + 1)
  else n - 1

/-- The state in which the scan of bullet `i` starts inside the bullet pass of
`handleCollisions`: the bullets of lower index have been processed. -/
def AstroLib.scanStart (env : Env) (clock : ℕ) (s : AstroLib) (i : Fin MAX_BULLETS) : AstroLib :=
  ((List.finRange MAX_BULLETS).take i).foldl (AstroLib.bulletStep env clock) s

/-- Centre distance at most the sum of the radii. -/
def withinReach (b a : GameObject) : Prop :=
  dist2 b.pos a.pos ≤ (b.radius + a.radius) ^ 2

/-- A bullet at rest at `(x, y)` with ten ticks left. -/
def bulletAt (x y : ℚ) : GameObject :=
  { pos := { x := x, y := y }, vel := { x := 0, y := 0 }, angle := 0,
    radius := BULLET_COLLISION_RADIUS, active := true, lifetime := 10, size := 0 }

/-- An asteroid of the given size at rest at `(x, y)`. -/
def rockAt (size : ℤ) (x y : ℚ) : GameObject :=
  { pos := { x := x, y := y }, vel := { x := 0, y := 0 }, angle := 0, radius := (size : ℚ),
    active := true, lifetime := 0, size := size }

/-- A session in `GAME` without a ship and with the given pools. -/
def collisionState (b : Fin MAX_BULLETS → GameObject) (a : Fin MAX_ASTEROIDS → GameObject) :
    AstroLib :=
  { powerOnState with currentState := GameState.GAME, bullets := b, asteroids := a }

/-- Bullet 0 lies inside the two small asteroids 0 and 1. -/
def twoRocksState : AstroLib :=
  collisionState (fun i => if i = 0 then bulletAt 64 32 else blankObject)
    (fun j => if j = 0 ∨ j = 1 then rockAt ASTEROID_SIZE_SMALL 64 32 else blankObject)

/-- Bullets 0 and 1 both lie inside the small asteroid 0. -/
def twoBulletsState : AstroLib :=
  collisionState (fun i => if i = 0 ∨ i = 1 then bulletAt 64 32 else blankObject)
    (fun j => if j = 0 then rockAt ASTEROID_SIZE_SMALL 64 32 else blankObject)

/-- Bullet 0 lies inside the large asteroid 0; all other slots are free. -/
def largeRockState : AstroLib :=
  collisionState (fun i => if i = 0 then bulletAt 64 32 else blankObject)
    (fun j => if j = 0 then rockAt ASTEROID_SIZE_LARGE 64 32 else blankObject)

instance withinReach.decidable (b a : GameObject) : Decidable (withinReach b a) := by
  unfold withinReach
  infer_instance

/-- An environment whose raw draws alternate so that consecutive samples of the spawn loops
lie far apart: the draw is `127` at cursors `2, 6, 10, ...` and `0` elsewhere. -/
def alternatingEnv : Env :=
  { cos := fun _ => 1, sin := fun _ => 0, atan2 := fun _ _ => 0, sqrt := fun x => x,
    rand := fun n => if n % 4 = 2 then 127 else 0 }

/-- A session in `GAME` with three lives whose ship rests in the screen centre inside its
invincibility window (`lifetime = 500`), with a small asteroid on top of it (slot 0). -/
def immuneState : AstroLib :=
  { lastLifeState with lives := 3, ship := { lastLifeState.ship with lifetime := 500 } }

/-- A session in `GAME` with three lives whose ship rests in the screen centre, not
invincible, with a small asteroid on top of it (slot 0) and another one far away (slot 1). -/
def rammedState : AstroLib :=
  { lastLifeState with lives := 3 }

/-- The session `rammedState` with, in addition, a bullet resting on the same spot. -/
def rammedShotState : AstroLib :=
  { lastLifeShotState with lives := 3 }

/-- Number of shoot cues (`tone(pin, SND_SHOOT_FREQ, SND_SHORT_DURATION)`) sent to the buzzer
so far. -/
def shootCount (a : AudioEngine) : ℕ :=
  a.buzzer.count (BuzzerCall.tone SND_SHOOT_FREQ (some SND_SHORT_DURATION))

/-- The loop `for (int i = 0; i < n; ++i) if (!pool[i].active) return i; return -1;` of
`findInactiveBulletSlot` and `findInactiveAsteroidSlot`, from index `i` with `k` iterations
left: the `int` that the function returns. -/
def slotLoop {n : ℕ} (pool : Fin n → GameObject) : ℕ → ℕ → ℤ
  | 0, _ => -1
  | k + 1, i =>
    if h : i < n then
      if !(pool ⟨i, h⟩).active then (i : ℤ) else slotLoop pool k (i + 1)
    else -1

/-- The `int` returned by `findInactiveBulletSlot()`. -/
def AstroLib.findInactiveBulletSlotIndex (s : AstroLib) : ℤ :=
  slotLoop s.bullets MAX_BULLETS 0

/-- The `int` returned by `findInactiveAsteroidSlot()`. -/
def AstroLib.findInactiveAsteroidSlotIndex (s : AstroLib) : ℤ :=
  slotLoop s.asteroids MAX_ASTEROIDS 0

/-- A call of a public method on a session after `begin()`. -/
inductive Call where
  | tick (fuel : ℕ) (inp : TickInput)
  | attachFire (pin : ℤ)
  | attachHyperspace (pin : ℤ)
  | resetHighScore

/-- Effect of one call of a public method. -/
def AstroLib.call (env : Env) (s : AstroLib) : Call → Option AstroLib
  | Call.tick fuel inp => s.update env fuel inp
  | Call.attachFire pin => some (s.attachFireButtonPin pin)
  | Call.attachHyperspace pin => some (s.attachHyperspaceButtonPin pin)
  | Call.resetHighScore => some s.resetHighScore

/-- Effect of a sequence of calls, first call first. -/
def AstroLib.run (env : Env) : List Call → AstroLib → Option AstroLib
  | [], s => some s
  | c :: rest, s => (s.call env c).bind (AstroLib.run env rest)

/-- The states reachable from `begin()` by `update` calls: the session is constructed, its
pins are attached (pin `-1` stands for a method that is not called), `begin` runs, and then
`update` is called any number of times; the configuration methods and `resetHighScore` may
also be called between ticks. -/
def Reachable (env : Env) (s : AstroLib) : Prop :=
  ∃ (ship0 : GameObject) (bullets0 : Fin MAX_BULLETS → GameObject)
    (asteroids0 : Fin MAX_ASTEROIDS → GameObject) (firePin hyperPin : ℤ) (fuel clock : ℕ)
    (audioPin stored : ℤ) (s1 : AstroLib) (calls : List Call),
    (((AstroLib.new ship0 bullets0 asteroids0).attachFireButtonPin
      firePin).attachHyperspaceButtonPin hyperPin).begin env fuel clock audioPin stored
        = some s1 ∧
    s1.run env calls = some s

/-- The session after power-on, `attachHyperspaceButtonPin(4)` and `begin(25)` at clock `0`,
with every raw random draw `0` and an empty store. -/
def bootState : AstroLib :=
  ((powerOnState.attachHyperspaceButtonPin 4).begin demoEnv 1 0 25 0).getD powerOnState

/-- The state of `handleInput` (ship active) when it reaches its block `--- Hyperspace ---`. -/
def AstroLib.beforeHyperspace (env : Env) (clock : ℕ) (joyX joyY : ℤ) (fire : Bool)
    (s : AstroLib) : AstroLib :=
  ((s.handleRotation joyX).handleThrust env clock joyY).handleFire env clock fire

/-- What the hyperspace block of `handleInput` reads and writes, apart from the audio
channel: ship flag, position, radius and lifetime, the latch, the two timers, the random
cursor. -/
def AstroLib.hyperView (s : AstroLib) : Bool × Vector2D × ℚ × ℤ × Bool × ℕ × ℕ × ℕ :=
  (s.ship.active, s.ship.pos, s.ship.radius, s.ship.lifetime,
    s.hyperspaceButtonPressedLastFrame, s.lastHyperspaceTime, s.shipSpawnTime, s.rngPos)

/-- The tests that guard the call of `triggerHyperspace()` in `handleInput`: the input is
down, its previous-frame latch is false and the cooldown has passed. -/
def JumpGate (clock : ℕ) (hyper : Bool) (s : AstroLib) : Prop :=
  hyper = true ∧ s.hyperspaceButtonPressedLastFrame = false ∧
    usub (millis clock) s.lastHyperspaceTime > HYPERSPACE_COOLDOWN

instance JumpGate.decidable (clock : ℕ) (hyper : Bool) (s : AstroLib) :
    Decidable (JumpGate clock hyper s) := by
  unfold JumpGate
  infer_instance

/-- The tick `inp` on `s` makes a hyperspace jump: the session is in `GAME`, the ship is
active and the gate is open. -/
def Jumps (inp : TickInput) (s : AstroLib) : Prop :=
  s.currentState = GameState.GAME ∧ s.ship.active = true ∧
    JumpGate inp.clock (s.digitalHyperspaceDown inp) s

instance Jumps.decidable (inp : TickInput) (s : AstroLib) : Decidable (Jumps inp s) := by
  unfold Jumps
  infer_instance

/-- The tick `inp` on `s` resets the session: `START` with a fire rising edge. -/
def Resets (inp : TickInput) (s : AstroLib) : Prop :=
  s.currentState = GameState.START ∧ s.anyFireButtonDown inp = true ∧
    s.fireButtonPressedLastFrame = false

/-- The calls `calls`, made in sequence from `s`, stay within one session: no tick resets
it, and the clocks of the ticks are at least `t` and non-decreasing. -/
def SameSession (env : Env) : ℕ → List Call → AstroLib → Prop
  | _, [], _ => True
  | t, Call.tick fuel inp :: rest, s =>
    t ≤ inp.clock ∧ ¬ Resets inp s ∧
      ∀ s', s.update env fuel inp = some s' → SameSession env inp.clock rest s'
  | t, Call.attachFire pin :: rest, s => SameSession env t rest (s.attachFireButtonPin pin)
  | t, Call.attachHyperspace pin :: rest, s =>
    SameSession env t rest (s.attachHyperspaceButtonPin pin)
  | t, Call.resetHighScore :: rest, s => SameSession env t rest s.resetHighScore

/-- A tick at clock `t` with the joystick centred and only the hyperspace button down. -/
def hyperAt (t : ℕ) : TickInput :=
  { joyX := 2048, joyY := 2048, joyButtonDown := false, firePinLow := false,
    hyperspacePinLow := true, clock := t }

/-- A tick at clock `t` with the joystick centred and no button down. -/
def idleAt (t : ℕ) : TickInput :=
  { joyX := 2048, joyY := 2048, joyButtonDown := false, firePinLow := false,
    hyperspacePinLow := false, clock := t }

/-- A tick at clock `t` with the joystick centred and its button down. -/
def fireAt (t : ℕ) : TickInput :=
  { joyX := 2048, joyY := 2048, joyButtonDown := true, firePinLow := false,
    hyperspacePinLow := false, clock := t }

/-- A session in `GAME` on its last life with the hyperspace button on pin 4: the ship
rests in the screen centre (spawned at clock `0`, no jump made yet), and a small asteroid
rests at `(8, 8)`, where a jump lands when every raw random draw is `0`. -/
def jumpState : AstroLib :=
  { powerOnState with
    currentState := GameState.GAME
    hyperspaceButtonPin := 4
    ship := { blankObject with pos := screenCentre, radius := SHIP_COLLISION_RADIUS, active := true }
    asteroids := fun j => if j = 0 then rockAt ASTEROID_SIZE_SMALL 8 8 else blankObject
    lives := 1 }

/-- A jump at clock `10000`; the ship is lost at `12000`; the session is left through
`GAME_OVER` and `START` and reset at `12004`; one idle tick follows. -/
def resetCalls : List Call :=
  [Call.tick 1 (hyperAt 10000), Call.tick 1 (idleAt 12000), Call.tick 1 (idleAt 12001),
    Call.tick 1 (fireAt 12002), Call.tick 1 (idleAt 12003), Call.tick 1 (fireAt 12004),
    Call.tick 1 (idleAt 12005)]

/-- What the hyperspace scenarios look at in a state: game-flow state, lives, the ship's
flag, position and lifetime, and the two timers. -/
def jumpView (s : AstroLib) : GameState × ℤ × Bool × Vector2D × ℤ × ℕ × ℕ :=
  (s.currentState, s.lives, s.ship.active, s.ship.pos, s.ship.lifetime, s.shipSpawnTime,
    s.lastHyperspaceTime)

/-- An audio engine after `begin(25)` and `startThrustSound(1.0f)` at clock `0`: the thrust
intent is active and the continuous thrust tone (250 Hz) is playing. -/
def thrustingAudio : AudioEngine :=
  (AudioEngine.new.begin 25).startThrustSound 0 1

/-- What the thrust scenarios look at in an audio engine: the three flags and the end time. -/
def audioView (a : AudioEngine) : Bool × Bool × ℕ × ℕ :=
  (a.initialized, a.thrustSoundActive, a.currentContinuousFreq, a.soundEndTime)

/-- Bullet `i` hits nothing in the `GAME` tick `inp` on `s`: its scan in the bullet pass of
that tick finds no asteroid. -/
def BulletMisses (env : Env) (inp : TickInput) (i : Fin MAX_BULLETS) (s : AstroLib) : Prop :=
  firstHit ((s.afterIntegration env inp).scanStart env inp.clock i) i = none

/-- A flight of bullet `i`: every call is an `update` made in `GAME` in which bullet `i`
hits no asteroid. -/
def Flight (env : Env) (i : Fin MAX_BULLETS) : List Call → AstroLib → Prop
  | [], _ => True
  | Call.tick fuel inp :: rest, s =>
    s.currentState = GameState.GAME ∧ BulletMisses env inp i s ∧
      ∀ s', s.update env fuel inp = some s' → Flight env i rest s'
  | Call.attachFire _ :: _, _ => False
  | Call.attachHyperspace _ :: _, _ => False
  | Call.resetHighScore :: _, _ => False

/-- The ticks at clocks `1020, 1040, ...`, `k` of them, with nothing pressed. -/
def idleTicks (k : ℕ) : List Call :=
  (List.range k).map fun n => Call.tick 1 (idleAt (1020 + 20 * n))

/-- What the bullet scenarios look at: flag and lifetime of bullet 0. -/
def bulletView (s : AstroLib) : Bool × ℤ :=
  ((s.bullets 0).active, (s.bullets 0).lifetime)

/-- The record of an asteroid as `spawnAsteroid` leaves it, for one of the three size
classes: radius equal to the size, angle 0 and lifetime 0. -/
def AsteroidShape (o : GameObject) : Prop :=
  (o.size = ASTEROID_SIZE_LARGE ∨ o.size = ASTEROID_SIZE_MEDIUM ∨ o.size = ASTEROID_SIZE_SMALL) ∧
    o.radius = (o.size : ℚ) ∧ o.angle = 0 ∧ o.lifetime = 0

/-- Every active asteroid of the session has the shape of a spawned asteroid. -/
def ShapeInv (s : AstroLib) : Prop :=
  ∀ j, (s.asteroids j).active = true → AsteroidShape (s.asteroids j)

/-- Lives and ship flag of a session: `0 ≤ lives ≤ 3`, the ship is active exactly when a life
is left, and it is active in `GAME`. -/
def LivesInv (s : AstroLib) : Prop :=
  0 ≤ s.lives ∧ s.lives ≤ 3 ∧ (s.ship.active = true ↔ 1 ≤ s.lives) ∧
    (s.currentState = GameState.GAME → s.ship.active = true)

/-- The heading of the ship is the respawn heading `-M_PI / 2` or lies in `[0, 2 * M_PI)`. -/
def HeadingInv (s : AstroLib) : Prop :=
  s.ship.angle = -M_PI / 2 ∨ (0 ≤ s.ship.angle ∧ s.ship.angle < 2 * M_PI)

/-- Bullet 0 lies inside the large asteroid 0, which rests at `(-2, 30)`: partly off the
left screen edge, inside the wrap envelope; all other slots are free. -/
def edgeRockState : AstroLib :=
  collisionState (fun i => if i = 0 then bulletAt 0 30 else blankObject)
    (fun j => if j = 0 then rockAt ASTEROID_SIZE_LARGE (-2) 30 else blankObject)

/-- A large asteroid in the screen centre that drifts to the right with speed 1. -/
def driftRock : GameObject :=
  { rockAt ASTEROID_SIZE_LARGE 64 32 with vel := { x := 1, y := 0 } }

/-- Bullet 0 lies inside the drifting large asteroid in slot 0; all other slots are free. -/
def driftRockState : AstroLib :=
  collisionState (fun i => if i = 0 then bulletAt 64 32 else blankObject)
    (fun j => if j = 0 then driftRock else blankObject)

/-- Bullet 0 lies inside the drifting large asteroid in slot 1; all other slots, slot 0
included, are free. -/
def driftRockLaterState : AstroLib :=
  collisionState (fun i => if i = 0 then bulletAt 64 32 else blankObject)
    (fun j => if j = 1 then driftRock else blankObject)

/-- An environment for the drifting asteroid, exact on the arguments that occur there:
`cos 0 = 1`, `sin 0 = 0`, `atan2(0, x) = 0` for `x > 0`, `sqrt 1 = 1`, `sqrt(16/25) = 4/5`;
the raw draws alternate `0, 25`, which gives the speed factor `0.80` and the angle
deviation `0`. -/
def driftEnv : Env :=
  { cos := fun _ => 1, sin := fun _ => 0, atan2 := fun _ _ => 0,
    sqrt := fun x => if x = 16 / 25 then 4 / 5 else x,
    rand := fun n => if n % 2 = 0 then 0 else 25 }

/-- What the position scenarios look at in an asteroid slot: flag, size and position. -/
def placeView (o : GameObject) : Bool × ℤ × Vector2D :=
  (o.active, o.size, o.pos)

/-- What the fragment scenarios look at in an asteroid slot: flag, size, position and
velocity. -/
def rockView (o : GameObject) : Bool × ℤ × Vector2D × Vector2D :=
  (o.active, o.size, o.pos, o.vel)

/-- The function `AsteroidsGame::wrapAround` of `src/AsteroidsGame.cpp`: four independent
`if` statements, each reading the position that the previous ones left. -/
def AsteroidsGame.wrapAround (obj : GameObject) : GameObject :=
  let o1 : GameObject :=
    if obj.pos.x < -obj.radius then
      { obj with pos := { obj.pos with x := (SCREEN_WIDTH : ℚ) + obj.radius } }
    else obj
  let o2 : GameObject :=
    if o1.pos.x > (SCREEN_WIDTH : ℚ) + o1.radius then
      { o1 with pos := { o1.pos with x := -o1.radius } }
    else o1
  let o3 : GameObject :=
    if o2.pos.y < -o2.radius then
      { o2 with pos := { o2.pos with y := (SCREEN_HEIGHT : ℚ) + o2.radius } }
    else o2
  if o3.pos.y > (SCREEN_HEIGHT : ℚ) + o3.radius then
    { o3 with pos := { o3.pos with y := -o3.radius } }
  else o3

/-- A session in `GAME` with three lives and no bullet whose ship rests in the screen centre,
not invincible, inside a large asteroid (slot 0); all other asteroid slots are free. -/
def rammedLargeState : AstroLib :=
  { powerOnState with
    currentState := GameState.GAME
    ship := { blankObject with pos := screenCentre, radius := SHIP_COLLISION_RADIUS, active := true }
    asteroids := fun j => if j = 0 then rockAt ASTEROID_SIZE_LARGE 64 32 else blankObject
    lives := 3
    score := 70 }

/-- One call of a public member function of `AudioEngine`; the functions that read `millis()`
carry the clock at the call. -/
inductive AudioCall where
  | begin (pin : ℤ)
  | update (clock : ℕ)
  | playShootSound (clock : ℕ)
  | playExplosionSound (clock : ℕ)
  | playHyperspaceSound (clock : ℕ)
  | startThrustSound (clock : ℕ) (intensity : ℚ)
  | stopThrustSound
  | stopAllSounds

/-- Effect of one public call on the engine. -/
def AudioEngine.call (a : AudioEngine) : AudioCall → AudioEngine
  | AudioCall.begin pin => a.begin pin
  | AudioCall.update clock => a.update clock
  | AudioCall.playShootSound clock => a.playShootSound clock
  | AudioCall.playExplosionSound clock => a.playExplosionSound clock
  | AudioCall.playHyperspaceSound clock => a.playHyperspaceSound clock
  | AudioCall.startThrustSound clock intensity => a.startThrustSound clock intensity
  | AudioCall.stopThrustSound => a.stopThrustSound
  | AudioCall.stopAllSounds => a.stopAllSounds

/-- Effect of a sequence of public calls, in order. -/
def AudioEngine.run (a : AudioEngine) (calls : List AudioCall) : AudioEngine :=
  calls.foldl AudioEngine.call a

/-- The engine states that a program can produce: a constructed engine after any sequence of
calls of its public member functions, at any clock readings. -/
def AudioReachable (a : AudioEngine) : Prop :=
  ∃ calls : List AudioCall, AudioEngine.new.run calls = a

/-- The channel is idle, timed or continuous, never two at once, and a continuous frequency
lies in the thrust band. -/
def ChannelInv (a : AudioEngine) : Prop :=
  (a.soundEndTime = 0 ∨ a.currentContinuousFreq = 0) ∧
  (a.currentContinuousFreq = 0 ∨
    (SND_THRUST_FREQ_LOW ≤ a.currentContinuousFreq ∧
      a.currentContinuousFreq ≤ SND_THRUST_FREQ_HIGH))

/-- A session in `GAME` on its last life, fire latch clear: the ship rests in the screen
centre heading along `+x` (angle `0`), spawned at clock `0`, and a large asteroid at rest at
`(52, 32)` overlaps it from behind. -/
def lastShotState : AstroLib :=
  { powerOnState with
    currentState := GameState.GAME
    ship := { blankObject with pos := screenCentre, radius := SHIP_COLLISION_RADIUS, active := true }
    asteroids := fun j => if j = 0 then rockAt ASTEROID_SIZE_LARGE 52 32 else blankObject
    lives := 1 }

/-- The ticks at clocks `t + 20, t + 40, ...`, `k` of them, with nothing pressed. -/
def idleTicksFrom (t k : ℕ) : List Call :=
  (List.range k).map fun n => Call.tick 1 (idleAt (t + 20 * (n + 1)))

/-- What the lifetime scenarios look at: session state, flag and lifetime of bullet 0. -/
def shotView (s : AstroLib) : GameState × Bool × ℤ :=
  (s.currentState, (s.bullets 0).active, (s.bullets 0).lifetime)

/-- The scene `largeRockState` with a vulnerable ship at rest at `(10, 10)`, far from the
asteroid and from where its fragments appear. -/
def farShipState : AstroLib :=
  { largeRockState with
    ship := { blankObject with pos := { x := 10, y := 10 }, radius := SHIP_COLLISION_RADIUS,
                               active := true }
    lives := 3 }

/-- The wrap envelope of an object: its centre is at most its radius outside the screen. -/
def InEnvelope (o : GameObject) : Prop :=
  -o.radius ≤ o.pos.x ∧ o.pos.x ≤ (SCREEN_WIDTH : ℚ) + o.radius ∧
  -o.radius ≤ o.pos.y ∧ o.pos.y ≤ (SCREEN_HEIGHT : ℚ) + o.radius

/-! ## Rounding to binary32 -/

theorem pow2_eq (z : ℤ) : pow2 z = (2 : ℚ) ^ z := by
  unfold pow2
  split_ifs with h
  · obtain ⟨n, rfl⟩ := Int.eq_ofNat_of_zero_le h
    simp
  · have hneg : 0 ≤ -z := by omega
    obtain ⟨n, hn⟩ := Int.eq_ofNat_of_zero_le hneg
    have hz : z = -(n : ℤ) := by omega
    subst hz
    simp

theorem pow2_pos (z : ℤ) : 0 < pow2 z := by
  rw [pow2_eq]
  positivity

theorem pow2_le (a b : ℤ) (h : a ≤ b) : pow2 a ≤ pow2 b := by
  rw [pow2_eq, pow2_eq]
  exact zpow_le_zpow_right₀ (by norm_num) h

theorem pow2_add (a b : ℤ) : pow2 (a + b) = pow2 a * pow2 b := by
  rw [pow2_eq, pow2_eq, pow2_eq, zpow_add₀ (by norm_num)]

theorem binade_spec (q : ℚ) : ∀ (k : ℕ) (lo : ℤ),
    lo ≤ binade q lo k ∧ binade q lo k ≤ lo + 2 ^ k - 1 ∧
    (lo < binade q lo k → pow2 (binade q lo k) ≤ q) ∧
    (binade q lo k < lo + 2 ^ k - 1 → q < pow2 (binade q lo k + 1)) := by
  intro k
  induction k with
  | zero =>
    intro lo
    unfold binade
    refine ⟨le_rfl, by norm_num, fun h => absurd h (lt_irrefl _), fun h => ?_⟩
    norm_num at h
  | succ k ih =>
    intro lo
    unfold binade
    have hk : (2 : ℤ) ^ (k + 1) = 2 ^ k + 2 ^ k := by ring
    have hpos : (0 : ℤ) < 2 ^ k := by positivity
    split_ifs with h
    · obtain ⟨h1, h2, h3, h4⟩ := ih (lo + 2 ^ k)
      refine ⟨by omega, by omega, fun _ => ?_, fun hlt => h4 (by omega)⟩
      rcases eq_or_lt_of_le h1 with he | hl
      · rw [← he]; exact h
      · exact h3 hl
    · obtain ⟨h1, h2, h3, h4⟩ := ih lo
      refine ⟨h1, by omega, h3, fun _ => ?_⟩
      rcases eq_or_lt_of_le h2 with he | hl
      · rw [he]
        have : lo + 2 ^ k - 1 + 1 = lo + 2 ^ k := by ring
        rw [this]
        exact not_le.1 h
      · exact h4 hl

theorem binade_mono (x y : ℚ) (h : x ≤ y) (k : ℕ) (lo : ℤ) :
    binade x lo k ≤ binade y lo k := by
  by_contra hlt
  rw [not_le] at hlt
  obtain ⟨x1, x2, x3, -⟩ := binade_spec x k lo
  obtain ⟨y1, y2, -, y4⟩ := binade_spec y k lo
  have hx := x3 (by omega)
  have hy := y4 (by omega)
  have := pow2_le (binade y lo k + 1) (binade x lo k) (by omega)
  linarith

theorem roundEven_intCast (n : ℤ) : roundEven (n : ℚ) = n := by
  unfold roundEven
  rw [Int.floor_intCast]
  simp

theorem roundEven_bounds (q : ℚ) : ⌊q⌋ ≤ roundEven q ∧ roundEven q ≤ ⌊q⌋ + 1 := by
  unfold roundEven
  split_ifs <;> constructor <;> omega

theorem roundEven_mono (x y : ℚ) (h : x ≤ y) : roundEven x ≤ roundEven y := by
  have hf : ⌊x⌋ ≤ ⌊y⌋ := Int.floor_le_floor h
  rcases eq_or_lt_of_le hf with he | hl
  · unfold roundEven
    rw [← he]
    split_ifs with h1 h2 h3 h4 h5 h6 h7 h8 <;> first | omega | (exfalso; linarith)
  · have hx := (roundEven_bounds x).2
    have hy := (roundEven_bounds y).1
    omega

theorem ulp32_eq (q : ℚ) : ulp32 q = pow2 (max (-126) (binade q (-128) 8) - 23) := rfl

theorem f32abs_lower (q : ℚ) (h : -126 < max (-126) (binade q (-128) 8)) :
    pow2 (max (-126) (binade q (-128) 8)) ≤ f32abs q := by
  obtain ⟨b1, b2, b3, b4⟩ := binade_spec q 8 (-128)
  have hb : max (-126) (binade q (-128) 8) = binade q (-128) 8 := by omega
  have hq : pow2 (binade q (-128) 8) ≤ q := b3 (by omega)
  unfold f32abs
  rw [ulp32_eq, hb]
  set e := binade q (-128) 8 with he
  have hu := pow2_pos (e - 23)
  have hsplit : pow2 e = ((8388608 : ℤ) : ℚ) * pow2 (e - 23) := by
    have : e = 23 + (e - 23) := by ring
    conv_lhs => rw [this, pow2_add]
    congr 1
  have hdiv : ((8388608 : ℤ) : ℚ) ≤ q / pow2 (e - 23) := by
    rw [le_div_iff₀ hu, ← hsplit]
    exact hq
  have hr := roundEven_mono _ _ hdiv
  rw [roundEven_intCast] at hr
  rw [hsplit]
  exact mul_le_mul_of_nonneg_right (by exact_mod_cast hr) hu.le

theorem f32abs_upper (q : ℚ) (h : max (-126) (binade q (-128) 8) < 127) :
    f32abs q ≤ pow2 (max (-126) (binade q (-128) 8) + 1) := by
  obtain ⟨b1, b2, b3, b4⟩ := binade_spec q 8 (-128)
  set e := max (-126) (binade q (-128) 8) with he
  have hq : q < pow2 (e + 1) := by
    have h1 := b4 (by norm_num; omega)
    exact lt_of_lt_of_le h1 (pow2_le _ _ (by omega))
  unfold f32abs
  rw [ulp32_eq, ← he]
  have hu := pow2_pos (e - 23)
  have hsplit : pow2 (e + 1) = ((16777216 : ℤ) : ℚ) * pow2 (e - 23) := by
    have : e + 1 = 24 + (e - 23) := by ring
    conv_lhs => rw [this, pow2_add]
    congr 1
  have hdiv : q / pow2 (e - 23) ≤ ((16777216 : ℤ) : ℚ) := by
    rw [div_le_iff₀ hu, ← hsplit]
    exact hq.le
  have hr := roundEven_mono _ _ hdiv
  rw [roundEven_intCast] at hr
  rw [hsplit]
  exact mul_le_mul_of_nonneg_right (by exact_mod_cast hr) hu.le

theorem f32abs_mono (x y : ℚ) (h : x ≤ y) : f32abs x ≤ f32abs y := by
  have hb := binade_mono x y h 8 (-128)
  obtain ⟨-, y2, -, -⟩ := binade_spec y 8 (-128)
  have he : max (-126) (binade x (-128) 8) ≤ max (-126) (binade y (-128) 8) :=
    max_le_max le_rfl hb
  rcases eq_or_lt_of_le he with heq | hlt
  · unfold f32abs
    rw [ulp32_eq, ulp32_eq, heq]
    have hu := pow2_pos (max (-126) (binade y (-128) 8) - 23)
    have hr := roundEven_mono _ _ (div_le_div_of_nonneg_right h hu.le)
    exact mul_le_mul_of_nonneg_right (by exact_mod_cast hr) hu.le
  · have h127 : max (-126) (binade y (-128) 8) ≤ 127 := by
      norm_num at y2
      omega
    have hx := f32abs_upper x (by omega)
    have hy := f32abs_lower y (by omega)
    exact hx.trans ((pow2_le _ _ (by omega)).trans hy)

theorem f32abs_zero : f32abs 0 = 0 := by
  unfold f32abs
  simp [roundEven]

theorem f32abs_nonneg (q : ℚ) (h : 0 ≤ q) : 0 ≤ f32abs q := by
  have := f32abs_mono 0 q h
  rwa [f32abs_zero] at this

theorem f32_mono (x y : ℚ) (h : x ≤ y) : f32 x ≤ f32 y := by
  unfold f32
  split_ifs with hx hy hy
  · exact neg_le_neg (f32abs_mono _ _ (neg_le_neg h))
  · have h1 := f32abs_nonneg (-x) (by linarith)
    have h2 := f32abs_nonneg y (not_lt.1 hy)
    linarith
  · exact absurd (lt_of_le_of_lt h hy) hx
  · exact f32abs_mono _ _ h

theorem f32_neg (q : ℚ) : f32 (-q) = -f32 q := by
  unfold f32
  rcases lt_trichotomy q 0 with h | h | h
  · rw [if_neg (by linarith), if_pos h, neg_neg]
  · subst h
    simp [f32abs_zero]
  · rw [if_pos (by linarith), if_neg (by linarith), neg_neg]

theorem f32_nonneg (q : ℚ) (h : 0 ≤ q) : 0 ≤ f32 q := by
  unfold f32
  rw [if_neg (not_lt.2 h)]
  exact f32abs_nonneg q h

/-! ## Pools -/

theorem activeCount_le {n : ℕ} (a : Fin n → GameObject) : activeCount a ≤ n := by
  unfold activeCount
  calc (Finset.univ.filter (fun i => (a i).active = true)).card
      ≤ (Finset.univ : Finset (Fin n)).card := Finset.card_filter_le _ _
    _ = n := by simp

theorem activeCount_update_on {n : ℕ} (a : Fin n → GameObject) (k : Fin n) (o : GameObject)
    (hk : (a k).active = false) (ho : o.active = true) :
    activeCount (Function.update a k o) = activeCount a + 1 := by
  unfold activeCount
  have hset : Finset.univ.filter (fun i => ((Function.update a k o) i).active = true)
      = insert k (Finset.univ.filter (fun i => (a i).active = true)) := by
    ext i
    by_cases hik : i = k
    · subst hik; simp [ho]
    · simp [Function.update_noteq hik, hik]
  rw [hset, Finset.card_insert_of_not_mem]
  simp [hk]

theorem activeCount_update_off {n : ℕ} (a : Fin n → GameObject) (k : Fin n) (o : GameObject)
    (hk : (a k).active = true) (ho : o.active = false) :
    activeCount (Function.update a k o) + 1 = activeCount a := by
  have h := activeCount_update_on (Function.update a k o) k (a k) (by simp [ho]) hk
  simpa using h.symm

theorem activeCount_eq_zero_iff {n : ℕ} (a : Fin n → GameObject) :
    activeCount a = 0 ↔ ∀ i, (a i).active = false := by
  unfold activeCount
  rw [Finset.card_eq_zero, Finset.filter_eq_empty_iff]
  simp

theorem activeCount_eq_size_iff {n : ℕ} (a : Fin n → GameObject) :
    activeCount a = n ↔ ∀ i, (a i).active = true := by
  unfold activeCount
  constructor
  · intro h i
    have hcard : (Finset.univ.filter (fun i => (a i).active = true)).card
        = Fintype.card (Fin n) := by simpa using h
    have := (Finset.card_eq_iff_eq_univ _).1 hcard
    have hi : i ∈ Finset.univ.filter (fun i => (a i).active = true) := by
      rw [this]; exact Finset.mem_univ i
    simpa using hi
  · intro h
    rw [Finset.filter_true_of_mem (fun i _ => h i)]
    simp

namespace AstroLib

theorem findInactiveAsteroidSlot_none (s : AstroLib) :
    s.findInactiveAsteroidSlot = none ↔ ∀ j, (s.asteroids j).active = true := by
  unfold findInactiveAsteroidSlot
  rw [List.find?_eq_none]
  simp [List.mem_finRange]

theorem findInactiveAsteroidSlot_some (s : AstroLib) (k : Fin MAX_ASTEROIDS)
    (h : s.findInactiveAsteroidSlot = some k) : (s.asteroids k).active = false := by
  unfold findInactiveAsteroidSlot at h
  simpa using List.find?_some h

theorem findInactiveBulletSlot_some (s : AstroLib) (k : Fin MAX_BULLETS)
    (h : s.findInactiveBulletSlot = some k) : (s.bullets k).active = false := by
  unfold findInactiveBulletSlot at h
  simpa using List.find?_some h

end AstroLib

namespace AstroLib

/-! ## Spawning -/

theorem spawnPosition_state (env : Env) (size : ℤ) (x y : ℚ) (s : AstroLib) :
    (s.spawnPosition env size x y).2 = { s with rngPos := (s.spawnPosition env size x y).2.rngPos } := by
  unfold spawnPosition nextRandom
  dsimp only
  split_ifs <;> rfl

theorem spawnPosition_given (env : Env) (size : ℤ) (x y : ℚ) (s : AstroLib)
    (hx : 0 ≤ x) (hy : 0 ≤ y) : s.spawnPosition env size x y = ({ x := x, y := y }, s) := by
  unfold spawnPosition
  rw [if_neg]
  push_neg
  exact ⟨hx, hy⟩

theorem spawnVelocity_state (env : Env) (vx vy : ℚ) (s : AstroLib) :
    (s.spawnVelocity env vx vy).2 = { s with rngPos := (s.spawnVelocity env vx vy).2.rngPos } := by
  unfold spawnVelocity nextRandom
  dsimp only
  split_ifs <;> rfl

theorem spawnAsteroid_full (env : Env) (size : ℤ) (x y vx vy : ℚ) (s : AstroLib)
    (h : s.findInactiveAsteroidSlot = none) : s.spawnAsteroid env size x y vx vy = s := by
  unfold spawnAsteroid
  rw [h]

theorem spawnAsteroid_slot (env : Env) (size : ℤ) (x y vx vy : ℚ) (s : AstroLib)
    (k : Fin MAX_ASTEROIDS) (h : s.findInactiveAsteroidSlot = some k) :
    ∃ (o : GameObject) (p : ℕ),
      s.spawnAsteroid env size x y vx vy
        = { s with asteroids := Function.update s.asteroids k o, rngPos := p } ∧
      o.active = true ∧ o.size = size ∧ o.radius = (size : ℚ) ∧ o.angle = 0 ∧ o.lifetime = 0 ∧
      (0 ≤ x → 0 ≤ y → o.pos = { x := x, y := y }) := by
  unfold spawnAsteroid
  rw [h]
  have h1 := spawnPosition_state env size x y s
  have h2 := spawnVelocity_state env vx vy (s.spawnPosition env size x y).2
  refine ⟨{ pos := (s.spawnPosition env size x y).1
            vel := ((s.spawnPosition env size x y).2.spawnVelocity env vx vy).1
            angle := 0, radius := (size : ℚ), active := true, lifetime := 0, size := size },
    ((s.spawnPosition env size x y).2.spawnVelocity env vx vy).2.rngPos, ?_, rfl, rfl, rfl,
    rfl, rfl, ?_⟩
  · simp only
    rw [h2, h1]
  · intro hx hy
    simp only [spawnPosition_given env size x y s hx hy]

end AstroLib

theorem random_ge (lo hi : ℤ) (raw : ℕ) : lo ≤ random lo hi raw := by
  unfold random
  split_ifs with h
  · exact le_refl lo
  · have : 0 ≤ (raw : ℤ) % (hi - lo) := Int.emod_nonneg _ (by omega)
    omega

theorem random_lt (lo hi : ℤ) (raw : ℕ) (h : lo < hi) : random lo hi raw < hi := by
  unfold random
  rw [if_neg (by omega)]
  have : (raw : ℤ) % (hi - lo) < hi - lo := Int.emod_lt_of_pos _ (by omega)
  omega

namespace AstroLib

theorem sampleSpawn_some (rand : ℕ → ℕ) (c : Vector2D) (c2 : ℚ) :
    ∀ (fuel p : ℕ) (x y : ℚ) (p' : ℕ), sampleSpawn rand c c2 fuel p = some (x, y, p') →
      ∃ k, p' = p + 2 * k + 2 ∧ sampleAt rand (p + 2 * k) = { x := x, y := y } ∧
        ¬ dist2 { x := x, y := y } c < c2 := by
  intro fuel
  induction fuel with
  | zero => intro p x y p' h; simp [sampleSpawn] at h
  | succ f ih =>
    intro p x y p' h
    unfold sampleSpawn at h
    dsimp only at h
    split_ifs at h with hrej
    · obtain ⟨k, hk1, hk2, hk3⟩ := ih (p + 2) x y p' h
      refine ⟨k + 1, by omega, ?_, hk3⟩
      rw [← hk2]
      congr 1
      omega
    · simp only [Option.some.injEq, Prod.mk.injEq] at h
      obtain ⟨hx, hy, hp⟩ := h
      refine ⟨0, by omega, ?_, ?_⟩
      · simp [sampleAt, hx, hy]
      · rw [← hx, ← hy]
        simpa [dist2] using hrej

theorem sampleSpawn_mono (rand : ℕ → ℕ) (c : Vector2D) (c2 : ℚ) :
    ∀ (fuel fuel' p : ℕ) (r : ℚ × ℚ × ℕ), fuel ≤ fuel' →
      sampleSpawn rand c c2 fuel p = some r → sampleSpawn rand c c2 fuel' p = some r := by
  intro fuel
  induction fuel with
  | zero => intro fuel' p r _ h; simp [sampleSpawn] at h
  | succ f ih =>
    intro fuel' p r hle h
    obtain ⟨g, rfl⟩ : ∃ g, fuel' = g + 1 := ⟨fuel' - 1, by omega⟩
    unfold sampleSpawn at h ⊢
    dsimp only at h ⊢
    split_ifs at h ⊢ with hrej
    · exact ih g (p + 2) r (by omega) h
    · exact h

theorem sampleSpawn_accepts (rand : ℕ → ℕ) (c : Vector2D) (c2 : ℚ) :
    ∀ (k p fuel : ℕ), ¬ dist2 (sampleAt rand (p + 2 * k)) c < c2 → k + 1 ≤ fuel →
      ∃ r, sampleSpawn rand c c2 fuel p = some r := by
  intro k
  induction k with
  | zero =>
    intro p fuel hacc hf
    obtain ⟨g, rfl⟩ : ∃ g, fuel = g + 1 := ⟨fuel - 1, by omega⟩
    unfold sampleSpawn
    dsimp only
    rw [if_neg]
    · exact ⟨_, rfl⟩
    · simpa [dist2, sampleAt] using hacc
  | succ k ih =>
    intro p fuel hacc hf
    obtain ⟨g, rfl⟩ : ∃ g, fuel = g + 1 := ⟨fuel - 1, by omega⟩
    unfold sampleSpawn
    dsimp only
    split_ifs with hrej
    · refine ih (p + 2) g ?_ (by omega)
      have : p + 2 + 2 * k = p + 2 * (k + 1) := by omega
      rw [this]
      exact hacc
    · exact ⟨_, rfl⟩

theorem sampleSpawn_of_fair (rand : ℕ → ℕ) (c : Vector2D) (c2 : ℚ) (hfair : FairAt rand c c2)
    (p : ℕ) : ∃ fuel r, ∀ fuel', fuel ≤ fuel' → sampleSpawn rand c c2 fuel' p = some r := by
  obtain ⟨k, hk⟩ := hfair p
  obtain ⟨r, hr⟩ := sampleSpawn_accepts rand c c2 k p (k + 1) hk (le_refl _)
  exact ⟨k + 1, r, fun fuel' hle => sampleSpawn_mono rand c c2 (k + 1) fuel' p r hle hr⟩

end AstroLib

namespace AstroLib

theorem activeCount_lt_of_slot (s : AstroLib) (k : Fin MAX_ASTEROIDS)
    (h : s.findInactiveAsteroidSlot = some k) : activeCount s.asteroids < MAX_ASTEROIDS := by
  have hk := s.findInactiveAsteroidSlot_some k h
  have hle := activeCount_le s.asteroids
  rcases Nat.lt_or_ge (activeCount s.asteroids) MAX_ASTEROIDS with hlt | hge
  · exact hlt
  · have heq : activeCount s.asteroids = MAX_ASTEROIDS := le_antisymm hle hge
    have := (activeCount_eq_size_iff s.asteroids).1 heq k
    rw [hk] at this
    exact absurd this (by decide)

theorem activeCount_spawnAsteroid (env : Env) (size : ℤ) (x y vx vy : ℚ) (s : AstroLib) :
    activeCount (s.spawnAsteroid env size x y vx vy).asteroids
      = min MAX_ASTEROIDS (activeCount s.asteroids + 1) := by
  cases h : s.findInactiveAsteroidSlot with
  | none =>
    rw [spawnAsteroid_full env size x y vx vy s h]
    have := (activeCount_eq_size_iff s.asteroids).2 ((s.findInactiveAsteroidSlot_none).1 h)
    rw [this]
    decide
  | some k =>
    obtain ⟨o, p, heq, hact, -⟩ := spawnAsteroid_slot env size x y vx vy s k h
    rw [heq]
    have hlt := s.activeCount_lt_of_slot k h
    have hk := s.findInactiveAsteroidSlot_some k h
    simp only
    rw [activeCount_update_on s.asteroids k o hk hact]
    omega

theorem spawnLargeAsteroids_spec (env : Env) (c2 : ℚ) (fuel : ℕ) :
    ∀ (n : ℕ) (s s' : AstroLib), spawnLargeAsteroids env c2 fuel n s = some s' →
      ∃ (a' : Fin MAX_ASTEROIDS → GameObject) (p' : ℕ),
        s' = { s with asteroids := a', rngPos := p' } ∧
        activeCount a' = min MAX_ASTEROIDS (activeCount s.asteroids + n) ∧
        ∀ j, a' j = s.asteroids j ∨
          ((s.asteroids j).active = false ∧ FreshLarge s.ship.pos c2 (a' j)) := by
  intro n
  induction n with
  | zero =>
    intro s s' h
    simp only [spawnLargeAsteroids, Option.some.injEq] at h
    subst h
    refine ⟨s.asteroids, s.rngPos, rfl, ?_, fun j => Or.inl rfl⟩
    have := activeCount_le s.asteroids
    omega
  | succ n ih =>
    intro s s' h
    unfold spawnLargeAsteroids at h
    cases hs : sampleSpawn env.rand s.ship.pos c2 fuel s.rngPos with
    | none => rw [hs] at h; simp at h
    | some r =>
      obtain ⟨x, y, p⟩ := r
      rw [hs] at h
      dsimp only at h
      obtain ⟨k, -, hsample, hclear⟩ := sampleSpawn_some env.rand s.ship.pos c2 fuel s.rngPos x y p hs
      have hx : 0 ≤ x := by
        have := congrArg Vector2D.x hsample
        simp only [sampleAt] at this
        rw [← this]
        exact_mod_cast random_ge 0 SCREEN_WIDTH _
      have hy : 0 ≤ y := by
        have := congrArg Vector2D.y hsample
        simp only [sampleAt] at this
        rw [← this]
        exact_mod_cast random_ge 0 SCREEN_HEIGHT _
      obtain ⟨a', p', heq, hcount, hslots⟩ := ih _ s' h
      have hcnt1 := activeCount_spawnAsteroid env ASTEROID_SIZE_LARGE x y 0 0 { s with rngPos := p }
      cases hslot : ({ s with rngPos := p } : AstroLib).findInactiveAsteroidSlot with
      | none =>
        rw [spawnAsteroid_full env _ x y 0 0 _ hslot] at heq hcount hslots hcnt1
        refine ⟨a', p', heq, ?_, hslots⟩
        rw [hcount]
        have hfull := (activeCount_eq_size_iff s.asteroids).2
          ((findInactiveAsteroidSlot_none _).1 hslot)
        simp only at hfull ⊢
        omega
      | some k' =>
        obtain ⟨o, q, hsp, hact, hsize, hrad, hang, hlife, hpos⟩ :=
          spawnAsteroid_slot env ASTEROID_SIZE_LARGE x y 0 0 _ k' hslot
        have hk' : (s.asteroids k').active = false := findInactiveAsteroidSlot_some _ k' hslot
        rw [hsp] at heq hcount hslots hcnt1
        simp only at heq hcount hslots hcnt1
        refine ⟨a', p', heq, ?_, ?_⟩
        · rw [hcount, hcnt1]
          have := activeCount_le s.asteroids
          omega
        · intro j
          have hfresh : FreshLarge s.ship.pos c2 o := by
            refine ⟨hact, hsize, ?_, hang, hlife, ?_, ?_, ?_⟩
            · rw [hrad]; norm_num
            · rw [hpos hx hy]; exact hx
            · rw [hpos hx hy]; exact hy
            · rw [hpos hx hy]; exact hclear
          by_cases hjk : j = k'
          · subst hjk
            rcases hslots j with hj | ⟨hj, -⟩
            · right
              rw [hj, Function.update_same]
              exact ⟨hk', hfresh⟩
            · rw [Function.update_same, hact] at hj
              exact absurd hj (by decide)
          · rcases hslots j with hj | ⟨hj, hf⟩
            · left
              rw [hj, Function.update_noteq hjk]
            · right
              rw [Function.update_noteq hjk] at hj
              exact ⟨hj, hf⟩

theorem spawnLargeAsteroids_mono (env : Env) (c2 : ℚ) (fuel fuel' : ℕ) (hle : fuel ≤ fuel') :
    ∀ (n : ℕ) (s s' : AstroLib), spawnLargeAsteroids env c2 fuel n s = some s' →
      spawnLargeAsteroids env c2 fuel' n s = some s' := by
  intro n
  induction n with
  | zero => intro s s' h; simpa [spawnLargeAsteroids] using h
  | succ n ih =>
    intro s s' h
    unfold spawnLargeAsteroids at h ⊢
    cases hs : sampleSpawn env.rand s.ship.pos c2 fuel s.rngPos with
    | none => rw [hs] at h; simp at h
    | some r =>
      rw [hs] at h
      rw [sampleSpawn_mono env.rand s.ship.pos c2 fuel fuel' s.rngPos r hle hs]
      exact ih _ s' h

theorem spawnLargeAsteroids_of_fair (env : Env) (c2 : ℚ) :
    ∀ (n : ℕ) (s : AstroLib), FairAt env.rand s.ship.pos c2 →
      ∃ fuel s', spawnLargeAsteroids env c2 fuel n s = some s' := by
  intro n
  induction n with
  | zero => intro s _; exact ⟨0, s, rfl⟩
  | succ n ih =>
    intro s hfair
    obtain ⟨f1, r, hr⟩ := sampleSpawn_of_fair env.rand s.ship.pos c2 hfair s.rngPos
    obtain ⟨x, y, p⟩ := r
    have hship : (({ s with rngPos := p } : AstroLib).spawnAsteroid env ASTEROID_SIZE_LARGE x y 0 0).ship
        = s.ship := by
      cases hslot : ({ s with rngPos := p } : AstroLib).findInactiveAsteroidSlot with
      | none => rw [spawnAsteroid_full env _ x y 0 0 _ hslot]
      | some k =>
        obtain ⟨o, q, hsp, -⟩ := spawnAsteroid_slot env ASTEROID_SIZE_LARGE x y 0 0 _ k hslot
        rw [hsp]
    obtain ⟨f2, s', hs'⟩ := ih (({ s with rngPos := p } : AstroLib).spawnAsteroid env
      ASTEROID_SIZE_LARGE x y 0 0) (by rw [hship]; exact hfair)
    refine ⟨max f1 f2, s', ?_⟩
    unfold spawnLargeAsteroids
    rw [hr (max f1 f2) (le_max_left _ _)]
    exact spawnLargeAsteroids_mono env c2 f2 (max f1 f2) (le_max_right _ _) n _ s' hs'

end AstroLib

namespace AstroLib

/-! ## resetGame -/

theorem resetGame_spec (env : Env) (fuel clock : ℕ) (s s' : AstroLib)
    (h : s.resetGame env fuel clock = some s') :
    s'.score = 0 ∧ s'.lives = 3 ∧ (∀ i, (s'.bullets i).active = false) ∧
    activeCount s'.asteroids = STARTING_ASTEROIDS ∧
    (∀ j, (s'.asteroids j).active = true → FreshLarge screenCentre resetClearance2 (s'.asteroids j)) ∧
    s'.highScore = s.highScore ∧ s'.nvsWrites = s.nvsWrites ∧ s'.currentState = s.currentState ∧
    s'.fireButtonPressedLastFrame = true ∧ s'.hyperspaceButtonPressedLastFrame = true ∧
    s'.ship.active = true ∧ s'.ship.pos = screenCentre ∧ s'.ship.angle = -M_PI / 2 ∧
    s'.ship.lifetime = INVINCIBILITY_DURATION ∧ s'.shipSpawnTime = millis clock ∧
    s'.lastHyperspaceTime = usub (millis clock) HYPERSPACE_COOLDOWN := by
  unfold resetGame at h
  rw [Option.map_eq_some'] at h
  obtain ⟨s2, hs2, rfl⟩ := h
  obtain ⟨a', p', heq, hcount, hslots⟩ := spawnLargeAsteroids_spec env _ fuel _ _ s2 hs2
  subst heq
  unfold resetFields at hcount hslots ⊢
  dsimp only at hcount hslots ⊢
  have hzero : activeCount (fun i => ({ s.asteroids i with active := false } : GameObject)) = 0 :=
    (activeCount_eq_zero_iff _).2 (fun i => rfl)
  rw [hzero] at hcount
  refine ⟨rfl, rfl, fun i => rfl, ?_, ?_, rfl, rfl, rfl, rfl, rfl, rfl, rfl, rfl, rfl, rfl, rfl⟩
  · rw [hcount]; decide
  · intro j hj
    rcases hslots j with hsame | ⟨-, hfresh⟩
    · rw [hsame] at hj
      exact absurd hj (by simp)
    · exact hfresh

theorem resetGame_of_fair (env : Env) (clock : ℕ) (s : AstroLib)
    (hfair : FairAt env.rand screenCentre resetClearance2) :
    ∃ fuel s', s.resetGame env fuel clock = some s' := by
  obtain ⟨fuel, s2, hs2⟩ := spawnLargeAsteroids_of_fair env resetClearance2 STARTING_ASTEROIDS
    (s.resetFields clock) hfair
  refine ⟨fuel, ?_⟩
  unfold resetGame
  unfold resetClearance2 at hs2
  rw [hs2]
  exact ⟨_, rfl⟩

end AstroLib

/-- C1: in `update`, from `START` with the fire latch clear, every tick with the fire input
  down that returns (whatever the random stream) leaves `currentState = GAME`, `lives = 3`,
  `score = 0`, every bullet slot inactive and exactly `STARTING_ASTEROIDS` asteroid slots
  active, each of size `LARGE`; and the tick does return, given enough fuel, for every random
  stream on which the rejection loop of `resetGame` finishes. -/
theorem start_fire_edge_starts_game (env : Env) (inp : TickInput) (s : AstroLib)
    (hstate : s.currentState = GameState.START)
    (hlatch : s.fireButtonPressedLastFrame = false)
    (hfire : s.anyFireButtonDown inp = true) :
    (∀ fuel s', s.update env fuel inp = some s' →
      s'.currentState = GameState.GAME ∧ s'.lives = 3 ∧ s'.score = 0 ∧
      (∀ i, (s'.bullets i).active = false) ∧
      activeCount s'.asteroids = STARTING_ASTEROIDS ∧
      ∀ j, (s'.asteroids j).active = true → (s'.asteroids j).size = ASTEROID_SIZE_LARGE) ∧
    (FairAt env.rand screenCentre resetClearance2 →
      ∃ fuel s', s.update env fuel inp = some s') := by
  have hupd : ∀ fuel, s.update env fuel inp
      = (s.resetGame env fuel inp.clock).map fun s1 =>
        { s1 with
          currentState := GameState.GAME
          fireButtonPressedLastFrame := true
          hyperspaceButtonPressedLastFrame := true } := by
    intro fuel
    unfold AstroLib.update AstroLib.updateStart
    simp [hstate, hlatch, hfire]
  constructor
  · intro fuel s' h
    rw [hupd, Option.map_eq_some'] at h
    obtain ⟨s1, hs1, rfl⟩ := h
    obtain ⟨hscore, hlives, hbul, hcount, hfresh, -⟩ := AstroLib.resetGame_spec env fuel _ s s1 hs1
    exact ⟨rfl, hlives, hscore, hbul, hcount, fun j hj => (hfresh j hj).2.1⟩
  · intro hfair
    obtain ⟨fuel, s1, hs1⟩ := AstroLib.resetGame_of_fair env inp.clock s hfair
    exact ⟨fuel, _, by rw [hupd, hs1]; rfl⟩

theorem demoEnv_fair_reset : FairAt demoEnv.rand screenCentre resetClearance2 := by
  intro p
  refine ⟨0, ?_⟩
  norm_num [sampleAt, random, dist2, screenCentre, resetClearance2, demoEnv]

theorem start_fire_edge_starts_game_witness :
    powerOnState.currentState = GameState.START ∧
    powerOnState.fireButtonPressedLastFrame = false ∧
    powerOnState.anyFireButtonDown firePressed = true ∧
    (∀ fuel s', powerOnState.update demoEnv fuel firePressed = some s' →
      s'.currentState = GameState.GAME ∧ s'.lives = 3 ∧ s'.score = 0 ∧
      (∀ i, (s'.bullets i).active = false) ∧
      activeCount s'.asteroids = STARTING_ASTEROIDS ∧
      ∀ j, (s'.asteroids j).active = true → (s'.asteroids j).size = ASTEROID_SIZE_LARGE) ∧
    ∃ fuel s', powerOnState.update demoEnv fuel firePressed = some s' :=
  ⟨rfl, rfl, rfl,
    (start_fire_edge_starts_game demoEnv firePressed powerOnState rfl rfl rfl).1,
    (start_fire_edge_starts_game demoEnv firePressed powerOnState rfl rfl rfl).2
      demoEnv_fair_reset⟩

/-! ## Fields written only by the game-flow code -/

theorem sameControl_refl (s : AstroLib) : SameControl s s :=
  ⟨rfl, rfl, rfl, rfl, rfl, rfl, rfl⟩

theorem sameControl_trans {s t u : AstroLib} (h1 : SameControl s t) (h2 : SameControl t u) :
    SameControl s u := by
  obtain ⟨a1, a2, a3, a4, a5, a6, a7⟩ := h1
  obtain ⟨b1, b2, b3, b4, b5, b6, b7⟩ := h2
  exact ⟨b1.trans a1, b2.trans a2, b3.trans a3, b4.trans a4, b5.trans a5, b6.trans a6,
    b7.trans a7⟩

namespace AstroLib

theorem spawnAsteroid_control (env : Env) (size : ℤ) (x y vx vy : ℚ) (s : AstroLib) :
    SameControl s (s.spawnAsteroid env size x y vx vy) := by
  cases h : s.findInactiveAsteroidSlot with
  | none => rw [spawnAsteroid_full env size x y vx vy s h]; exact sameControl_refl s
  | some k =>
    obtain ⟨o, p, heq, -⟩ := spawnAsteroid_slot env size x y vx vy s k h
    rw [heq]
    exact ⟨rfl, rfl, rfl, rfl, rfl, rfl, rfl⟩

theorem breakAsteroid_control (env : Env) (j : Fin MAX_ASTEROIDS) (s : AstroLib) :
    SameControl s (s.breakAsteroid env j) := by
  unfold breakAsteroid
  dsimp only
  split_ifs
  · exact sameControl_trans (spawnAsteroid_control env _ _ _ _ _ s) (spawnAsteroid_control env _ _ _ _ _ _)
  · exact sameControl_trans (spawnAsteroid_control env _ _ _ _ _ s) (spawnAsteroid_control env _ _ _ _ _ _)
  · exact sameControl_refl s

theorem bulletHit_control (env : Env) (clock : ℕ) (i : Fin MAX_BULLETS) (j : Fin MAX_ASTEROIDS)
    (s : AstroLib) : SameControl s (s.bulletHit env clock i j) :=
  sameControl_trans (t := s.hitEffects clock i j) ⟨rfl, rfl, rfl, rfl, rfl, rfl, rfl⟩
    (breakAsteroid_control env j _)

theorem bulletScan_control (env : Env) (clock : ℕ) (i : Fin MAX_BULLETS) :
    ∀ (js : List (Fin MAX_ASTEROIDS)) (s : AstroLib), SameControl s (bulletScan env clock i js s) := by
  intro js
  induction js with
  | nil => intro s; exact sameControl_refl s
  | cons j js ih =>
    intro s
    unfold bulletScan
    split_ifs
    · exact ih s
    · exact bulletHit_control env clock i j s
    · exact ih s

theorem bulletStep_control (env : Env) (clock : ℕ) (s : AstroLib) (i : Fin MAX_BULLETS) :
    SameControl s (s.bulletStep env clock i) := by
  unfold bulletStep
  split_ifs
  · exact sameControl_refl s
  · exact bulletScan_control env clock i _ s

theorem foldl_bulletStep_control (env : Env) (clock : ℕ) :
    ∀ (is : List (Fin MAX_BULLETS)) (s : AstroLib),
      SameControl s (is.foldl (bulletStep env clock) s) := by
  intro is
  induction is with
  | nil => intro s; exact sameControl_refl s
  | cons i is ih =>
    intro s
    rw [List.foldl_cons]
    exact sameControl_trans (bulletStep_control env clock s i) (ih _)

theorem bulletPass_control (env : Env) (clock : ℕ) (s : AstroLib) :
    SameControl s (s.bulletPass env clock) :=
  foldl_bulletStep_control env clock _ s

theorem shipHit_control (clock : ℕ) (j : Fin MAX_ASTEROIDS) (s : AstroLib) :
    SameControl s (s.shipHit clock j) := by
  unfold shipHit
  dsimp only
  split_ifs <;> exact ⟨rfl, rfl, rfl, rfl, rfl, rfl, rfl⟩

theorem shipScan_control (clock : ℕ) :
    ∀ (js : List (Fin MAX_ASTEROIDS)) (s : AstroLib), SameControl s (shipScan clock js s) := by
  intro js
  induction js with
  | nil => intro s; exact sameControl_refl s
  | cons j js ih =>
    intro s
    unfold shipScan
    split_ifs
    · exact ih s
    · exact shipHit_control clock j s
    · exact ih s

theorem shipPass_control (clock : ℕ) (s : AstroLib) : SameControl s (s.shipPass clock) := by
  unfold shipPass
  dsimp only
  split_ifs
  · exact shipScan_control clock _ s
  · exact sameControl_refl s

theorem handleCollisions_control (env : Env) (clock : ℕ) (s : AstroLib) :
    SameControl s (s.handleCollisions env clock) :=
  sameControl_trans (bulletPass_control env clock s) (shipPass_control clock _)

theorem updateGameObjects_control (clock : ℕ) (s : AstroLib) :
    SameControl s (s.updateGameObjects clock) :=
  ⟨rfl, rfl, rfl, rfl, rfl, rfl, rfl⟩

theorem triggerHyperspace_control (env : Env) (clock : ℕ) (s : AstroLib) :
    SameControl s (s.triggerHyperspace env clock) := by
  unfold triggerHyperspace nextRandom
  dsimp only
  split_ifs <;> exact ⟨rfl, rfl, rfl, rfl, rfl, rfl, rfl⟩

theorem handleInput_control (env : Env) (clock : ℕ) (joyX joyY : ℤ) (fire hyper : Bool)
    (s : AstroLib) : SameControl s (s.handleInput env clock joyX joyY fire hyper) := by
  unfold handleInput
  split_ifs
  · exact ⟨rfl, rfl, rfl, rfl, rfl, rfl, rfl⟩
  · exact sameControl_refl s
  · have h1 : SameControl s (s.handleRotation joyX) := by
      unfold handleRotation
      dsimp only
      split_ifs <;> exact ⟨rfl, rfl, rfl, rfl, rfl, rfl, rfl⟩
    have h2 : ∀ t : AstroLib, SameControl t (t.handleThrust env clock joyY) := by
      intro t
      unfold handleThrust
      dsimp only
      split_ifs <;> exact ⟨rfl, rfl, rfl, rfl, rfl, rfl, rfl⟩
    have h3 : ∀ t : AstroLib, SameControl t (t.handleFire env clock fire) := by
      intro t
      unfold handleFire
      dsimp only
      split_ifs
      · cases t.findInactiveBulletSlot <;> exact ⟨rfl, rfl, rfl, rfl, rfl, rfl, rfl⟩
      · exact sameControl_refl t
    have h4 : ∀ t : AstroLib, SameControl t (t.handleHyperspace env clock hyper) := by
      intro t
      unfold handleHyperspace
      dsimp only
      split_ifs
      · exact sameControl_trans (triggerHyperspace_control env clock t)
          ⟨rfl, rfl, rfl, rfl, rfl, rfl, rfl⟩
      · exact sameControl_refl t
      · exact sameControl_refl t
    exact sameControl_trans (sameControl_trans (sameControl_trans h1 (h2 _)) (h3 _)) (h4 _)

theorem afterCollisions_control (env : Env) (inp : TickInput) (s : AstroLib) :
    SameControl s (s.afterCollisions env inp) :=
  sameControl_trans (sameControl_trans (handleInput_control env _ _ _ _ _ s)
    (updateGameObjects_control _ _)) (handleCollisions_control env _ _)

theorem spawnNewWave_control (env : Env) (fuel : ℕ) (s s' : AstroLib)
    (h : s.spawnNewWave env fuel = some s') : SameControl s s' := by
  unfold spawnNewWave at h
  dsimp only at h
  obtain ⟨a', p', heq, -⟩ := spawnLargeAsteroids_spec env _ fuel _ _ s' h
  rw [heq]
  exact ⟨rfl, rfl, rfl, rfl, rfl, rfl, rfl⟩

end AstroLib

/-- C2: high-score law. On the tick of `update` that moves `GAME` to `GAME_OVER` the new
  `highScore` is `max highScore score` (the score as it stands at the transition, which is the
  score after the collision pass), and the store is written, once and with that score, exactly
  when `score > highScore`; every other tick, and `resetGame`, leaves `highScore` unchanged
  and stores nothing. -/
theorem high_score_law (env : Env) (fuel : ℕ) (inp : TickInput) (s s' : AstroLib)
    (h : s.update env fuel inp = some s') :
    (s.currentState = GameState.GAME ∧ s'.currentState = GameState.GAME_OVER →
      s'.score = (s.afterCollisions env inp).score ∧
      s'.highScore = max s.highScore s'.score ∧
      (s'.score > s.highScore → s'.nvsWrites = s.nvsWrites ++ [s'.score]) ∧
      (¬ s'.score > s.highScore → s'.nvsWrites = s.nvsWrites)) ∧
    (¬ (s.currentState = GameState.GAME ∧ s'.currentState = GameState.GAME_OVER) →
      s'.highScore = s.highScore ∧ s'.nvsWrites = s.nvsWrites) ∧
    (∀ (clock : ℕ) (t t' : AstroLib), t.resetGame env fuel clock = some t' →
      t'.highScore = t.highScore ∧ t'.nvsWrites = t.nvsWrites) := by
  have hreset : ∀ (clock : ℕ) (t t' : AstroLib), t.resetGame env fuel clock = some t' →
      t'.highScore = t.highScore ∧ t'.nvsWrites = t.nvsWrites := by
    intro clock t t' ht
    have := AstroLib.resetGame_spec env fuel clock t t' ht
    exact ⟨this.2.2.2.2.2.1, this.2.2.2.2.2.2.1⟩
  refine ⟨?_, ?_, hreset⟩
  · rintro ⟨hg, hover⟩
    obtain ⟨hc1, hc2, hc3, -⟩ := AstroLib.afterCollisions_control env inp s
    unfold AstroLib.update AstroLib.updateStart AstroLib.updateGame AstroLib.updateGameOver AstroLib.enterGameOver at h
    rw [hg] at h
    dsimp only at h
    split_ifs at h with h1 h2 h3
    · simp only [Option.some.injEq] at h
      subst h
      dsimp only
      rw [hc3]
      have hlt : s.highScore < (s.afterCollisions env inp).score := by rw [← hc2]; exact h2
      exact ⟨rfl, (max_eq_right (le_of_lt hlt)).symm, fun _ => rfl, fun hn => absurd hlt hn⟩
    · simp only [Option.some.injEq] at h
      subst h
      dsimp only
      rw [hc2, hc3]
      have hle : (s.afterCollisions env inp).score ≤ s.highScore := by
        rw [← hc2]; exact not_lt.1 h2
      exact ⟨rfl, (max_eq_left hle).symm, fun hgt => absurd hgt (not_lt.2 hle), fun _ => rfl⟩
    · rw [Option.map_eq_some'] at h
      obtain ⟨s2, hs2, rfl⟩ := h
      have hw := (AstroLib.spawnNewWave_control env fuel _ s2 hs2).1
      simp only [AstroLib.endOfTick] at hover
      rw [hw, hc1, hg] at hover
      exact absurd hover (by decide)
    · simp only [Option.some.injEq] at h
      subst h
      simp only [AstroLib.endOfTick] at hover
      rw [hc1, hg] at hover
      exact absurd hover (by decide)
  · intro hnot
    unfold AstroLib.update AstroLib.updateStart AstroLib.updateGame AstroLib.updateGameOver AstroLib.enterGameOver at h
    cases hst : s.currentState with
    | START =>
      rw [hst] at h
      dsimp only at h
      split_ifs at h
      · rw [Option.map_eq_some'] at h
        obtain ⟨s1, hs1, rfl⟩ := h
        exact hreset _ s s1 hs1
      · simp only [Option.some.injEq] at h
        subst h
        exact ⟨rfl, rfl⟩
    | GAME =>
      obtain ⟨hc1, hc2, hc3, -⟩ := AstroLib.afterCollisions_control env inp s
      rw [hst] at h
      dsimp only at h
      split_ifs at h with h1 h2 h3
      · simp only [Option.some.injEq] at h
        subst h
        exact absurd ⟨hst, rfl⟩ hnot
      · simp only [Option.some.injEq] at h
        subst h
        exact absurd ⟨hst, rfl⟩ hnot
      · rw [Option.map_eq_some'] at h
        obtain ⟨s2, hs2, rfl⟩ := h
        obtain ⟨-, hw2, hw3, -⟩ := AstroLib.spawnNewWave_control env fuel _ s2 hs2
        simp only [AstroLib.endOfTick]
        exact ⟨hw2.trans hc2, hw3.trans hc3⟩
      · simp only [Option.some.injEq] at h
        subst h
        simp only [AstroLib.endOfTick]
        exact ⟨hc2, hc3⟩
    | GAME_OVER =>
      rw [hst] at h
      dsimp only at h
      split_ifs at h <;>
      · simp only [Option.some.injEq] at h
        subst h
        exact ⟨rfl, rfl⟩

theorem high_score_law_witness :
    lostState.update demoEnv 0 idleInput = some lostStateAfter ∧
    ((lostState.currentState = GameState.GAME ∧ lostStateAfter.currentState = GameState.GAME_OVER →
      lostStateAfter.score = (lostState.afterCollisions demoEnv idleInput).score ∧
      lostStateAfter.highScore = max lostState.highScore lostStateAfter.score ∧
      (lostStateAfter.score > lostState.highScore →
        lostStateAfter.nvsWrites = lostState.nvsWrites ++ [lostStateAfter.score]) ∧
      (¬ lostStateAfter.score > lostState.highScore →
        lostStateAfter.nvsWrites = lostState.nvsWrites)) ∧
    (¬ (lostState.currentState = GameState.GAME ∧
        lostStateAfter.currentState = GameState.GAME_OVER) →
      lostStateAfter.highScore = lostState.highScore ∧
      lostStateAfter.nvsWrites = lostState.nvsWrites) ∧
    (∀ (clock : ℕ) (t t' : AstroLib), t.resetGame demoEnv 0 clock = some t' →
      t'.highScore = t.highScore ∧ t'.nvsWrites = t.nvsWrites)) :=
  ⟨rfl, high_score_law demoEnv 0 idleInput lostState lostStateAfter rfl⟩

namespace AstroLib

theorem spawnNewWave_of_fair (env : Env) (s : AstroLib)
    (hfair : FairAt env.rand s.ship.pos waveClearance2) :
    ∃ fuel s', s.spawnNewWave env fuel = some s' := by
  unfold spawnNewWave
  dsimp only
  exact spawnLargeAsteroids_of_fair env waveClearance2 _ _ hfair

/-- With a random stream on which both rejection loops finish, every call of `update`
returns once the fuel is large enough. -/
theorem update_returns (env : Env) (inp : TickInput) (s : AstroLib)
    (hreset : FairAt env.rand screenCentre resetClearance2)
    (hwave : ∀ c, FairAt env.rand c waveClearance2) :
    ∃ fuel s', s.update env fuel inp = some s' := by
  unfold update updateStart updateGame updateGameOver
  cases hst : s.currentState with
  | START =>
    dsimp only
    split_ifs
    · obtain ⟨fuel, s1, hs1⟩ := resetGame_of_fair env inp.clock s hreset
      exact ⟨fuel, _, by rw [hs1]; rfl⟩
    · exact ⟨0, _, rfl⟩
  | GAME =>
    dsimp only
    split_ifs
    · exact ⟨0, _, rfl⟩
    · obtain ⟨fuel, s1, hs1⟩ := spawnNewWave_of_fair env (s.afterCollisions env inp) (hwave _)
      exact ⟨fuel, _, by rw [hs1]; rfl⟩
    · exact ⟨0, _, rfl⟩
  | GAME_OVER =>
    dsimp only
    split_ifs
    · exact ⟨0, _, rfl⟩
    · exact ⟨0, _, rfl⟩

end AstroLib

theorem fairAt_mono (rand : ℕ → ℕ) (c : Vector2D) (c2 c2' : ℚ) (hle : c2 ≤ c2')
    (h : FairAt rand c c2') : FairAt rand c c2 := by
  intro p
  obtain ⟨k, hk⟩ := h p
  exact ⟨k, fun hlt => hk (lt_of_lt_of_le hlt hle)⟩

/-- The stream of `alternatingEnv` lets the wave loop finish wherever the ship is. -/
theorem alternatingEnv_fair_wave (c : Vector2D) : FairAt alternatingEnv.rand c waveClearance2 := by
  intro p
  by_contra hall
  push_neg at hall
  have h0 := hall 0
  have h1 := hall 1
  have hp : p % 4 = 0 ∨ p % 4 = 1 ∨ p % 4 = 2 ∨ p % 4 = 3 := by omega
  rcases hp with hp | hp | hp | hp
  · have e0 : (p + 2 * 0) % 4 = 0 := by omega
    have e1 : (p + 2 * 0 + 1) % 4 = 1 := by omega
    have e2 : (p + 2 * 1) % 4 = 2 := by omega
    have e3 : (p + 2 * 1 + 1) % 4 = 3 := by omega
    simp only [sampleAt, dist2, alternatingEnv, random, waveClearance2, e0, e1, e2, e3] at h0 h1
    norm_num at h0 h1
    nlinarith [sq_nonneg (c.x - 127 / 2), sq_nonneg c.y]
  · have e0 : (p + 2 * 0) % 4 = 1 := by omega
    have e1 : (p + 2 * 0 + 1) % 4 = 2 := by omega
    have e2 : (p + 2 * 1) % 4 = 3 := by omega
    have e3 : (p + 2 * 1 + 1) % 4 = 0 := by omega
    simp only [sampleAt, dist2, alternatingEnv, random, waveClearance2, e0, e1, e2, e3] at h0 h1
    norm_num at h0 h1
    nlinarith [sq_nonneg (c.y - 63 / 2), sq_nonneg c.x]
  · have e0 : (p + 2 * 0) % 4 = 2 := by omega
    have e1 : (p + 2 * 0 + 1) % 4 = 3 := by omega
    have e2 : (p + 2 * 1) % 4 = 0 := by omega
    have e3 : (p + 2 * 1 + 1) % 4 = 1 := by omega
    simp only [sampleAt, dist2, alternatingEnv, random, waveClearance2, e0, e1, e2, e3] at h0 h1
    norm_num at h0 h1
    nlinarith [sq_nonneg (c.x - 127 / 2), sq_nonneg c.y]
  · have e0 : (p + 2 * 0) % 4 = 3 := by omega
    have e1 : (p + 2 * 0 + 1) % 4 = 0 := by omega
    have e2 : (p + 2 * 1) % 4 = 1 := by omega
    have e3 : (p + 2 * 1 + 1) % 4 = 2 := by omega
    simp only [sampleAt, dist2, alternatingEnv, random, waveClearance2, e0, e1, e2, e3] at h0 h1
    norm_num at h0 h1
    nlinarith [sq_nonneg (c.y - 63 / 2), sq_nonneg c.x]

theorem alternatingEnv_fair_reset : FairAt alternatingEnv.rand screenCentre resetClearance2 :=
  fairAt_mono _ _ _ _ (by norm_num [resetClearance2, waveClearance2])
    (alternatingEnv_fair_wave screenCentre)

/-- C3: game-flow transition relation. For every call of `update` that returns, the pair
  (state before, state after) is one of the six allowed pairs; `START → GAME` and
  `GAME_OVER → START` are taken exactly when the fire input is down and the previous-frame
  latch is false; `GAME → GAME_OVER` is taken exactly when, after the collision pass,
  `lives ≤ 0` and the ship is inactive. The call returns, given enough fuel, for every
  random stream on which the rejection loops finish. -/
theorem game_flow_transitions (env : Env) (fuel : ℕ) (inp : TickInput) (s s' : AstroLib)
    (h : s.update env fuel inp = some s') :
    (s.currentState, s'.currentState) ∈ allowedTransitions ∧
    ((s.currentState = GameState.START ∧ s'.currentState = GameState.GAME) ↔
      (s.currentState = GameState.START ∧ s.anyFireButtonDown inp = true ∧
        s.fireButtonPressedLastFrame = false)) ∧
    ((s.currentState = GameState.GAME_OVER ∧ s'.currentState = GameState.START) ↔
      (s.currentState = GameState.GAME_OVER ∧ s.anyFireButtonDown inp = true ∧
        s.fireButtonPressedLastFrame = false)) ∧
    ((s.currentState = GameState.GAME ∧ s'.currentState = GameState.GAME_OVER) ↔
      (s.currentState = GameState.GAME ∧ (s.afterCollisions env inp).lives ≤ 0 ∧
        (s.afterCollisions env inp).ship.active = false)) ∧
    (FairAt env.rand screenCentre resetClearance2 → (∀ c, FairAt env.rand c waveClearance2) →
      ∃ fuel' s'', s.update env fuel' inp = some s'') := by
  refine ⟨?_, ?_, ?_, ?_, fun h1 h2 => AstroLib.update_returns env inp s h1 h2⟩
  all_goals
    unfold AstroLib.update AstroLib.updateStart AstroLib.updateGame AstroLib.updateGameOver AstroLib.enterGameOver at h
    cases hst : s.currentState with
    | START =>
      rw [hst] at h
      dsimp only at h
      split_ifs at h with hedge
      · rw [Option.map_eq_some'] at h
        obtain ⟨s1, hs1, rfl⟩ := h
        simp only [Bool.and_eq_true, Bool.not_eq_true', Bool.not_eq_eq_eq_not, Bool.not_true] at hedge
        simp [allowedTransitions, hedge]
      · simp only [Option.some.injEq] at h
        subst h
        simp only [Bool.and_eq_true, Bool.not_eq_true', Bool.not_eq_eq_eq_not, Bool.not_true] at hedge
        simp [allowedTransitions, AstroLib.endOfTick, hst]
        try (intro ha; by_contra hb; exact hedge ⟨ha, by simpa using hb⟩)
    | GAME =>
      obtain ⟨hc1, -⟩ := AstroLib.afterCollisions_control env inp s
      rw [hst] at h
      dsimp only at h
      split_ifs at h with h1 h2 h3
      · simp only [Option.some.injEq] at h
        subst h
        simp [allowedTransitions, h1]
      · simp only [Option.some.injEq] at h
        subst h
        simp [allowedTransitions, h1]
      · rw [Option.map_eq_some'] at h
        obtain ⟨s2, hs2, rfl⟩ := h
        have hw := (AstroLib.spawnNewWave_control env fuel _ s2 hs2).1
        simp only [AstroLib.endOfTick]
        rw [hw, hc1, hst]
        simp [allowedTransitions]
        try (intro ha; by_contra hb; exact h1 ⟨ha, by simpa using hb⟩)
      · simp only [Option.some.injEq] at h
        subst h
        simp only [AstroLib.endOfTick]
        rw [hc1, hst]
        simp [allowedTransitions]
        try (intro ha; by_contra hb; exact h1 ⟨ha, by simpa using hb⟩)
    | GAME_OVER =>
      rw [hst] at h
      dsimp only at h
      split_ifs at h with hedge
      · simp only [Option.some.injEq] at h
        subst h
        simp only [Bool.and_eq_true, Bool.not_eq_true', Bool.not_eq_eq_eq_not, Bool.not_true] at hedge
        simp [allowedTransitions, hedge]
      · simp only [Option.some.injEq] at h
        subst h
        simp only [Bool.and_eq_true, Bool.not_eq_true', Bool.not_eq_eq_eq_not, Bool.not_true] at hedge
        simp [allowedTransitions, AstroLib.endOfTick, hst]
        try (intro ha; by_contra hb; exact hedge ⟨ha, by simpa using hb⟩)

theorem game_flow_transitions_witness :
    gameOverState.update alternatingEnv 0 firePressed = some gameOverStateAfterFire ∧
    ((gameOverState.currentState, gameOverStateAfterFire.currentState) ∈ allowedTransitions ∧
    ((gameOverState.currentState = GameState.START ∧
        gameOverStateAfterFire.currentState = GameState.GAME) ↔
      (gameOverState.currentState = GameState.START ∧
        gameOverState.anyFireButtonDown firePressed = true ∧
        gameOverState.fireButtonPressedLastFrame = false)) ∧
    ((gameOverState.currentState = GameState.GAME_OVER ∧
        gameOverStateAfterFire.currentState = GameState.START) ↔
      (gameOverState.currentState = GameState.GAME_OVER ∧
        gameOverState.anyFireButtonDown firePressed = true ∧
        gameOverState.fireButtonPressedLastFrame = false)) ∧
    ((gameOverState.currentState = GameState.GAME ∧
        gameOverStateAfterFire.currentState = GameState.GAME_OVER) ↔
      (gameOverState.currentState = GameState.GAME ∧
        (gameOverState.afterCollisions alternatingEnv firePressed).lives ≤ 0 ∧
        (gameOverState.afterCollisions alternatingEnv firePressed).ship.active = false)) ∧
    ∃ fuel' s'', gameOverState.update alternatingEnv fuel' firePressed = some s'') :=
  ⟨rfl,
    (game_flow_transitions alternatingEnv 0 firePressed gameOverState gameOverStateAfterFire
      rfl).1,
    (game_flow_transitions alternatingEnv 0 firePressed gameOverState gameOverStateAfterFire
      rfl).2.1,
    (game_flow_transitions alternatingEnv 0 firePressed gameOverState gameOverStateAfterFire
      rfl).2.2.1,
    (game_flow_transitions alternatingEnv 0 firePressed gameOverState gameOverStateAfterFire
      rfl).2.2.2.1,
    (game_flow_transitions alternatingEnv 0 firePressed gameOverState gameOverStateAfterFire
      rfl).2.2.2.2 alternatingEnv_fair_reset alternatingEnv_fair_wave⟩

/-! ## The two collision passes as first-match searches -/

namespace AstroLib

theorem bulletScan_eq (env : Env) (clock : ℕ) (i : Fin MAX_BULLETS) (s : AstroLib) :
    ∀ js : List (Fin MAX_ASTEROIDS), bulletScan env clock i js s =
      match js.find? (fun j => (s.asteroids j).active && collides (s.bullets i) (s.asteroids j)) with
      | some j => s.bulletHit env clock i j
      | none => s := by
  intro js
  induction js with
  | nil => rfl
  | cons j js ih =>
    unfold bulletScan
    rw [List.find?_cons]
    cases hact : (s.asteroids j).active with
    | false => simpa using ih
    | true =>
      cases hcol : collides (s.bullets i) (s.asteroids j) with
      | false => simpa using ih
      | true => simp

theorem bulletStep_eq (env : Env) (clock : ℕ) (s : AstroLib) (i : Fin MAX_BULLETS) :
    s.bulletStep env clock i =
      if (s.bullets i).active = true then
        match firstHit s i with
        | some j => s.bulletHit env clock i j
        | none => s
      else s := by
  unfold bulletStep
  cases hact : (s.bullets i).active with
  | false => simp
  | true => simpa [firstHit] using bulletScan_eq env clock i s _

theorem shipScan_eq (clock : ℕ) (s : AstroLib) :
    ∀ js : List (Fin MAX_ASTEROIDS), shipScan clock js s =
      match js.find? (fun j => (s.asteroids j).active && collides s.ship (s.asteroids j)) with
      | some j => s.shipHit clock j
      | none => s := by
  intro js
  induction js with
  | nil => rfl
  | cons j js ih =>
    unfold shipScan
    rw [List.find?_cons]
    cases hact : (s.asteroids j).active with
    | false => simpa using ih
    | true =>
      cases hcol : collides s.ship (s.asteroids j) with
      | false => simpa using ih
      | true => simp

theorem shipPass_eq (clock : ℕ) (s : AstroLib) :
    s.shipPass clock =
      if s.ship.active = true ∧ ¬ s.ship.lifetime > 0 then
        match shipFirstHit s with
        | some j => s.shipHit clock j
        | none => s
      else s := by
  unfold shipPass
  dsimp only
  by_cases h : s.ship.active = true ∧ ¬ s.ship.lifetime > 0
  · rw [if_pos h, if_pos (by simpa using h)]
    exact shipScan_eq clock s _
  · rw [if_neg h, if_neg (by simpa using h)]

theorem firstHit_some (s : AstroLib) (i : Fin MAX_BULLETS) (j : Fin MAX_ASTEROIDS)
    (h : firstHit s i = some j) :
    (s.asteroids j).active = true ∧ collides (s.bullets i) (s.asteroids j) = true := by
  unfold firstHit at h
  simpa using List.find?_some h

theorem shipFirstHit_some (s : AstroLib) (j : Fin MAX_ASTEROIDS) (h : shipFirstHit s = some j) :
    (s.asteroids j).active = true ∧ collides s.ship (s.asteroids j) = true := by
  unfold shipFirstHit at h
  simpa using List.find?_some h

/-! ## Relations kept by the two collision passes -/

theorem bulletPass_rel (R : AstroLib → AstroLib → Prop) (env : Env) (clock : ℕ)
    (hrefl : ∀ s, R s s) (htrans : ∀ s t u, R s t → R t u → R s u)
    (hhit : ∀ s i j, (s.bullets i).active = true → firstHit s i = some j →
      R s (s.bulletHit env clock i j))
    (s : AstroLib) : R s (s.bulletPass env clock) := by
  have hstep : ∀ (t : AstroLib) (i : Fin MAX_BULLETS), R t (t.bulletStep env clock i) := by
    intro t i
    rw [bulletStep_eq]
    split_ifs with h1
    · cases h2 : firstHit t i with
      | none => exact hrefl t
      | some j => exact hhit t i j h1 h2
    · exact hrefl t
  have hfold : ∀ (is : List (Fin MAX_BULLETS)) (t : AstroLib),
      R t (is.foldl (bulletStep env clock) t) := by
    intro is
    induction is with
    | nil => intro t; exact hrefl t
    | cons i is ih =>
      intro t
      rw [List.foldl_cons]
      exact htrans _ _ _ (hstep t i) (ih _)
  exact hfold _ s

theorem shipPass_rel (R : AstroLib → AstroLib → Prop) (clock : ℕ) (s : AstroLib)
    (hrefl : R s s)
    (hhit : ∀ j, s.ship.active = true → ¬ s.ship.lifetime > 0 → shipFirstHit s = some j →
      R s (s.shipHit clock j)) : R s (s.shipPass clock) := by
  rw [shipPass_eq]
  split_ifs with h1
  · cases h2 : shipFirstHit s with
    | none => exact hrefl
    | some j => exact hhit j h1.1 h1.2 h2
  · exact hrefl

theorem handleCollisions_rel (R : AstroLib → AstroLib → Prop) (env : Env) (clock : ℕ)
    (hrefl : ∀ s, R s s) (htrans : ∀ s t u, R s t → R t u → R s u)
    (hbullet : ∀ s i j, (s.bullets i).active = true → firstHit s i = some j →
      R s (s.bulletHit env clock i j))
    (hship : ∀ s j, s.ship.active = true → ¬ s.ship.lifetime > 0 → shipFirstHit s = some j →
      R s (s.shipHit clock j))
    (s : AstroLib) : R s (s.handleCollisions env clock) :=
  htrans _ _ _ (bulletPass_rel R env clock hrefl htrans hbullet s)
    (shipPass_rel R clock _ (hrefl _) (hship _))

end AstroLib

/-! ## Bullets are activated by the firing block only -/

namespace AstroLib

theorem spawnAsteroid_frame (env : Env) (size : ℤ) (x y vx vy : ℚ) (s : AstroLib) :
    ∃ (a' : Fin MAX_ASTEROIDS → GameObject) (p' : ℕ),
      s.spawnAsteroid env size x y vx vy = { s with asteroids := a', rngPos := p' } := by
  cases h : s.findInactiveAsteroidSlot with
  | none => exact ⟨s.asteroids, s.rngPos, spawnAsteroid_full env size x y vx vy s h⟩
  | some k =>
    obtain ⟨o, p, heq, -⟩ := spawnAsteroid_slot env size x y vx vy s k h
    exact ⟨_, p, heq⟩

theorem breakAsteroid_frame (env : Env) (j : Fin MAX_ASTEROIDS) (s : AstroLib) :
    ∃ (a' : Fin MAX_ASTEROIDS → GameObject) (p' : ℕ),
      s.breakAsteroid env j = { s with asteroids := a', rngPos := p' } := by
  have htwo : ∀ (size : ℤ),
      ∃ (a' : Fin MAX_ASTEROIDS → GameObject) (p' : ℕ),
        (s.spawnAsteroid env size (s.asteroids j).pos.x (s.asteroids j).pos.y
          (s.asteroids j).vel.x (s.asteroids j).vel.y).spawnAsteroid env size
          ((s.spawnAsteroid env size (s.asteroids j).pos.x (s.asteroids j).pos.y
            (s.asteroids j).vel.x (s.asteroids j).vel.y).asteroids j).pos.x
          ((s.spawnAsteroid env size (s.asteroids j).pos.x (s.asteroids j).pos.y
            (s.asteroids j).vel.x (s.asteroids j).vel.y).asteroids j).pos.y
          ((s.spawnAsteroid env size (s.asteroids j).pos.x (s.asteroids j).pos.y
            (s.asteroids j).vel.x (s.asteroids j).vel.y).asteroids j).vel.x
          ((s.spawnAsteroid env size (s.asteroids j).pos.x (s.asteroids j).pos.y
            (s.asteroids j).vel.x (s.asteroids j).vel.y).asteroids j).vel.y
        = { s with asteroids := a', rngPos := p' } := by
    intro size
    obtain ⟨a1, p1, h1⟩ := spawnAsteroid_frame env size (s.asteroids j).pos.x
      (s.asteroids j).pos.y (s.asteroids j).vel.x (s.asteroids j).vel.y s
    rw [h1]
    obtain ⟨a2, p2, h2⟩ := spawnAsteroid_frame env size (a1 j).pos.x (a1 j).pos.y (a1 j).vel.x
      (a1 j).vel.y { s with asteroids := a1, rngPos := p1 }
    exact ⟨a2, p2, h2⟩
  unfold breakAsteroid
  dsimp only
  split_ifs
  · exact htwo _
  · exact htwo _
  · exact ⟨s.asteroids, s.rngPos, rfl⟩

theorem noBulletFired_refl (s : AstroLib) : NoBulletFired s s :=
  ⟨fun _ h => h, rfl⟩

theorem noBulletFired_trans (s t u : AstroLib) (h1 : NoBulletFired s t)
    (h2 : NoBulletFired t u) : NoBulletFired s u :=
  ⟨fun i h => h1.1 i (h2.1 i h), h2.2.trans h1.2⟩

theorem bulletHit_noBulletFired (env : Env) (clock : ℕ) (i : Fin MAX_BULLETS)
    (j : Fin MAX_ASTEROIDS) (s : AstroLib) : NoBulletFired s (s.bulletHit env clock i j) := by
  unfold bulletHit
  obtain ⟨a', p', heq⟩ := breakAsteroid_frame env j (s.hitEffects clock i j)
  rw [heq]
  refine ⟨?_, rfl⟩
  intro k hk
  simp only [hitEffects] at hk
  by_cases hki : k = i
  · subst hki
    rw [Function.update_same] at hk
    exact absurd hk (by simp)
  · rw [Function.update_noteq hki] at hk
    exact hk

theorem shipHit_noBulletFired (clock : ℕ) (j : Fin MAX_ASTEROIDS) (s : AstroLib) :
    NoBulletFired s (s.shipHit clock j) := by
  unfold shipHit
  dsimp only
  split_ifs <;> exact ⟨fun _ h => h, rfl⟩

theorem handleCollisions_noBulletFired (env : Env) (clock : ℕ) (s : AstroLib) :
    NoBulletFired s (s.handleCollisions env clock) :=
  handleCollisions_rel NoBulletFired env clock noBulletFired_refl noBulletFired_trans
    (fun s i j _ _ => bulletHit_noBulletFired env clock i j s)
    (fun s j _ _ _ => shipHit_noBulletFired clock j s) s

theorem updateGameObjects_noBulletFired (clock : ℕ) (s : AstroLib) :
    NoBulletFired s (s.updateGameObjects clock) := by
  refine ⟨?_, rfl⟩
  intro i hi
  simp only [updateGameObjects, updateBullet] at hi
  by_contra hn
  rw [if_neg hn] at hi
  exact hn hi

theorem handleInput_noBulletFired (env : Env) (clock : ℕ) (joyX joyY : ℤ) (fire hyper : Bool)
    (s : AstroLib) (hlatch : fire = false ∨ s.fireButtonPressedLastFrame = true) :
    NoBulletFired s (s.handleInput env clock joyX joyY fire hyper) := by
  have h1 : ∀ t : AstroLib, (t.handleRotation joyX).bullets = t.bullets ∧
      (t.handleRotation joyX).lastFireTime = t.lastFireTime ∧
      (t.handleRotation joyX).fireButtonPressedLastFrame = t.fireButtonPressedLastFrame := by
    intro t
    unfold handleRotation
    dsimp only
    split_ifs <;> exact ⟨rfl, rfl, rfl⟩
  have h2 : ∀ t : AstroLib, (t.handleThrust env clock joyY).bullets = t.bullets ∧
      (t.handleThrust env clock joyY).lastFireTime = t.lastFireTime ∧
      (t.handleThrust env clock joyY).fireButtonPressedLastFrame
        = t.fireButtonPressedLastFrame := by
    intro t
    unfold handleThrust
    dsimp only
    split_ifs <;> exact ⟨rfl, rfl, rfl⟩
  have h3 : ∀ t : AstroLib, (fire = false ∨ t.fireButtonPressedLastFrame = true) →
      t.handleFire env clock fire = t := by
    intro t ht
    unfold handleFire
    dsimp only
    rw [if_neg]
    rcases ht with ht | ht <;> simp [ht]
  have h4 : ∀ t : AstroLib, (t.handleHyperspace env clock hyper).bullets = t.bullets ∧
      (t.handleHyperspace env clock hyper).lastFireTime = t.lastFireTime := by
    intro t
    unfold handleHyperspace triggerHyperspace nextRandom
    dsimp only
    split_ifs <;> exact ⟨rfl, rfl⟩
  unfold handleInput
  split_ifs
  · exact ⟨fun _ h => h, rfl⟩
  · exact noBulletFired_refl s
  · dsimp only
    have hl : fire = false ∨
        ((s.handleRotation joyX).handleThrust env clock joyY).fireButtonPressedLastFrame
          = true := by
      rcases hlatch with h | h
      · exact Or.inl h
      · right
        rw [(h2 _).2.2, (h1 _).2.2, h]
    rw [h3 _ hl]
    constructor
    · intro i hi
      rw [(h4 _).1, (h2 _).1, (h1 _).1] at hi
      exact hi
    · rw [(h4 _).2, (h2 _).2.1, (h1 _).2.1]

theorem afterCollisions_noBulletFired (env : Env) (inp : TickInput) (s : AstroLib)
    (hlatch : s.anyFireButtonDown inp = false ∨ s.fireButtonPressedLastFrame = true) :
    NoBulletFired s (s.afterCollisions env inp) :=
  noBulletFired_trans _ _ _ (noBulletFired_trans _ _ _
    (handleInput_noBulletFired env _ _ _ _ _ s hlatch)
    (updateGameObjects_noBulletFired _ _)) (handleCollisions_noBulletFired env _ _)

end AstroLib

namespace AstroLib

theorem update_of_start (env : Env) (fuel : ℕ) (inp : TickInput) (s : AstroLib)
    (h : s.currentState = GameState.START) : s.update env fuel inp = s.updateStart env fuel inp := by
  unfold update; rw [h]

theorem update_of_game (env : Env) (fuel : ℕ) (inp : TickInput) (s : AstroLib)
    (h : s.currentState = GameState.GAME) : s.update env fuel inp = s.updateGame env fuel inp := by
  unfold update; rw [h]

theorem update_of_gameOver (env : Env) (fuel : ℕ) (inp : TickInput) (s : AstroLib)
    (h : s.currentState = GameState.GAME_OVER) : s.update env fuel inp = s.updateGameOver inp := by
  unfold update; rw [h]

theorem spawnNewWave_frame (env : Env) (fuel : ℕ) (s s' : AstroLib)
    (h : s.spawnNewWave env fuel = some s') :
    ∃ (a' : Fin MAX_ASTEROIDS → GameObject) (p' : ℕ),
      s' = { s with audio := s.audio.stopAllSounds, asteroids := a', rngPos := p' } := by
  unfold spawnNewWave at h
  dsimp only at h
  obtain ⟨a', p', heq, -⟩ := spawnLargeAsteroids_spec env _ fuel _ _ s' h
  exact ⟨a', p', heq⟩

/-- The three ways a `GAME` tick can end. -/
theorem updateGame_cases (env : Env) (fuel : ℕ) (inp : TickInput) (s s' : AstroLib)
    (h : s.updateGame env fuel inp = some s') :
    (((s.afterCollisions env inp).lives ≤ 0 ∧ (s.afterCollisions env inp).ship.active = false) ∧
      s' = (s.afterCollisions env inp).enterGameOver) ∨
    (¬ ((s.afterCollisions env inp).lives ≤ 0 ∧ (s.afterCollisions env inp).ship.active = false) ∧
      ((s.afterCollisions env inp).checkLevelClear = true ∧ (s.afterCollisions env inp).lives > 0) ∧
      ∃ s2, (s.afterCollisions env inp).spawnNewWave env fuel = some s2 ∧
        s' = s2.endOfTick (inp.clock + 1500) (s.anyFireButtonDown inp)
          (s.digitalHyperspaceDown inp)) ∨
    (¬ ((s.afterCollisions env inp).lives ≤ 0 ∧ (s.afterCollisions env inp).ship.active = false) ∧
      ¬ ((s.afterCollisions env inp).checkLevelClear = true ∧
        (s.afterCollisions env inp).lives > 0) ∧
      s' = (s.afterCollisions env inp).endOfTick inp.clock (s.anyFireButtonDown inp)
        (s.digitalHyperspaceDown inp)) := by
  unfold updateGame at h
  dsimp only at h
  split_ifs at h with h1 h2
  · left
    simp only [Option.some.injEq] at h
    exact ⟨h1, h.symm⟩
  · right; left
    rw [Option.map_eq_some'] at h
    obtain ⟨s2, hs2, rfl⟩ := h
    exact ⟨h1, h2, s2, hs2, rfl⟩
  · right; right
    simp only [Option.some.injEq] at h
    exact ⟨h1, h2, h.symm⟩

end AstroLib

namespace AstroLib

theorem enterGameOver_fields (s : AstroLib) :
    s.enterGameOver.currentState = GameState.GAME_OVER ∧
    s.enterGameOver.fireButtonPressedLastFrame = true ∧
    s.enterGameOver.bullets = s.bullets ∧ s.enterGameOver.asteroids = s.asteroids ∧
    s.enterGameOver.lastFireTime = s.lastFireTime ∧ s.enterGameOver.score = s.score ∧
    s.enterGameOver.lives = s.lives ∧ s.enterGameOver.ship = s.ship := by
  unfold enterGameOver
  dsimp only
  split_ifs <;> exact ⟨rfl, rfl, rfl, rfl, rfl, rfl, rfl, rfl⟩

/-- What a completed `GAME` tick keeps from the state after the collision pass. -/
theorem updateGame_keeps (env : Env) (fuel : ℕ) (inp : TickInput) (s s' : AstroLib)
    (h : s.updateGame env fuel inp = some s') :
    s'.bullets = (s.afterCollisions env inp).bullets ∧
    s'.lastFireTime = (s.afterCollisions env inp).lastFireTime ∧
    s'.score = (s.afterCollisions env inp).score ∧
    s'.lives = (s.afterCollisions env inp).lives ∧
    s'.ship = (s.afterCollisions env inp).ship := by
  rcases updateGame_cases env fuel inp s s' h with ⟨-, rfl⟩ | ⟨-, -, s2, hs2, rfl⟩ | ⟨-, -, rfl⟩
  · have := enterGameOver_fields (s.afterCollisions env inp)
    exact ⟨this.2.2.1, this.2.2.2.2.1, this.2.2.2.2.2.1, this.2.2.2.2.2.2.1, this.2.2.2.2.2.2.2⟩
  · obtain ⟨a', p', rfl⟩ := spawnNewWave_frame env fuel _ s2 hs2
    exact ⟨rfl, rfl, rfl, rfl, rfl⟩
  · exact ⟨rfl, rfl, rfl, rfl, rfl⟩

end AstroLib

/-- C4: edge latch. After every call of `update` that changes `currentState` the latch
  `fireButtonPressedLastFrame` is true. Hence with the fire input held down over two
  consecutive ticks: from `GAME_OVER` with the latch clear the state after the second tick is
  `START` (not `GAME`); and from `START` with the latch clear the first tick enters `GAME` and
  the following `GAME` tick spawns no bullet (every bullet slot is inactive, `lastFireTime`
  is untouched). -/
theorem fire_edge_latch (env : Env) (fuel1 fuel2 : ℕ) (inp1 inp2 : TickInput)
    (s s1 s2 : AstroLib)
    (h1 : s.update env fuel1 inp1 = some s1) (h2 : s1.update env fuel2 inp2 = some s2) :
    (s1.currentState ≠ s.currentState → s1.fireButtonPressedLastFrame = true) ∧
    (s.currentState = GameState.GAME_OVER → s.fireButtonPressedLastFrame = false →
      s.anyFireButtonDown inp1 = true → s1.anyFireButtonDown inp2 = true →
      s1.currentState = GameState.START ∧ s2.currentState = GameState.START) ∧
    (s.currentState = GameState.START → s.fireButtonPressedLastFrame = false →
      s.anyFireButtonDown inp1 = true → s1.anyFireButtonDown inp2 = true →
      s1.currentState = GameState.GAME ∧ (∀ i, (s2.bullets i).active = false) ∧
      s2.lastFireTime = s1.lastFireTime) := by
  refine ⟨?_, ?_, ?_⟩
  · intro hne
    cases hst : s.currentState with
    | START =>
      rw [AstroLib.update_of_start env fuel1 inp1 s hst] at h1
      unfold AstroLib.updateStart at h1
      dsimp only at h1
      split_ifs at h1
      · rw [Option.map_eq_some'] at h1
        obtain ⟨r, -, rfl⟩ := h1
        rfl
      · simp only [Option.some.injEq] at h1
        subst h1
        exact absurd rfl hne
    | GAME =>
      rw [AstroLib.update_of_game env fuel1 inp1 s hst] at h1
      have hc := (AstroLib.afterCollisions_control env inp1 s).1
      rcases AstroLib.updateGame_cases env fuel1 inp1 s s1 h1 with
        ⟨-, rfl⟩ | ⟨-, -, t, ht, rfl⟩ | ⟨-, -, rfl⟩
      · exact (AstroLib.enterGameOver_fields _).2.1
      · obtain ⟨a', p', rfl⟩ := AstroLib.spawnNewWave_frame env fuel1 _ t ht
        exact absurd hc hne
      · exact absurd hc hne
    | GAME_OVER =>
      rw [AstroLib.update_of_gameOver env fuel1 inp1 s hst] at h1
      unfold AstroLib.updateGameOver at h1
      dsimp only at h1
      split_ifs at h1
      · simp only [Option.some.injEq] at h1
        subst h1
        rfl
      · simp only [Option.some.injEq] at h1
        subst h1
        exact absurd rfl hne
  · intro hst hlatch hf1 hf2
    rw [AstroLib.update_of_gameOver env fuel1 inp1 s hst] at h1
    unfold AstroLib.updateGameOver at h1
    dsimp only at h1
    rw [if_pos (by simp [hf1, hlatch])] at h1
    simp only [Option.some.injEq] at h1
    subst h1
    rw [AstroLib.update_of_start env fuel2 inp2 _ rfl] at h2
    unfold AstroLib.updateStart at h2
    dsimp only at h2
    rw [if_neg (by simp)] at h2
    simp only [Option.some.injEq] at h2
    subst h2
    exact ⟨rfl, rfl⟩
  · intro hst hlatch hf1 hf2
    rw [AstroLib.update_of_start env fuel1 inp1 s hst] at h1
    unfold AstroLib.updateStart at h1
    dsimp only at h1
    rw [if_pos (by simp [hf1, hlatch])] at h1
    rw [Option.map_eq_some'] at h1
    obtain ⟨r, hr, rfl⟩ := h1
    have hbul := (AstroLib.resetGame_spec env fuel1 _ s r hr).2.2.1
    rw [AstroLib.update_of_game env fuel2 inp2 _ rfl] at h2
    obtain ⟨hk1, hk2, -⟩ := AstroLib.updateGame_keeps env fuel2 inp2 _ s2 h2
    obtain ⟨hn1, hn2⟩ := AstroLib.afterCollisions_noBulletFired env inp2
      { r with
        currentState := GameState.GAME
        fireButtonPressedLastFrame := true
        hyperspaceButtonPressedLastFrame := true } (Or.inr rfl)
    refine ⟨rfl, ?_, ?_⟩
    · intro i
      rw [hk1]
      by_contra hact
      have := hn1 i (by simpa using hact)
      rw [hbul i] at this
      exact absurd this (by decide)
    · rw [hk2, hn2]

theorem fire_edge_latch_witness :
    gameOverState.update demoEnv 0 firePressed = some gameOverStateAfterFire ∧
    gameOverStateAfterFire.update demoEnv 0 firePressed = some gameOverStateAfterHold ∧
    ((gameOverStateAfterFire.currentState ≠ gameOverState.currentState →
      gameOverStateAfterFire.fireButtonPressedLastFrame = true) ∧
    (gameOverState.currentState = GameState.GAME_OVER →
      gameOverState.fireButtonPressedLastFrame = false →
      gameOverState.anyFireButtonDown firePressed = true →
      gameOverStateAfterFire.anyFireButtonDown firePressed = true →
      gameOverStateAfterFire.currentState = GameState.START ∧
      gameOverStateAfterHold.currentState = GameState.START) ∧
    (gameOverState.currentState = GameState.START →
      gameOverState.fireButtonPressedLastFrame = false →
      gameOverState.anyFireButtonDown firePressed = true →
      gameOverStateAfterFire.anyFireButtonDown firePressed = true →
      gameOverStateAfterFire.currentState = GameState.GAME ∧
      (∀ i, (gameOverStateAfterHold.bullets i).active = false) ∧
      gameOverStateAfterHold.lastFireTime = gameOverStateAfterFire.lastFireTime)) :=
  ⟨rfl, rfl, fire_edge_latch demoEnv 0 0 firePressed firePressed gameOverState
    gameOverStateAfterFire gameOverStateAfterHold rfl rfl⟩

namespace AstroLib

theorem checkLevelClear_iff (s : AstroLib) :
    s.checkLevelClear = true ↔ ∀ j, (s.asteroids j).active = false := by
  unfold checkLevelClear
  rw [List.all_eq_true]
  simp [List.mem_finRange]

/-- The number of asteroids `spawnNewWave` asks for, as computed from the score. -/
theorem spawnNewWave_spec (env : Env) (fuel : ℕ) (s s' : AstroLib)
    (h : s.spawnNewWave env fuel = some s') (hclear : ∀ j, (s.asteroids j).active = false) :
    activeCount s'.asteroids
      = (min (MAX_ASTEROIDS : ℤ) ((STARTING_ASTEROIDS : ℤ) + Int.tdiv s.score 500)).toNat ∧
    (∀ j, (s'.asteroids j).active = true → FreshLarge s.ship.pos waveClearance2 (s'.asteroids j)) := by
  unfold spawnNewWave at h
  dsimp only at h
  obtain ⟨a', p', heq, hcount, hslots⟩ := spawnLargeAsteroids_spec env _ fuel _ _ s' h
  subst heq
  dsimp only at hcount hslots ⊢
  rw [(activeCount_eq_zero_iff s.asteroids).2 hclear] at hcount
  constructor
  · rw [hcount]
    split_ifs with hbig
    · simp only [STARTING_ASTEROIDS, MAX_ASTEROIDS, Nat.cast_ofNat] at hbig ⊢
      omega
    · simp only [STARTING_ASTEROIDS, MAX_ASTEROIDS, Nat.cast_ofNat] at hbig ⊢
      omega
  · intro j hj
    rcases hslots j with hsame | ⟨-, hfresh⟩
    · rw [hsame, hclear j] at hj
      exact absurd hj (by decide)
    · exact hfresh

end AstroLib

/-- C5: wave advance. In a `GAME` tick where, after the collision pass, no asteroid is active
  and `lives > 0`, every call of `update` that returns leaves `currentState = GAME` with exactly
  `min(MAX_ASTEROIDS, STARTING_ASTEROIDS + score / 500)` active asteroids (C integer division of
  the score after the collision pass; the formula is exact as an integer for every score
  `≥ 0`), each of size `LARGE` with radius 10; and the call returns, given enough fuel, for
  every random stream on which the rejection loop of `spawnNewWave` finishes. -/
theorem wave_advance (env : Env) (inp : TickInput) (s : AstroLib)
    (hgame : s.currentState = GameState.GAME)
    (hclear : ∀ j, ((s.afterCollisions env inp).asteroids j).active = false)
    (hlives : (s.afterCollisions env inp).lives > 0) :
    (∀ fuel s', s.update env fuel inp = some s' →
      s'.currentState = GameState.GAME ∧
      activeCount s'.asteroids
        = (min (MAX_ASTEROIDS : ℤ)
            ((STARTING_ASTEROIDS : ℤ) + Int.tdiv (s.afterCollisions env inp).score 500)).toNat ∧
      (0 ≤ (s.afterCollisions env inp).score →
        (activeCount s'.asteroids : ℤ)
          = min (MAX_ASTEROIDS : ℤ)
              ((STARTING_ASTEROIDS : ℤ) + (s.afterCollisions env inp).score / 500)) ∧
      ∀ j, (s'.asteroids j).active = true →
        (s'.asteroids j).size = ASTEROID_SIZE_LARGE ∧ (s'.asteroids j).radius = 10) ∧
    (FairAt env.rand (s.afterCollisions env inp).ship.pos waveClearance2 →
      ∃ fuel s', s.update env fuel inp = some s') := by
  have hnotover : ¬ ((s.afterCollisions env inp).lives ≤ 0 ∧
      (s.afterCollisions env inp).ship.active = false) := fun h => absurd h.1 (not_le.2 hlives)
  have hcl := (AstroLib.checkLevelClear_iff _).2 hclear
  constructor
  · intro fuel s' h
    rw [AstroLib.update_of_game env fuel inp s hgame] at h
    rcases AstroLib.updateGame_cases env fuel inp s s' h with
      ⟨hover, -⟩ | ⟨-, -, s2, hs2, rfl⟩ | ⟨-, hno, -⟩
    · exact absurd hover hnotover
    · obtain ⟨hcount, hfresh⟩ := AstroLib.spawnNewWave_spec env fuel _ s2 hs2 hclear
      have hstate : s2.currentState = GameState.GAME := by
        rw [(AstroLib.spawnNewWave_control env fuel _ s2 hs2).1,
          (AstroLib.afterCollisions_control env inp s).1, hgame]
      refine ⟨hstate, hcount, ?_, fun j hj => ⟨(hfresh j hj).2.1, (hfresh j hj).2.2.1⟩⟩
      intro hscore
      have hdiv : Int.tdiv (s.afterCollisions env inp).score 500
          = (s.afterCollisions env inp).score / 500 := Int.tdiv_eq_ediv hscore (by norm_num)
      have hq : 0 ≤ (s.afterCollisions env inp).score / 500 := Int.ediv_nonneg hscore (by norm_num)
      simp only [AstroLib.endOfTick]
      rw [hcount, hdiv]
      simp only [STARTING_ASTEROIDS, MAX_ASTEROIDS, Nat.cast_ofNat]
      omega
    · exact absurd ⟨hcl, hlives⟩ hno
  · intro hfair
    obtain ⟨fuel, s2, hs2⟩ := AstroLib.spawnNewWave_of_fair env _ hfair
    refine ⟨fuel, s2.endOfTick (inp.clock + 1500) (s.anyFireButtonDown inp)
      (s.digitalHyperspaceDown inp), ?_⟩
    rw [AstroLib.update_of_game env fuel inp s hgame]
    unfold AstroLib.updateGame
    dsimp only
    rw [if_neg hnotover, if_pos ⟨hcl, hlives⟩, hs2]
    rfl

theorem demoEnv_fair_wave :
    FairAt demoEnv.rand (clearedState.afterCollisions demoEnv idleInput).ship.pos
      waveClearance2 := by
  have hpos : (clearedState.afterCollisions demoEnv idleInput).ship.pos = screenCentre := by
    with_unfolding_all rfl
  rw [hpos]
  intro p
  refine ⟨0, ?_⟩
  norm_num [sampleAt, random, dist2, screenCentre, waveClearance2, demoEnv]

theorem wave_advance_witness :
    clearedState.currentState = GameState.GAME ∧
    (∀ j, ((clearedState.afterCollisions demoEnv idleInput).asteroids j).active = false) ∧
    (clearedState.afterCollisions demoEnv idleInput).lives > 0 ∧
    (∀ fuel s', clearedState.update demoEnv fuel idleInput = some s' →
      s'.currentState = GameState.GAME ∧
      activeCount s'.asteroids
        = (min (MAX_ASTEROIDS : ℤ)
            ((STARTING_ASTEROIDS : ℤ) +
              Int.tdiv (clearedState.afterCollisions demoEnv idleInput).score 500)).toNat ∧
      (0 ≤ (clearedState.afterCollisions demoEnv idleInput).score →
        (activeCount s'.asteroids : ℤ)
          = min (MAX_ASTEROIDS : ℤ)
              ((STARTING_ASTEROIDS : ℤ) +
                (clearedState.afterCollisions demoEnv idleInput).score / 500)) ∧
      ∀ j, (s'.asteroids j).active = true →
        (s'.asteroids j).size = ASTEROID_SIZE_LARGE ∧ (s'.asteroids j).radius = 10) ∧
    ∃ fuel s', clearedState.update demoEnv fuel idleInput = some s' :=
  ⟨rfl, fun _ => rfl, by decide,
    (wave_advance demoEnv idleInput clearedState rfl (fun _ => rfl) (by decide)).1,
    (wave_advance demoEnv idleInput clearedState rfl (fun _ => rfl) (by decide)).2
      demoEnv_fair_wave⟩

namespace AstroLib

/-- On the game-over branch of a `GAME` tick `update` returns for every fuel. -/
theorem updateGame_over (env : Env) (fuel : ℕ) (inp : TickInput) (s : AstroLib)
    (h : (s.afterCollisions env inp).lives ≤ 0 ∧ (s.afterCollisions env inp).ship.active = false) :
    s.updateGame env fuel inp = some (s.afterCollisions env inp).enterGameOver := by
  unfold updateGame
  dsimp only
  rw [if_pos h]

end AstroLib

/-- C6: game-over takes precedence over level-clear. In a `GAME` tick where, after the
  collision pass, `lives ≤ 0`, the ship is inactive and no asteroid is active, `update`
  returns (for every fuel) a state with `currentState = GAME_OVER` in which every asteroid
  slot is still inactive: no new wave is spawned, and no random draw is taken for one. -/
theorem game_over_before_level_clear (env : Env) (fuel : ℕ) (inp : TickInput) (s : AstroLib)
    (hgame : s.currentState = GameState.GAME)
    (hlives : (s.afterCollisions env inp).lives ≤ 0)
    (hship : (s.afterCollisions env inp).ship.active = false)
    (hclear : ∀ j, ((s.afterCollisions env inp).asteroids j).active = false) :
    ∃ s', s.update env fuel inp = some s' ∧ s'.currentState = GameState.GAME_OVER ∧
      (∀ j, (s'.asteroids j).active = false) ∧
      s'.asteroids = (s.afterCollisions env inp).asteroids ∧
      s'.rngPos = (s.afterCollisions env inp).rngPos := by
  refine ⟨(s.afterCollisions env inp).enterGameOver, ?_, ?_, ?_, ?_, ?_⟩
  · rw [AstroLib.update_of_game env fuel inp s hgame]
    exact AstroLib.updateGame_over env fuel inp s ⟨hlives, hship⟩
  · exact (AstroLib.enterGameOver_fields _).1
  · intro j
    rw [(AstroLib.enterGameOver_fields _).2.2.2.1]
    exact hclear j
  · exact (AstroLib.enterGameOver_fields _).2.2.2.1
  · unfold AstroLib.enterGameOver
    dsimp only
    split_ifs <;> rfl

theorem game_over_before_level_clear_witness :
    lostState.currentState = GameState.GAME ∧
    (lostState.afterCollisions demoEnv idleInput).lives ≤ 0 ∧
    (lostState.afterCollisions demoEnv idleInput).ship.active = false ∧
    (∀ j, ((lostState.afterCollisions demoEnv idleInput).asteroids j).active = false) ∧
    ∃ s', lostState.update demoEnv 0 idleInput = some s' ∧
      s'.currentState = GameState.GAME_OVER ∧
      (∀ j, (s'.asteroids j).active = false) ∧
      s'.asteroids = (lostState.afterCollisions demoEnv idleInput).asteroids ∧
      s'.rngPos = (lostState.afterCollisions demoEnv idleInput).rngPos :=
  ⟨rfl, by decide, rfl, fun _ => rfl,
    game_over_before_level_clear demoEnv 0 idleInput lostState rfl (by decide) rfl
      (fun _ => rfl)⟩

/-! ## The last life -/

namespace AstroLib

theorem afterCollisions_eq (env : Env) (inp : TickInput) (s : AstroLib) :
    s.afterCollisions env inp = (s.afterBulletPass env inp).shipPass inp.clock := rfl

theorem handleInput_lives (env : Env) (clock : ℕ) (joyX joyY : ℤ) (fire hyper : Bool)
    (s : AstroLib) :
    (s.handleInput env clock joyX joyY fire hyper).lives = s.lives ∧
    (s.handleInput env clock joyX joyY fire hyper).score = s.score ∧
    (s.handleInput env clock joyX joyY fire hyper).asteroids = s.asteroids := by
  have h1 : ∀ t : AstroLib, (t.handleRotation joyX).lives = t.lives ∧
      (t.handleRotation joyX).score = t.score ∧ (t.handleRotation joyX).asteroids = t.asteroids := by
    intro t
    unfold handleRotation
    dsimp only
    split_ifs <;> exact ⟨rfl, rfl, rfl⟩
  have h2 : ∀ t : AstroLib, (t.handleThrust env clock joyY).lives = t.lives ∧
      (t.handleThrust env clock joyY).score = t.score ∧
      (t.handleThrust env clock joyY).asteroids = t.asteroids := by
    intro t
    unfold handleThrust
    dsimp only
    split_ifs <;> exact ⟨rfl, rfl, rfl⟩
  have h3 : ∀ t : AstroLib, (t.handleFire env clock fire).lives = t.lives ∧
      (t.handleFire env clock fire).score = t.score ∧
      (t.handleFire env clock fire).asteroids = t.asteroids := by
    intro t
    unfold handleFire
    dsimp only
    split_ifs
    · cases t.findInactiveBulletSlot <;> exact ⟨rfl, rfl, rfl⟩
    · exact ⟨rfl, rfl, rfl⟩
  have h4 : ∀ t : AstroLib, (t.handleHyperspace env clock hyper).lives = t.lives ∧
      (t.handleHyperspace env clock hyper).score = t.score ∧
      (t.handleHyperspace env clock hyper).asteroids = t.asteroids := by
    intro t
    unfold handleHyperspace triggerHyperspace nextRandom
    dsimp only
    split_ifs <;> exact ⟨rfl, rfl, rfl⟩
  unfold handleInput
  split_ifs
  · exact ⟨rfl, rfl, rfl⟩
  · exact ⟨rfl, rfl, rfl⟩
  · dsimp only
    exact ⟨by rw [(h4 _).1, (h3 _).1, (h2 _).1, (h1 _).1],
      by rw [(h4 _).2.1, (h3 _).2.1, (h2 _).2.1, (h1 _).2.1],
      by rw [(h4 _).2.2, (h3 _).2.2, (h2 _).2.2, (h1 _).2.2]⟩

theorem afterIntegration_lives (env : Env) (inp : TickInput) (s : AstroLib) :
    (s.afterIntegration env inp).lives = s.lives ∧ (s.afterIntegration env inp).score = s.score :=
  ⟨(handleInput_lives env _ _ _ _ _ s).1, (handleInput_lives env _ _ _ _ _ s).2.1⟩

theorem bulletPass_ship_lives (env : Env) (clock : ℕ) (s : AstroLib) :
    (s.bulletPass env clock).ship = s.ship ∧ (s.bulletPass env clock).lives = s.lives := by
  refine bulletPass_rel (fun a b => b.ship = a.ship ∧ b.lives = a.lives) env clock
    (fun _ => ⟨rfl, rfl⟩) (fun _ _ _ h1 h2 => ⟨h2.1.trans h1.1, h2.2.trans h1.2⟩) ?_ s
  intro t i j _ _
  unfold bulletHit
  obtain ⟨a', p', heq⟩ := breakAsteroid_frame env j (t.hitEffects clock i j)
  rw [heq]
  exact ⟨rfl, rfl⟩

theorem shipFirstHit_isSome (s : AstroLib) (j : Fin MAX_ASTEROIDS)
    (hact : (s.asteroids j).active = true) (hcol : collides s.ship (s.asteroids j) = true) :
    ∃ k, shipFirstHit s = some k := by
  cases h : shipFirstHit s with
  | some k => exact ⟨k, rfl⟩
  | none =>
    unfold shipFirstHit at h
    rw [List.find?_eq_none] at h
    have := h j (List.mem_finRange j)
    simp [hact, hcol] at this

end AstroLib

namespace AstroLib

theorem shipHit_last_life (clock : ℕ) (j : Fin MAX_ASTEROIDS) (s : AstroLib) (h : s.lives = 1) :
    (s.shipHit clock j).lives = 0 ∧ (s.shipHit clock j).ship.active = false := by
  unfold shipHit
  dsimp only
  rw [if_neg (by rw [h]; decide)]
  exact ⟨by rw [h]; rfl, rfl⟩

end AstroLib

/-- C7 as stated fails. In `lastLifeState` (`GAME`, `lives = 1`; after integration the ship
  is active and not invincible and the active asteroid in slot 0 passes the collision test
  with it) one tick leaves `lives = 0` and the ship inactive, but the tick ends in `GAME_OVER`,
  not in `GAME`: the state-machine check of the same tick makes the transition. In
  `lastLifeShotState`, which meets the same conditions, a bullet destroys that asteroid in the
  bullet pass and the tick ends in `GAME` with `lives = 1` and the ship active. -/
theorem last_life_counterexample :
    (lastLifeState.currentState = GameState.GAME ∧ lastLifeState.lives = 1 ∧
      lastLifeState.ship.active = true ∧ lastLifeState.ship.lifetime = 0 ∧
      (lastLifeState.afterIntegration demoEnv lateInput).ship.active = true ∧
      ¬ (lastLifeState.afterIntegration demoEnv lateInput).ship.lifetime > 0 ∧
      ((lastLifeState.afterIntegration demoEnv lateInput).asteroids 0).active = true ∧
      AstroLib.collides (lastLifeState.afterIntegration demoEnv lateInput).ship
        ((lastLifeState.afterIntegration demoEnv lateInput).asteroids 0) = true ∧
      (lastLifeState.update demoEnv 0 lateInput).map lifeView
        = some (GameState.GAME_OVER, 0, false)) ∧
    (lastLifeShotState.currentState = GameState.GAME ∧ lastLifeShotState.lives = 1 ∧
      lastLifeShotState.ship.active = true ∧ lastLifeShotState.ship.lifetime = 0 ∧
      (lastLifeShotState.afterIntegration demoEnv lateInput).ship.active = true ∧
      ¬ (lastLifeShotState.afterIntegration demoEnv lateInput).ship.lifetime > 0 ∧
      ((lastLifeShotState.afterIntegration demoEnv lateInput).asteroids 0).active = true ∧
      AstroLib.collides (lastLifeShotState.afterIntegration demoEnv lateInput).ship
        ((lastLifeShotState.afterIntegration demoEnv lateInput).asteroids 0) = true ∧
      (lastLifeShotState.update demoEnv 0 lateInput).map lifeView
        = some (GameState.GAME, 1, true)) := by
  refine ⟨⟨rfl, rfl, rfl, rfl, ?_, ?_, ?_, ?_, ?_⟩, ⟨rfl, rfl, rfl, rfl, ?_, ?_, ?_, ?_, ?_⟩⟩ <;>
    with_unfolding_all decide

/-- C7, amended: last-life scenario. For every `GAME` state with `lives = 1` in which, after
  integration, the ship is active and not invincible and, when the ship pass runs (after the
  bullet pass), an active asteroid passes the collision test with the ship, one call of
  `update` returns (for every fuel) with `lives = 0`, the ship inactive and
  `currentState = GAME_OVER`: the transition is made by the state-machine check of the same
  tick. -/
theorem last_life_game_over (env : Env) (fuel : ℕ) (inp : TickInput) (s : AstroLib)
    (hgame : s.currentState = GameState.GAME) (hlives : s.lives = 1)
    (hactive : (s.afterIntegration env inp).ship.active = true)
    (hvulnerable : ¬ (s.afterIntegration env inp).ship.lifetime > 0)
    (hoverlap : ∃ j, ((s.afterBulletPass env inp).asteroids j).active = true ∧
      AstroLib.collides (s.afterBulletPass env inp).ship
        ((s.afterBulletPass env inp).asteroids j) = true) :
    ∃ s', s.update env fuel inp = some s' ∧ s'.lives = 0 ∧ s'.ship.active = false ∧
      s'.currentState = GameState.GAME_OVER := by
  obtain ⟨j, hj1, hj2⟩ := hoverlap
  obtain ⟨hship, hl⟩ := AstroLib.bulletPass_ship_lives env inp.clock (s.afterIntegration env inp)
  have hl1 : (s.afterBulletPass env inp).lives = 1 := by
    unfold AstroLib.afterBulletPass
    rw [hl, (AstroLib.afterIntegration_lives env inp s).1, hlives]
  have hs1 : (s.afterBulletPass env inp).ship = (s.afterIntegration env inp).ship := hship
  obtain ⟨k, hk⟩ := AstroLib.shipFirstHit_isSome _ j hj1 hj2
  have hpass : s.afterCollisions env inp = (s.afterBulletPass env inp).shipHit inp.clock k := by
    rw [AstroLib.afterCollisions_eq, AstroLib.shipPass_eq, if_pos ⟨by rw [hs1]; exact hactive,
      by rw [hs1]; exact hvulnerable⟩, hk]
  obtain ⟨h0, hoff⟩ := AstroLib.shipHit_last_life inp.clock k _ hl1
  rw [← hpass] at h0 hoff
  refine ⟨(s.afterCollisions env inp).enterGameOver, ?_, ?_, ?_, ?_⟩
  · rw [AstroLib.update_of_game env fuel inp s hgame]
    exact AstroLib.updateGame_over env fuel inp s ⟨by rw [h0], hoff⟩
  · rw [(AstroLib.enterGameOver_fields _).2.2.2.2.2.2.1, h0]
  · rw [(AstroLib.enterGameOver_fields _).2.2.2.2.2.2.2, hoff]
  · exact (AstroLib.enterGameOver_fields _).1

theorem last_life_game_over_witness :
    lastLifeState.currentState = GameState.GAME ∧ lastLifeState.lives = 1 ∧
    (lastLifeState.afterIntegration demoEnv lateInput).ship.active = true ∧
    ¬ (lastLifeState.afterIntegration demoEnv lateInput).ship.lifetime > 0 ∧
    (∃ j, ((lastLifeState.afterBulletPass demoEnv lateInput).asteroids j).active = true ∧
      AstroLib.collides (lastLifeState.afterBulletPass demoEnv lateInput).ship
        ((lastLifeState.afterBulletPass demoEnv lateInput).asteroids j) = true) ∧
    ∃ s', lastLifeState.update demoEnv 0 lateInput = some s' ∧ s'.lives = 0 ∧
      s'.ship.active = false ∧ s'.currentState = GameState.GAME_OVER :=
  ⟨rfl, rfl, by with_unfolding_all decide, by with_unfolding_all decide,
    ⟨0, by with_unfolding_all decide⟩,
    last_life_game_over demoEnv 0 lateInput lastLifeState rfl rfl (by with_unfolding_all decide)
      (by with_unfolding_all decide) ⟨0, by with_unfolding_all decide⟩⟩

/-! ## Score -/

namespace AstroLib

theorem award_pos (size : ℤ) : 0 < award size := by
  unfold award
  split_ifs <;> decide

theorem bulletHit_score (env : Env) (clock : ℕ) (i : Fin MAX_BULLETS) (j : Fin MAX_ASTEROIDS)
    (s : AstroLib) : (s.bulletHit env clock i j).score = s.score + award (s.asteroids j).size := by
  unfold bulletHit
  obtain ⟨a', p', heq⟩ := breakAsteroid_frame env j (s.hitEffects clock i j)
  rw [heq]
  simp [hitEffects]

theorem shipPass_score (clock : ℕ) (s : AstroLib) : (s.shipPass clock).score = s.score := by
  refine shipPass_rel (fun a b => b.score = a.score) clock s rfl ?_
  intro j _ _ _
  unfold shipHit
  dsimp only
  split_ifs <;> rfl

theorem foldl_bulletStep_score (env : Env) (clock : ℕ) :
    ∀ (is : List (Fin MAX_BULLETS)) (s : AstroLib),
      (is.foldl (bulletStep env clock) s).score
        = s.score + ((destroyedSizes env clock is s).map award).sum := by
  intro is
  induction is with
  | nil => intro s; simp [destroyedSizes]
  | cons i is ih =>
    intro s
    rw [List.foldl_cons, ih, destroyedSizes, List.map_append, List.sum_append, ← add_assoc]
    congr 1
    rw [bulletStep_eq]
    split_ifs with hact
    · cases hfh : firstHit s i with
      | none => simp
      | some j => simp [bulletHit_score]
    · simp

theorem sum_award_nonneg (l : List ℤ) : 0 ≤ (l.map award).sum := by
  induction l with
  | nil => simp
  | cons a l ih =>
    rw [List.map_cons, List.sum_cons]
    have := award_pos a
    omega

end AstroLib

/-- C8: score law. An asteroid destroyed by a bullet adds exactly 20 to `score` if its size
  is `LARGE`, 50 if `MEDIUM` and 100 if `SMALL`; the score after `handleCollisions` is the score
  before plus the sum of these awards over the asteroids destroyed by bullets in that call
  (the ship pass awards nothing); and the score never decreases in a `GAME` tick of `update`. -/
theorem score_law (env : Env) (clock : ℕ) (s : AstroLib) :
    AstroLib.award ASTEROID_SIZE_LARGE = 20 ∧ AstroLib.award ASTEROID_SIZE_MEDIUM = 50 ∧
    AstroLib.award ASTEROID_SIZE_SMALL = 100 ∧
    (∀ i j, (s.bulletHit env clock i j).score = s.score + AstroLib.award (s.asteroids j).size) ∧
    (s.handleCollisions env clock).score
      = s.score +
        ((destroyedSizes env clock (List.finRange MAX_BULLETS) s).map AstroLib.award).sum ∧
    s.score ≤ (s.handleCollisions env clock).score ∧
    (∀ fuel inp s', s.currentState = GameState.GAME → s.update env fuel inp = some s' →
      s.score ≤ s'.score) := by
  have hcall : ∀ (c : ℕ) (t : AstroLib), (t.handleCollisions env c).score
      = t.score + ((destroyedSizes env c (List.finRange MAX_BULLETS) t).map AstroLib.award).sum := by
    intro c t
    unfold AstroLib.handleCollisions
    rw [AstroLib.shipPass_score]
    exact AstroLib.foldl_bulletStep_score env c _ t
  have hmono : ∀ (c : ℕ) (t : AstroLib), t.score ≤ (t.handleCollisions env c).score := by
    intro c t
    rw [hcall]
    have := AstroLib.sum_award_nonneg (destroyedSizes env c (List.finRange MAX_BULLETS) t)
    omega
  refine ⟨by decide, by decide, by decide, fun i j => AstroLib.bulletHit_score env clock i j s,
    hcall clock s, hmono clock s, ?_⟩
  intro fuel inp s' hgame h
  rw [AstroLib.update_of_game env fuel inp s hgame] at h
  rw [(AstroLib.updateGame_keeps env fuel inp s s' h).2.2.1]
  have h1 := hmono inp.clock (s.afterIntegration env inp)
  rw [(AstroLib.afterIntegration_lives env inp s).2] at h1
  exact h1

/-! ## Splitting -/

namespace AstroLib

theorem filledWith_refl (size : ℤ) (a : Fin MAX_ASTEROIDS → GameObject) : FilledWith size a a :=
  fun _ => Or.inl rfl

theorem filledWith_trans {size : ℤ} {a b c : Fin MAX_ASTEROIDS → GameObject}
    (h1 : FilledWith size a b) (h2 : FilledWith size b c) : FilledWith size a c := by
  intro k
  rcases h2 k with h | ⟨hb, hc⟩
  · rcases h1 k with h' | ⟨ha, hb'⟩
    · exact Or.inl (h.trans h')
    · exact Or.inr ⟨ha, by rw [h]; exact hb'⟩
  · rcases h1 k with h' | ⟨-, hb'⟩
    · exact Or.inr ⟨by rw [← h']; exact hb, hc⟩
    · rw [hb'.1] at hb
      exact absurd hb (by decide)

theorem spawnAsteroid_spec (env : Env) (size : ℤ) (x y vx vy : ℚ) (s : AstroLib) :
    ∃ (a' : Fin MAX_ASTEROIDS → GameObject) (p' : ℕ),
      s.spawnAsteroid env size x y vx vy = { s with asteroids := a', rngPos := p' } ∧
      activeCount a' = min MAX_ASTEROIDS (activeCount s.asteroids + 1) ∧
      FilledWith size s.asteroids a' := by
  have hcount := activeCount_spawnAsteroid env size x y vx vy s
  cases h : s.findInactiveAsteroidSlot with
  | none =>
    rw [spawnAsteroid_full env size x y vx vy s h] at hcount
    exact ⟨s.asteroids, s.rngPos, spawnAsteroid_full env size x y vx vy s h, hcount,
      filledWith_refl size _⟩
  | some k =>
    obtain ⟨o, p, heq, hact, hsize, hrad, hang, hlife, -⟩ :=
      spawnAsteroid_slot env size x y vx vy s k h
    rw [heq] at hcount
    refine ⟨_, p, heq, hcount, ?_⟩
    intro k'
    by_cases hk : k' = k
    · subst hk
      right
      rw [Function.update_same]
      exact ⟨findInactiveAsteroidSlot_some s k' h, hact, hsize, hrad, hang, hlife⟩
    · left
      rw [Function.update_noteq hk]

/-- Two `spawnAsteroid` calls of the same size class, the second with any arguments computed
from the state after the first. -/
theorem spawnAsteroid_twice (env : Env) (size : ℤ) (x y vx vy : ℚ)
    (x' y' vx' vy' : AstroLib → ℚ) (s : AstroLib) :
    ∃ (a' : Fin MAX_ASTEROIDS → GameObject) (p' : ℕ),
      (s.spawnAsteroid env size x y vx vy).spawnAsteroid env size
          (x' (s.spawnAsteroid env size x y vx vy)) (y' (s.spawnAsteroid env size x y vx vy))
          (vx' (s.spawnAsteroid env size x y vx vy)) (vy' (s.spawnAsteroid env size x y vx vy))
        = { s with asteroids := a', rngPos := p' } ∧
      activeCount a' = min MAX_ASTEROIDS (activeCount s.asteroids + 2) ∧
      FilledWith size s.asteroids a' := by
  obtain ⟨a1, p1, h1, hc1, hf1⟩ := spawnAsteroid_spec env size x y vx vy s
  rw [h1]
  obtain ⟨a2, p2, h2, hc2, hf2⟩ := spawnAsteroid_spec env size
    (x' { s with asteroids := a1, rngPos := p1 }) (y' { s with asteroids := a1, rngPos := p1 })
    (vx' { s with asteroids := a1, rngPos := p1 }) (vy' { s with asteroids := a1, rngPos := p1 })
    { s with asteroids := a1, rngPos := p1 }
  refine ⟨a2, p2, h2, ?_, filledWith_trans hf1 hf2⟩
  rw [hc2]
  dsimp only
  rw [hc1]
  have := activeCount_le s.asteroids
  omega

theorem breakAsteroid_large (env : Env) (j : Fin MAX_ASTEROIDS) (s : AstroLib)
    (hsize : (s.asteroids j).size = ASTEROID_SIZE_LARGE) :
    ∃ (a' : Fin MAX_ASTEROIDS → GameObject) (p' : ℕ),
      s.breakAsteroid env j = { s with asteroids := a', rngPos := p' } ∧
      activeCount a' = min MAX_ASTEROIDS (activeCount s.asteroids + 2) ∧
      FilledWith ASTEROID_SIZE_MEDIUM s.asteroids a' := by
  unfold breakAsteroid
  rw [if_pos hsize]
  exact spawnAsteroid_twice env ASTEROID_SIZE_MEDIUM _ _ _ _
    (fun t => (t.asteroids j).pos.x) (fun t => (t.asteroids j).pos.y)
    (fun t => (t.asteroids j).vel.x) (fun t => (t.asteroids j).vel.y) s

theorem breakAsteroid_medium (env : Env) (j : Fin MAX_ASTEROIDS) (s : AstroLib)
    (hsize : (s.asteroids j).size = ASTEROID_SIZE_MEDIUM) :
    ∃ (a' : Fin MAX_ASTEROIDS → GameObject) (p' : ℕ),
      s.breakAsteroid env j = { s with asteroids := a', rngPos := p' } ∧
      activeCount a' = min MAX_ASTEROIDS (activeCount s.asteroids + 2) ∧
      FilledWith ASTEROID_SIZE_SMALL s.asteroids a' := by
  unfold breakAsteroid
  rw [if_neg (by rw [hsize]; decide), if_pos hsize]
  exact spawnAsteroid_twice env ASTEROID_SIZE_SMALL _ _ _ _
    (fun t => (t.asteroids j).pos.x) (fun t => (t.asteroids j).pos.y)
    (fun t => (t.asteroids j).vel.x) (fun t => (t.asteroids j).vel.y) s

theorem breakAsteroid_other (env : Env) (j : Fin MAX_ASTEROIDS) (s : AstroLib)
    (h1 : (s.asteroids j).size ≠ ASTEROID_SIZE_LARGE)
    (h2 : (s.asteroids j).size ≠ ASTEROID_SIZE_MEDIUM) : s.breakAsteroid env j = s := by
  unfold breakAsteroid
  rw [if_neg h1, if_neg h2]

theorem hitEffects_asteroids (clock : ℕ) (i : Fin MAX_BULLETS) (j : Fin MAX_ASTEROIDS)
    (s : AstroLib) :
    (s.hitEffects clock i j).asteroids
      = Function.update s.asteroids j { s.asteroids j with active := false } := rfl

theorem hitEffects_count (clock : ℕ) (i : Fin MAX_BULLETS) (j : Fin MAX_ASTEROIDS)
    (s : AstroLib) (hact : (s.asteroids j).active = true) :
    activeCount (s.hitEffects clock i j).asteroids + 1 = activeCount s.asteroids := by
  rw [hitEffects_asteroids]
  exact activeCount_update_off s.asteroids j _ hact rfl

theorem hitEffects_size (clock : ℕ) (i : Fin MAX_BULLETS) (j : Fin MAX_ASTEROIDS)
    (s : AstroLib) : ((s.hitEffects clock i j).asteroids j).size = (s.asteroids j).size := by
  rw [hitEffects_asteroids, Function.update_same]

theorem bulletHit_count (env : Env) (clock : ℕ) (i : Fin MAX_BULLETS) (j : Fin MAX_ASTEROIDS)
    (s : AstroLib) (hact : (s.asteroids j).active = true) :
    activeCount (s.bulletHit env clock i j).asteroids
      = countAfterHit (s.asteroids j).size (activeCount s.asteroids) := by
  have hc := hitEffects_count clock i j s hact
  have hsz := hitEffects_size clock i j s
  unfold bulletHit countAfterHit
  by_cases hL : (s.asteroids j).size = ASTEROID_SIZE_LARGE
  · obtain ⟨a', p', heq, hcount, -⟩ := breakAsteroid_large env j (s.hitEffects clock i j)
      (by rw [hsz]; exact hL)
    rw [heq, if_pos (Or.inl hL)]
    dsimp only
    rw [hcount]
    omega
  · by_cases hM : (s.asteroids j).size = ASTEROID_SIZE_MEDIUM
    · obtain ⟨a', p', heq, hcount, -⟩ := breakAsteroid_medium env j (s.hitEffects clock i j)
        (by rw [hsz]; exact hM)
      rw [heq, if_pos (Or.inr hM)]
      dsimp only
      rw [hcount]
      omega
    · rw [breakAsteroid_other env j _ (by rw [hsz]; exact hL) (by rw [hsz]; exact hM),
        if_neg (by push_neg; exact ⟨hL, hM⟩)]
      omega

end AstroLib

namespace AstroLib

theorem foldl_bulletStep_no_hit (env : Env) (clock : ℕ) :
    ∀ (is : List (Fin MAX_BULLETS)) (s : AstroLib), destroyedSizes env clock is s = [] →
      is.foldl (bulletStep env clock) s = s := by
  intro is
  induction is with
  | nil => intro s _; rfl
  | cons i is ih =>
    intro s h
    rw [destroyedSizes, List.append_eq_nil] at h
    obtain ⟨hhead, hrest⟩ := h
    have hstep : s.bulletStep env clock i = s := by
      rw [bulletStep_eq]
      split_ifs with hact
      · rw [if_pos hact] at hhead
        cases hfh : firstHit s i with
        | none => rfl
        | some j => rw [hfh] at hhead; simp at hhead
      · rfl
    rw [List.foldl_cons, hstep]
    rw [hstep] at hrest
    exact ih s hrest

theorem foldl_bulletStep_single_hit (env : Env) (clock : ℕ) :
    ∀ (is : List (Fin MAX_BULLETS)) (s : AstroLib) (sz : ℤ),
      destroyedSizes env clock is s = [sz] →
      activeCount (is.foldl (bulletStep env clock) s).asteroids
        = countAfterHit sz (activeCount s.asteroids) := by
  intro is
  induction is with
  | nil => intro s sz h; simp [destroyedSizes] at h
  | cons i is ih =>
    intro s sz h
    rw [destroyedSizes] at h
    rw [List.foldl_cons]
    by_cases hact : (s.bullets i).active = true
    · rw [if_pos hact] at h
      cases hfh : firstHit s i with
      | none =>
        rw [hfh] at h
        have hstep : s.bulletStep env clock i = s := by
          rw [bulletStep_eq, if_pos hact, hfh]
        rw [hstep] at h ⊢
        exact ih s sz (by simpa using h)
      | some j =>
        rw [hfh] at h
        have hstep : s.bulletStep env clock i = s.bulletHit env clock i j := by
          rw [bulletStep_eq, if_pos hact, hfh]
        rw [hstep] at h ⊢
        simp only [List.singleton_append, List.cons.injEq] at h
        obtain ⟨hsz, hrest⟩ := h
        rw [foldl_bulletStep_no_hit env clock is _ hrest, ← hsz]
        exact bulletHit_count env clock i j s (firstHit_some s i j hfh).1
    · rw [if_neg hact] at h
      have hstep : s.bulletStep env clock i = s := by
        rw [bulletStep_eq, if_neg hact]
      rw [hstep] at h ⊢
      exact ih s sz (by simpa using h)

theorem shipPass_immune (clock : ℕ) (s : AstroLib) (h : ShipImmune s) : s.shipPass clock = s := by
  rw [shipPass_eq, if_neg]
  rintro ⟨h1, h2⟩
  rcases h with h | h
  · rw [h] at h1
    exact absurd h1 (by decide)
  · exact h2 h

theorem handleCollisions_immune (env : Env) (clock : ℕ) (s : AstroLib) (h : ShipImmune s) :
    s.handleCollisions env clock = s.bulletPass env clock := by
  unfold handleCollisions
  apply shipPass_immune
  unfold ShipImmune
  rw [(bulletPass_ship_lives env clock s).1]
  exact h

theorem handleCollisions_no_ram (env : Env) (clock : ℕ) (s : AstroLib)
    (h : ShipImmune s ∨ shipFirstHit (s.bulletPass env clock) = none) :
    s.handleCollisions env clock = s.bulletPass env clock := by
  rcases h with h | h
  · exact handleCollisions_immune env clock s h
  · unfold handleCollisions
    rw [shipPass_eq]
    split_ifs
    · rw [h]
    · rfl

end AstroLib

/-- C9: splitting law. A bullet hit on an active asteroid in slot `j` first frees that slot
  (`hitEffects`) and then: for a `LARGE` asteroid fills free slots with `MEDIUM` fragments
  (size 6, radius 6), for a `MEDIUM` one with `SMALL` fragments (size 3, radius 3), two of
  them, fewer only when fewer than two slots are free, every other slot unchanged; for a
  `SMALL` one it activates nothing. Hence with `n` active asteroids before the hit the count
  after it is `min(MAX_ASTEROIDS, n + 1)` for `LARGE`/`MEDIUM` and `n − 1` for `SMALL`, and so is
  the count after a whole `handleCollisions` call in which exactly one asteroid is destroyed
  by a bullet and the ship pass does not fire: the ship is inactive or invincible, or it is
  vulnerable and touches no asteroid after the bullet pass. -/
theorem splitting_law (env : Env) (clock : ℕ) (s : AstroLib) (i : Fin MAX_BULLETS)
    (j : Fin MAX_ASTEROIDS) (hact : (s.asteroids j).active = true) :
    ((s.asteroids j).size = ASTEROID_SIZE_LARGE →
      ∃ (a' : Fin MAX_ASTEROIDS → GameObject) (p' : ℕ),
        s.bulletHit env clock i j = { s.hitEffects clock i j with asteroids := a', rngPos := p' } ∧
        FilledWith ASTEROID_SIZE_MEDIUM (s.hitEffects clock i j).asteroids a' ∧
        activeCount a' = activeCount (s.hitEffects clock i j).asteroids
          + min 2 (MAX_ASTEROIDS - activeCount (s.hitEffects clock i j).asteroids)) ∧
    ((s.asteroids j).size = ASTEROID_SIZE_MEDIUM →
      ∃ (a' : Fin MAX_ASTEROIDS → GameObject) (p' : ℕ),
        s.bulletHit env clock i j = { s.hitEffects clock i j with asteroids := a', rngPos := p' } ∧
        FilledWith ASTEROID_SIZE_SMALL (s.hitEffects clock i j).asteroids a' ∧
        activeCount a' = activeCount (s.hitEffects clock i j).asteroids
          + min 2 (MAX_ASTEROIDS - activeCount (s.hitEffects clock i j).asteroids)) ∧
    ((s.asteroids j).size = ASTEROID_SIZE_SMALL →
      s.bulletHit env clock i j = s.hitEffects clock i j) ∧
    activeCount (s.hitEffects clock i j).asteroids + 1 = activeCount s.asteroids ∧
    (((s.asteroids j).size = ASTEROID_SIZE_LARGE ∨ (s.asteroids j).size = ASTEROID_SIZE_MEDIUM) →
      activeCount (s.bulletHit env clock i j).asteroids
        = min MAX_ASTEROIDS (activeCount s.asteroids + 1)) ∧
    ((s.asteroids j).size = ASTEROID_SIZE_SMALL →
      activeCount (s.bulletHit env clock i j).asteroids = activeCount s.asteroids - 1) ∧
    (∀ sz, destroyedSizes env clock (List.finRange MAX_BULLETS) s = [sz] →
      (ShipImmune s ∨ shipFirstHit (s.bulletPass env clock) = none) →
      ((sz = ASTEROID_SIZE_LARGE ∨ sz = ASTEROID_SIZE_MEDIUM) →
        activeCount (s.handleCollisions env clock).asteroids
          = min MAX_ASTEROIDS (activeCount s.asteroids + 1)) ∧
      (sz = ASTEROID_SIZE_SMALL →
        activeCount (s.handleCollisions env clock).asteroids = activeCount s.asteroids - 1)) := by
  have hsz := AstroLib.hitEffects_size clock i j s
  have hle := activeCount_le (s.hitEffects clock i j).asteroids
  have hcnt := AstroLib.bulletHit_count env clock i j s hact
  refine ⟨?_, ?_, ?_, AstroLib.hitEffects_count clock i j s hact, ?_, ?_, ?_⟩
  · intro hL
    obtain ⟨a', p', heq, hcount, hfill⟩ := AstroLib.breakAsteroid_large env j
      (s.hitEffects clock i j) (by rw [hsz]; exact hL)
    exact ⟨a', p', heq, hfill, by rw [hcount]; omega⟩
  · intro hM
    obtain ⟨a', p', heq, hcount, hfill⟩ := AstroLib.breakAsteroid_medium env j
      (s.hitEffects clock i j) (by rw [hsz]; exact hM)
    exact ⟨a', p', heq, hfill, by rw [hcount]; omega⟩
  · intro hS
    exact AstroLib.breakAsteroid_other env j _ (by rw [hsz, hS]; decide) (by rw [hsz, hS]; decide)
  · intro hLM
    rw [hcnt, countAfterHit, if_pos hLM]
  · intro hS
    rw [hcnt, countAfterHit, if_neg (by rw [hS]; decide)]
  · intro sz htrace himm
    have hcall := AstroLib.foldl_bulletStep_single_hit env clock _ s sz htrace
    rw [AstroLib.handleCollisions_no_ram env clock s himm]
    unfold AstroLib.bulletPass
    rw [hcall]
    constructor
    · intro hLM
      rw [countAfterHit, if_pos hLM]
    · intro hS
      rw [countAfterHit, if_neg (by rw [hS]; decide)]

theorem splitting_law_witness :
    (largeRockState.asteroids 0).active = true ∧
    (largeRockState.asteroids 0).size = ASTEROID_SIZE_LARGE ∧
    activeCount largeRockState.asteroids = 1 ∧
    activeCount (largeRockState.bulletHit demoEnv 0 0 0).asteroids
      = min MAX_ASTEROIDS (activeCount largeRockState.asteroids + 1) ∧
    (farShipState.asteroids 0).active = true ∧
    ¬ ShipImmune farShipState ∧
    shipFirstHit (farShipState.bulletPass demoEnv 0) = none ∧
    destroyedSizes demoEnv 0 (List.finRange MAX_BULLETS) farShipState = [ASTEROID_SIZE_LARGE] ∧
    activeCount (farShipState.handleCollisions demoEnv 0).asteroids
      = min MAX_ASTEROIDS (activeCount farShipState.asteroids + 1) :=
  ⟨rfl, rfl, by decide,
    (splitting_law demoEnv 0 largeRockState 0 0 rfl).2.2.2.2.1 (Or.inl rfl),
    rfl, by unfold ShipImmune; decide!, by decide!, by decide!,
    ((splitting_law demoEnv 0 farShipState 0 0 rfl).2.2.2.2.2.2 ASTEROID_SIZE_LARGE
      (by decide!) (Or.inr (by decide!))).1 (Or.inl rfl)⟩

/-! ## Bullet against asteroid -/

namespace AstroLib

theorem find?_finRange_lowest {n : ℕ} (p : Fin n → Bool) (j : Fin n)
    (h : (List.finRange n).find? p = some j) : ∀ k, k < j → p k = false := by
  have hgen : ∀ l : List (Fin n), l.Pairwise (· < ·) → l.find? p = some j →
      ∀ k ∈ l, k < j → p k = false := by
    intro l
    induction l with
    | nil => intro _ _ k hk; simp at hk
    | cons a l ih =>
      intro hpw hfind k hk hlt
      rw [List.pairwise_cons] at hpw
      rw [List.find?_cons] at hfind
      cases hpa : p a with
      | true =>
        rw [hpa] at hfind
        simp only [Option.some.injEq] at hfind
        subst hfind
        rcases List.mem_cons.1 hk with rfl | hmem
        · exact absurd hlt (lt_irrefl _)
        · exact absurd (hpw.1 k hmem) (not_lt.2 (le_of_lt hlt))
      | false =>
        rw [hpa] at hfind
        rcases List.mem_cons.1 hk with rfl | hmem
        · exact hpa
        · exact ih hpw.2 hfind k hmem hlt
  intro k hk
  exact hgen _ (List.pairwise_lt_finRange n) h k (List.mem_finRange k) hk

theorem bulletHit_bullets (env : Env) (clock : ℕ) (i : Fin MAX_BULLETS) (j : Fin MAX_ASTEROIDS)
    (s : AstroLib) :
    (s.bulletHit env clock i j).bullets
      = Function.update s.bullets i { s.bullets i with active := false } := by
  unfold bulletHit
  obtain ⟨a', p', heq⟩ := breakAsteroid_frame env j (s.hitEffects clock i j)
  rw [heq]
  rfl

theorem bulletStep_bullets_other (env : Env) (clock : ℕ) (s : AstroLib)
    (i i' : Fin MAX_BULLETS) (h : i' ≠ i) :
    (s.bulletStep env clock i).bullets i' = s.bullets i' := by
  rw [bulletStep_eq]
  split_ifs
  · cases hfh : firstHit s i with
    | none => rfl
    | some j =>
      dsimp only
      rw [bulletHit_bullets, Function.update_noteq h]
  · rfl

theorem foldl_bulletStep_bullets_other (env : Env) (clock : ℕ) (i' : Fin MAX_BULLETS) :
    ∀ (is : List (Fin MAX_BULLETS)) (s : AstroLib), i' ∉ is →
      (is.foldl (bulletStep env clock) s).bullets i' = s.bullets i' := by
  intro is
  induction is with
  | nil => intro s _; rfl
  | cons i is ih =>
    intro s hnot
    rw [List.mem_cons, not_or] at hnot
    rw [List.foldl_cons, ih _ hnot.2, bulletStep_bullets_other env clock s i i' hnot.1]

theorem finRange_split (i : Fin MAX_BULLETS) :
    List.finRange MAX_BULLETS
      = (List.finRange MAX_BULLETS).take i ++ i :: (List.finRange MAX_BULLETS).drop (i + 1) ∧
    i ∉ (List.finRange MAX_BULLETS).take i ∧ i ∉ (List.finRange MAX_BULLETS).drop (i + 1) := by
  revert i
  decide

theorem bulletPass_split (env : Env) (clock : ℕ) (s : AstroLib) (i : Fin MAX_BULLETS) :
    s.bulletPass env clock
      = ((List.finRange MAX_BULLETS).drop (i + 1)).foldl (bulletStep env clock)
          ((s.scanStart env clock i).bulletStep env clock i) := by
  unfold bulletPass scanStart
  conv_lhs => rw [(finRange_split i).1]
  rw [List.foldl_append, List.foldl_cons]

theorem shipPass_bullets (clock : ℕ) (s : AstroLib) : (s.shipPass clock).bullets = s.bullets := by
  refine shipPass_rel (fun a b => b.bullets = a.bullets) clock s rfl ?_
  intro j _ _ _
  unfold shipHit
  dsimp only
  split_ifs <;> rfl

/-- Bullet `i` at the end of `handleCollisions` is bullet `i` right after its own scan. -/
theorem handleCollisions_bullet (env : Env) (clock : ℕ) (s : AstroLib) (i : Fin MAX_BULLETS) :
    (s.handleCollisions env clock).bullets i
      = ((s.scanStart env clock i).bulletStep env clock i).bullets i := by
  unfold handleCollisions
  rw [shipPass_bullets, bulletPass_split env clock s i,
    foldl_bulletStep_bullets_other env clock i _ _ (finRange_split i).2.2]

theorem scanStart_bullet (env : Env) (clock : ℕ) (s : AstroLib) (i : Fin MAX_BULLETS) :
    (s.scanStart env clock i).bullets i = s.bullets i :=
  foldl_bulletStep_bullets_other env clock i _ s (finRange_split i).2.1

end AstroLib

namespace AstroLib

theorem clampScale_mono (a b : ℤ) (h : a ≤ b) :
    max (0 : ℚ) (min 1 (((a - JOYSTICK_DEAD_ZONE : ℤ) : ℚ) /
        ((JOYSTICK_MAX_THROW - JOYSTICK_DEAD_ZONE : ℤ) : ℚ)))
      ≤ max (0 : ℚ) (min 1 (((b - JOYSTICK_DEAD_ZONE : ℤ) : ℚ) /
        ((JOYSTICK_MAX_THROW - JOYSTICK_DEAD_ZONE : ℤ) : ℚ))) := by
  apply max_le_max le_rfl
  apply min_le_min le_rfl
  apply div_le_div_of_nonneg_right
  · exact_mod_cast Int.sub_le_sub_right h _
  · norm_num

theorem clampScale_full (a : ℤ) (h : JOYSTICK_MAX_THROW ≤ a) :
    max (0 : ℚ) (min 1 (((a - JOYSTICK_DEAD_ZONE : ℤ) : ℚ) /
        ((JOYSTICK_MAX_THROW - JOYSTICK_DEAD_ZONE : ℤ) : ℚ))) = 1 := by
  have h1 : (1 : ℚ) ≤ ((a - JOYSTICK_DEAD_ZONE : ℤ) : ℚ) /
      ((JOYSTICK_MAX_THROW - JOYSTICK_DEAD_ZONE : ℤ) : ℚ) := by
    rw [le_div_iff₀ (by norm_num)]
    have : (JOYSTICK_MAX_THROW - JOYSTICK_DEAD_ZONE : ℤ) ≤ a - JOYSTICK_DEAD_ZONE := by omega
    exact_mod_cast this
  rw [min_eq_left h1]
  norm_num

theorem clampScale_range (q : ℚ) : 0 ≤ max (0 : ℚ) (min 1 q) ∧ max (0 : ℚ) (min 1 q) ≤ 1 :=
  ⟨le_max_left _ _, max_le (by norm_num) (min_le_left _ _)⟩

theorem thrustScale_range (joyY : ℤ) : 0 ≤ thrustScale joyY ∧ thrustScale joyY ≤ 1 := by
  unfold thrustScale
  dsimp only
  split_ifs
  · exact clampScale_range _
  · exact ⟨le_rfl, by norm_num⟩

theorem turnScale_range (joyX : ℤ) : 0 ≤ turnScale joyX ∧ turnScale joyX ≤ 1 := by
  unfold turnScale
  dsimp only
  split_ifs
  · exact clampScale_range _
  · exact ⟨le_rfl, by norm_num⟩

end AstroLib

/-- C19: input normalisation. For every integer `joyY` the thrust scale of `handleInput` is 0
  when `joyY − JOYSTICK_CENTER ≥ −JOYSTICK_DEAD_ZONE` and otherwise is
  `clamp((|joyY − JOYSTICK_CENTER| − JOYSTICK_DEAD_ZONE) / (JOYSTICK_MAX_THROW −
  JOYSTICK_DEAD_ZONE), 0, 1)`; it lies in `[0, 1]`, does not decrease when the stick is pushed
  further (`joyY` smaller), and is exactly 1 at and beyond full throw; it is the factor that
  `handleInput` puts on `SHIP_THRUST`. The turn scale on `joyX` obeys the same law in
  `|joyX − JOYSTICK_CENTER|`, with the dead zone on both sides. The integers are
  unbounded here; for a 32-bit `int` reading above `−2^31 + JOYSTICK_CENTER` no intermediate
  value of the computation leaves the `int` range. -/
theorem input_normalisation (joyX joyX' joyY joyY' : ℤ) :
    (∀ v : ℤ, -2147483648 + JOYSTICK_CENTER < v → v < 2147483648 →
      -2147483648 < v - JOYSTICK_CENTER ∧ v - JOYSTICK_CENTER < 2147483648 ∧
      |v - JOYSTICK_CENTER| < 2147483648 ∧
      -2147483648 ≤ |v - JOYSTICK_CENTER| - JOYSTICK_DEAD_ZONE ∧
      |v - JOYSTICK_CENTER| - JOYSTICK_DEAD_ZONE < 2147483648) ∧
    (joyY - JOYSTICK_CENTER ≥ -JOYSTICK_DEAD_ZONE → AstroLib.thrustScale joyY = 0) ∧
    (joyY - JOYSTICK_CENTER < -JOYSTICK_DEAD_ZONE →
      AstroLib.thrustScale joyY
        = max 0 (min 1 (((|joyY - JOYSTICK_CENTER| - JOYSTICK_DEAD_ZONE : ℤ) : ℚ) /
            ((JOYSTICK_MAX_THROW - JOYSTICK_DEAD_ZONE : ℤ) : ℚ)))) ∧
    (0 ≤ AstroLib.thrustScale joyY ∧ AstroLib.thrustScale joyY ≤ 1) ∧
    (joyY' ≤ joyY → AstroLib.thrustScale joyY ≤ AstroLib.thrustScale joyY') ∧
    (joyY - JOYSTICK_CENTER ≤ -JOYSTICK_MAX_THROW → AstroLib.thrustScale joyY = 1) ∧
    (∀ (env : Env) (clock : ℕ) (s : AstroLib),
      (s.handleThrust env clock joyY).ship.vel
        = if joyY - JOYSTICK_CENTER < -JOYSTICK_DEAD_ZONE then
            { x := s.ship.vel.x + env.cos s.ship.angle * SHIP_THRUST * AstroLib.thrustScale joyY,
              y := s.ship.vel.y + env.sin s.ship.angle * SHIP_THRUST * AstroLib.thrustScale joyY }
          else s.ship.vel) ∧
    (|joyX - JOYSTICK_CENTER| ≤ JOYSTICK_DEAD_ZONE → AstroLib.turnScale joyX = 0) ∧
    (|joyX - JOYSTICK_CENTER| > JOYSTICK_DEAD_ZONE →
      AstroLib.turnScale joyX
        = max 0 (min 1 (((|joyX - JOYSTICK_CENTER| - JOYSTICK_DEAD_ZONE : ℤ) : ℚ) /
            ((JOYSTICK_MAX_THROW - JOYSTICK_DEAD_ZONE : ℤ) : ℚ)))) ∧
    (0 ≤ AstroLib.turnScale joyX ∧ AstroLib.turnScale joyX ≤ 1) ∧
    (|joyX - JOYSTICK_CENTER| ≤ |joyX' - JOYSTICK_CENTER| →
      AstroLib.turnScale joyX ≤ AstroLib.turnScale joyX') ∧
    (|joyX - JOYSTICK_CENTER| ≥ JOYSTICK_MAX_THROW → AstroLib.turnScale joyX = 1) ∧
    (∀ (s : AstroLib), |joyX - JOYSTICK_CENTER| ≤ JOYSTICK_DEAD_ZONE →
      s.handleRotation joyX = s) ∧
    (∀ (s : AstroLib), |joyX - JOYSTICK_CENTER| > JOYSTICK_DEAD_ZONE →
      ∃ k : ℤ, (s.handleRotation joyX).ship.angle
        = (if joyX - JOYSTICK_CENTER < 0 then s.ship.angle - SHIP_TURN_SPEED * AstroLib.turnScale joyX
            else s.ship.angle + SHIP_TURN_SPEED * AstroLib.turnScale joyX) + k * (2 * M_PI)) := by
  have hint : ∀ v : ℤ, -2147483648 + JOYSTICK_CENTER < v → v < 2147483648 →
      -2147483648 < v - JOYSTICK_CENTER ∧ v - JOYSTICK_CENTER < 2147483648 ∧
      |v - JOYSTICK_CENTER| < 2147483648 ∧
      -2147483648 ≤ |v - JOYSTICK_CENTER| - JOYSTICK_DEAD_ZONE ∧
      |v - JOYSTICK_CENTER| - JOYSTICK_DEAD_ZONE < 2147483648 := by
    intro v h1 h2
    have habs := abs_cases (v - JOYSTICK_CENTER)
    simp only [JOYSTICK_CENTER, JOYSTICK_DEAD_ZONE] at *
    refine ⟨?_, ?_, ?_, ?_, ?_⟩ <;> omega
  refine ⟨hint, ?_, ?_, AstroLib.thrustScale_range joyY, ?_, ?_, ?_, ?_, ?_,
    AstroLib.turnScale_range joyX, ?_, ?_, ?_, ?_⟩
  · intro h
    unfold AstroLib.thrustScale
    dsimp only
    rw [if_neg (not_lt.2 h)]
  · intro h
    unfold AstroLib.thrustScale
    dsimp only
    rw [if_pos h]
  · intro hle
    unfold AstroLib.thrustScale
    dsimp only
    split_ifs with h1 h2 h2
    · apply AstroLib.clampScale_mono
      rw [abs_of_neg (by simp only [JOYSTICK_CENTER, JOYSTICK_DEAD_ZONE, JOYSTICK_MAX_THROW] at *; omega), abs_of_neg (by simp only [JOYSTICK_CENTER, JOYSTICK_DEAD_ZONE, JOYSTICK_MAX_THROW] at *; omega)]
      omega
    · simp only [JOYSTICK_CENTER, JOYSTICK_DEAD_ZONE, JOYSTICK_MAX_THROW] at *; omega
    · exact (AstroLib.clampScale_range _).1
    · exact le_rfl
  · intro h
    unfold AstroLib.thrustScale
    dsimp only
    rw [if_pos (by simp only [JOYSTICK_CENTER, JOYSTICK_DEAD_ZONE, JOYSTICK_MAX_THROW] at *; omega)]
    apply AstroLib.clampScale_full
    rw [abs_of_neg (by simp only [JOYSTICK_CENTER, JOYSTICK_DEAD_ZONE, JOYSTICK_MAX_THROW] at *; omega)]
    simp only [JOYSTICK_CENTER, JOYSTICK_DEAD_ZONE, JOYSTICK_MAX_THROW] at *; omega
  · intro env clock s
    unfold AstroLib.handleThrust
    dsimp only
    split_ifs <;> simp_all
  · intro h
    unfold AstroLib.turnScale
    dsimp only
    rw [if_neg (not_lt.2 h)]
  · intro h
    unfold AstroLib.turnScale
    dsimp only
    rw [if_pos h]
  · intro hle
    unfold AstroLib.turnScale
    dsimp only
    split_ifs with h1 h2 h2
    · exact AstroLib.clampScale_mono _ _ hle
    · simp only [JOYSTICK_CENTER, JOYSTICK_DEAD_ZONE, JOYSTICK_MAX_THROW] at *; omega
    · exact (AstroLib.clampScale_range _).1
    · exact le_rfl
  · intro h
    unfold AstroLib.turnScale
    dsimp only
    rw [if_pos (by simp only [JOYSTICK_CENTER, JOYSTICK_DEAD_ZONE, JOYSTICK_MAX_THROW] at *; omega)]
    exact AstroLib.clampScale_full _ h
  · intro s h
    unfold AstroLib.handleRotation
    dsimp only
    rw [if_neg (not_lt.2 h)]
  · intro s h
    unfold AstroLib.handleRotation
    dsimp only
    rw [if_pos h]
    dsimp only
    split_ifs
    · exact ⟨0, by ring⟩
    · exact ⟨1, by ring⟩
    · exact ⟨-1, by push_cast; ring⟩
    · exact ⟨0, by ring⟩
    · exact ⟨0, by ring⟩
    · exact ⟨1, by ring⟩
    · exact ⟨-1, by push_cast; ring⟩
    · exact ⟨0, by ring⟩

/-! ## Screen wrap -/

namespace AstroLib

theorem wrapAround_fields (obj : GameObject) :
    (wrapAround obj).vel = obj.vel ∧ (wrapAround obj).angle = obj.angle ∧
    (wrapAround obj).radius = obj.radius ∧ (wrapAround obj).active = obj.active ∧
    (wrapAround obj).lifetime = obj.lifetime ∧ (wrapAround obj).size = obj.size :=
  ⟨rfl, rfl, rfl, rfl, rfl, rfl⟩

theorem wrapAround_inEnvelope (obj : GameObject) (hr : 0 ≤ obj.radius) :
    InEnvelope (wrapAround obj) := by
  unfold InEnvelope wrapAround
  dsimp only
  refine ⟨?_, ?_, ?_, ?_⟩ <;> split_ifs <;> norm_num at * <;> linarith

end AstroLib

/-- C15: wrap invariant. For every object with `radius ≥ 0`, whatever its position, after
  `wrapAround` `−radius ≤ pos.x ≤ SCREEN_WIDTH + radius` and `−radius ≤ pos.y ≤ SCREEN_HEIGHT +
  radius`; a coordinate already inside the envelope is unchanged, one below `−radius` becomes
  `bound + radius`, one above `bound + radius` becomes `−radius`, and no other field changes.
  Hence after `updateGameObjects` the ship, every bullet and every asteroid that is active
  and has `radius ≥ 0` lies in the envelope. -/
theorem wrap_invariant (obj : GameObject) (hr : 0 ≤ obj.radius) :
    InEnvelope (AstroLib.wrapAround obj) ∧
    (-obj.radius ≤ obj.pos.x → obj.pos.x ≤ (SCREEN_WIDTH : ℚ) + obj.radius →
      (AstroLib.wrapAround obj).pos.x = obj.pos.x) ∧
    (obj.pos.x < -obj.radius → (AstroLib.wrapAround obj).pos.x = (SCREEN_WIDTH : ℚ) + obj.radius) ∧
    (obj.pos.x > (SCREEN_WIDTH : ℚ) + obj.radius → (AstroLib.wrapAround obj).pos.x = -obj.radius) ∧
    (-obj.radius ≤ obj.pos.y → obj.pos.y ≤ (SCREEN_HEIGHT : ℚ) + obj.radius →
      (AstroLib.wrapAround obj).pos.y = obj.pos.y) ∧
    (obj.pos.y < -obj.radius → (AstroLib.wrapAround obj).pos.y = (SCREEN_HEIGHT : ℚ) + obj.radius) ∧
    (obj.pos.y > (SCREEN_HEIGHT : ℚ) + obj.radius → (AstroLib.wrapAround obj).pos.y = -obj.radius) ∧
    AstroLib.wrapAround obj = { obj with pos := (AstroLib.wrapAround obj).pos } ∧
    (∀ (clock : ℕ) (s : AstroLib),
      ((s.updateGameObjects clock).ship.active = true →
        0 ≤ (s.updateGameObjects clock).ship.radius →
        InEnvelope (s.updateGameObjects clock).ship) ∧
      (∀ i, ((s.updateGameObjects clock).bullets i).active = true →
        0 ≤ ((s.updateGameObjects clock).bullets i).radius →
        InEnvelope ((s.updateGameObjects clock).bullets i)) ∧
      (∀ j, ((s.updateGameObjects clock).asteroids j).active = true →
        0 ≤ ((s.updateGameObjects clock).asteroids j).radius →
        InEnvelope ((s.updateGameObjects clock).asteroids j))) := by
  refine ⟨AstroLib.wrapAround_inEnvelope obj hr, ?_, ?_, ?_, ?_, ?_, ?_, rfl, ?_⟩
  · intro h1 h2
    unfold AstroLib.wrapAround
    dsimp only
    rw [if_neg (not_lt.2 h1), if_neg (not_lt.2 h2)]
  · intro h
    unfold AstroLib.wrapAround
    dsimp only
    rw [if_pos h]
  · intro h
    unfold AstroLib.wrapAround
    dsimp only
    rw [if_neg (by norm_num at h ⊢; linarith), if_pos h]
  · intro h1 h2
    unfold AstroLib.wrapAround
    dsimp only
    rw [if_neg (not_lt.2 h1), if_neg (not_lt.2 h2)]
  · intro h
    unfold AstroLib.wrapAround
    dsimp only
    rw [if_pos h]
  · intro h
    unfold AstroLib.wrapAround
    dsimp only
    rw [if_neg (by norm_num at h ⊢; linarith), if_pos h]
  · intro clock s
    refine ⟨?_, ?_, ?_⟩
    · intro hact hrad
      by_cases hs : s.ship.active = true
      · simp only [AstroLib.updateGameObjects, if_pos hs] at hrad ⊢
        split_ifs at hrad ⊢
        · exact AstroLib.wrapAround_inEnvelope _ hrad
        · exact AstroLib.wrapAround_inEnvelope _ hrad
      · simp only [AstroLib.updateGameObjects, if_neg hs] at hact
        exact absurd hact hs
    · intro i hact hrad
      simp only [AstroLib.updateGameObjects, AstroLib.updateBullet] at hact hrad ⊢
      by_cases hb : (s.bullets i).active = true
      · rw [if_pos hb] at hact hrad ⊢
        split_ifs at hact hrad ⊢
        exact AstroLib.wrapAround_inEnvelope _ hrad
      · rw [if_neg hb] at hact
        exact absurd hact hb
    · intro j hact hrad
      simp only [AstroLib.updateGameObjects, AstroLib.updateAsteroid] at hact hrad ⊢
      by_cases ha : (s.asteroids j).active = true
      · rw [if_pos ha] at hact hrad ⊢
        exact AstroLib.wrapAround_inEnvelope _ hrad
      · rw [if_neg ha] at hact
        exact absurd hact ha

theorem wrap_invariant_witness :
    (0 : ℚ) ≤ (rockAt ASTEROID_SIZE_SMALL 200 (-50)).radius ∧
    InEnvelope (AstroLib.wrapAround (rockAt ASTEROID_SIZE_SMALL 200 (-50))) ∧
    (AstroLib.wrapAround (rockAt ASTEROID_SIZE_SMALL 200 (-50))).pos.x = -3 ∧
    (AstroLib.wrapAround (rockAt ASTEROID_SIZE_SMALL 200 (-50))).pos.y = 67 :=
  ⟨by with_unfolding_all decide,
    (wrap_invariant (rockAt ASTEROID_SIZE_SMALL 200 (-50)) (by with_unfolding_all decide)).1,
    by with_unfolding_all decide, by with_unfolding_all decide⟩

/-! ## Ship against asteroid -/

theorem usub_of_le (a b : ℕ) (hb : b ≤ a) (ha : a < U32) : usub a b = a - b := by
  simp only [usub, U32] at *
  omega

theorem usub_millis (clock clock0 : ℕ) (h : clock0 ≤ clock) (hspan : clock - clock0 < U32) :
    usub (millis clock) (millis clock0) = clock - clock0 := by
  simp only [usub, millis, U32] at *
  omega

theorem usub_millis_le (clock clock0 : ℕ) (h : clock0 ≤ clock) :
    usub (millis clock) (millis clock0) ≤ clock - clock0 := by
  simp only [usub, millis, U32] at *
  omega

namespace AstroLib

theorem bulletPass_no_bullet (env : Env) (clock : ℕ) (s : AstroLib)
    (h : ∀ i, (s.bullets i).active = false) : s.bulletPass env clock = s := by
  have := bulletPass_rel (fun a b => (∀ i, (a.bullets i).active = false) → b = a) env clock
    (fun _ _ => rfl) (fun a b c h1 h2 ha => by
      have hb := h1 ha
      subst hb
      exact h2 ha) (fun a i j hi _ ha => by
      rw [ha i] at hi
      exact absurd hi (by decide)) s
  exact this h

theorem updateGameObjects_ship_active (clock : ℕ) (s : AstroLib) :
    (s.updateGameObjects clock).ship.active = s.ship.active := by
  unfold updateGameObjects
  dsimp only
  split_ifs <;> rfl

theorem updateGameObjects_lifetime (clock : ℕ) (s : AstroLib) (hs : s.ship.active = true) :
    (s.updateGameObjects clock).ship.lifetime =
      max 0 ((INVINCIBILITY_DURATION : ℤ) - (usub (millis clock) s.shipSpawnTime : ℤ)) := by
  unfold updateGameObjects
  dsimp only
  rw [if_pos hs]
  split_ifs with h
  · dsimp only
    rw [max_eq_left]
    simp only [INVINCIBILITY_DURATION, Nat.cast_ofNat] at *
    omega
  · dsimp only
    have hle : usub (millis clock) s.shipSpawnTime ≤ INVINCIBILITY_DURATION := not_lt.1 h
    rw [usub_of_le _ _ hle (by decide), max_eq_right]
    · simp only [INVINCIBILITY_DURATION, Nat.cast_ofNat] at *
      omega
    · simp only [INVINCIBILITY_DURATION, Nat.cast_ofNat] at *
      omega

theorem shipHit_lives (clock : ℕ) (j : Fin MAX_ASTEROIDS) (s : AstroLib) :
    (s.shipHit clock j).lives = s.lives - 1 ∧
    (s.shipHit clock j).asteroids =
      Function.update s.asteroids j { s.asteroids j with active := false } := by
  unfold shipHit
  dsimp only
  split_ifs <;> exact ⟨rfl, rfl⟩

theorem shipHit_respawn (clock : ℕ) (j : Fin MAX_ASTEROIDS) (s : AstroLib)
    (h : s.lives - 1 > 0) :
    (s.shipHit clock j).ship =
      { s.ship with pos := screenCentre, vel := { x := 0, y := 0 }, angle := -M_PI / 2,
                    lifetime := INVINCIBILITY_DURATION } ∧
    (s.shipHit clock j).shipSpawnTime = millis clock := by
  unfold shipHit
  dsimp only
  rw [if_pos h]
  exact ⟨rfl, rfl⟩

theorem shipHit_lost (clock : ℕ) (j : Fin MAX_ASTEROIDS) (s : AstroLib)
    (h : ¬ s.lives - 1 > 0) :
    (s.shipHit clock j).ship = { s.ship with active := false } ∧
    (s.shipHit clock j).shipSpawnTime = s.shipSpawnTime := by
  unfold shipHit
  dsimp only
  rw [if_neg h]
  exact ⟨rfl, rfl⟩

theorem handleCollisions_vulnerable (env : Env) (clock : ℕ) (s : AstroLib)
    (hact : s.ship.active = true) (hvul : ¬ s.ship.lifetime > 0) :
    s.handleCollisions env clock =
      match shipFirstHit (s.bulletPass env clock) with
      | some j => (s.bulletPass env clock).shipHit clock j
      | none => s.bulletPass env clock := by
  unfold handleCollisions
  rw [shipPass_eq, if_pos]
  rw [(bulletPass_ship_lives env clock s).1]
  exact ⟨hact, hvul⟩

end AstroLib

/-- C14: immunity has no side effect. For every state in which the ship is inactive or
  `ship.lifetime > 0`, `handleCollisions` leaves `lives`, every field of the ship and
  `shipSpawnTime` unchanged; with no active bullet it also leaves the asteroid pool and the
  score unchanged (the whole state, in fact), however many asteroids overlap the ship. -/
theorem immunity_no_side_effect (env : Env) (clock : ℕ) (s : AstroLib) (h : ShipImmune s) :
    (s.handleCollisions env clock).lives = s.lives ∧
    (s.handleCollisions env clock).ship = s.ship ∧
    (s.handleCollisions env clock).shipSpawnTime = s.shipSpawnTime ∧
    ((∀ i, (s.bullets i).active = false) →
      (s.handleCollisions env clock).asteroids = s.asteroids ∧
      (s.handleCollisions env clock).score = s.score ∧
      s.handleCollisions env clock = s) := by
  have heq := AstroLib.handleCollisions_immune env clock s h
  refine ⟨?_, ?_, ?_, ?_⟩
  · rw [heq, (AstroLib.bulletPass_ship_lives env clock s).2]
  · rw [heq, (AstroLib.bulletPass_ship_lives env clock s).1]
  · rw [heq]
    refine AstroLib.bulletPass_rel (fun a b => b.shipSpawnTime = a.shipSpawnTime) env clock
      (fun _ => rfl) (fun _ _ _ h1 h2 => h2.trans h1) ?_ s
    intro t i j _ _
    unfold AstroLib.bulletHit
    obtain ⟨a', p', hb⟩ := AstroLib.breakAsteroid_frame env j (t.hitEffects clock i j)
    rw [hb]
    rfl
  · intro hnone
    have hs : s.handleCollisions env clock = s := by
      rw [heq, AstroLib.bulletPass_no_bullet env clock s hnone]
    rw [hs]
    exact ⟨rfl, rfl, rfl⟩

theorem immunity_no_side_effect_witness :
    ShipImmune immuneState ∧
    (immuneState.asteroids 0).active = true ∧
    AstroLib.collides immuneState.ship (immuneState.asteroids 0) = true ∧
    (immuneState.handleCollisions demoEnv 100).lives = 3 ∧
    immuneState.handleCollisions demoEnv 100 = immuneState :=
  ⟨Or.inr (by decide), rfl, by with_unfolding_all decide,
    (immunity_no_side_effect demoEnv 100 immuneState (Or.inr (by decide))).1,
    (immunity_no_side_effect demoEnv 100 immuneState (Or.inr (by decide))).2.2.2
      (by decide) |>.2.2⟩

/-- C13, counterexample: in `rammedShotState` the ship is active, not invincible and overlaps
  the active asteroid in slot 0 when `handleCollisions` is called, yet the call does not
  decrement `lives` and leaves the ship where it was: the bullet pass, which runs first,
  destroys that asteroid (the score grows by 100) and the ship pass finds nothing to hit. -/
theorem ship_hit_counterexample :
    rammedShotState.ship.active = true ∧ ¬ rammedShotState.ship.lifetime > 0 ∧
    (rammedShotState.asteroids 0).active = true ∧
    AstroLib.collides rammedShotState.ship (rammedShotState.asteroids 0) = true ∧
    rammedShotState.lives = 3 ∧
    (rammedShotState.handleCollisions demoEnv 3000).lives = 3 ∧
    (rammedShotState.handleCollisions demoEnv 3000).ship = rammedShotState.ship ∧
    ((rammedShotState.handleCollisions demoEnv 3000).asteroids 0).active = false ∧
    (rammedShotState.handleCollisions demoEnv 3000).score = rammedShotState.score + 100 := by
  refine ⟨rfl, by decide, rfl, ?_, rfl, ?_, ?_, ?_, ?_⟩ <;> with_unfolding_all decide

/-- C13, amended: ship hit. When the ship is active and not invincible and, when the ship
  pass runs (after the bullet pass; this is the state at the call when no bullet is active),
  at least one active asteroid passes the collision test with the ship, `handleCollisions`
  decrements `lives` by exactly 1, deactivates exactly the lowest-index such asteroid and
  changes no other slot after the bullet pass; if the new `lives > 0` the ship stays
  active at `(SCREEN_WIDTH/2, SCREEN_HEIGHT/2)` with zero velocity, heading `−π/2`,
  `lifetime = INVINCIBILITY_DURATION` and `shipSpawnTime = now`; otherwise the ship is
  deactivated instead. No call of `handleCollisions` takes more than one life. -/
theorem ship_hit (env : Env) (clock : ℕ) (s : AstroLib)
    (hact : s.ship.active = true) (hvul : ¬ s.ship.lifetime > 0)
    (hover : ∃ k, ((s.bulletPass env clock).asteroids k).active = true ∧
      AstroLib.collides s.ship ((s.bulletPass env clock).asteroids k) = true) :
    ((∀ i, (s.bullets i).active = false) → s.bulletPass env clock = s) ∧
    (∀ t : AstroLib, (t.handleCollisions env clock).lives = t.lives ∨
      (t.handleCollisions env clock).lives = t.lives - 1) ∧
    ∃ j, (((s.bulletPass env clock).asteroids j).active = true ∧
        AstroLib.collides s.ship ((s.bulletPass env clock).asteroids j) = true) ∧
      (∀ k, ((s.bulletPass env clock).asteroids k).active = true →
        AstroLib.collides s.ship ((s.bulletPass env clock).asteroids k) = true → j ≤ k) ∧
      s.handleCollisions env clock = (s.bulletPass env clock).shipHit clock j ∧
      (s.handleCollisions env clock).lives = s.lives - 1 ∧
      (s.handleCollisions env clock).asteroids =
        Function.update (s.bulletPass env clock).asteroids j
          { (s.bulletPass env clock).asteroids j with active := false } ∧
      (s.lives - 1 > 0 →
        (s.handleCollisions env clock).ship =
          { s.ship with pos := { x := (SCREEN_WIDTH : ℚ) / 2, y := (SCREEN_HEIGHT : ℚ) / 2 },
                        vel := { x := 0, y := 0 }, angle := -M_PI / 2,
                        lifetime := INVINCIBILITY_DURATION } ∧
        (s.handleCollisions env clock).ship.active = true ∧
        (s.handleCollisions env clock).shipSpawnTime = millis clock) ∧
      (¬ s.lives - 1 > 0 →
        (s.handleCollisions env clock).ship = { s.ship with active := false }) := by
  obtain ⟨hship, hlives⟩ := AstroLib.bulletPass_ship_lives env clock s
  refine ⟨AstroLib.bulletPass_no_bullet env clock s, ?_, ?_⟩
  · intro t
    obtain ⟨-, htl⟩ := AstroLib.bulletPass_ship_lives env clock t
    unfold AstroLib.handleCollisions
    rw [AstroLib.shipPass_eq]
    split_ifs
    · cases shipFirstHit (t.bulletPass env clock) with
      | none => left; exact htl
      | some j => right; dsimp only; rw [(AstroLib.shipHit_lives clock j _).1, htl]
    · left; exact htl
  · obtain ⟨k0, hk1, hk2⟩ := hover
    rw [← hship] at hk2
    obtain ⟨j, hj⟩ := AstroLib.shipFirstHit_isSome _ k0 hk1 hk2
    have heq : s.handleCollisions env clock = (s.bulletPass env clock).shipHit clock j := by
      rw [AstroLib.handleCollisions_vulnerable env clock s hact hvul, hj]
    obtain ⟨hj1, hj2⟩ := AstroLib.shipFirstHit_some _ j hj
    refine ⟨j, ⟨hj1, by rw [← hship]; exact hj2⟩, ?_, heq, ?_, ?_, ?_, ?_⟩
    · intro k hka hkc
      by_contra hlt
      have := AstroLib.find?_finRange_lowest _ j hj k (not_le.1 hlt)
      rw [← hship] at hkc
      simp [hka, hkc] at this
    · rw [heq, (AstroLib.shipHit_lives clock j _).1, hlives]
    · rw [heq, (AstroLib.shipHit_lives clock j _).2]
    · intro hpos
      obtain ⟨h1, h2⟩ := AstroLib.shipHit_respawn clock j (s.bulletPass env clock)
        (by rw [hlives]; exact hpos)
      rw [heq, h1, hship]
      exact ⟨rfl, hact, h2⟩
    · intro hneg
      obtain ⟨h1, -⟩ := AstroLib.shipHit_lost clock j (s.bulletPass env clock)
        (by rw [hlives]; exact hneg)
      rw [heq, h1, hship]

theorem ship_hit_witness :
    rammedState.ship.active = true ∧ ¬ rammedState.ship.lifetime > 0 ∧
    (∃ k, ((rammedState.bulletPass demoEnv 3000).asteroids k).active = true ∧
      AstroLib.collides rammedState.ship
        ((rammedState.bulletPass demoEnv 3000).asteroids k) = true) ∧
    ∃ j, (rammedState.handleCollisions demoEnv 3000).lives = rammedState.lives - 1 ∧
      (rammedState.handleCollisions demoEnv 3000).asteroids =
        Function.update (rammedState.bulletPass demoEnv 3000).asteroids j
          { (rammedState.bulletPass demoEnv 3000).asteroids j with active := false } :=
  ⟨rfl, by decide, ⟨0, by with_unfolding_all decide⟩,
    (ship_hit demoEnv 3000 rammedState rfl (by decide)
      ⟨0, by with_unfolding_all decide⟩).2.2.elim
      fun j hj => ⟨j, hj.2.2.2.1, hj.2.2.2.2.1⟩⟩

/-! ## Pool exhaustion -/

theorem stopTone_shootCount (a : AudioEngine) : shootCount a.stopTone = shootCount a := by
  unfold AudioEngine.stopTone shootCount
  split_ifs
  · rfl
  · simp [List.count_append]

theorem playTone_shootCount (a : AudioEngine) (clock freq duration : ℕ)
    (h : freq ≠ SND_SHOOT_FREQ ∨ duration = 0) :
    shootCount (a.playTone clock freq duration) = shootCount a := by
  unfold AudioEngine.playTone
  split_ifs with h1 h2 h3
  · rfl
  · rcases h with h | h
    · have hzero : List.count (BuzzerCall.tone SND_SHOOT_FREQ (some SND_SHORT_DURATION))
          [BuzzerCall.tone freq (some duration)] = 0 := by
        rw [List.count_eq_zero, List.mem_singleton]
        intro heq
        injection heq with h5 h6
        exact h h5.symm
      unfold shootCount
      dsimp only
      rw [List.count_append, hzero]
      rfl
    · omega
  · unfold shootCount
    simp [List.count_append]
  · exact stopTone_shootCount a

theorem startThrustSound_shootCount (a : AudioEngine) (clock : ℕ) (q : ℚ) :
    shootCount (a.startThrustSound clock q) = shootCount a := by
  unfold AudioEngine.startThrustSound
  dsimp only
  split_ifs
  · rfl
  · rw [playTone_shootCount _ _ _ _ (Or.inr rfl)]
    rfl
  · rfl

theorem stopThrustSound_shootCount (a : AudioEngine) :
    shootCount a.stopThrustSound = shootCount a := by
  unfold AudioEngine.stopThrustSound
  dsimp only
  split_ifs
  · rfl
  · rw [stopTone_shootCount]
    rfl
  · rfl

theorem playHyperspaceSound_shootCount (a : AudioEngine) (clock : ℕ) :
    shootCount (a.playHyperspaceSound clock) = shootCount a := by
  unfold AudioEngine.playHyperspaceSound
  dsimp only
  split_ifs
  · rfl
  · rw [playTone_shootCount _ _ _ _ (Or.inl (by decide)), stopTone_shootCount]
    rfl
  · rw [playTone_shootCount _ _ _ _ (Or.inl (by decide))]
    rfl

namespace AstroLib

theorem findInactiveBulletSlot_none (s : AstroLib) :
    s.findInactiveBulletSlot = none ↔ ∀ i, (s.bullets i).active = true := by
  unfold findInactiveBulletSlot
  simp [List.find?_eq_none]

theorem handleFire_full (env : Env) (clock : ℕ) (fire : Bool) (s : AstroLib)
    (h : ∀ i, (s.bullets i).active = true) : s.handleFire env clock fire = s := by
  unfold handleFire
  dsimp only
  rw [(findInactiveBulletSlot_none s).2 h]
  split_ifs <;> rfl

theorem handleRotation_bullets (joyX : ℤ) (s : AstroLib) :
    (s.handleRotation joyX).bullets = s.bullets ∧
    (s.handleRotation joyX).lastFireTime = s.lastFireTime ∧
    (s.handleRotation joyX).audio = s.audio := by
  unfold handleRotation
  dsimp only
  split_ifs <;> exact ⟨rfl, rfl, rfl⟩

theorem handleThrust_bullets (env : Env) (clock : ℕ) (joyY : ℤ) (s : AstroLib) :
    (s.handleThrust env clock joyY).bullets = s.bullets ∧
    (s.handleThrust env clock joyY).lastFireTime = s.lastFireTime ∧
    shootCount (s.handleThrust env clock joyY).audio = shootCount s.audio := by
  unfold handleThrust
  dsimp only
  split_ifs <;>
    first
    | exact ⟨rfl, rfl, rfl⟩
    | exact ⟨rfl, rfl, startThrustSound_shootCount _ _ _⟩
    | exact ⟨rfl, rfl, stopThrustSound_shootCount _⟩

theorem triggerHyperspace_bullets (env : Env) (clock : ℕ) (s : AstroLib) :
    (s.triggerHyperspace env clock).bullets = s.bullets ∧
    (s.triggerHyperspace env clock).lastFireTime = s.lastFireTime ∧
    shootCount (s.triggerHyperspace env clock).audio = shootCount s.audio := by
  unfold triggerHyperspace nextRandom
  dsimp only
  split_ifs
  · exact ⟨rfl, rfl, rfl⟩
  · exact ⟨rfl, rfl, by rw [stopThrustSound_shootCount, playHyperspaceSound_shootCount]⟩
  · exact ⟨rfl, rfl, playHyperspaceSound_shootCount _ _⟩

theorem handleHyperspace_bullets (env : Env) (clock : ℕ) (hyper : Bool) (s : AstroLib) :
    (s.handleHyperspace env clock hyper).bullets = s.bullets ∧
    (s.handleHyperspace env clock hyper).lastFireTime = s.lastFireTime ∧
    shootCount (s.handleHyperspace env clock hyper).audio = shootCount s.audio := by
  unfold handleHyperspace
  dsimp only
  split_ifs
  · exact triggerHyperspace_bullets env clock s
  · exact ⟨rfl, rfl, rfl⟩
  · exact ⟨rfl, rfl, rfl⟩

end AstroLib

/-- C17: pool exhaustion is a silent no-op. When all 10 asteroid slots are active,
  `spawnAsteroid` with any arguments leaves the asteroid pool (and the whole session)
  unchanged. When all 5 bullet slots are active, `handleInput` with any inputs, a valid
  fire edge included, leaves the bullet pool and `lastFireTime` unchanged, sends no shoot cue
  to the buzzer, and ends in the same state as the same call without the fire button. -/
theorem pool_exhaustion (env : Env) (clock : ℕ) (s : AstroLib) :
    ((∀ j, (s.asteroids j).active = true) → ∀ (size : ℤ) (x y vx vy : ℚ),
      (s.spawnAsteroid env size x y vx vy).asteroids = s.asteroids ∧
      s.spawnAsteroid env size x y vx vy = s) ∧
    ((∀ i, (s.bullets i).active = true) → ∀ (joyX joyY : ℤ) (fire hyper : Bool),
      (s.handleInput env clock joyX joyY fire hyper).bullets = s.bullets ∧
      (s.handleInput env clock joyX joyY fire hyper).lastFireTime = s.lastFireTime ∧
      shootCount (s.handleInput env clock joyX joyY fire hyper).audio = shootCount s.audio ∧
      s.handleInput env clock joyX joyY fire hyper =
        s.handleInput env clock joyX joyY false hyper) := by
  constructor
  · intro h size x y vx vy
    have hs := AstroLib.spawnAsteroid_full env size x y vx vy s
      ((AstroLib.findInactiveAsteroidSlot_none s).2 h)
    rw [hs]
    exact ⟨rfl, rfl⟩
  · intro h joyX joyY fire hyper
    have hfull : ∀ i, ((((s.handleRotation joyX).handleThrust env clock joyY)).bullets i).active
        = true := by
      intro i
      rw [(AstroLib.handleThrust_bullets env clock joyY _).1,
        (AstroLib.handleRotation_bullets joyX s).1]
      exact h i
    have hfire : ∀ f : Bool,
        ((s.handleRotation joyX).handleThrust env clock joyY).handleFire env clock f =
          (s.handleRotation joyX).handleThrust env clock joyY :=
      fun f => AstroLib.handleFire_full env clock f _ hfull
    unfold AstroLib.handleInput
    split_ifs
    · exact ⟨rfl, rfl, stopThrustSound_shootCount _, rfl⟩
    · exact ⟨rfl, rfl, rfl, rfl⟩
    · dsimp only
      rw [hfire fire, hfire false]
      refine ⟨?_, ?_, ?_, rfl⟩
      · rw [(AstroLib.handleHyperspace_bullets env clock hyper _).1,
          (AstroLib.handleThrust_bullets env clock joyY _).1,
          (AstroLib.handleRotation_bullets joyX s).1]
      · rw [(AstroLib.handleHyperspace_bullets env clock hyper _).2.1,
          (AstroLib.handleThrust_bullets env clock joyY _).2.1,
          (AstroLib.handleRotation_bullets joyX s).2.1]
      · rw [(AstroLib.handleHyperspace_bullets env clock hyper _).2.2,
          (AstroLib.handleThrust_bullets env clock joyY _).2.2,
          (AstroLib.handleRotation_bullets joyX s).2.2]

/-! ## Pool capacity -/

theorem bootState_eq :
    (powerOnState.attachHyperspaceButtonPin 4).begin demoEnv 1 0 25 0 = some bootState := by
  with_unfolding_all rfl

theorem bootState_reachable : Reachable demoEnv bootState :=
  ⟨blankObject, fun _ => blankObject, fun _ => blankObject, -1, 4, 1, 0, 25, 0, bootState, [],
    bootState_eq, rfl⟩

theorem reachable_induction (env : Env) (P : AstroLib → Prop)
    (hboot : ∀ (s0 s : AstroLib) (fuel clock : ℕ) (audioPin stored : ℤ),
      s0.begin env fuel clock audioPin stored = some s → P s)
    (htick : ∀ (fuel : ℕ) (inp : TickInput) (s s' : AstroLib),
      P s → s.update env fuel inp = some s' → P s')
    (hfire : ∀ (pin : ℤ) (s : AstroLib), P s → P (s.attachFireButtonPin pin))
    (hhyper : ∀ (pin : ℤ) (s : AstroLib), P s → P (s.attachHyperspaceButtonPin pin))
    (hreset : ∀ s : AstroLib, P s → P s.resetHighScore)
    (s : AstroLib) (h : Reachable env s) : P s := by
  obtain ⟨ship0, bullets0, asteroids0, firePin, hyperPin, fuel, clock, audioPin, stored, s1,
    calls, hbegin, hrun⟩ := h
  have h1 : P s1 := hboot _ _ _ _ _ _ hbegin
  clear hbegin
  induction calls generalizing s1 with
  | nil =>
    simp only [AstroLib.run, Option.some.injEq] at hrun
    rw [← hrun]
    exact h1
  | cons c rest ih =>
    simp only [AstroLib.run, Option.bind_eq_some] at hrun
    obtain ⟨s2, hs2, hrest⟩ := hrun
    refine ih s2 hrest ?_
    cases c with
    | tick fuel inp => exact htick fuel inp s1 s2 h1 hs2
    | attachFire pin =>
      simp only [AstroLib.call, Option.some.injEq] at hs2
      rw [← hs2]
      exact hfire pin s1 h1
    | attachHyperspace pin =>
      simp only [AstroLib.call, Option.some.injEq] at hs2
      rw [← hs2]
      exact hhyper pin s1 h1
    | resetHighScore =>
      simp only [AstroLib.call, Option.some.injEq] at hs2
      rw [← hs2]
      exact hreset s1 h1

theorem slotLoop_spec {n : ℕ} (pool : Fin n → GameObject) :
    ∀ (k i : ℕ), i + k = n →
      (slotLoop pool k i = -1 ∧ ∀ j : Fin n, i ≤ j.val → (pool j).active = true) ∨
      (∃ j : Fin n, slotLoop pool k i = (j.val : ℤ) ∧ i ≤ j.val ∧ (pool j).active = false ∧
        ∀ j' : Fin n, i ≤ j'.val → j'.val < j.val → (pool j').active = true) := by
  intro k
  induction k with
  | zero =>
    intro i hi
    left
    refine ⟨rfl, ?_⟩
    intro j hj
    have := j.isLt
    omega
  | succ k ih =>
    intro i hi
    have hlt : i < n := by omega
    unfold slotLoop
    rw [dif_pos hlt]
    by_cases hact : (pool ⟨i, hlt⟩).active = true
    · rw [if_neg (by simp [hact])]
      rcases ih (i + 1) (by omega) with ⟨h1, h2⟩ | ⟨j, h1, h2, h3, h4⟩
      · left
        refine ⟨h1, ?_⟩
        intro j hj
        rcases Nat.eq_or_lt_of_le hj with heq | hlt2
        · have : j = ⟨i, hlt⟩ := Fin.ext heq.symm
          rw [this]
          exact hact
        · exact h2 j hlt2
      · right
        refine ⟨j, h1, by omega, h3, ?_⟩
        intro j' hj1 hj2
        rcases Nat.eq_or_lt_of_le hj1 with heq | hlt2
        · have : j' = ⟨i, hlt⟩ := Fin.ext heq.symm
          rw [this]
          exact hact
        · exact h4 j' hlt2 hj2
    · rw [if_pos (by simpa using hact)]
      right
      refine ⟨⟨i, hlt⟩, rfl, le_refl _, by simpa using hact, ?_⟩
      intro j' hj1 hj2
      simp only at hj2
      omega

theorem slotLoop_eq_find {n : ℕ} (pool : Fin n → GameObject) :
    slotLoop pool n 0 =
      match (List.finRange n).find? (fun i => !(pool i).active) with
      | some k => (k.val : ℤ)
      | none => -1 := by
  cases hfind : (List.finRange n).find? (fun i => !(pool i).active) with
  | none =>
    dsimp only
    rw [List.find?_eq_none] at hfind
    rcases slotLoop_spec pool n 0 (by omega) with ⟨h1, -⟩ | ⟨j, -, -, h3, -⟩
    · exact h1
    · have := hfind j (List.mem_finRange j)
      simp [h3] at this
  | some k =>
    dsimp only
    have hk : (pool k).active = false := by simpa using List.find?_some hfind
    have hlow := AstroLib.find?_finRange_lowest _ k hfind
    rcases slotLoop_spec pool n 0 (by omega) with ⟨-, h2⟩ | ⟨j, h1, -, h3, h4⟩
    · have := h2 k (Nat.zero_le _)
      rw [hk] at this
      exact absurd this (by decide)
    · rw [h1]
      rcases lt_trichotomy j k with hjk | hjk | hjk
      · have := hlow j hjk
        simp [h3] at this
      · rw [hjk]
      · have := h4 k (Nat.zero_le _) hjk
        rw [hk] at this
        exact absurd this (by decide)

theorem slotLoop_range {n : ℕ} (pool : Fin n → GameObject) :
    slotLoop pool n 0 = -1 ∨ (0 ≤ slotLoop pool n 0 ∧ slotLoop pool n 0 < (n : ℤ)) := by
  rcases slotLoop_spec pool n 0 (by omega) with ⟨h1, -⟩ | ⟨j, h1, -, -, -⟩
  · left; exact h1
  · right
    rw [h1]
    have := j.isLt
    omega

namespace AstroLib

theorem findInactiveBulletSlotIndex_eq (s : AstroLib) :
    s.findInactiveBulletSlotIndex =
      match s.findInactiveBulletSlot with
      | some k => (k.val : ℤ)
      | none => -1 := by
  have h := slotLoop_eq_find s.bullets
  unfold findInactiveBulletSlotIndex findInactiveBulletSlot
  cases hf : (List.finRange MAX_BULLETS).find? (fun i => !(s.bullets i).active) with
  | none => rw [hf] at h; exact h
  | some k => rw [hf] at h; exact h

theorem findInactiveAsteroidSlotIndex_eq (s : AstroLib) :
    s.findInactiveAsteroidSlotIndex =
      match s.findInactiveAsteroidSlot with
      | some k => (k.val : ℤ)
      | none => -1 := by
  have h := slotLoop_eq_find s.asteroids
  unfold findInactiveAsteroidSlotIndex findInactiveAsteroidSlot
  cases hf : (List.finRange MAX_ASTEROIDS).find? (fun i => !(s.asteroids i).active) with
  | none => rw [hf] at h; exact h
  | some k => rw [hf] at h; exact h

theorem spawnAsteroid_writes (env : Env) (size : ℤ) (x y vx vy : ℚ) (s : AstroLib)
    (k : Fin MAX_ASTEROIDS) (hk : (k.val : ℤ) ≠ s.findInactiveAsteroidSlotIndex) :
    (s.spawnAsteroid env size x y vx vy).asteroids k = s.asteroids k := by
  rw [findInactiveAsteroidSlotIndex_eq] at hk
  cases h : s.findInactiveAsteroidSlot with
  | none => rw [spawnAsteroid_full env size x y vx vy s h]
  | some k0 =>
    rw [h] at hk
    obtain ⟨o, p, heq, -⟩ := spawnAsteroid_slot env size x y vx vy s k0 h
    rw [heq]
    dsimp only
    rw [Function.update_noteq]
    intro hkk
    exact hk (by rw [hkk])

theorem handleFire_writes (env : Env) (clock : ℕ) (fire : Bool) (s : AstroLib)
    (k : Fin MAX_BULLETS) (hk : (k.val : ℤ) ≠ s.findInactiveBulletSlotIndex) :
    (s.handleFire env clock fire).bullets k = s.bullets k := by
  rw [findInactiveBulletSlotIndex_eq] at hk
  unfold handleFire
  dsimp only
  split_ifs
  · cases h : s.findInactiveBulletSlot with
    | none => rfl
    | some k0 =>
      rw [h] at hk
      dsimp only
      rw [Function.update_noteq]
      intro hkk
      exact hk (by rw [hkk])
  · rfl

end AstroLib

/-- C16: pool capacity. In every state reachable from `begin()` by `update` calls the number
  of active bullets is at most `MAX_BULLETS` and the number of active asteroids at most
  `MAX_ASTEROIDS` (the pools are arrays of that size, so the bound holds in every state).
  Every spawn writes inside its pool: in any state, also between two statements of a tick,
  the slot searches return `-1` or an index `0 ≤ slot < capacity` of an inactive slot, they
  return `-1` exactly when the pool is full, and the firing block and `spawnAsteroid` change
  no slot other than the one returned. -/
theorem pool_capacity (env : Env) (s : AstroLib) (h : Reachable env s) :
    activeCount s.bullets ≤ MAX_BULLETS ∧ activeCount s.asteroids ≤ MAX_ASTEROIDS ∧
    (∀ t : AstroLib,
      (t.findInactiveBulletSlotIndex = -1 ∨
        (0 ≤ t.findInactiveBulletSlotIndex ∧ t.findInactiveBulletSlotIndex < MAX_BULLETS)) ∧
      (t.findInactiveAsteroidSlotIndex = -1 ∨
        (0 ≤ t.findInactiveAsteroidSlotIndex ∧
          t.findInactiveAsteroidSlotIndex < MAX_ASTEROIDS)) ∧
      (t.findInactiveBulletSlotIndex = -1 ↔ activeCount t.bullets = MAX_BULLETS) ∧
      (t.findInactiveAsteroidSlotIndex = -1 ↔ activeCount t.asteroids = MAX_ASTEROIDS) ∧
      (∀ k : Fin MAX_BULLETS, (k.val : ℤ) = t.findInactiveBulletSlotIndex →
        (t.bullets k).active = false) ∧
      (∀ k : Fin MAX_ASTEROIDS, (k.val : ℤ) = t.findInactiveAsteroidSlotIndex →
        (t.asteroids k).active = false) ∧
      (∀ (clock : ℕ) (fire : Bool) (k : Fin MAX_BULLETS),
        (k.val : ℤ) ≠ t.findInactiveBulletSlotIndex →
        (t.handleFire env clock fire).bullets k = t.bullets k) ∧
      (∀ (size : ℤ) (x y vx vy : ℚ) (k : Fin MAX_ASTEROIDS),
        (k.val : ℤ) ≠ t.findInactiveAsteroidSlotIndex →
        (t.spawnAsteroid env size x y vx vy).asteroids k = t.asteroids k)) := by
  have hcount : activeCount s.bullets ≤ MAX_BULLETS ∧ activeCount s.asteroids ≤ MAX_ASTEROIDS :=
    reachable_induction env
      (fun u => activeCount u.bullets ≤ MAX_BULLETS ∧ activeCount u.asteroids ≤ MAX_ASTEROIDS)
      (fun _ u _ _ _ _ _ => ⟨activeCount_le _, activeCount_le _⟩)
      (fun _ _ _ u _ _ => ⟨activeCount_le _, activeCount_le _⟩)
      (fun _ u _ => ⟨activeCount_le _, activeCount_le _⟩)
      (fun _ u _ => ⟨activeCount_le _, activeCount_le _⟩)
      (fun u _ => ⟨activeCount_le _, activeCount_le _⟩) s h
  refine ⟨hcount.1, hcount.2, ?_⟩
  intro t
  have hfull : ∀ {n : ℕ} (pool : Fin n → GameObject),
      slotLoop pool n 0 = -1 ↔ activeCount pool = n := by
    intro n pool
    rw [activeCount_eq_size_iff]
    constructor
    · intro hm
      rcases slotLoop_spec pool n 0 (by omega) with ⟨-, h2⟩ | ⟨j, h1, -, -, -⟩
      · exact fun i => h2 i (Nat.zero_le _)
      · rw [h1] at hm
        omega
    · intro hall
      rcases slotLoop_spec pool n 0 (by omega) with ⟨h1, -⟩ | ⟨j, -, -, h3, -⟩
      · exact h1
      · rw [hall j] at h3
        exact absurd h3 (by decide)
  have hfree : ∀ {n : ℕ} (pool : Fin n → GameObject) (k : Fin n),
      (k.val : ℤ) = slotLoop pool n 0 → (pool k).active = false := by
    intro n pool k hk
    rcases slotLoop_spec pool n 0 (by omega) with ⟨h1, -⟩ | ⟨j, h1, -, h3, -⟩
    · rw [h1] at hk
      omega
    · rw [h1] at hk
      have : k = j := Fin.ext (by omega)
      rw [this]
      exact h3
  exact ⟨slotLoop_range t.bullets, slotLoop_range t.asteroids, hfull t.bullets,
    hfull t.asteroids, hfree t.bullets, hfree t.asteroids,
    fun clock fire k hk => AstroLib.handleFire_writes env clock fire t k hk,
    fun size x y vx vy k hk => AstroLib.spawnAsteroid_writes env size x y vx vy t k hk⟩

theorem pool_capacity_witness :
    Reachable demoEnv bootState ∧
    activeCount bootState.bullets ≤ MAX_BULLETS ∧
    activeCount bootState.asteroids ≤ MAX_ASTEROIDS ∧
    bootState.findInactiveAsteroidSlotIndex = 3 ∧
    bootState.findInactiveBulletSlotIndex = 0 :=
  ⟨bootState_reachable, (pool_capacity demoEnv bootState bootState_reachable).1,
    (pool_capacity demoEnv bootState bootState_reachable).2.1,
    by with_unfolding_all decide, by with_unfolding_all decide⟩

/-! ## Hyperspace -/

namespace AstroLib

theorem beforeHyperspace_view (env : Env) (clock : ℕ) (joyX joyY : ℤ) (fire : Bool)
    (s : AstroLib) : (s.beforeHyperspace env clock joyX joyY fire).hyperView = s.hyperView := by
  have h1 : ∀ t : AstroLib, (t.handleRotation joyX).hyperView = t.hyperView := by
    intro t
    unfold handleRotation
    dsimp only
    split_ifs <;> rfl
  have h2 : ∀ t : AstroLib, (t.handleThrust env clock joyY).hyperView = t.hyperView := by
    intro t
    unfold handleThrust
    dsimp only
    split_ifs <;> rfl
  have h3 : ∀ t : AstroLib, (t.handleFire env clock fire).hyperView = t.hyperView := by
    intro t
    unfold handleFire
    dsimp only
    split_ifs
    · cases t.findInactiveBulletSlot <;> rfl
    · rfl
  unfold beforeHyperspace
  rw [h3, h2, h1]

theorem handleInput_active (env : Env) (clock : ℕ) (joyX joyY : ℤ) (fire hyper : Bool)
    (s : AstroLib) (h : s.ship.active = true) :
    s.handleInput env clock joyX joyY fire hyper =
      (s.beforeHyperspace env clock joyX joyY fire).handleHyperspace env clock hyper := by
  unfold handleInput
  rw [if_neg (by simp [h])]
  rfl

theorem handleInput_inactive (env : Env) (clock : ℕ) (joyX joyY : ℤ) (fire hyper : Bool)
    (s : AstroLib) (h : s.ship.active = false) :
    (s.handleInput env clock joyX joyY fire hyper).ship = s.ship ∧
    (s.handleInput env clock joyX joyY fire hyper).hyperView = s.hyperView := by
  unfold handleInput
  rw [if_pos (by simp [h])]
  split_ifs <;> exact ⟨rfl, rfl⟩

theorem triggerHyperspace_active (env : Env) (clock : ℕ) (s : AstroLib)
    (h : s.ship.active = true) :
    (s.triggerHyperspace env clock).ship =
      { s.ship with
        pos := { x := (random (truncQ (s.ship.radius * 2))
                    (truncQ ((SCREEN_WIDTH : ℚ) - s.ship.radius * 2)) (env.rand s.rngPos) : ℤ),
                 y := (random (truncQ (s.ship.radius * 2))
                    (truncQ ((SCREEN_HEIGHT : ℚ) - s.ship.radius * 2))
                    (env.rand (s.rngPos + 1)) : ℤ) }
        vel := { x := 0, y := 0 }
        lifetime := HYPERSPACE_INVINCIBILITY } ∧
    (s.triggerHyperspace env clock).shipSpawnTime = millis clock ∧
    (s.triggerHyperspace env clock).rngPos = s.rngPos + 2 ∧
    (s.triggerHyperspace env clock).isThrusting = false ∧
    (s.triggerHyperspace env clock).lastHyperspaceTime = s.lastHyperspaceTime ∧
    (s.triggerHyperspace env clock).hyperspaceButtonPressedLastFrame =
      s.hyperspaceButtonPressedLastFrame := by
  unfold triggerHyperspace nextRandom
  dsimp only
  rw [if_neg (by simp [h])]
  split_ifs with h2
  · exact ⟨rfl, rfl, rfl, rfl, rfl, rfl⟩
  · exact ⟨rfl, rfl, rfl, by simpa using h2, rfl, rfl⟩

theorem handleHyperspace_open (env : Env) (clock : ℕ) (hyper : Bool) (s : AstroLib)
    (h : JumpGate clock hyper s) :
    s.handleHyperspace env clock hyper =
      { s.triggerHyperspace env clock with lastHyperspaceTime := millis clock } := by
  obtain ⟨h1, h2, h3⟩ := h
  unfold handleHyperspace
  dsimp only
  rw [if_pos (by simp [h1, h2]), if_pos h3]

theorem handleHyperspace_closed (env : Env) (clock : ℕ) (hyper : Bool) (s : AstroLib)
    (h : ¬ JumpGate clock hyper s) : s.handleHyperspace env clock hyper = s := by
  unfold handleHyperspace
  dsimp only
  split_ifs with h1 h2
  · exfalso
    apply h
    simp only [Bool.and_eq_true, Bool.not_eq_true', Bool.not_eq_eq_eq_not, Bool.not_true] at h1
    exact ⟨h1.1, h1.2, h2⟩
  · rfl
  · rfl

theorem jumpGate_view (clock : ℕ) (hyper : Bool) (s t : AstroLib)
    (h : t.hyperView = s.hyperView) : JumpGate clock hyper t ↔ JumpGate clock hyper s := by
  unfold hyperView at h
  simp only [Prod.mk.injEq] at h
  unfold JumpGate
  rw [h.2.2.2.2.1, h.2.2.2.2.2.1]

end AstroLib

namespace AstroLib

theorem handleInput_jump (env : Env) (clock : ℕ) (joyX joyY : ℤ) (fire hyper : Bool)
    (s : AstroLib) (hact : s.ship.active = true) (hgate : JumpGate clock hyper s) :
    s.handleInput env clock joyX joyY fire hyper =
      { (s.beforeHyperspace env clock joyX joyY fire).triggerHyperspace env clock with
        lastHyperspaceTime := millis clock } ∧
    (s.handleInput env clock joyX joyY fire hyper).ship.active = true ∧
    (s.handleInput env clock joyX joyY fire hyper).ship.vel = { x := 0, y := 0 } ∧
    (s.handleInput env clock joyX joyY fire hyper).ship.pos =
      { x := (random (truncQ (s.ship.radius * 2))
            (truncQ ((SCREEN_WIDTH : ℚ) - s.ship.radius * 2)) (env.rand s.rngPos) : ℤ),
        y := (random (truncQ (s.ship.radius * 2))
            (truncQ ((SCREEN_HEIGHT : ℚ) - s.ship.radius * 2)) (env.rand (s.rngPos + 1)) : ℤ) } ∧
    (s.handleInput env clock joyX joyY fire hyper).ship.lifetime = HYPERSPACE_INVINCIBILITY ∧
    (s.handleInput env clock joyX joyY fire hyper).lastHyperspaceTime = millis clock ∧
    (s.handleInput env clock joyX joyY fire hyper).shipSpawnTime = millis clock ∧
    (s.handleInput env clock joyX joyY fire hyper).rngPos = s.rngPos + 2 ∧
    (s.handleInput env clock joyX joyY fire hyper).isThrusting = false := by
  have hview := beforeHyperspace_view env clock joyX joyY fire s
  have hgate' := (jumpGate_view clock hyper s _ hview).2 hgate
  unfold hyperView at hview
  simp only [Prod.mk.injEq] at hview
  obtain ⟨v1, v2, v3, v4, v5, v6, v7, v8⟩ := hview
  have hact' : (s.beforeHyperspace env clock joyX joyY fire).ship.active = true := by
    rw [v1]; exact hact
  obtain ⟨t1, t2, t3, t4, t5, t6⟩ := triggerHyperspace_active env clock _ hact'
  have heq := (handleInput_active env clock joyX joyY fire hyper s hact).trans
    (handleHyperspace_open env clock hyper _ hgate')
  rw [heq]
  dsimp only
  rw [t1, v3, v8]
  exact ⟨rfl, hact', rfl, rfl, rfl, rfl, t2, by rw [t3, v8], t4⟩

theorem handleInput_no_jump (env : Env) (clock : ℕ) (joyX joyY : ℤ) (fire hyper : Bool)
    (s : AstroLib) (h : ¬ (s.ship.active = true ∧ JumpGate clock hyper s)) :
    (s.handleInput env clock joyX joyY fire hyper).hyperView = s.hyperView := by
  by_cases hact : s.ship.active = true
  · have hview := beforeHyperspace_view env clock joyX joyY fire s
    have hgate : ¬ JumpGate clock hyper (s.beforeHyperspace env clock joyX joyY fire) := by
      rw [jumpGate_view clock hyper s _ hview]
      exact fun hg => h ⟨hact, hg⟩
    rw [handleInput_active env clock joyX joyY fire hyper s hact,
      handleHyperspace_closed env clock hyper _ hgate, hview]
  · exact (handleInput_inactive env clock joyX joyY fire hyper s (by simpa using hact)).2

theorem handleCollisions_timers (env : Env) (clock : ℕ) (s : AstroLib) :
    (s.handleCollisions env clock).lastHyperspaceTime = s.lastHyperspaceTime := by
  refine handleCollisions_rel (fun a b => b.lastHyperspaceTime = a.lastHyperspaceTime) env clock
    (fun _ => rfl) (fun _ _ _ h1 h2 => h2.trans h1) ?_ ?_ s
  · intro t i j _ _
    unfold bulletHit
    obtain ⟨a', p', hb⟩ := breakAsteroid_frame env j (t.hitEffects clock i j)
    rw [hb]
    rfl
  · intro t j _ _ _
    unfold shipHit
    dsimp only
    split_ifs <;> rfl

theorem afterCollisions_timers (env : Env) (inp : TickInput) (s : AstroLib) :
    (Jumps inp s → (s.afterCollisions env inp).lastHyperspaceTime = millis inp.clock) ∧
    (¬ (s.ship.active = true ∧ JumpGate inp.clock (s.digitalHyperspaceDown inp) s) →
      (s.afterCollisions env inp).lastHyperspaceTime = s.lastHyperspaceTime) := by
  unfold afterCollisions
  constructor
  · rintro ⟨-, hact, hgate⟩
    rw [handleCollisions_timers]
    exact (handleInput_jump env inp.clock inp.joyX inp.joyY (s.anyFireButtonDown inp) _ s hact
      hgate).2.2.2.2.2.1
  · intro h
    rw [handleCollisions_timers]
    have := handleInput_no_jump env inp.clock inp.joyX inp.joyY (s.anyFireButtonDown inp) _ s h
    unfold hyperView at this
    simp only [Prod.mk.injEq] at this
    exact this.2.2.2.2.2.1

theorem update_timers (env : Env) (fuel : ℕ) (inp : TickInput) (s s' : AstroLib)
    (h : s.update env fuel inp = some s') (hreset : ¬ Resets inp s) :
    (Jumps inp s → s'.lastHyperspaceTime = millis inp.clock) ∧
    (¬ Jumps inp s → s'.lastHyperspaceTime = s.lastHyperspaceTime) := by
  cases hstate : s.currentState with
  | START =>
    rw [update_of_start env fuel inp s hstate] at h
    unfold updateStart at h
    dsimp only at h
    rw [if_neg] at h
    · simp only [Option.some.injEq] at h
      subst h
      exact ⟨fun hj => absurd hj.1 (by rw [hstate]; decide), fun _ => rfl⟩
    · intro hfire
      apply hreset
      simp only [Bool.and_eq_true, Bool.not_eq_true', Bool.not_eq_eq_eq_not, Bool.not_true]
        at hfire
      exact ⟨hstate, hfire.1, hfire.2⟩
  | GAME =>
    rw [update_of_game env fuel inp s hstate] at h
    have hkeep : s'.lastHyperspaceTime = (s.afterCollisions env inp).lastHyperspaceTime := by
      rcases updateGame_cases env fuel inp s s' h with ⟨-, rfl⟩ | ⟨-, -, s2, hs2, rfl⟩ | ⟨-, -, rfl⟩
      · unfold enterGameOver
        dsimp only
        split_ifs <;> rfl
      · obtain ⟨a', p', rfl⟩ := spawnNewWave_frame env fuel _ s2 hs2
        rfl
      · rfl
    rw [hkeep]
    obtain ⟨h1, h2⟩ := afterCollisions_timers env inp s
    exact ⟨h1, fun hj => h2 (fun hh => hj ⟨hstate, hh.1, hh.2⟩)⟩
  | GAME_OVER =>
    rw [update_of_gameOver env fuel inp s hstate] at h
    unfold updateGameOver at h
    dsimp only at h
    refine ⟨fun hj => absurd hj.1 (by rw [hstate]; decide), fun _ => ?_⟩
    split_ifs at h <;>
    · simp only [Option.some.injEq] at h
      subst h
      rfl

theorem jump_after_cooldown (inp : TickInput) (s : AstroLib) (t0 : ℕ)
    (hlast : s.lastHyperspaceTime = millis t0) (hle : t0 ≤ inp.clock) (hjump : Jumps inp s) :
    inp.clock - t0 > HYPERSPACE_COOLDOWN := by
  obtain ⟨-, -, -, -, hgt⟩ := hjump
  rw [hlast] at hgt
  exact lt_of_lt_of_le hgt (usub_millis_le inp.clock t0 hle)

theorem session_cooldown (env : Env) (fuel : ℕ) (inp : TickInput) :
    ∀ (calls : List Call) (t t0 : ℕ) (s1 s2 : AstroLib),
      s1.lastHyperspaceTime = millis t0 → t0 ≤ t →
      SameSession env t (calls ++ [Call.tick fuel inp]) s1 →
      s1.run env calls = some s2 → Jumps inp s2 → inp.clock - t0 > HYPERSPACE_COOLDOWN := by
  intro calls
  induction calls with
  | nil =>
    intro t t0 s1 s2 hlast hle hsess hrun hjump
    simp only [run, Option.some.injEq] at hrun
    subst hrun
    simp only [List.nil_append, SameSession] at hsess
    exact jump_after_cooldown inp s1 t0 hlast (le_trans hle hsess.1) hjump
  | cons c rest ih =>
    intro t t0 s1 s2 hlast hle hsess hrun hjump
    simp only [run, Option.bind_eq_some] at hrun
    obtain ⟨s', hs', hrest⟩ := hrun
    cases c with
    | tick f i =>
      simp only [List.cons_append, SameSession] at hsess
      obtain ⟨hclock, hnoreset, hnext⟩ := hsess
      have hs'' : s1.update env f i = some s' := hs'
      obtain ⟨hj1, hj2⟩ := update_timers env f i s1 s' hs'' hnoreset
      by_cases hj : Jumps i s1
      · have := ih i.clock i.clock s' s2 (hj1 hj) (le_refl _) (hnext s' hs'') hrest hjump
        have h0 : t0 ≤ i.clock := le_trans hle hclock
        omega
      · exact ih i.clock t0 s' s2 ((hj2 hj).trans hlast) (le_trans hle hclock) (hnext s' hs'')
          hrest hjump
    | attachFire pin =>
      simp only [call, Option.some.injEq] at hs'
      subst hs'
      simp only [List.cons_append, SameSession] at hsess
      exact ih t t0 (s1.attachFireButtonPin pin) s2 hlast hle hsess hrest hjump
    | attachHyperspace pin =>
      simp only [call, Option.some.injEq] at hs'
      subst hs'
      simp only [List.cons_append, SameSession] at hsess
      exact ih t t0 (s1.attachHyperspaceButtonPin pin) s2 hlast hle hsess hrest hjump
    | resetHighScore =>
      simp only [call, Option.some.injEq] at hs'
      subst hs'
      simp only [List.cons_append, SameSession] at hsess
      exact ih t t0 s1.resetHighScore s2 hlast hle hsess hrest hjump

end AstroLib

namespace AstroLib

theorem countdown_core (env : Env) (clock : ℕ) (s : AstroLib)
    (hs : s.ship.active = true) :
    (s.updateGameObjects clock).ship.active = true ∧
    (s.updateGameObjects clock).ship.lifetime =
      max 0 ((INVINCIBILITY_DURATION : ℤ) - (usub (millis clock) s.shipSpawnTime : ℤ)) ∧
    ((s.updateGameObjects clock).ship.lifetime > 0 ↔
      usub (millis clock) s.shipSpawnTime < INVINCIBILITY_DURATION) ∧
    (usub (millis clock) s.shipSpawnTime < INVINCIBILITY_DURATION →
      (s.updateGameObjects clock).handleCollisions env clock =
        (s.updateGameObjects clock).bulletPass env clock ∧
      ((s.updateGameObjects clock).handleCollisions env clock).lives = s.lives ∧
      ((s.updateGameObjects clock).handleCollisions env clock).ship =
        (s.updateGameObjects clock).ship) ∧
    (INVINCIBILITY_DURATION ≤ usub (millis clock) s.shipSpawnTime →
      ((s.updateGameObjects clock).handleCollisions env clock =
        match shipFirstHit ((s.updateGameObjects clock).bulletPass env clock) with
        | some j => ((s.updateGameObjects clock).bulletPass env clock).shipHit clock j
        | none => (s.updateGameObjects clock).bulletPass env clock) ∧
      ∀ j, ((((s.updateGameObjects clock).bulletPass env clock).asteroids j).active = true ∧
          collides (s.updateGameObjects clock).ship
            (((s.updateGameObjects clock).bulletPass env clock).asteroids j) = true) →
        ((s.updateGameObjects clock).handleCollisions env clock).lives = s.lives - 1) := by
  have hact : (s.updateGameObjects clock).ship.active = true := by
    rw [updateGameObjects_ship_active]; exact hs
  have hlife := updateGameObjects_lifetime clock s hs
  have hiff : (s.updateGameObjects clock).ship.lifetime > 0 ↔
      usub (millis clock) s.shipSpawnTime < INVINCIBILITY_DURATION := by
    rw [hlife]
    simp only [INVINCIBILITY_DURATION, Nat.cast_ofNat]
    constructor
    · intro h
      by_contra hge
      rw [max_eq_left (by omega)] at h
      exact absurd h (lt_irrefl _)
    · intro h
      exact lt_max_of_lt_right (by omega)
  have hlives : (s.updateGameObjects clock).lives = s.lives := rfl
  refine ⟨hact, hlife, hiff, ?_, ?_⟩
  · intro hlt
    have himm : ShipImmune (s.updateGameObjects clock) := Or.inr (hiff.2 hlt)
    have heq := handleCollisions_immune env clock _ himm
    refine ⟨heq, ?_, ?_⟩
    · rw [heq, (bulletPass_ship_lives env clock _).2, hlives]
    · rw [heq, (bulletPass_ship_lives env clock _).1]
  · intro hge
    have hvul : ¬ (s.updateGameObjects clock).ship.lifetime > 0 := by
      rw [hiff]; exact not_lt.2 hge
    have heq := handleCollisions_vulnerable env clock _ hact hvul
    refine ⟨heq, ?_⟩
    rintro j ⟨hj1, hj2⟩
    rw [← (bulletPass_ship_lives env clock _).1] at hj2
    obtain ⟨k, hk⟩ := shipFirstHit_isSome _ j hj1 hj2
    rw [heq, hk]
    dsimp only
    rw [(shipHit_lives clock k _).1, (bulletPass_ship_lives env clock _).2,
      hlives]

end AstroLib

/-- C11: invincibility countdown. For an active ship, `updateGameObjects` at clock `clock`
  sets `ship.lifetime` to `max(0, INVINCIBILITY_DURATION − elapsed)` with
  `elapsed = now − shipSpawnTime` (unsigned 32-bit difference), which is `> 0` iff
  `elapsed < 2000`; the ship pass of the `handleCollisions` call that follows is skipped when
  the value is `> 0` (the call is the bullet pass alone, lives and ship untouched) and runs
  when it is not (the first asteroid that the ship overlaps after the bullet pass costs a
  life). `resetGame` and a ship hit that leaves lives set `shipSpawnTime = now` on an active
  ship, and `elapsed` is the real time difference as long as that is below `2^32` ms. In a
  `GAME` tick that makes no hyperspace jump, `handleInput` leaves `shipSpawnTime` as it was,
  so the countdown and the immunity at the collision pass of that tick are those of the
  `shipSpawnTime` the tick started with. -/
theorem invincibility_countdown (env : Env) (clock : ℕ) (s : AstroLib)
    (hs : s.ship.active = true) :
    (s.updateGameObjects clock).ship.active = true ∧
    (s.updateGameObjects clock).ship.lifetime =
      max 0 ((INVINCIBILITY_DURATION : ℤ) - (usub (millis clock) s.shipSpawnTime : ℤ)) ∧
    ((s.updateGameObjects clock).ship.lifetime > 0 ↔
      usub (millis clock) s.shipSpawnTime < INVINCIBILITY_DURATION) ∧
    (usub (millis clock) s.shipSpawnTime < INVINCIBILITY_DURATION →
      (s.updateGameObjects clock).handleCollisions env clock =
        (s.updateGameObjects clock).bulletPass env clock ∧
      ((s.updateGameObjects clock).handleCollisions env clock).lives = s.lives ∧
      ((s.updateGameObjects clock).handleCollisions env clock).ship =
        (s.updateGameObjects clock).ship) ∧
    (INVINCIBILITY_DURATION ≤ usub (millis clock) s.shipSpawnTime →
      ((s.updateGameObjects clock).handleCollisions env clock =
        match shipFirstHit ((s.updateGameObjects clock).bulletPass env clock) with
        | some j => ((s.updateGameObjects clock).bulletPass env clock).shipHit clock j
        | none => (s.updateGameObjects clock).bulletPass env clock) ∧
      ∀ j, ((((s.updateGameObjects clock).bulletPass env clock).asteroids j).active = true ∧
          AstroLib.collides (s.updateGameObjects clock).ship
            (((s.updateGameObjects clock).bulletPass env clock).asteroids j) = true) →
        ((s.updateGameObjects clock).handleCollisions env clock).lives = s.lives - 1) ∧
    (∀ fuel clock0 (s0 s1 : AstroLib), s0.resetGame env fuel clock0 = some s1 →
      s1.ship.active = true ∧ s1.shipSpawnTime = millis clock0) ∧
    (∀ clock0 j (t : AstroLib), t.lives - 1 > 0 →
      (t.shipHit clock0 j).ship.active = t.ship.active ∧
      (t.shipHit clock0 j).shipSpawnTime = millis clock0) ∧
    (∀ clock0, s.shipSpawnTime = millis clock0 → clock0 ≤ clock → clock - clock0 < U32 →
      usub (millis clock) s.shipSpawnTime = clock - clock0) ∧
    (∀ inp : TickInput, ¬ JumpGate inp.clock (s.digitalHyperspaceDown inp) s →
      (s.afterIntegration env inp).ship.active = true ∧
      (s.afterIntegration env inp).ship.lifetime =
        max 0 ((INVINCIBILITY_DURATION : ℤ) -
          (usub (millis inp.clock) s.shipSpawnTime : ℤ)) ∧
      (usub (millis inp.clock) s.shipSpawnTime < INVINCIBILITY_DURATION →
        (s.afterCollisions env inp).lives = s.lives ∧
        (s.afterCollisions env inp).ship = (s.afterIntegration env inp).ship) ∧
      (INVINCIBILITY_DURATION ≤ usub (millis inp.clock) s.shipSpawnTime →
        ∀ j, (((s.afterBulletPass env inp).asteroids j).active = true ∧
            AstroLib.collides (s.afterIntegration env inp).ship
              ((s.afterBulletPass env inp).asteroids j) = true) →
          (s.afterCollisions env inp).lives = s.lives - 1)) := by
  obtain ⟨c1, c2, c3, c4, c5⟩ := AstroLib.countdown_core env clock s hs
  refine ⟨c1, c2, c3, c4, c5, ?_, ?_, ?_, ?_⟩
  · intro fuel clock0 s0 s1 h
    have := AstroLib.resetGame_spec env fuel clock0 s0 s1 h
    exact ⟨this.2.2.2.2.2.2.2.2.2.2.1, this.2.2.2.2.2.2.2.2.2.2.2.2.2.2.1⟩
  · intro clock0 j t ht
    obtain ⟨h1, h2⟩ := AstroLib.shipHit_respawn clock0 j t ht
    exact ⟨by rw [h1], h2⟩
  · intro clock0 h0 hle hspan
    rw [h0]
    exact usub_millis clock clock0 hle hspan
  · intro inp hgate
    have hview := AstroLib.handleInput_no_jump env inp.clock inp.joyX inp.joyY
      (s.anyFireButtonDown inp) (s.digitalHyperspaceDown inp) s (fun hh => hgate hh.2)
    unfold AstroLib.hyperView at hview
    simp only [Prod.mk.injEq] at hview
    obtain ⟨v1, -, -, -, -, -, v7, -⟩ := hview
    have hlives := (AstroLib.handleInput_lives env inp.clock inp.joyX inp.joyY
      (s.anyFireButtonDown inp) (s.digitalHyperspaceDown inp) s).1
    obtain ⟨d1, d2, -, d4, d5⟩ := AstroLib.countdown_core env inp.clock
      (s.handleInput env inp.clock inp.joyX inp.joyY (s.anyFireButtonDown inp)
        (s.digitalHyperspaceDown inp)) (by rw [v1]; exact hs)
    rw [v7] at d2 d4 d5
    rw [hlives] at d4 d5
    exact ⟨d1, d2, fun hlt => ⟨(d4 hlt).2.1, (d4 hlt).2.2⟩, fun hge => (d5 hge).2⟩

theorem invincibility_countdown_witness :
    lastLifeState.ship.active = true ∧
    (lastLifeState.updateGameObjects 1500).ship.lifetime = 500 ∧
    (lastLifeState.updateGameObjects 2000).ship.lifetime = 0 ∧
    ((lastLifeState.updateGameObjects 1500).handleCollisions demoEnv 1500).lives = 1 ∧
    ((lastLifeState.updateGameObjects 2000).handleCollisions demoEnv 2000).lives = 0 :=
  ⟨rfl,
    (invincibility_countdown demoEnv 1500 lastLifeState rfl).2.1.trans (by decide),
    (invincibility_countdown demoEnv 2000 lastLifeState rfl).2.1.trans (by decide),
    ((invincibility_countdown demoEnv 1500 lastLifeState rfl).2.2.2.1 (by decide)).2.1,
    ((invincibility_countdown demoEnv 2000 lastLifeState rfl).2.2.2.2.1 (by decide)).2 0
      (by with_unfolding_all decide)⟩


theorem hyperspace_range (raw raw' : ℕ) :
    (2 * SHIP_COLLISION_RADIUS ≤
        ((random (truncQ (SHIP_COLLISION_RADIUS * 2))
          (truncQ ((SCREEN_WIDTH : ℚ) - SHIP_COLLISION_RADIUS * 2)) raw : ℤ) : ℚ) ∧
      ((random (truncQ (SHIP_COLLISION_RADIUS * 2))
          (truncQ ((SCREEN_WIDTH : ℚ) - SHIP_COLLISION_RADIUS * 2)) raw : ℤ) : ℚ) <
        (SCREEN_WIDTH : ℚ) - 2 * SHIP_COLLISION_RADIUS) ∧
    (2 * SHIP_COLLISION_RADIUS ≤
        ((random (truncQ (SHIP_COLLISION_RADIUS * 2))
          (truncQ ((SCREEN_HEIGHT : ℚ) - SHIP_COLLISION_RADIUS * 2)) raw' : ℤ) : ℚ) ∧
      ((random (truncQ (SHIP_COLLISION_RADIUS * 2))
          (truncQ ((SCREEN_HEIGHT : ℚ) - SHIP_COLLISION_RADIUS * 2)) raw' : ℤ) : ℚ) <
        (SCREEN_HEIGHT : ℚ) - 2 * SHIP_COLLISION_RADIUS) := by
  have h1 : truncQ (SHIP_COLLISION_RADIUS * 2) = 8 := by with_unfolding_all decide
  have h2 : truncQ ((SCREEN_WIDTH : ℚ) - SHIP_COLLISION_RADIUS * 2) = 120 := by
    with_unfolding_all decide
  have h3 : truncQ ((SCREEN_HEIGHT : ℚ) - SHIP_COLLISION_RADIUS * 2) = 56 := by
    with_unfolding_all decide
  rw [h1, h2, h3]
  have a1 := random_ge 8 120 raw
  have a2 := random_lt 8 120 raw (by decide)
  have b1 := random_ge 8 56 raw'
  have b2 := random_lt 8 56 raw' (by decide)
  have a1' : ((8 : ℤ) : ℚ) ≤ ((random 8 120 raw : ℤ) : ℚ) := Int.cast_le.2 a1
  have a2' : ((random 8 120 raw : ℤ) : ℚ) < ((120 : ℤ) : ℚ) := Int.cast_lt.2 a2
  have b1' : ((8 : ℤ) : ℚ) ≤ ((random 8 56 raw' : ℤ) : ℚ) := Int.cast_le.2 b1
  have b2' : ((random 8 56 raw' : ℤ) : ℚ) < ((56 : ℤ) : ℚ) := Int.cast_lt.2 b2
  norm_num [SHIP_COLLISION_RADIUS] at a1' a2' b1' b2' ⊢
  exact ⟨⟨a1', a2'⟩, ⟨b1', b2'⟩⟩

/-- C18, counterexample: two jumps less than 5000 ms apart. From `jumpState` the tick at
  clock `10000` jumps (`lastHyperspaceTime` becomes `10000`); the ship is lost at `12000`, the
  session goes through `GAME_OVER` and `START` and is reset at `12004`, where `resetGame`
  stores `lastHyperspaceTime = 12004 − HYPERSPACE_COOLDOWN = 7004`; the tick at `12006` jumps
  again, 2006 ms after the first jump. -/
theorem hyperspace_cooldown_counterexample :
    Jumps (hyperAt 10000) jumpState ∧
    (jumpState.run demoEnv [Call.tick 1 (hyperAt 10000)]).map jumpView =
      some (GameState.GAME, 1, true, { x := 8, y := 8 }, 2000, 10000, 10000) ∧
    (jumpState.run demoEnv resetCalls).map jumpView =
      some (GameState.GAME, 3, true, screenCentre, 1999, 12004, 7004) ∧
    (jumpState.run demoEnv resetCalls).map (fun s => decide (Jumps (hyperAt 12006) s)) =
      some true ∧
    (jumpState.run demoEnv (resetCalls ++ [Call.tick 1 (hyperAt 12006)])).map jumpView =
      some (GameState.GAME, 3, true, { x := 8, y := 8 }, 2000, 12006, 12006) ∧
    ¬ (12006 - 10000 > HYPERSPACE_COOLDOWN) := by
  refine ⟨by decide, ?_, ?_, ?_, ?_, by decide⟩ <;> with_unfolding_all rfl

/-- C18, amended: hyperspace gating and effect. In `handleInput` with the ship active a jump
  happens iff the hyperspace input is down, its previous-frame latch is false and
  `now − lastHyperspaceTime > HYPERSPACE_COOLDOWN` (unsigned 32-bit difference). A jump
  draws two random numbers, sets `ship.vel` to `(0,0)`, `ship.pos` to
  `(random(2·radius, SCREEN_WIDTH − 2·radius), random(2·radius, SCREEN_HEIGHT − 2·radius))`,
  which for the ship radius `SHIP_COLLISION_RADIUS` lies in `[2·radius, SCREEN_WIDTH − 2·radius)`
  × `[2·radius, SCREEN_HEIGHT − 2·radius)`, and sets `lastHyperspaceTime = now`. Without a
  jump the ship position, lifetime, both timers and the random cursor are unchanged; with the
  ship inactive no field of the ship changes. Two jumps with no session reset between them
  (ticks at non-decreasing clocks) are more than 5000 ms apart. -/
theorem hyperspace_gating (env : Env) (clock : ℕ) (joyX joyY : ℤ) (fire hyper : Bool)
    (s : AstroLib) :
    (s.ship.active = true → JumpGate clock hyper s →
      s.handleInput env clock joyX joyY fire hyper =
        { (s.beforeHyperspace env clock joyX joyY fire).triggerHyperspace env clock with
          lastHyperspaceTime := millis clock } ∧
      (s.handleInput env clock joyX joyY fire hyper).ship.active = true ∧
      (s.handleInput env clock joyX joyY fire hyper).ship.vel = { x := 0, y := 0 } ∧
      (s.handleInput env clock joyX joyY fire hyper).ship.pos =
        { x := (random (truncQ (s.ship.radius * 2))
              (truncQ ((SCREEN_WIDTH : ℚ) - s.ship.radius * 2)) (env.rand s.rngPos) : ℤ),
          y := (random (truncQ (s.ship.radius * 2))
              (truncQ ((SCREEN_HEIGHT : ℚ) - s.ship.radius * 2))
              (env.rand (s.rngPos + 1)) : ℤ) } ∧
      (s.ship.radius = SHIP_COLLISION_RADIUS →
        (2 * s.ship.radius ≤ (s.handleInput env clock joyX joyY fire hyper).ship.pos.x ∧
          (s.handleInput env clock joyX joyY fire hyper).ship.pos.x <
            (SCREEN_WIDTH : ℚ) - 2 * s.ship.radius) ∧
        (2 * s.ship.radius ≤ (s.handleInput env clock joyX joyY fire hyper).ship.pos.y ∧
          (s.handleInput env clock joyX joyY fire hyper).ship.pos.y <
            (SCREEN_HEIGHT : ℚ) - 2 * s.ship.radius)) ∧
      (s.handleInput env clock joyX joyY fire hyper).lastHyperspaceTime = millis clock ∧
      (s.handleInput env clock joyX joyY fire hyper).rngPos = s.rngPos + 2) ∧
    (s.ship.active = true → ¬ JumpGate clock hyper s →
      s.handleInput env clock joyX joyY fire hyper = s.beforeHyperspace env clock joyX joyY fire ∧
      (s.handleInput env clock joyX joyY fire hyper).hyperView = s.hyperView) ∧
    (s.ship.active = false →
      (s.handleInput env clock joyX joyY fire hyper).ship = s.ship ∧
      (s.handleInput env clock joyX joyY fire hyper).hyperView = s.hyperView) ∧
    (∀ (fuel0 fuel : ℕ) (inp0 inp : TickInput) (calls : List Call) (s1 s2 : AstroLib),
      Jumps inp0 s → s.update env fuel0 inp0 = some s1 →
      SameSession env inp0.clock (calls ++ [Call.tick fuel inp]) s1 →
      s1.run env calls = some s2 → Jumps inp s2 →
      s1.lastHyperspaceTime = millis inp0.clock ∧
      inp.clock - inp0.clock > HYPERSPACE_COOLDOWN) := by
  refine ⟨?_, ?_, ?_, ?_⟩
  · intro hact hgate
    obtain ⟨h1, h2, h3, h4, -, h6, -, h8, -⟩ :=
      AstroLib.handleInput_jump env clock joyX joyY fire hyper s hact hgate
    refine ⟨h1, h2, h3, h4, ?_, h6, h8⟩
    intro hr
    rw [h4, hr]
    exact hyperspace_range _ _
  · intro hact hgate
    have hview := AstroLib.beforeHyperspace_view env clock joyX joyY fire s
    have hgate' : ¬ JumpGate clock hyper (s.beforeHyperspace env clock joyX joyY fire) := by
      rw [AstroLib.jumpGate_view clock hyper s _ hview]
      exact hgate
    refine ⟨?_, AstroLib.handleInput_no_jump env clock joyX joyY fire hyper s
      (fun hh => hgate hh.2)⟩
    rw [AstroLib.handleInput_active env clock joyX joyY fire hyper s hact,
      AstroLib.handleHyperspace_closed env clock hyper _ hgate']
  · intro hoff
    exact AstroLib.handleInput_inactive env clock joyX joyY fire hyper s hoff
  · intro fuel0 fuel inp0 inp calls s1 s2 hj0 hupd hsess hrun hj
    have hnoreset : ¬ Resets inp0 s := by
      rintro ⟨hstart, -, -⟩
      rw [hj0.1] at hstart
      exact absurd hstart (by decide)
    have hlast := (AstroLib.update_timers env fuel0 inp0 s s1 hupd hnoreset).1 hj0
    exact ⟨hlast, AstroLib.session_cooldown env fuel inp calls inp0.clock inp0.clock s1 s2 hlast
      (le_refl _) hsess hrun hj⟩

/-- C12: the hyperspace invincibility window in the code. `triggerHyperspace` sets
  `ship.lifetime = HYPERSPACE_INVINCIBILITY` and `shipSpawnTime = now`, but
  `updateGameObjects`, which runs next in the same tick, overwrites the lifetime with
  `INVINCIBILITY_DURATION − 0 = 2000`, and on later ticks with
  `INVINCIBILITY_DURATION − elapsed`, which is `> 0` whenever `elapsed < 2000`: the window
  after a jump is 2000 ms. From `jumpState`, after the jump at clock `10000` the idle tick at
  `11000` (1000 ms ≥ 750 ms later) reaches `handleCollisions` with `ship.lifetime = 1000` and
  the ship on top of the asteroid at `(8, 8)`, and ends with `lives = 1` in `GAME`; only the
  tick at `12000` takes the life. -/
theorem hyperspace_window_failure :
    (∀ (env : Env) (clock : ℕ) (s : AstroLib), s.ship.active = true →
      (s.triggerHyperspace env clock).ship.lifetime = HYPERSPACE_INVINCIBILITY ∧
      ((s.triggerHyperspace env clock).updateGameObjects clock).ship.lifetime =
        INVINCIBILITY_DURATION) ∧
    (∀ (clock : ℕ) (s : AstroLib), s.ship.active = true →
      usub (millis clock) s.shipSpawnTime < INVINCIBILITY_DURATION →
      (s.updateGameObjects clock).ship.lifetime > 0) ∧
    (jumpState.run demoEnv [Call.tick 1 (hyperAt 10000)]).map jumpView =
      some (GameState.GAME, 1, true, { x := 8, y := 8 }, 2000, 10000, 10000) ∧
    (jumpState.run demoEnv [Call.tick 1 (hyperAt 10000)]).map
        (fun s => ((s.afterIntegration demoEnv (idleAt 11000)).ship.lifetime,
          ((s.afterIntegration demoEnv (idleAt 11000)).asteroids 0).active,
          AstroLib.collides (s.afterIntegration demoEnv (idleAt 11000)).ship
            ((s.afterIntegration demoEnv (idleAt 11000)).asteroids 0))) =
      some (1000, true, true) ∧
    (jumpState.run demoEnv [Call.tick 1 (hyperAt 10000), Call.tick 1 (idleAt 11000)]).map
        jumpView =
      some (GameState.GAME, 1, true, { x := 8, y := 8 }, 1000, 10000, 10000) ∧
    (jumpState.run demoEnv [Call.tick 1 (hyperAt 10000), Call.tick 1 (idleAt 12000)]).map
        jumpView =
      some (GameState.GAME_OVER, 0, false, { x := 8, y := 8 }, 0, 10000, 10000) := by
  refine ⟨?_, ?_, ?_, ?_, ?_, ?_⟩
  · intro env clock s hact
    obtain ⟨t1, t2, -⟩ := AstroLib.triggerHyperspace_active env clock s hact
    refine ⟨by rw [t1], ?_⟩
    have hact' : (s.triggerHyperspace env clock).ship.active = true := by rw [t1]; exact hact
    rw [AstroLib.updateGameObjects_lifetime clock _ hact', t2]
    have hzero : usub (millis clock) (millis clock) = 0 := by
      simp only [usub, millis, U32]
      omega
    rw [hzero]
    decide
  · intro clock s hact hlt
    rw [AstroLib.updateGameObjects_lifetime clock s hact]
    simp only [INVINCIBILITY_DURATION, Nat.cast_ofNat] at *
    exact lt_max_of_lt_right (by omega)
  · with_unfolding_all rfl
  · with_unfolding_all rfl
  · with_unfolding_all rfl
  · with_unfolding_all rfl

/-! ## Thrust tone after a cue -/

theorem startThrustSound_active (a : AudioEngine) (clock : ℕ) (q : ℚ)
    (h : a.thrustSoundActive = true) : a.startThrustSound clock q = a := by
  unfold AudioEngine.startThrustSound
  rw [if_pos (by simp [h])]

theorem playShootSound_view (a : AudioEngine) (t : ℕ) (hinit : a.initialized = true) :
    audioView (a.playShootSound t) =
      (true, a.thrustSoundActive, 0, uadd (uadd (millis t) SND_SHORT_DURATION) 5) := by
  unfold AudioEngine.playShootSound
  rw [if_neg (by simp [hinit])]
  dsimp only
  split_ifs
  · unfold AudioEngine.stopTone
    rw [if_neg (by simp [hinit])]
    unfold AudioEngine.playTone
    dsimp only
    rw [if_neg (by simp [hinit]), if_pos (by decide), if_pos (by decide)]
    simp only [audioView, hinit]
  · unfold AudioEngine.playTone
    rw [if_neg (by simp [hinit]), if_pos (by decide), if_pos (by decide)]
    simp only [audioView, hinit]

theorem update_silent (a : AudioEngine) (t : ℕ) (hact : a.thrustSoundActive = true)
    (hfreq : a.currentContinuousFreq = 0) :
    (a.update t).thrustSoundActive = true ∧ (a.update t).currentContinuousFreq = 0 ∧
    (a.update t).initialized = a.initialized ∧ (a.update t).buzzer = a.buzzer ∧
    (0 < a.soundEndTime → a.soundEndTime ≤ millis t → a.initialized = true →
      (a.update t).soundEndTime = 0) := by
  unfold AudioEngine.update
  dsimp only
  split_ifs with h1 h2 h3
  · exact ⟨hact, hfreq, rfl, rfl, fun _ _ hi => by simp [hi] at h1⟩
  · rw [startThrustSound_active { a with currentContinuousFreq := 0, soundEndTime := 0 } t 1
      hact]
    exact ⟨hact, rfl, rfl, rfl, fun _ _ _ => rfl⟩
  · rw [startThrustSound_active _ _ _ hact]
    exact ⟨hact, hfreq, rfl, rfl, fun h _ _ => by omega⟩
  · exact ⟨hact, hfreq, rfl, rfl, fun ha hb _ => absurd ⟨ha, hb⟩ h2⟩

theorem foldl_update_silent (ts : List ℕ) :
    ∀ a : AudioEngine, a.thrustSoundActive = true → a.currentContinuousFreq = 0 →
      (ts.foldl AudioEngine.update a).thrustSoundActive = true ∧
      (ts.foldl AudioEngine.update a).currentContinuousFreq = 0 ∧
      (ts.foldl AudioEngine.update a).buzzer = a.buzzer := by
  induction ts with
  | nil => intro a h1 h2; exact ⟨h1, h2, rfl⟩
  | cons t ts ih =>
    intro a h1 h2
    obtain ⟨u1, u2, -, u4, -⟩ := update_silent a t h1 h2
    obtain ⟨v1, v2, v3⟩ := ih (a.update t) u1 u2
    exact ⟨v1, v2, v3.trans u4⟩

/-- C20: thrust tone after a shoot cue in the code. `startThrustSound` returns at once when
  the thrust intent is already active, so the restart in `update` never plays a tone: for an
  initialized engine with the thrust intent active, after `playShootSound` at time `t` every
  later sequence of `update` calls leaves `currentContinuousFreq = 0` and sends nothing to
  the buzzer, and an `update` at or after the end time of the cue leaves the channel idle
  (`soundEndTime = 0`, no tone) with the intent still active. In `thrustingAudio` (thrust
  tone of 250 Hz playing) `playShootSound` at `1000` and `update` at `1055` end with
  `currentContinuousFreq = 0`, outside `[SND_THRUST_FREQ_LOW, SND_THRUST_FREQ_HIGH]`. -/
theorem thrust_resume_failure :
    (∀ (a : AudioEngine) (t : ℕ) (ts : List ℕ), a.initialized = true →
      a.thrustSoundActive = true →
      (ts.foldl AudioEngine.update (a.playShootSound t)).thrustSoundActive = true ∧
      (ts.foldl AudioEngine.update (a.playShootSound t)).currentContinuousFreq = 0 ∧
      (ts.foldl AudioEngine.update (a.playShootSound t)).buzzer = (a.playShootSound t).buzzer) ∧
    (∀ (a : AudioEngine) (t t' : ℕ), a.initialized = true → a.thrustSoundActive = true →
      0 < uadd (uadd (millis t) SND_SHORT_DURATION) 5 →
      uadd (uadd (millis t) SND_SHORT_DURATION) 5 ≤ millis t' →
      audioView ((a.playShootSound t).update t') = (true, true, 0, 0)) ∧
    audioView thrustingAudio = (true, true, 250, 0) ∧
    audioView (thrustingAudio.playShootSound 1000) = (true, true, 0, 1055) ∧
    audioView ((thrustingAudio.playShootSound 1000).update 1055) = (true, true, 0, 0) ∧
    ((thrustingAudio.playShootSound 1000).update 1055).buzzer =
      [BuzzerCall.tone 250 none, BuzzerCall.noTone,
        BuzzerCall.tone SND_SHOOT_FREQ (some SND_SHORT_DURATION)] ∧
    ¬ (SND_THRUST_FREQ_LOW ≤
      ((thrustingAudio.playShootSound 1000).update 1055).currentContinuousFreq) := by
  refine ⟨?_, ?_, ?_, ?_, ?_, ?_, ?_⟩
  · intro a t ts hinit hact
    have hv := playShootSound_view a t hinit
    simp only [audioView, Prod.mk.injEq] at hv
    exact foldl_update_silent ts _ (hv.2.1.trans hact) hv.2.2.1
  · intro a t t' hinit hact hpos hle
    have hv := playShootSound_view a t hinit
    simp only [audioView, Prod.mk.injEq] at hv
    obtain ⟨u1, u2, u3, -, u5⟩ := update_silent (a.playShootSound t) t' (hv.2.1.trans hact)
      hv.2.2.1
    simp only [audioView, Prod.mk.injEq]
    exact ⟨u3.trans hv.1, u1, u2, u5 (by rw [hv.2.2.2]; exact hpos)
      (by rw [hv.2.2.2]; exact hle) hv.1⟩
  · with_unfolding_all rfl
  · with_unfolding_all rfl
  · with_unfolding_all rfl
  · with_unfolding_all rfl
  · with_unfolding_all decide

/-! ## Discrete cues -/

theorem uadd_uadd (a d : ℕ) : uadd (uadd a d) 5 = (a + d + 5) % U32 := by
  simp only [uadd, U32]
  omega

theorem playTone_timed (a : AudioEngine) (t freq d : ℕ) (hinit : a.initialized = true)
    (hf : 0 < freq) (hd : 0 < d) :
    a.playTone t freq d =
      { a with buzzer := a.buzzer ++ [BuzzerCall.tone freq (some d)],
               soundEndTime := uadd (uadd (millis t) d) 5,
               currentContinuousFreq := 0 } := by
  unfold AudioEngine.playTone
  rw [if_neg (by simp [hinit]), if_pos hf, if_pos hd]

theorem stopTone_initialized (a : AudioEngine) (hinit : a.initialized = true) :
    a.stopTone = { a with buzzer := a.buzzer ++ [BuzzerCall.noTone],
                          currentContinuousFreq := 0, soundEndTime := 0 } := by
  unfold AudioEngine.stopTone
  rw [if_neg (by simp [hinit])]

theorem playShootSound_eq (a : AudioEngine) (t : ℕ) (hinit : a.initialized = true) :
    a.playShootSound t =
      { a with
        buzzer := (if a.inThrustRange then a.buzzer ++ [BuzzerCall.noTone] else a.buzzer) ++
          [BuzzerCall.tone SND_SHOOT_FREQ (some SND_SHORT_DURATION)],
        soundEndTime := uadd (uadd (millis t) SND_SHORT_DURATION) 5,
        currentContinuousFreq := 0 } := by
  unfold AudioEngine.playShootSound
  rw [if_neg (by simp [hinit])]
  dsimp only
  split_ifs
  · rw [playTone_timed _ _ _ _ (by rw [stopTone_initialized a hinit]; exact hinit) (by decide)
      (by decide), stopTone_initialized a hinit]
  · rw [playTone_timed _ _ _ _ hinit (by decide) (by decide)]

theorem playExplosionSound_eq (a : AudioEngine) (t : ℕ) (hinit : a.initialized = true) :
    a.playExplosionSound t =
      { a with
        thrustSoundActive := false,
        buzzer := (if a.inThrustRange then a.buzzer ++ [BuzzerCall.noTone] else a.buzzer) ++
          [BuzzerCall.tone SND_EXPLODE_FREQ (some (SND_SHORT_DURATION * 2))],
        soundEndTime := uadd (uadd (millis t) (SND_SHORT_DURATION * 2)) 5,
        currentContinuousFreq := 0 } := by
  unfold AudioEngine.playExplosionSound
  rw [if_neg (by simp [hinit])]
  dsimp only
  have hr : AudioEngine.inThrustRange { a with thrustSoundActive := false } = a.inThrustRange :=
    rfl
  have hinit0 : AudioEngine.initialized { a with thrustSoundActive := false } = true := hinit
  rw [hr]
  split_ifs
  · rw [stopTone_initialized { a with thrustSoundActive := false } hinit0]
    exact playTone_timed _ _ _ _ hinit (by decide) (by decide)
  · rw [playTone_timed { a with thrustSoundActive := false } _ _ _ hinit0 (by decide)
      (by decide)]

theorem playHyperspaceSound_eq (a : AudioEngine) (t : ℕ) (hinit : a.initialized = true) :
    a.playHyperspaceSound t =
      { a with
        thrustSoundActive := false,
        buzzer := (if a.inThrustRange then a.buzzer ++ [BuzzerCall.noTone] else a.buzzer) ++
          [BuzzerCall.tone SND_HYPERSPACE_FREQ (some SND_HYPERSPACE_DURATION)],
        soundEndTime := uadd (uadd (millis t) SND_HYPERSPACE_DURATION) 5,
        currentContinuousFreq := 0 } := by
  unfold AudioEngine.playHyperspaceSound
  rw [if_neg (by simp [hinit])]
  dsimp only
  have hr : AudioEngine.inThrustRange { a with thrustSoundActive := false } = a.inThrustRange :=
    rfl
  have hinit0 : AudioEngine.initialized { a with thrustSoundActive := false } = true := hinit
  rw [hr]
  split_ifs
  · rw [stopTone_initialized { a with thrustSoundActive := false } hinit0]
    exact playTone_timed _ _ _ _ hinit (by decide) (by decide)
  · rw [playTone_timed { a with thrustSoundActive := false } _ _ _ hinit0 (by decide)
      (by decide)]

/-- C21: discrete cues preempt. For an initialized `AudioEngine` in any state, at time `t`
  each of `playShootSound`, `playExplosionSound` and `playHyperspaceSound` sends `noTone` when
  a continuous tone in the thrust range is playing, then sends the timed tone, and leaves
  `currentContinuousFreq = 0` and `soundEndTime = t + d + 5` in unsigned 32-bit arithmetic
  (`(t + d + 5) mod 2^32`, which is `t + d + 5` unless the sum reaches `2^32`, and is `0`
  only when the sum is exactly `2^32`), with `d = 50`, `100` and `300`; nothing else changes,
  except that the explosion and hyperspace cues clear the thrust intent. -/
theorem discrete_cues_preempt (a : AudioEngine) (t : ℕ) (hinit : a.initialized = true) :
    ((a.playShootSound t).currentContinuousFreq = 0 ∧
      (a.playShootSound t).soundEndTime = (millis t + 50 + 5) % U32 ∧
      (millis t + 50 + 5 < U32 → (a.playShootSound t).soundEndTime = millis t + 50 + 5) ∧
      a.playShootSound t =
        { a with
          buzzer := (if a.inThrustRange then a.buzzer ++ [BuzzerCall.noTone] else a.buzzer) ++
            [BuzzerCall.tone SND_SHOOT_FREQ (some 50)],
          soundEndTime := (a.playShootSound t).soundEndTime,
          currentContinuousFreq := 0 }) ∧
    ((a.playExplosionSound t).currentContinuousFreq = 0 ∧
      (a.playExplosionSound t).soundEndTime = (millis t + 100 + 5) % U32 ∧
      (millis t + 100 + 5 < U32 → (a.playExplosionSound t).soundEndTime = millis t + 100 + 5) ∧
      a.playExplosionSound t =
        { a with
          thrustSoundActive := false,
          buzzer := (if a.inThrustRange then a.buzzer ++ [BuzzerCall.noTone] else a.buzzer) ++
            [BuzzerCall.tone SND_EXPLODE_FREQ (some 100)],
          soundEndTime := (a.playExplosionSound t).soundEndTime,
          currentContinuousFreq := 0 }) ∧
    ((a.playHyperspaceSound t).currentContinuousFreq = 0 ∧
      (a.playHyperspaceSound t).soundEndTime = (millis t + 300 + 5) % U32 ∧
      (millis t + 300 + 5 < U32 →
        (a.playHyperspaceSound t).soundEndTime = millis t + 300 + 5) ∧
      a.playHyperspaceSound t =
        { a with
          thrustSoundActive := false,
          buzzer := (if a.inThrustRange then a.buzzer ++ [BuzzerCall.noTone] else a.buzzer) ++
            [BuzzerCall.tone SND_HYPERSPACE_FREQ (some 300)],
          soundEndTime := (a.playHyperspaceSound t).soundEndTime,
          currentContinuousFreq := 0 }) ∧
    (∀ d : ℕ, d ≤ 300 → ((millis t + d + 5) % U32 = 0 ↔ millis t + d + 5 = U32)) := by
  have h1 := playShootSound_eq a t hinit
  have h2 := playExplosionSound_eq a t hinit
  have h3 := playHyperspaceSound_eq a t hinit
  have e1 : (a.playShootSound t).soundEndTime = (millis t + 50 + 5) % U32 := by
    rw [h1]; exact uadd_uadd _ _
  have e2 : (a.playExplosionSound t).soundEndTime = (millis t + 100 + 5) % U32 := by
    rw [h2]; exact uadd_uadd _ _
  have e3 : (a.playHyperspaceSound t).soundEndTime = (millis t + 300 + 5) % U32 := by
    rw [h3]; exact uadd_uadd _ _
  refine ⟨⟨by rw [h1], e1, fun h => by rw [e1, Nat.mod_eq_of_lt h], ?_⟩,
    ⟨by rw [h2], e2, fun h => by rw [e2, Nat.mod_eq_of_lt h], ?_⟩,
    ⟨by rw [h3], e3, fun h => by rw [e3, Nat.mod_eq_of_lt h], ?_⟩, ?_⟩
  · rw [e1]; rw [h1]; rw [uadd_uadd]
  · rw [e2]; rw [h2]; rw [uadd_uadd]; rfl
  · rw [e3]; rw [h3]; rw [uadd_uadd]
  · intro d hd
    have hm : millis t < U32 := Nat.mod_lt _ (by decide)
    simp only [U32] at *
    omega

theorem discrete_cues_preempt_witness :
    thrustingAudio.initialized = true ∧
    (thrustingAudio.playShootSound 1000).currentContinuousFreq = 0 ∧
    (thrustingAudio.playShootSound 1000).soundEndTime = 1055 ∧
    (thrustingAudio.playExplosionSound 1000).soundEndTime = 1105 ∧
    (thrustingAudio.playHyperspaceSound 1000).soundEndTime = 1305 :=
  ⟨by with_unfolding_all rfl,
    (discrete_cues_preempt thrustingAudio 1000 (by with_unfolding_all rfl)).1.1,
    (discrete_cues_preempt thrustingAudio 1000 (by with_unfolding_all rfl)).1.2.2.1 (by decide),
    (discrete_cues_preempt thrustingAudio 1000 (by with_unfolding_all rfl)).2.1.2.2.1
      (by decide),
    (discrete_cues_preempt thrustingAudio 1000 (by with_unfolding_all rfl)).2.2.1.2.2.1
      (by decide)⟩

/-! ## First-fit allocation -/

theorem slotLoop_first_fit {n : ℕ} (pool : Fin n → GameObject) :
    (∀ k : Fin n, slotLoop pool n 0 = (k.val : ℤ) ↔
      ((pool k).active = false ∧ ∀ k' : Fin n, k' < k → (pool k').active = true)) ∧
    (slotLoop pool n 0 = -1 ↔ ∀ k : Fin n, (pool k).active = true) := by
  rcases slotLoop_spec pool n 0 (by omega) with ⟨h1, h2⟩ | ⟨j, h1, -, h3, h4⟩
  · refine ⟨fun k => ⟨fun hk => ?_, fun hk => ?_⟩, ⟨fun _ k => h2 k (Nat.zero_le _), fun _ => h1⟩⟩
    · rw [h1] at hk
      omega
    · have := h2 k (Nat.zero_le _)
      rw [hk.1] at this
      exact absurd this (by decide)
  · refine ⟨fun k => ⟨fun hk => ?_, fun hk => ?_⟩, ⟨fun hm => ?_, fun hall => ?_⟩⟩
    · rw [h1] at hk
      have hjk : j = k := Fin.ext (by omega)
      subst hjk
      exact ⟨h3, fun k' hk' => h4 k' (Nat.zero_le _) hk'⟩
    · rw [h1]
      rcases lt_trichotomy j k with hjk | hjk | hjk
      · have := hk.2 j hjk
        rw [h3] at this
        exact absurd this (by decide)
      · rw [hjk]
      · have := h4 k (Nat.zero_le _) hjk
        rw [hk.1] at this
        exact absurd this (by decide)
    · rw [h1] at hm
      omega
    · have := hall j
      rw [h3] at this
      exact absurd this (by decide)

theorem slotLoop_congr {n : ℕ} (pool pool' : Fin n → GameObject)
    (h : ∀ k, (pool' k).active = (pool k).active) : slotLoop pool' n 0 = slotLoop pool n 0 := by
  have hgen : ∀ (k i : ℕ), slotLoop pool' k i = slotLoop pool k i := by
    intro k
    induction k with
    | zero => intro i; rfl
    | succ k ih =>
      intro i
      unfold slotLoop
      by_cases hi : i < n
      · rw [dif_pos hi, dif_pos hi, h ⟨i, hi⟩, ih]
      · rw [dif_neg hi, dif_neg hi]
  exact hgen n 0

/-- C22: first-fit allocation. `findInactiveBulletSlot` and `findInactiveAsteroidSlot` return
  index `k` exactly when slot `k` is inactive and every slot below it is active (the
  smallest inactive index), and return `−1` iff every slot of the pool is active; the result
  is always `−1` or an index `0 ≤ slot < capacity`. The functions only read the `active`
  flags of their pool: they are functions of the state that return the index and nothing
  else, and pools with the same flags give the same result. They agree with the searches
  that the firing block and `spawnAsteroid` use in this development. -/
theorem first_fit_allocation (s : AstroLib) :
    (∀ k : Fin MAX_BULLETS, s.findInactiveBulletSlotIndex = (k.val : ℤ) ↔
      ((s.bullets k).active = false ∧ ∀ k' : Fin MAX_BULLETS, k' < k →
        (s.bullets k').active = true)) ∧
    (s.findInactiveBulletSlotIndex = -1 ↔ ∀ k, (s.bullets k).active = true) ∧
    (s.findInactiveBulletSlotIndex = -1 ∨
      (0 ≤ s.findInactiveBulletSlotIndex ∧ s.findInactiveBulletSlotIndex < MAX_BULLETS)) ∧
    (∀ k : Fin MAX_ASTEROIDS, s.findInactiveAsteroidSlotIndex = (k.val : ℤ) ↔
      ((s.asteroids k).active = false ∧ ∀ k' : Fin MAX_ASTEROIDS, k' < k →
        (s.asteroids k').active = true)) ∧
    (s.findInactiveAsteroidSlotIndex = -1 ↔ ∀ k, (s.asteroids k).active = true) ∧
    (s.findInactiveAsteroidSlotIndex = -1 ∨
      (0 ≤ s.findInactiveAsteroidSlotIndex ∧
        s.findInactiveAsteroidSlotIndex < MAX_ASTEROIDS)) ∧
    (∀ t : AstroLib, (∀ k, (t.bullets k).active = (s.bullets k).active) →
      t.findInactiveBulletSlotIndex = s.findInactiveBulletSlotIndex) ∧
    (∀ t : AstroLib, (∀ k, (t.asteroids k).active = (s.asteroids k).active) →
      t.findInactiveAsteroidSlotIndex = s.findInactiveAsteroidSlotIndex) ∧
    (s.findInactiveBulletSlotIndex =
      match s.findInactiveBulletSlot with
      | some k => (k.val : ℤ)
      | none => -1) ∧
    (s.findInactiveAsteroidSlotIndex =
      match s.findInactiveAsteroidSlot with
      | some k => (k.val : ℤ)
      | none => -1) :=
  ⟨(slotLoop_first_fit s.bullets).1, (slotLoop_first_fit s.bullets).2, slotLoop_range s.bullets,
    (slotLoop_first_fit s.asteroids).1, (slotLoop_first_fit s.asteroids).2,
    slotLoop_range s.asteroids, fun t h => slotLoop_congr s.bullets t.bullets h,
    fun t h => slotLoop_congr s.asteroids t.asteroids h,
    AstroLib.findInactiveBulletSlotIndex_eq s, AstroLib.findInactiveAsteroidSlotIndex_eq s⟩

/-! ## Integration -/

/-- C29: integration frame. `updateGameObjects` leaves every inactive bullet and inactive
  asteroid record unchanged and leaves an inactive ship unchanged; for every active bullet and
  asteroid it leaves `vel`, `radius` and `size` (and `angle`) unchanged and sets `pos` to the
  position of `wrapAround` applied to the object moved to `pos + vel`; `score`, `lives` and
  `currentState` are unchanged. -/
theorem integration_frame (clock : ℕ) (s : AstroLib) :
    (∀ i, (s.bullets i).active = false → (s.updateGameObjects clock).bullets i = s.bullets i) ∧
    (∀ j, (s.asteroids j).active = false →
      (s.updateGameObjects clock).asteroids j = s.asteroids j) ∧
    (s.ship.active = false → (s.updateGameObjects clock).ship = s.ship) ∧
    (∀ i, (s.bullets i).active = true →
      ((s.updateGameObjects clock).bullets i).vel = (s.bullets i).vel ∧
      ((s.updateGameObjects clock).bullets i).radius = (s.bullets i).radius ∧
      ((s.updateGameObjects clock).bullets i).size = (s.bullets i).size ∧
      ((s.updateGameObjects clock).bullets i).angle = (s.bullets i).angle ∧
      ((s.updateGameObjects clock).bullets i).pos =
        (AstroLib.wrapAround { s.bullets i with
          pos := { x := (s.bullets i).pos.x + (s.bullets i).vel.x,
                   y := (s.bullets i).pos.y + (s.bullets i).vel.y } }).pos) ∧
    (∀ j, (s.asteroids j).active = true →
      (s.updateGameObjects clock).asteroids j =
        AstroLib.wrapAround { s.asteroids j with
          pos := { x := (s.asteroids j).pos.x + (s.asteroids j).vel.x,
                   y := (s.asteroids j).pos.y + (s.asteroids j).vel.y } } ∧
      ((s.updateGameObjects clock).asteroids j).vel = (s.asteroids j).vel ∧
      ((s.updateGameObjects clock).asteroids j).radius = (s.asteroids j).radius ∧
      ((s.updateGameObjects clock).asteroids j).size = (s.asteroids j).size) ∧
    (s.updateGameObjects clock).score = s.score ∧
    (s.updateGameObjects clock).lives = s.lives ∧
    (s.updateGameObjects clock).currentState = s.currentState := by
  refine ⟨?_, ?_, ?_, ?_, ?_, rfl, rfl, rfl⟩
  · intro i hi
    simp only [AstroLib.updateGameObjects, AstroLib.updateBullet]
    rw [if_neg (by rw [hi]; decide)]
  · intro j hj
    simp only [AstroLib.updateGameObjects, AstroLib.updateAsteroid]
    rw [if_neg (by rw [hj]; decide)]
  · intro hs
    simp only [AstroLib.updateGameObjects]
    rw [if_neg (by rw [hs]; decide)]
  · intro i hi
    simp only [AstroLib.updateGameObjects, AstroLib.updateBullet]
    rw [if_pos hi]
    split_ifs <;> exact ⟨rfl, rfl, rfl, rfl, rfl⟩
  · intro j hj
    simp only [AstroLib.updateGameObjects, AstroLib.updateAsteroid]
    rw [if_pos hj]
    exact ⟨rfl, rfl, rfl, rfl⟩

/-! ## Bullet lifetime -/

namespace AstroLib

theorem updateBullet_lifetime (b : GameObject) (hact : b.active = true) (hn : 1 ≤ b.lifetime) :
    (updateBullet b).lifetime = b.lifetime - 1 ∧
    ((updateBullet b).active = true ↔ b.lifetime > 1) := by
  unfold updateBullet
  rw [if_pos hact]
  dsimp only
  have hl : ∀ o : GameObject, (wrapAround o).lifetime = o.lifetime := fun _ => rfl
  have ha : ∀ o : GameObject, (wrapAround o).active = o.active := fun _ => rfl
  rw [hl]
  dsimp only
  split_ifs with h
  · refine ⟨rfl, ?_⟩
    constructor
    · intro hf
      exact absurd hf (by simp)
    · intro hgt
      omega
  · refine ⟨hl _, ?_⟩
    rw [ha]
    dsimp only
    constructor
    · intro _
      omega
    · intro _
      exact hact

theorem updateBullet_inactive (b : GameObject) (hact : b.active = false) :
    updateBullet b = b := by
  unfold updateBullet
  rw [if_neg (by rw [hact]; decide)]

theorem handleFire_bullet (env : Env) (clock : ℕ) (fire : Bool) (s : AstroLib)
    (i : Fin MAX_BULLETS) :
    (s.handleFire env clock fire).bullets i = s.bullets i ∨
    ((s.bullets i).active = false ∧ ((s.handleFire env clock fire).bullets i).active = true ∧
      ((s.handleFire env clock fire).bullets i).lifetime = BULLET_LIFETIME) := by
  unfold handleFire
  dsimp only
  split_ifs
  · cases h : s.findInactiveBulletSlot with
    | none => left; rfl
    | some slot =>
      dsimp only
      by_cases hi : i = slot
      · subst hi
        right
        rw [Function.update_same]
        exact ⟨findInactiveBulletSlot_some s i h, rfl, rfl⟩
      · left
        rw [Function.update_noteq hi]
  · left; rfl

theorem handleInput_bullet (env : Env) (clock : ℕ) (joyX joyY : ℤ) (fire hyper : Bool)
    (s : AstroLib) (i : Fin MAX_BULLETS) :
    (s.handleInput env clock joyX joyY fire hyper).bullets i = s.bullets i ∨
    ((s.bullets i).active = false ∧
      ((s.handleInput env clock joyX joyY fire hyper).bullets i).active = true ∧
      ((s.handleInput env clock joyX joyY fire hyper).bullets i).lifetime = BULLET_LIFETIME) := by
  unfold handleInput
  split_ifs
  · left; rfl
  · left; rfl
  · dsimp only
    rw [(handleHyperspace_bullets env clock hyper _).1]
    have h := handleFire_bullet env clock fire ((s.handleRotation joyX).handleThrust env clock joyY) i
    rw [(handleThrust_bullets env clock joyY _).1, (handleRotation_bullets joyX s).1] at h
    exact h

theorem tick_bullet (env : Env) (fuel : ℕ) (inp : TickInput) (s s' : AstroLib)
    (i : Fin MAX_BULLETS) (hgame : s.currentState = GameState.GAME)
    (hupd : s.update env fuel inp = some s') (hmiss : BulletMisses env inp i s) :
    s'.bullets i = updateBullet ((s.handleInput env inp.clock inp.joyX inp.joyY
      (s.anyFireButtonDown inp) (s.digitalHyperspaceDown inp)).bullets i) := by
  rw [update_of_game env fuel inp s hgame] at hupd
  rw [(updateGame_keeps env fuel inp s s' hupd).1]
  unfold afterCollisions
  rw [handleCollisions_bullet, bulletStep_eq]
  unfold BulletMisses afterIntegration at hmiss
  rw [hmiss]
  dsimp only
  rw [ite_self, scanStart_bullet]
  rfl

theorem flight_lifetime (env : Env) (i : Fin MAX_BULLETS) :
    ∀ (calls : List Call) (s s' : AstroLib) (n : ℕ),
      Flight env i calls s → s.run env calls = some s' →
      (s.bullets i).active = true → (s.bullets i).lifetime = (n : ℤ) → 1 ≤ n →
      calls.length ≤ n →
      (s'.bullets i).lifetime = (n : ℤ) - calls.length ∧
      ((s'.bullets i).active = true ↔ calls.length < n) := by
  intro calls
  induction calls with
  | nil =>
    intro s s' n _ hrun hact hlife hn _
    simp only [run, Option.some.injEq] at hrun
    subst hrun
    refine ⟨by simp [hlife], ?_⟩
    simp only [List.length_nil]
    exact ⟨fun _ => by omega, fun _ => hact⟩
  | cons c rest ih =>
    intro s s' n hfl hrun hact hlife hn hlen
    simp only [run, Option.bind_eq_some] at hrun
    obtain ⟨s1, hs1, hrest⟩ := hrun
    cases c with
    | tick fuel inp =>
      simp only [Flight] at hfl
      obtain ⟨hgame, hmiss, hnext⟩ := hfl
      have hupd : s.update env fuel inp = some s1 := hs1
      have hb := tick_bullet env fuel inp s s1 i hgame hupd hmiss
      have hin : (s.handleInput env inp.clock inp.joyX inp.joyY (s.anyFireButtonDown inp)
          (s.digitalHyperspaceDown inp)).bullets i = s.bullets i := by
        rcases handleInput_bullet env inp.clock inp.joyX inp.joyY (s.anyFireButtonDown inp)
          (s.digitalHyperspaceDown inp) s i with h | ⟨h, -, -⟩
        · exact h
        · rw [hact] at h
          exact absurd h (by decide)
      rw [hin] at hb
      obtain ⟨hl1, ha1⟩ := updateBullet_lifetime (s.bullets i) hact (by rw [hlife]; omega)
      rw [← hb, hlife] at hl1
      rw [← hb, hlife] at ha1
      simp only [List.length_cons] at hlen ⊢
      by_cases hone : n = 1
      · subst hone
        have hnil : rest = [] := List.length_eq_zero.1 (by omega)
        subst hnil
        simp only [run, Option.some.injEq] at hrest
        subst hrest
        refine ⟨by rw [hl1]; simp, ?_⟩
        rw [ha1]
        simp
      · have hact1 : (s1.bullets i).active = true := ha1.2 (by omega)
        have hlife1 : (s1.bullets i).lifetime = ((n - 1 : ℕ) : ℤ) := by
          rw [hl1]
          omega
        obtain ⟨r1, r2⟩ := ih s1 s' (n - 1) (hnext s1 hupd) hrest hact1 hlife1 (by omega)
          (by omega)
        refine ⟨by rw [r1]; push_cast; omega, ?_⟩
        rw [r2]
        omega
    | attachFire pin => simp only [Flight] at hfl
    | attachHyperspace pin => simp only [Flight] at hfl
    | resetHighScore => simp only [Flight] at hfl

end AstroLib

namespace AstroLib

theorem update_outside_game (env : Env) (fuel : ℕ) (inp : TickInput) (s s' : AstroLib)
    (hstate : s.currentState ≠ GameState.GAME) (h : s.update env fuel inp = some s') :
    s'.bullets = s.bullets ∨
      (s.currentState = GameState.START ∧ ∀ k, (s'.bullets k).active = false) := by
  cases hs : s.currentState with
  | GAME => exact absurd hs hstate
  | START =>
    rw [update_of_start env fuel inp s hs] at h
    unfold updateStart at h
    dsimp only at h
    split_ifs at h
    · rw [Option.map_eq_some'] at h
      obtain ⟨r, hr, rfl⟩ := h
      exact Or.inr ⟨rfl, (resetGame_spec env fuel inp.clock s r hr).2.2.1⟩
    · simp only [Option.some.injEq] at h
      subst h
      exact Or.inl rfl
  | GAME_OVER =>
    rw [update_of_gameOver env fuel inp s hs] at h
    unfold updateGameOver at h
    dsimp only at h
    split_ifs at h
    · simp only [Option.some.injEq] at h
      subst h
      exact Or.inl rfl
    · simp only [Option.some.injEq] at h
      subst h
      exact Or.inl rfl

end AstroLib

/-- C28 as stated fails. In `lastShotState` the fire button is pressed at clock `3000`: bullet
  0 is spawned with `lifetime = 40`, flies away from the asteroid and hits nothing, and in the
  same tick the asteroid takes the last ship, so the session enters `GAME_OVER`. The ticks
  that follow do not call `updateGameObjects`: at the end of the bullet's 40th tick, and of
  its 101st, bullet 0 is still active with `lifetime = 39`. -/
theorem bullet_lifetime_counterexample :
    lastShotState.currentState = GameState.GAME ∧
    (lastShotState.bullets 0).active = false ∧
    ((lastShotState.handleInput demoEnv 3000 2048 2048 true false).bullets 0).active = true ∧
    ((lastShotState.handleInput demoEnv 3000 2048 2048 true false).bullets 0).lifetime
      = BULLET_LIFETIME ∧
    BulletMisses demoEnv (fireAt 3000) 0 lastShotState ∧
    (lastShotState.run demoEnv [Call.tick 1 (fireAt 3000)]).map shotView
      = some (GameState.GAME_OVER, true, 39) ∧
    (lastShotState.run demoEnv (Call.tick 1 (fireAt 3000) :: idleTicksFrom 3000 39)).map shotView
      = some (GameState.GAME_OVER, true, 39) ∧
    (lastShotState.run demoEnv (Call.tick 1 (fireAt 3000) :: idleTicksFrom 3000 100)).map shotView
      = some (GameState.GAME_OVER, true, 39) := by
  refine ⟨rfl, rfl, ?_, ?_, ?_, ?_, ?_, ?_⟩
  · decide!
  · decide!
  · unfold BulletMisses
    decide!
  · decide!
  · decide!
  · decide!

/-- C28, amended: bullet lifetime. For every active bullet with `lifetime = n ≥ 1`,
  `updateGameObjects` decrements the lifetime by exactly 1 and the bullet is active afterwards
  iff `n > 1`. Hence a bullet fired into slot `i` in a `GAME` tick starts with
  `BULLET_LIFETIME = 40`, and while the session stays in `GAME` and the bullet hits nothing it
  has `lifetime = 40 − k` at the end of its `k`-th tick (counting the tick in which it was
  fired) and is active there iff `k < 40`: active at the end of ticks 1 to 39, inactive at the
  end of the 40th. A tick outside `GAME` does not call `updateGameObjects`: it leaves every
  bullet as it is, unless it is the `START` tick that resets the game and clears all bullets.
  From `jumpState`, with fire pressed at clock `1000` and nothing pressed afterwards, bullet 0
  is active with `lifetime = 1` after 39 ticks and inactive with `lifetime = 0` after 40. -/
theorem bullet_lifetime (env : Env) (i : Fin MAX_BULLETS) :
    (∀ (clock : ℕ) (s : AstroLib), (s.bullets i).active = true → 1 ≤ (s.bullets i).lifetime →
      ((s.updateGameObjects clock).bullets i).lifetime = (s.bullets i).lifetime - 1 ∧
      (((s.updateGameObjects clock).bullets i).active = true ↔ (s.bullets i).lifetime > 1)) ∧
    (∀ (fuel : ℕ) (inp : TickInput) (s s1 s2 : AstroLib) (calls : List Call),
      s.currentState = GameState.GAME → (s.bullets i).active = false →
      ((s.handleInput env inp.clock inp.joyX inp.joyY (s.anyFireButtonDown inp)
        (s.digitalHyperspaceDown inp)).bullets i).active = true →
      BulletMisses env inp i s → s.update env fuel inp = some s1 →
      Flight env i calls s1 → s1.run env calls = some s2 → calls.length ≤ 39 →
      ((s.handleInput env inp.clock inp.joyX inp.joyY (s.anyFireButtonDown inp)
        (s.digitalHyperspaceDown inp)).bullets i).lifetime = BULLET_LIFETIME ∧
      (s2.bullets i).lifetime = 39 - (calls.length : ℤ) ∧
      ((s2.bullets i).active = true ↔ calls.length < 39)) ∧
    (∀ (fuel : ℕ) (inp : TickInput) (s s' : AstroLib),
      s.currentState ≠ GameState.GAME → s.update env fuel inp = some s' →
      s'.bullets = s.bullets ∨
        (s.currentState = GameState.START ∧ ∀ k, (s'.bullets k).active = false)) ∧
    (jumpState.run demoEnv [Call.tick 1 (fireAt 1000)]).map bulletView = some (true, 39) ∧
    (jumpState.run demoEnv (Call.tick 1 (fireAt 1000) :: idleTicks 38)).map bulletView =
      some (true, 1) ∧
    (jumpState.run demoEnv (Call.tick 1 (fireAt 1000) :: idleTicks 39)).map bulletView =
      some (false, 0) := by
  refine ⟨?_, ?_, AstroLib.update_outside_game env, ?_, ?_, ?_⟩
  · intro clock s hact hn
    exact AstroLib.updateBullet_lifetime (s.bullets i) hact hn
  · intro fuel inp s s1 s2 calls hgame hoff hon hmiss hupd hfl hrun hlen
    have hfired : ((s.handleInput env inp.clock inp.joyX inp.joyY (s.anyFireButtonDown inp)
        (s.digitalHyperspaceDown inp)).bullets i).lifetime = BULLET_LIFETIME := by
      rcases AstroLib.handleInput_bullet env inp.clock inp.joyX inp.joyY
        (s.anyFireButtonDown inp) (s.digitalHyperspaceDown inp) s i with h | ⟨-, -, h⟩
      · rw [h, hoff] at hon
        exact absurd hon (by decide)
      · exact h
    have hb := AstroLib.tick_bullet env fuel inp s s1 i hgame hupd hmiss
    obtain ⟨hl1, ha1⟩ := AstroLib.updateBullet_lifetime _ hon (by rw [hfired]; decide)
    rw [← hb, hfired] at hl1
    rw [← hb, hfired] at ha1
    have hact1 : (s1.bullets i).active = true := ha1.2 (by decide)
    obtain ⟨r1, r2⟩ := AstroLib.flight_lifetime env i calls s1 s2 39 hfl hrun hact1
      (by rw [hl1]; rfl) (by decide) hlen
    exact ⟨hfired, by rw [r1]; rfl, r2⟩
  · decide!
  · decide!
  · decide!

/-! ## Invariants of the reachable states -/

namespace AstroLib

theorem begin_spec (env : Env) (fuel clock : ℕ) (audioPin stored : ℤ) (s0 s : AstroLib)
    (h : s0.begin env fuel clock audioPin stored = some s) :
    s.currentState = GameState.START ∧ s.lives = 3 ∧ s.score = 0 ∧ s.ship.active = true ∧
    s.ship.angle = -M_PI / 2 ∧ s.ship.pos = screenCentre ∧
    (∀ i, (s.bullets i).active = false) ∧
    (∀ j, (s.asteroids j).active = true →
      FreshLarge screenCentre resetClearance2 (s.asteroids j)) := by
  unfold begin at h
  dsimp only at h
  rw [Option.map_eq_some'] at h
  obtain ⟨s3, hs3, rfl⟩ := h
  have hr := resetGame_spec env fuel clock _ s3 hs3
  exact ⟨rfl, hr.2.1, hr.1, hr.2.2.2.2.2.2.2.2.2.2.1, hr.2.2.2.2.2.2.2.2.2.2.2.2.1,
    hr.2.2.2.2.2.2.2.2.2.2.2.1, hr.2.2.1, hr.2.2.2.2.1⟩

/-- The two ways a `START` tick can end. -/
theorem updateStart_cases (env : Env) (fuel : ℕ) (inp : TickInput) (s s' : AstroLib)
    (h : s.updateStart env fuel inp = some s') :
    (∃ r, s.resetGame env fuel inp.clock = some r ∧
      s' = { r with currentState := GameState.GAME, fireButtonPressedLastFrame := true,
                    hyperspaceButtonPressedLastFrame := true }) ∨
    s' = s.endOfTick inp.clock (s.anyFireButtonDown inp) (s.digitalHyperspaceDown inp) := by
  unfold updateStart at h
  dsimp only at h
  split_ifs at h
  · left
    rw [Option.map_eq_some'] at h
    obtain ⟨r, hr, rfl⟩ := h
    exact ⟨r, hr, rfl⟩
  · right
    simp only [Option.some.injEq] at h
    exact h.symm

/-- The two ways a `GAME_OVER` tick can end. -/
theorem updateGameOver_cases (inp : TickInput) (s s' : AstroLib)
    (h : s.updateGameOver inp = some s') :
    s' = { s with currentState := GameState.START, fireButtonPressedLastFrame := true,
                  hyperspaceButtonPressedLastFrame := true } ∨
    s' = s.endOfTick inp.clock (s.anyFireButtonDown inp) (s.digitalHyperspaceDown inp) := by
  unfold updateGameOver at h
  dsimp only at h
  split_ifs at h
  · left
    simp only [Option.some.injEq] at h
    exact h.symm
  · right
    simp only [Option.some.injEq] at h
    exact h.symm

theorem handleInput_ship (env : Env) (clock : ℕ) (joyX joyY : ℤ) (fire hyper : Bool)
    (s : AstroLib) :
    (s.handleInput env clock joyX joyY fire hyper).ship.active = s.ship.active ∧
    (s.handleInput env clock joyX joyY fire hyper).ship.radius = s.ship.radius ∧
    (s.handleInput env clock joyX joyY fire hyper).ship.angle =
      (if s.ship.active = true then (s.handleRotation joyX).ship.angle else s.ship.angle) := by
  have h2 : ∀ t : AstroLib, (t.handleThrust env clock joyY).ship.active = t.ship.active ∧
      (t.handleThrust env clock joyY).ship.radius = t.ship.radius ∧
      (t.handleThrust env clock joyY).ship.angle = t.ship.angle := by
    intro t
    unfold handleThrust
    dsimp only
    split_ifs <;> exact ⟨rfl, rfl, rfl⟩
  have h3 : ∀ t : AstroLib, (t.handleFire env clock fire).ship = t.ship := by
    intro t
    unfold handleFire
    dsimp only
    split_ifs
    · cases t.findInactiveBulletSlot <;> rfl
    · rfl
  have h4 : ∀ t : AstroLib, (t.handleHyperspace env clock hyper).ship.active = t.ship.active ∧
      (t.handleHyperspace env clock hyper).ship.radius = t.ship.radius ∧
      (t.handleHyperspace env clock hyper).ship.angle = t.ship.angle := by
    intro t
    unfold handleHyperspace triggerHyperspace nextRandom
    dsimp only
    split_ifs <;> exact ⟨rfl, rfl, rfl⟩
  have h1 : (s.handleRotation joyX).ship.active = s.ship.active ∧
      (s.handleRotation joyX).ship.radius = s.ship.radius := by
    unfold handleRotation
    dsimp only
    split_ifs <;> exact ⟨rfl, rfl⟩
  unfold handleInput
  by_cases hact : s.ship.active = true
  · rw [if_neg (by simp [hact]), if_pos hact]
    dsimp only
    exact ⟨by rw [(h4 _).1, h3, (h2 _).1, h1.1], by rw [(h4 _).2.1, h3, (h2 _).2.1, h1.2],
      by rw [(h4 _).2.2, h3, (h2 _).2.2]⟩
  · rw [if_pos (by simpa using hact), if_neg hact]
    split_ifs <;> exact ⟨rfl, rfl, rfl⟩

theorem afterCollisions_lives (env : Env) (inp : TickInput) (s : AstroLib)
    (h : 0 ≤ s.lives ∧ s.lives ≤ 3 ∧ (s.ship.active = true ↔ 1 ≤ s.lives)) :
    0 ≤ (s.afterCollisions env inp).lives ∧ (s.afterCollisions env inp).lives ≤ 3 ∧
    ((s.afterCollisions env inp).ship.active = true ↔ 1 ≤ (s.afterCollisions env inp).lives) := by
  obtain ⟨h0, h3, hiff⟩ := h
  have hl : (s.afterBulletPass env inp).lives = s.lives := by
    unfold afterBulletPass
    rw [(bulletPass_ship_lives env inp.clock _).2, (afterIntegration_lives env inp s).1]
  have ha : (s.afterBulletPass env inp).ship.active = s.ship.active := by
    unfold afterBulletPass afterIntegration
    rw [(bulletPass_ship_lives env inp.clock _).1, updateGameObjects_ship_active,
      (handleInput_ship env _ _ _ _ _ s).1]
  rw [afterCollisions_eq, shipPass_eq]
  split_ifs with hc
  · cases hf : shipFirstHit (s.afterBulletPass env inp) with
    | none =>
      dsimp only
      rw [hl, ha]
      exact ⟨h0, h3, hiff⟩
    | some j =>
      dsimp only
      have hone : 1 ≤ s.lives := hiff.1 (by rw [← ha]; exact hc.1)
      by_cases hpos : (s.afterBulletPass env inp).lives - 1 > 0
      · obtain ⟨r1, -⟩ := shipHit_respawn inp.clock j _ hpos
        rw [(shipHit_lives inp.clock j _).1, r1]
        dsimp only
        rw [ha, hl] at *
        exact ⟨by omega, by omega, fun _ => by omega, fun _ => hiff.2 hone⟩
      · obtain ⟨r1, -⟩ := shipHit_lost inp.clock j _ hpos
        rw [(shipHit_lives inp.clock j _).1, r1]
        dsimp only
        rw [hl] at *
        exact ⟨by omega, by omega, fun hf => absurd hf (by decide), fun _ => by omega⟩
  · rw [hl, ha]
    exact ⟨h0, h3, hiff⟩

theorem update_livesInv (env : Env) (fuel : ℕ) (inp : TickInput) (s s' : AstroLib)
    (hinv : LivesInv s) (h : s.update env fuel inp = some s') : LivesInv s' := by
  obtain ⟨h0, h3, hiff, hgame⟩ := hinv
  cases hst : s.currentState with
  | START =>
    rw [update_of_start env fuel inp s hst] at h
    rcases updateStart_cases env fuel inp s s' h with ⟨r, hr, rfl⟩ | rfl
    · have hs := resetGame_spec env fuel inp.clock s r hr
      have hl : r.lives = 3 := hs.2.1
      have ha : r.ship.active = true := hs.2.2.2.2.2.2.2.2.2.2.1
      exact ⟨by show 0 ≤ r.lives; omega, by show r.lives ≤ 3; omega,
        ⟨fun _ => by show 1 ≤ r.lives; omega, fun _ => ha⟩, fun _ => ha⟩
    · exact ⟨h0, h3, hiff, fun hg => by
        have : s.currentState = GameState.GAME := hg
        rw [hst] at this
        exact absurd this (by decide)⟩
  | GAME =>
    rw [update_of_game env fuel inp s hst] at h
    obtain ⟨a0, a3, aiff⟩ := afterCollisions_lives env inp s ⟨h0, h3, hiff⟩
    have hctl := (afterCollisions_control env inp s).1
    rcases updateGame_cases env fuel inp s s' h with ⟨-, rfl⟩ | ⟨hno, -, s2, hs2, rfl⟩ | ⟨hno, -, rfl⟩
    · obtain ⟨e1, -, -, -, -, -, e7, e8⟩ := enterGameOver_fields (s.afterCollisions env inp)
      unfold LivesInv
      rw [e1, e7, e8]
      exact ⟨a0, a3, aiff, fun hg => absurd hg (by decide)⟩
    · obtain ⟨a', p', rfl⟩ := spawnNewWave_frame env fuel _ s2 hs2
      refine ⟨a0, a3, aiff, fun _ => ?_⟩
      show (s.afterCollisions env inp).ship.active = true
      by_contra hoff
      exact hno ⟨by
        have := mt aiff.2 hoff
        omega, by simpa using hoff⟩
    · refine ⟨a0, a3, aiff, fun _ => ?_⟩
      show (s.afterCollisions env inp).ship.active = true
      by_contra hoff
      exact hno ⟨by
        have := mt aiff.2 hoff
        omega, by simpa using hoff⟩
  | GAME_OVER =>
    rw [update_of_gameOver env fuel inp s hst] at h
    rcases updateGameOver_cases inp s s' h with rfl | rfl
    · exact ⟨h0, h3, hiff, fun hg => by
        have : GameState.START = GameState.GAME := hg
        exact absurd this (by decide)⟩
    · exact ⟨h0, h3, hiff, fun hg => by
        have : s.currentState = GameState.GAME := hg
        rw [hst] at this
        exact absurd this (by decide)⟩

end AstroLib

/-- C25: lives/ship invariant. In every state reachable from `begin()` by `update` calls (at
  the end of every `update` call, and right after `begin()`), `0 ≤ lives ≤ 3`; the ship is
  active exactly when `lives ≥ 1`, so it is inactive only if `lives = 0`; and if
  `currentState = GAME` then the ship is active and `lives ≥ 1`. -/
theorem lives_ship_invariant (env : Env) (s : AstroLib) (h : Reachable env s) :
    0 ≤ s.lives ∧ s.lives ≤ 3 ∧
    (s.ship.active = false → s.lives = 0) ∧
    (s.ship.active = true ↔ 1 ≤ s.lives) ∧
    (s.currentState = GameState.GAME → s.ship.active = true ∧ 1 ≤ s.lives) := by
  have hinv : LivesInv s := by
    refine reachable_induction env LivesInv ?_ ?_ ?_ ?_ ?_ s h
    · intro s0 t fuel clock audioPin stored hb
      obtain ⟨b1, b2, -, b4, -⟩ := AstroLib.begin_spec env fuel clock audioPin stored s0 t hb
      exact ⟨by omega, by omega, ⟨fun _ => by omega, fun _ => b4⟩, fun _ => b4⟩
    · intro fuel inp t t' ht hupd
      exact AstroLib.update_livesInv env fuel inp t t' ht hupd
    · intro pin t ht
      exact ht
    · intro pin t ht
      exact ht
    · intro t ht
      exact ht
  obtain ⟨h0, h3, hiff, hgame⟩ := hinv
  refine ⟨h0, h3, ?_, hiff, fun hg => ⟨hgame hg, hiff.1 (hgame hg)⟩⟩
  intro hoff
  have : ¬ 1 ≤ s.lives := fun h1 => by
    have := hiff.2 h1
    rw [hoff] at this
    exact absurd this (by decide)
  omega

theorem lives_ship_invariant_witness :
    Reachable demoEnv bootState ∧ 0 ≤ bootState.lives ∧ bootState.lives ≤ 3 ∧
    (bootState.ship.active = true ↔ 1 ≤ bootState.lives) :=
  ⟨bootState_reachable, (lives_ship_invariant demoEnv bootState bootState_reachable).1,
    (lives_ship_invariant demoEnv bootState bootState_reachable).2.1,
    (lives_ship_invariant demoEnv bootState bootState_reachable).2.2.2.1⟩

namespace AstroLib

theorem handleRotation_heading (joyX : ℤ) (s : AstroLib) (h : HeadingInv s) :
    HeadingInv (s.handleRotation joyX) ∧
    (|joyX - JOYSTICK_CENTER| > JOYSTICK_DEAD_ZONE →
      0 ≤ (s.handleRotation joyX).ship.angle ∧ (s.handleRotation joyX).ship.angle < 2 * M_PI) := by
  have hscale := turnScale_range joyX
  have hd0 : 0 ≤ SHIP_TURN_SPEED * turnScale joyX := by
    unfold SHIP_TURN_SPEED
    nlinarith [hscale.1]
  have hd1 : SHIP_TURN_SPEED * turnScale joyX ≤ 12 / 100 := by
    unfold SHIP_TURN_SPEED
    nlinarith [hscale.2]
  have hpi : M_PI = 884279719003555 / 281474976710656 := rfl
  have hrange : |joyX - JOYSTICK_CENTER| > JOYSTICK_DEAD_ZONE →
      0 ≤ (s.handleRotation joyX).ship.angle ∧
        (s.handleRotation joyX).ship.angle < 2 * M_PI := by
    intro hout
    unfold handleRotation
    dsimp only
    rw [if_pos hout]
    dsimp only
    unfold HeadingInv at h
    rcases h with h | h
    · rw [h]
      split_ifs <;> constructor <;> (rw [hpi] at *; linarith)
    · split_ifs <;> constructor <;> (rw [hpi] at *; linarith)
  refine ⟨?_, hrange⟩
  by_cases hout : |joyX - JOYSTICK_CENTER| > JOYSTICK_DEAD_ZONE
  · exact Or.inr (hrange hout)
  · unfold handleRotation
    dsimp only
    rw [if_neg hout]
    exact h

theorem updateGameObjects_ship_angle (clock : ℕ) (s : AstroLib) :
    (s.updateGameObjects clock).ship.angle = s.ship.angle := by
  unfold updateGameObjects
  dsimp only
  split_ifs <;> rfl

theorem afterCollisions_heading (env : Env) (inp : TickInput) (s : AstroLib)
    (h : HeadingInv s) : HeadingInv (s.afterCollisions env inp) := by
  have h1 : HeadingInv (s.afterBulletPass env inp) := by
    unfold HeadingInv afterBulletPass afterIntegration
    rw [(bulletPass_ship_lives env inp.clock _).1, updateGameObjects_ship_angle,
      (handleInput_ship env _ _ _ _ _ s).2.2]
    split_ifs
    · exact (handleRotation_heading inp.joyX s h).1
    · exact h
  rw [afterCollisions_eq]
  refine shipPass_rel (fun _ b => HeadingInv b) inp.clock _ h1 ?_
  intro j _ _ _
  by_cases hpos : (s.afterBulletPass env inp).lives - 1 > 0
  · unfold HeadingInv
    rw [(shipHit_respawn inp.clock j _ hpos).1]
    left
    rfl
  · unfold HeadingInv
    rw [(shipHit_lost inp.clock j _ hpos).1]
    exact h1

theorem update_headingInv (env : Env) (fuel : ℕ) (inp : TickInput) (s s' : AstroLib)
    (hinv : HeadingInv s) (h : s.update env fuel inp = some s') : HeadingInv s' := by
  cases hst : s.currentState with
  | START =>
    rw [update_of_start env fuel inp s hst] at h
    rcases updateStart_cases env fuel inp s s' h with ⟨r, hr, rfl⟩ | rfl
    · exact Or.inl (resetGame_spec env fuel inp.clock s r hr).2.2.2.2.2.2.2.2.2.2.2.2.1
    · exact hinv
  | GAME =>
    rw [update_of_game env fuel inp s hst] at h
    unfold HeadingInv
    rw [(updateGame_keeps env fuel inp s s' h).2.2.2.2]
    exact afterCollisions_heading env inp s hinv
  | GAME_OVER =>
    rw [update_of_gameOver env fuel inp s hst] at h
    rcases updateGameOver_cases inp s s' h with rfl | rfl
    · exact hinv
    · exact hinv

end AstroLib

/-- C23, counterexample: the session right after `begin()` is reachable and its ship has the
  heading `-M_PI / 2`, which is negative; the same holds one idle tick later. -/
theorem heading_counterexample :
    Reachable demoEnv bootState ∧ bootState.ship.angle = -M_PI / 2 ∧
    ¬ (0 ≤ bootState.ship.angle) ∧
    (bootState.run demoEnv [Call.tick 1 (idleAt 20)]).map (fun s => s.ship.angle) =
      some (-M_PI / 2) := by
  refine ⟨bootState_reachable, ?_, ?_, ?_⟩
  · with_unfolding_all rfl
  · with_unfolding_all decide
  · with_unfolding_all rfl

/-- C23, amended: heading invariant. In every state reachable from `begin()` by `update`
  calls the ship's heading is `−π/2` (the value that `resetGame` and a post-death respawn
  set) or satisfies `0 ≤ ship.angle < 2π`; in particular `−π/2 ≤ ship.angle < 2π`. Every
  rotation by `handleInput` (stick outside the dead zone) leaves `0 ≤ ship.angle < 2π`. -/
theorem heading_invariant (env : Env) (s : AstroLib) (h : Reachable env s) :
    (s.ship.angle = -M_PI / 2 ∨ (0 ≤ s.ship.angle ∧ s.ship.angle < 2 * M_PI)) ∧
    (-M_PI / 2 ≤ s.ship.angle ∧ s.ship.angle < 2 * M_PI) ∧
    (∀ joyX : ℤ, |joyX - JOYSTICK_CENTER| > JOYSTICK_DEAD_ZONE →
      0 ≤ (s.handleRotation joyX).ship.angle ∧
      (s.handleRotation joyX).ship.angle < 2 * M_PI) ∧
    (∀ (fuel clock : ℕ) (r : AstroLib), s.resetGame env fuel clock = some r →
      r.ship.angle = -M_PI / 2) ∧
    (∀ (clock : ℕ) (j : Fin MAX_ASTEROIDS), s.lives - 1 > 0 →
      (s.shipHit clock j).ship.angle = -M_PI / 2) := by
  have hinv : HeadingInv s := by
    refine reachable_induction env HeadingInv ?_ ?_ ?_ ?_ ?_ s h
    · intro s0 t fuel clock audioPin stored hb
      exact Or.inl (AstroLib.begin_spec env fuel clock audioPin stored s0 t hb).2.2.2.2.1
    · intro fuel inp t t' ht hupd
      exact AstroLib.update_headingInv env fuel inp t t' ht hupd
    · intro pin t ht
      exact ht
    · intro pin t ht
      exact ht
    · intro t ht
      exact ht
  have hpi : M_PI = 884279719003555 / 281474976710656 := rfl
  refine ⟨hinv, ?_, fun joyX hout => (AstroLib.handleRotation_heading joyX s hinv).2 hout, ?_, ?_⟩
  · rcases hinv with h1 | h1
    · rw [h1, hpi]
      constructor <;> norm_num
    · rw [hpi] at *
      constructor <;> linarith [h1.1, h1.2]
  · intro fuel clock r hr
    exact (AstroLib.resetGame_spec env fuel clock s r hr).2.2.2.2.2.2.2.2.2.2.2.2.1
  · intro clock j hpos
    rw [(AstroLib.shipHit_respawn clock j s hpos).1]

theorem heading_invariant_witness :
    Reachable demoEnv bootState ∧
    (bootState.ship.angle = -M_PI / 2 ∨
      (0 ≤ bootState.ship.angle ∧ bootState.ship.angle < 2 * M_PI)) ∧
    0 ≤ (bootState.handleRotation 4095).ship.angle ∧
    (bootState.handleRotation 4095).ship.angle < 2 * M_PI :=
  ⟨bootState_reachable, (heading_invariant demoEnv bootState bootState_reachable).1,
    ((heading_invariant demoEnv bootState bootState_reachable).2.2.1 4095 (by decide)).1,
    ((heading_invariant demoEnv bootState bootState_reachable).2.2.1 4095 (by decide)).2⟩

namespace AstroLib

theorem shape_of_freshLarge (c : Vector2D) (c2 : ℚ) (o : GameObject)
    (h : FreshLarge c c2 o) : AsteroidShape o := by
  obtain ⟨-, hsize, hrad, hang, hlife, -⟩ := h
  refine ⟨Or.inl hsize, ?_, hang, hlife⟩
  rw [hrad, hsize]
  norm_num

theorem shape_of_fragment (size : ℤ) (o : GameObject) (h : Fragment size o)
    (hsize : size = ASTEROID_SIZE_LARGE ∨ size = ASTEROID_SIZE_MEDIUM ∨
      size = ASTEROID_SIZE_SMALL) : AsteroidShape o := by
  obtain ⟨-, h1, h2, h3, h4⟩ := h
  exact ⟨by rw [h1]; exact hsize, by rw [h2, h1], h3, h4⟩

theorem shapeInv_filled (size : ℤ) (a a' : Fin MAX_ASTEROIDS → GameObject)
    (hsize : size = ASTEROID_SIZE_LARGE ∨ size = ASTEROID_SIZE_MEDIUM ∨
      size = ASTEROID_SIZE_SMALL)
    (hfill : FilledWith size a a')
    (h : ∀ j, (a j).active = true → AsteroidShape (a j)) :
    ∀ j, (a' j).active = true → AsteroidShape (a' j) := by
  intro j hj
  rcases hfill j with hsame | ⟨-, hfrag⟩
  · rw [hsame] at hj ⊢
    exact h j hj
  · exact shape_of_fragment size _ hfrag hsize

theorem shapeInv_deactivate (a : Fin MAX_ASTEROIDS → GameObject) (j : Fin MAX_ASTEROIDS)
    (h : ∀ k, (a k).active = true → AsteroidShape (a k)) :
    ∀ k, ((Function.update a j { a j with active := false }) k).active = true →
      AsteroidShape ((Function.update a j { a j with active := false }) k) := by
  intro k hk
  by_cases hkj : k = j
  · subst hkj
    rw [Function.update_same] at hk
    exact absurd hk (by simp)
  · rw [Function.update_noteq hkj] at hk ⊢
    exact h k hk

theorem bulletHit_shapeInv (env : Env) (clock : ℕ) (i : Fin MAX_BULLETS)
    (j : Fin MAX_ASTEROIDS) (s : AstroLib) (h : ShapeInv s) :
    ShapeInv (s.bulletHit env clock i j) := by
  have h1 : ShapeInv (s.hitEffects clock i j) := by
    unfold ShapeInv
    rw [hitEffects_asteroids]
    exact shapeInv_deactivate s.asteroids j h
  unfold bulletHit
  by_cases hL : ((s.hitEffects clock i j).asteroids j).size = ASTEROID_SIZE_LARGE
  · obtain ⟨a', p', heq, -, hfill⟩ := breakAsteroid_large env j _ hL
    rw [heq]
    exact shapeInv_filled _ _ a' (Or.inr (Or.inl rfl)) hfill h1
  · by_cases hM : ((s.hitEffects clock i j).asteroids j).size = ASTEROID_SIZE_MEDIUM
    · obtain ⟨a', p', heq, -, hfill⟩ := breakAsteroid_medium env j _ hM
      rw [heq]
      exact shapeInv_filled _ _ a' (Or.inr (Or.inr rfl)) hfill h1
    · rw [breakAsteroid_other env j _ hL hM]
      exact h1

theorem shipHit_shapeInv (clock : ℕ) (j : Fin MAX_ASTEROIDS) (s : AstroLib) (h : ShapeInv s) :
    ShapeInv (s.shipHit clock j) := by
  unfold ShapeInv
  rw [(shipHit_lives clock j s).2]
  exact shapeInv_deactivate s.asteroids j h

theorem updateGameObjects_shapeInv (clock : ℕ) (s : AstroLib) (h : ShapeInv s) :
    ShapeInv (s.updateGameObjects clock) := by
  intro j hj
  simp only [updateGameObjects, updateAsteroid] at hj ⊢
  by_cases ha : (s.asteroids j).active = true
  · rw [if_pos ha]
    exact h j ha
  · rw [if_neg ha] at hj
    exact absurd hj ha

theorem afterCollisions_shapeInv (env : Env) (inp : TickInput) (s : AstroLib)
    (h : ShapeInv s) : ShapeInv (s.afterCollisions env inp) := by
  have h1 : ShapeInv (s.handleInput env inp.clock inp.joyX inp.joyY (s.anyFireButtonDown inp)
      (s.digitalHyperspaceDown inp)) := by
    unfold ShapeInv
    rw [(handleInput_lives env _ _ _ _ _ s).2.2]
    exact h
  have h2 := updateGameObjects_shapeInv inp.clock _ h1
  unfold afterCollisions
  exact handleCollisions_rel (fun a b => ShapeInv a → ShapeInv b) env inp.clock
    (fun _ ha => ha) (fun _ _ _ hab hbc ha => hbc (hab ha))
    (fun t i j _ _ ht => bulletHit_shapeInv env inp.clock i j t ht)
    (fun t j _ _ _ ht => shipHit_shapeInv inp.clock j t ht) _ h2

theorem spawnLargeAsteroids_shapeInv (env : Env) (c2 : ℚ) (fuel n : ℕ) (s s' : AstroLib)
    (h : spawnLargeAsteroids env c2 fuel n s = some s') (hinv : ShapeInv s) : ShapeInv s' := by
  obtain ⟨a', p', rfl, -, hslots⟩ := spawnLargeAsteroids_spec env c2 fuel n s s' h
  intro j hj
  rcases hslots j with hsame | ⟨-, hfresh⟩
  · show AsteroidShape (a' j)
    have hj' : (a' j).active = true := hj
    rw [hsame] at hj' ⊢
    exact hinv j hj'
  · exact shape_of_freshLarge _ _ _ hfresh

theorem update_shapeInv (env : Env) (fuel : ℕ) (inp : TickInput) (s s' : AstroLib)
    (hinv : ShapeInv s) (h : s.update env fuel inp = some s') : ShapeInv s' := by
  cases hst : s.currentState with
  | START =>
    rw [update_of_start env fuel inp s hst] at h
    rcases updateStart_cases env fuel inp s s' h with ⟨r, hr, rfl⟩ | rfl
    · intro j hj
      exact shape_of_freshLarge _ _ _ ((resetGame_spec env fuel inp.clock s r hr).2.2.2.2.1 j hj)
    · exact hinv
  | GAME =>
    rw [update_of_game env fuel inp s hst] at h
    have hac := afterCollisions_shapeInv env inp s hinv
    rcases updateGame_cases env fuel inp s s' h with ⟨-, rfl⟩ | ⟨-, -, s2, hs2, rfl⟩ | ⟨-, -, rfl⟩
    · unfold ShapeInv
      rw [(enterGameOver_fields _).2.2.2.1]
      exact hac
    · unfold spawnNewWave at hs2
      dsimp only at hs2
      exact spawnLargeAsteroids_shapeInv env _ fuel _ _ s2 hs2 hac
    · exact hac
  | GAME_OVER =>
    rw [update_of_gameOver env fuel inp s hst] at h
    rcases updateGameOver_cases inp s s' h with rfl | rfl
    · exact hinv
    · exact hinv

end AstroLib

/-- C24: asteroid shape invariant. In every state reachable from `begin()` by `update` calls,
  every active asteroid has `size` in `{LARGE = 10, MEDIUM = 6, SMALL = 3}`, `radius` equal
  to its size, `angle = 0` and `lifetime = 0`. -/
theorem asteroid_shape_invariant (env : Env) (s : AstroLib) (h : Reachable env s) :
    ∀ j, (s.asteroids j).active = true →
      ((s.asteroids j).size = 10 ∨ (s.asteroids j).size = 6 ∨ (s.asteroids j).size = 3) ∧
      (s.asteroids j).radius = ((s.asteroids j).size : ℚ) ∧
      (s.asteroids j).angle = 0 ∧ (s.asteroids j).lifetime = 0 := by
  have hinv : ShapeInv s := by
    refine reachable_induction env ShapeInv ?_ ?_ ?_ ?_ ?_ s h
    · intro s0 t fuel clock audioPin stored hb j hj
      exact AstroLib.shape_of_freshLarge _ _ _
        ((AstroLib.begin_spec env fuel clock audioPin stored s0 t hb).2.2.2.2.2.2.2 j hj)
    · intro fuel inp t t' ht hupd
      exact AstroLib.update_shapeInv env fuel inp t t' ht hupd
    · intro pin t ht
      exact ht
    · intro pin t ht
      exact ht
    · intro t ht
      exact ht
  intro j hj
  exact hinv j hj

theorem asteroid_shape_invariant_witness :
    Reachable demoEnv bootState ∧ (bootState.asteroids 0).active = true ∧
    (bootState.asteroids 0).size = 10 ∧ (bootState.asteroids 0).radius = 10 :=
  ⟨bootState_reachable, by with_unfolding_all rfl, by with_unfolding_all rfl,
    ((asteroid_shape_invariant demoEnv bootState bootState_reachable 0
      (by with_unfolding_all rfl)).2.1).trans (by with_unfolding_all rfl)⟩

/-! ## Spawn clearance -/

namespace AstroLib

theorem spawnLargeAsteroids_sampled (env : Env) (c2 : ℚ) (fuel : ℕ) :
    ∀ (n : ℕ) (s s' : AstroLib), spawnLargeAsteroids env c2 fuel n s = some s' →
      s'.ship = s.ship ∧
      ∀ j, s'.asteroids j = s.asteroids j ∨
        ∃ q, (s'.asteroids j).pos = sampleAt env.rand q ∧
          ¬ dist2 (sampleAt env.rand q) s.ship.pos < c2 := by
  intro n
  induction n with
  | zero =>
    intro s s' h
    simp only [spawnLargeAsteroids, Option.some.injEq] at h
    subst h
    exact ⟨rfl, fun j => Or.inl rfl⟩
  | succ n ih =>
    intro s s' h
    unfold spawnLargeAsteroids at h
    cases hs : sampleSpawn env.rand s.ship.pos c2 fuel s.rngPos with
    | none => rw [hs] at h; simp at h
    | some r =>
      obtain ⟨x, y, p⟩ := r
      rw [hs] at h
      dsimp only at h
      obtain ⟨k, -, hsample, hclear⟩ :=
        sampleSpawn_some env.rand s.ship.pos c2 fuel s.rngPos x y p hs
      have hx : 0 ≤ x := by
        have := congrArg Vector2D.x hsample
        simp only [sampleAt] at this
        rw [← this]
        exact_mod_cast random_ge 0 SCREEN_WIDTH _
      have hy : 0 ≤ y := by
        have := congrArg Vector2D.y hsample
        simp only [sampleAt] at this
        rw [← this]
        exact_mod_cast random_ge 0 SCREEN_HEIGHT _
      obtain ⟨hship, hslots⟩ := ih _ s' h
      cases hslot : ({ s with rngPos := p } : AstroLib).findInactiveAsteroidSlot with
      | none =>
        rw [spawnAsteroid_full env _ x y 0 0 _ hslot] at hship hslots
        exact ⟨hship, hslots⟩
      | some k' =>
        obtain ⟨o, q, hsp, -, -, -, -, -, hpos⟩ :=
          spawnAsteroid_slot env ASTEROID_SIZE_LARGE x y 0 0 _ k' hslot
        rw [hsp] at hship hslots
        simp only at hship hslots
        refine ⟨hship, ?_⟩
        intro j
        rcases hslots j with hj | hj
        · by_cases hjk : j = k'
          · subst hjk
            right
            rw [hj, Function.update_same, hpos hx hy]
            exact ⟨s.rngPos + 2 * k, hsample.symm, by rw [hsample]; exact hclear⟩
          · left
            rw [hj, Function.update_noteq hjk]
        · right
          exact hj

theorem resetGame_ship (env : Env) (fuel clock : ℕ) (s s' : AstroLib)
    (h : s.resetGame env fuel clock = some s') :
    s'.ship = (s.resetFields clock).ship ∧
    ∀ j, (s'.asteroids j).active = true →
      ∃ q, (s'.asteroids j).pos = sampleAt env.rand q ∧
        ¬ dist2 (sampleAt env.rand q) screenCentre < resetClearance2 := by
  unfold resetGame at h
  rw [Option.map_eq_some'] at h
  obtain ⟨s2, hs2, rfl⟩ := h
  obtain ⟨hship, hslots⟩ := spawnLargeAsteroids_sampled env _ fuel _ _ s2 hs2
  refine ⟨hship, ?_⟩
  intro j hj
  rcases hslots j with hsame | hq
  · have hj' : (s2.asteroids j).active = true := hj
    rw [hsame] at hj'
    exact absurd hj' (by simp [resetFields])
  · exact hq

theorem f32_square_far (t : ℚ) (h : 17 ≤ t ∨ t ≤ -17) : 289 ≤ f32 (f32 t * f32 t) := by
  have h17 : f32 17 = 17 := by with_unfolding_all rfl
  have h289 : f32 289 = 289 := by with_unfolding_all rfl
  have hsq : (289 : ℚ) ≤ f32 t * f32 t := by
    rcases h with h | h
    · have := f32_mono _ _ h
      rw [h17] at this
      nlinarith
    · have := f32_mono _ _ h
      rw [f32_neg, h17] at this
      nlinarith
  have := f32_mono _ _ hsq
  rwa [h289] at this

theorem f32_square_nonneg (t : ℚ) : 0 ≤ f32 (f32 t * f32 t) :=
  f32_nonneg _ (mul_self_nonneg _)

theorem not_collides_of_clear (ship o : GameObject) (c : ℚ)
    (hsum : ship.radius + o.radius = 14) (hc : 25 ≤ c)
    (hd : ¬ dist2 o.pos ship.pos < c ^ 2) : collides ship o = false := by
  have h14 : f32 14 = 14 := by with_unfolding_all rfl
  have h196 : f32 (14 * 14) = 196 := by with_unfolding_all rfl
  have h289 : f32 289 = 289 := by with_unfolding_all rfl
  have hfar : 17 ≤ ship.pos.x - o.pos.x ∨ ship.pos.x - o.pos.x ≤ -17 ∨
      17 ≤ ship.pos.y - o.pos.y ∨ ship.pos.y - o.pos.y ≤ -17 := by
    by_contra hcon
    simp only [not_or, not_le] at hcon
    obtain ⟨a1, a2, a3, a4⟩ := hcon
    apply hd
    unfold dist2
    nlinarith
  have hsumsq : (289 : ℚ) ≤ f32 (f32 (ship.pos.x - o.pos.x) * f32 (ship.pos.x - o.pos.x)) +
      f32 (f32 (ship.pos.y - o.pos.y) * f32 (ship.pos.y - o.pos.y)) := by
    have nx := f32_square_nonneg (ship.pos.x - o.pos.x)
    have ny := f32_square_nonneg (ship.pos.y - o.pos.y)
    rcases hfar with h | h | h | h
    · have := f32_square_far _ (Or.inl h); linarith
    · have := f32_square_far _ (Or.inr h); linarith
    · have := f32_square_far _ (Or.inl h); linarith
    · have := f32_square_far _ (Or.inr h); linarith
  have hdist := f32_mono _ _ hsumsq
  rw [h289] at hdist
  unfold collides
  dsimp only
  rw [decide_eq_false_iff_not, hsum, h14, h196]
  intro hlt
  linarith

end AstroLib

/-- C30: spawn clearance. For every random stream, every asteroid that is active after
  `resetGame` sits exactly on a sample of the stream (non-negative coordinates) whose squared
  distance from the ship, which is in the screen centre, is at least `25²`, and every
  asteroid activated by `spawnNewWave` sits on a sample at squared distance at least `30²`
  from the ship; both clearances exceed ship radius + asteroid radius `4 + 10 = 14`, so the
  collision test of such an asteroid with the ship fails. With a stream on which the
  rejection loops finish, both functions return. -/
theorem spawn_clearance (env : Env) (fuel clock : ℕ) (s s' : AstroLib) :
    (s.resetGame env fuel clock = some s' →
      s'.ship.pos = screenCentre ∧ s'.ship.radius = SHIP_COLLISION_RADIUS ∧
      ∀ j, (s'.asteroids j).active = true →
        (25 : ℚ) ^ 2 ≤ dist2 (s'.asteroids j).pos s'.ship.pos ∧
        (∃ q, (s'.asteroids j).pos = sampleAt env.rand q) ∧
        0 ≤ (s'.asteroids j).pos.x ∧ 0 ≤ (s'.asteroids j).pos.y ∧
        (s'.asteroids j).radius = 10 ∧
        s'.ship.radius + (s'.asteroids j).radius = 14 ∧
        AstroLib.collides s'.ship (s'.asteroids j) = false) ∧
    (s.spawnNewWave env fuel = some s' →
      s'.ship = s.ship ∧
      ∀ j, (s.asteroids j).active = false → (s'.asteroids j).active = true →
        (30 : ℚ) ^ 2 ≤ dist2 (s'.asteroids j).pos s.ship.pos ∧
        (∃ q, (s'.asteroids j).pos = sampleAt env.rand q) ∧
        0 ≤ (s'.asteroids j).pos.x ∧ 0 ≤ (s'.asteroids j).pos.y ∧
        (s'.asteroids j).radius = 10 ∧
        (s.ship.radius = SHIP_COLLISION_RADIUS →
          AstroLib.collides s'.ship (s'.asteroids j) = false)) ∧
    (FairAt env.rand screenCentre resetClearance2 →
      ∃ fuel' r, s.resetGame env fuel' clock = some r) ∧
    (FairAt env.rand s.ship.pos waveClearance2 →
      ∃ fuel' r, s.spawnNewWave env fuel' = some r) := by
  refine ⟨?_, ?_, AstroLib.resetGame_of_fair env clock s, AstroLib.spawnNewWave_of_fair env s⟩
  · intro h
    have hspec := AstroLib.resetGame_spec env fuel clock s s' h
    obtain ⟨hship, hsamp⟩ := AstroLib.resetGame_ship env fuel clock s s' h
    have hpos : s'.ship.pos = screenCentre := hspec.2.2.2.2.2.2.2.2.2.2.2.1
    have hrad : s'.ship.radius = SHIP_COLLISION_RADIUS := by rw [hship]; rfl
    refine ⟨hpos, hrad, ?_⟩
    intro j hj
    obtain ⟨-, -, hr, -, -, hx, hy, hclear⟩ := hspec.2.2.2.2.1 j hj
    have hc : ¬ dist2 (s'.asteroids j).pos s'.ship.pos < (25 : ℚ) ^ 2 := by
      rw [hpos]
      have : resetClearance2 = (25 : ℚ) ^ 2 := by norm_num [resetClearance2]
      rw [← this]
      exact hclear
    obtain ⟨q, hq, -⟩ := hsamp j hj
    refine ⟨not_lt.1 hc, ⟨q, hq⟩, hx, hy, hr, by rw [hrad, hr]; norm_num [SHIP_COLLISION_RADIUS],
      ?_⟩
    exact AstroLib.not_collides_of_clear _ _ 25
      (by rw [hrad, hr]; norm_num [SHIP_COLLISION_RADIUS]) le_rfl hc
  · intro h
    unfold AstroLib.spawnNewWave at h
    dsimp only at h
    obtain ⟨a', p', heq, -, hslots⟩ := AstroLib.spawnLargeAsteroids_spec env _ fuel _ _ s' h
    obtain ⟨hship, hsamp⟩ := AstroLib.spawnLargeAsteroids_sampled env _ fuel _ _ s' h
    have hship' : s'.ship = s.ship := hship
    refine ⟨hship', ?_⟩
    intro j hoff hon
    have hnew : s'.asteroids j ≠ s.asteroids j := by
      intro heq2
      rw [heq2, hoff] at hon
      exact absurd hon (by decide)
    have hfresh : FreshLarge s.ship.pos (((ASTEROID_SIZE_LARGE : ℚ) * 3) ^ 2)
        (s'.asteroids j) := by
      rcases hslots j with hsame | ⟨-, hf⟩
      · exact absurd (by rw [heq]; exact hsame) hnew
      · rw [heq]
        exact hf
    obtain ⟨-, -, hr, -, -, hx, hy, hclear⟩ := hfresh
    have hc : ¬ dist2 (s'.asteroids j).pos s.ship.pos < (30 : ℚ) ^ 2 := by
      have : ((ASTEROID_SIZE_LARGE : ℚ) * 3) ^ 2 = (30 : ℚ) ^ 2 := by norm_num
      rw [← this]
      exact hclear
    have hq : ∃ q, (s'.asteroids j).pos = sampleAt env.rand q := by
      rcases hsamp j with hsame | ⟨q, hq, -⟩
      · exact absurd hsame hnew
      · exact ⟨q, hq⟩
    refine ⟨not_lt.1 hc, hq, hx, hy, hr, ?_⟩
    intro hrad
    rw [hship']
    exact AstroLib.not_collides_of_clear _ _ 30
      (by rw [hrad, hr]; norm_num [SHIP_COLLISION_RADIUS]) (by norm_num) hc

/-! ## Fragments -/

namespace AstroLib

theorem spawnAsteroid_child (env : Env) (size : ℤ) (x y vx vy : ℚ) (s : AstroLib)
    (k : Fin MAX_ASTEROIDS) (h : s.findInactiveAsteroidSlot = some k) :
    (s.spawnAsteroid env size x y vx vy).asteroids =
      Function.update s.asteroids k
        { pos := (s.spawnPosition env size x y).1,
          vel := ((s.spawnPosition env size x y).2.spawnVelocity env vx vy).1,
          angle := 0, radius := (size : ℚ), active := true, lifetime := 0, size := size } := by
  unfold spawnAsteroid
  rw [h]
  have h1 := spawnPosition_state env size x y s
  have h2 := spawnVelocity_state env vx vy (s.spawnPosition env size x y).2
  dsimp only
  rw [h2, h1]

theorem spawnAsteroid_pos (env : Env) (size : ℤ) (x y vx vy : ℚ) (s : AstroLib)
    (hx : 0 ≤ x) (hy : 0 ≤ y) (k : Fin MAX_ASTEROIDS) :
    (s.spawnAsteroid env size x y vx vy).asteroids k = s.asteroids k ∨
    ((s.spawnAsteroid env size x y vx vy).asteroids k).pos = { x := x, y := y } := by
  cases h : s.findInactiveAsteroidSlot with
  | none => left; rw [spawnAsteroid_full env size x y vx vy s h]
  | some k0 =>
    rw [spawnAsteroid_child env size x y vx vy s k0 h]
    by_cases hk : k = k0
    · right
      subst hk
      rw [Function.update_same, spawnPosition_given env size x y s hx hy]
    · left
      rw [Function.update_noteq hk]

theorem spawnAsteroid_pos_twice (env : Env) (size : ℤ) (j : Fin MAX_ASTEROIDS) (s : AstroLib)
    (hx : 0 ≤ (s.asteroids j).pos.x) (hy : 0 ≤ (s.asteroids j).pos.y) (k : Fin MAX_ASTEROIDS) :
    ((s.spawnAsteroid env size (s.asteroids j).pos.x (s.asteroids j).pos.y (s.asteroids j).vel.x
        (s.asteroids j).vel.y).spawnAsteroid env size
      ((s.spawnAsteroid env size (s.asteroids j).pos.x (s.asteroids j).pos.y
        (s.asteroids j).vel.x (s.asteroids j).vel.y).asteroids j).pos.x
      ((s.spawnAsteroid env size (s.asteroids j).pos.x (s.asteroids j).pos.y
        (s.asteroids j).vel.x (s.asteroids j).vel.y).asteroids j).pos.y
      ((s.spawnAsteroid env size (s.asteroids j).pos.x (s.asteroids j).pos.y
        (s.asteroids j).vel.x (s.asteroids j).vel.y).asteroids j).vel.x
      ((s.spawnAsteroid env size (s.asteroids j).pos.x (s.asteroids j).pos.y
        (s.asteroids j).vel.x (s.asteroids j).vel.y).asteroids j).vel.y).asteroids k
      = s.asteroids k ∨
    (((s.spawnAsteroid env size (s.asteroids j).pos.x (s.asteroids j).pos.y (s.asteroids j).vel.x
        (s.asteroids j).vel.y).spawnAsteroid env size
      ((s.spawnAsteroid env size (s.asteroids j).pos.x (s.asteroids j).pos.y
        (s.asteroids j).vel.x (s.asteroids j).vel.y).asteroids j).pos.x
      ((s.spawnAsteroid env size (s.asteroids j).pos.x (s.asteroids j).pos.y
        (s.asteroids j).vel.x (s.asteroids j).vel.y).asteroids j).pos.y
      ((s.spawnAsteroid env size (s.asteroids j).pos.x (s.asteroids j).pos.y
        (s.asteroids j).vel.x (s.asteroids j).vel.y).asteroids j).vel.x
      ((s.spawnAsteroid env size (s.asteroids j).pos.x (s.asteroids j).pos.y
        (s.asteroids j).vel.x (s.asteroids j).vel.y).asteroids j).vel.y).asteroids k).pos
      = (s.asteroids j).pos := by
  generalize hs1 : s.spawnAsteroid env size (s.asteroids j).pos.x (s.asteroids j).pos.y
    (s.asteroids j).vel.x (s.asteroids j).vel.y = s1
  have hfirst : ∀ k', s1.asteroids k' = s.asteroids k' ∨
      (s1.asteroids k').pos = (s.asteroids j).pos := by
    intro k'
    rw [← hs1]
    exact spawnAsteroid_pos env size _ _ _ _ s hx hy k'
  have hj : (s1.asteroids j).pos = (s.asteroids j).pos := by
    rcases hfirst j with h | h
    · rw [h]
    · exact h
  have hx1 : 0 ≤ (s1.asteroids j).pos.x := by rw [hj]; exact hx
  have hy1 : 0 ≤ (s1.asteroids j).pos.y := by rw [hj]; exact hy
  rcases spawnAsteroid_pos env size _ _ (s1.asteroids j).vel.x (s1.asteroids j).vel.y s1 hx1 hy1 k
    with h | h
  · rcases hfirst k with h' | h'
    · left; rw [h, h']
    · right; rw [h, h']
  · right
    rw [h]
    exact hj

theorem bulletHit_children_pos (env : Env) (clock : ℕ) (i : Fin MAX_BULLETS)
    (j : Fin MAX_ASTEROIDS) (s : AstroLib)
    (hx : 0 ≤ (s.asteroids j).pos.x) (hy : 0 ≤ (s.asteroids j).pos.y) (k : Fin MAX_ASTEROIDS) :
    (s.bulletHit env clock i j).asteroids k = (s.hitEffects clock i j).asteroids k ∨
    ((s.bulletHit env clock i j).asteroids k).pos = (s.asteroids j).pos := by
  have hp : ((s.hitEffects clock i j).asteroids j).pos = (s.asteroids j).pos := by
    rw [hitEffects_asteroids, Function.update_same]
  unfold bulletHit breakAsteroid
  split_ifs
  · rw [← hp]
    exact spawnAsteroid_pos_twice env _ j _ (by rw [hp]; exact hx) (by rw [hp]; exact hy) k
  · rw [← hp]
    exact spawnAsteroid_pos_twice env _ j _ (by rw [hp]; exact hx) (by rw [hp]; exact hy) k
  · left; rfl

end AstroLib

/-- C26: children and the parent's position in the code. When the destroyed asteroid has
  `pos.x ≥ 0` and `pos.y ≥ 0`, every slot that the hit changes after freeing the parent holds an
  object at the parent's position. `spawnAsteroid` reads `x < 0 || y < 0` as "no position
  specified", so a parent inside the wrap envelope with a negative coordinate gets children on
  a random screen edge: in `edgeRockState` the `LARGE` asteroid at `(−2, 30)` (envelope
  `−10 ≤ x ≤ 138`) is destroyed by bullet 0 and, every raw draw being `0`, both `MEDIUM`
  children are created at `(0, −6)`. -/
theorem children_position_failure :
    (∀ (env : Env) (clock : ℕ) (s : AstroLib) (i : Fin MAX_BULLETS) (j k : Fin MAX_ASTEROIDS),
      0 ≤ (s.asteroids j).pos.x → 0 ≤ (s.asteroids j).pos.y →
      (s.bulletHit env clock i j).asteroids k = (s.hitEffects clock i j).asteroids k ∨
      ((s.bulletHit env clock i j).asteroids k).pos = (s.asteroids j).pos) ∧
    placeView (edgeRockState.asteroids 0) = (true, ASTEROID_SIZE_LARGE, { x := -2, y := 30 }) ∧
    InEnvelope (edgeRockState.asteroids 0) ∧
    (edgeRockState.bullets 0).active = true ∧
    firstHit edgeRockState 0 = some 0 ∧
    placeView ((edgeRockState.handleCollisions demoEnv 0).asteroids 0) =
      (true, ASTEROID_SIZE_MEDIUM, { x := 0, y := -6 }) ∧
    placeView ((edgeRockState.handleCollisions demoEnv 0).asteroids 1) =
      (true, ASTEROID_SIZE_MEDIUM, { x := 0, y := -6 }) ∧
    (∀ k : Fin MAX_ASTEROIDS, k ≠ 0 → k ≠ 1 →
      ((edgeRockState.handleCollisions demoEnv 0).asteroids k).active = false) := by
  refine ⟨?_, ?_, ?_, ?_, ?_, ?_, ?_, ?_⟩
  · intro env clock s i j k hx hy
    exact AstroLib.bulletHit_children_pos env clock i j s hx hy k
  · with_unfolding_all rfl
  · unfold InEnvelope
    with_unfolding_all decide
  · rfl
  · with_unfolding_all decide
  · with_unfolding_all rfl
  · with_unfolding_all rfl
  · with_unfolding_all decide

namespace AstroLib

theorem spawnVelocity_fragment (env : Env) (vx vy : ℚ) (s : AstroLib)
    (hv : ¬ (vx = 0 ∧ vy = 0)) :
    ∃ sv av : ℚ, 4 / 5 ≤ sv ∧ sv ≤ 6 / 5 ∧ -(1 / 4) ≤ av ∧ av ≤ 1 / 4 ∧
      (s.spawnVelocity env vx vy).1 =
        { x := env.cos (env.atan2 vy vx + av) *
            max ASTEROID_SPEED_MIN (env.sqrt (vx * vx + vy * vy) * sv),
          y := env.sin (env.atan2 vy vx + av) *
            max ASTEROID_SPEED_MIN (env.sqrt (vx * vx + vy * vy) * sv) } := by
  have a1 := random_ge 80 120 (env.rand s.rngPos)
  have a2 := random_lt 80 120 (env.rand s.rngPos) (by decide)
  have b1 := random_ge (-25) 26 (env.rand (s.rngPos + 1))
  have b2 := random_lt (-25) 26 (env.rand (s.rngPos + 1)) (by decide)
  have a1' : ((80 : ℤ) : ℚ) ≤ ((random 80 120 (env.rand s.rngPos) : ℤ) : ℚ) := Int.cast_le.2 a1
  have a2' : ((random 80 120 (env.rand s.rngPos) : ℤ) : ℚ) ≤ ((120 : ℤ) : ℚ) :=
    Int.cast_le.2 (le_of_lt a2)
  have b1' : ((-25 : ℤ) : ℚ) ≤ ((random (-25) 26 (env.rand (s.rngPos + 1)) : ℤ) : ℚ) :=
    Int.cast_le.2 b1
  have b2' : ((random (-25) 26 (env.rand (s.rngPos + 1)) : ℤ) : ℚ) ≤ ((25 : ℤ) : ℚ) :=
    Int.cast_le.2 (by omega)
  refine ⟨((random 80 120 (env.rand s.rngPos) : ℤ) : ℚ) / 100,
    ((random (-25) 26 (env.rand (s.rngPos + 1)) : ℤ) : ℚ) / 100, ?_, ?_, ?_, ?_, ?_⟩
  · norm_num at a1' ⊢; linarith
  · norm_num at a2' ⊢; linarith
  · norm_num at b1' ⊢; linarith
  · norm_num at b2' ⊢; linarith
  · unfold spawnVelocity nextRandom
    rw [if_neg hv]
    dsimp only
    have hmax : ∀ q : ℚ, (if q < ASTEROID_SPEED_MIN then ASTEROID_SPEED_MIN else q) =
        max ASTEROID_SPEED_MIN q := by
      intro q
      split_ifs with hq
      · exact (max_eq_left (le_of_lt hq)).symm
      · exact (max_eq_right (not_lt.1 hq)).symm
    rw [hmax]

theorem spawnAsteroid_child_vel (env : Env) (size : ℤ) (x y vx vy : ℚ) (s : AstroLib)
    (k : Fin MAX_ASTEROIDS) (h : s.findInactiveAsteroidSlot = some k)
    (hx : 0 ≤ x) (hy : 0 ≤ y) :
    ((s.spawnAsteroid env size x y vx vy).asteroids k).vel = (s.spawnVelocity env vx vy).1 ∧
    ((s.spawnAsteroid env size x y vx vy).asteroids k).pos = { x := x, y := y } ∧
    ((s.spawnAsteroid env size x y vx vy).asteroids k).active = true ∧
    ∀ k', k' ≠ k → (s.spawnAsteroid env size x y vx vy).asteroids k' = s.asteroids k' := by
  rw [spawnAsteroid_child env size x y vx vy s k h, Function.update_same,
    spawnPosition_given env size x y s hx hy]
  exact ⟨rfl, rfl, rfl, fun k' hk => Function.update_noteq hk _ _⟩

theorem breakAsteroid_eq (env : Env) (j : Fin MAX_ASTEROIDS) (s : AstroLib) (size : ℤ)
    (h : ((s.asteroids j).size = ASTEROID_SIZE_LARGE ∧ size = ASTEROID_SIZE_MEDIUM) ∨
      ((s.asteroids j).size = ASTEROID_SIZE_MEDIUM ∧ size = ASTEROID_SIZE_SMALL)) :
    s.breakAsteroid env j =
      (s.spawnAsteroid env size (s.asteroids j).pos.x (s.asteroids j).pos.y
        (s.asteroids j).vel.x (s.asteroids j).vel.y).spawnAsteroid env size
        ((s.spawnAsteroid env size (s.asteroids j).pos.x (s.asteroids j).pos.y
          (s.asteroids j).vel.x (s.asteroids j).vel.y).asteroids j).pos.x
        ((s.spawnAsteroid env size (s.asteroids j).pos.x (s.asteroids j).pos.y
          (s.asteroids j).vel.x (s.asteroids j).vel.y).asteroids j).pos.y
        ((s.spawnAsteroid env size (s.asteroids j).pos.x (s.asteroids j).pos.y
          (s.asteroids j).vel.x (s.asteroids j).vel.y).asteroids j).vel.x
        ((s.spawnAsteroid env size (s.asteroids j).pos.x (s.asteroids j).pos.y
          (s.asteroids j).vel.x (s.asteroids j).vel.y).asteroids j).vel.y := by
  unfold breakAsteroid
  rcases h with ⟨h1, rfl⟩ | ⟨h1, rfl⟩
  · rw [if_pos h1]
  · rw [if_neg (by rw [h1]; decide), if_pos h1]

end AstroLib

/-- C27: children and the parent's speed in the code. A fragment created by `spawnAsteroid`
  from a non-zero velocity `v` has velocity `(cos(θ + a)·w, sin(θ + a)·w)` with
  `θ = atan2(v.y, v.x)`, `w = max(ASTEROID_SPEED_MIN, |v|·s)`, `0.8 ≤ s ≤ 1.2` and
  `|a| ≤ 0.25`. In the bullet pass both `spawnAsteroid` calls read their arguments from
  `asteroids[j]`: the first call, made with the parent's values, writes the first child into
  the lowest free slot; when that slot is `j` itself (no free slot below the parent) the
  second call reads the first child's velocity, otherwise the parent's. In `driftRockState`
  (parent in slot 0, velocity `(1, 0)`, speed factor `0.80` and angle deviation `0` drawn
  twice) the first child gets `(0.8, 0)` and the second `(0.64, 0)`: its speed is
  `0.8 × 0.8 × |v|`, below `0.8·|v|`. With the same parent in slot 1 and slot 0 free
  (`driftRockLaterState`) both children get `(0.8, 0)`. -/
theorem children_speed_failure :
    (∀ (env : Env) (vx vy : ℚ) (t : AstroLib), ¬ (vx = 0 ∧ vy = 0) →
      ∃ sv av : ℚ, 4 / 5 ≤ sv ∧ sv ≤ 6 / 5 ∧ -(1 / 4) ≤ av ∧ av ≤ 1 / 4 ∧
        (t.spawnVelocity env vx vy).1 =
          { x := env.cos (env.atan2 vy vx + av) *
              max ASTEROID_SPEED_MIN (env.sqrt (vx * vx + vy * vy) * sv),
            y := env.sin (env.atan2 vy vx + av) *
              max ASTEROID_SPEED_MIN (env.sqrt (vx * vx + vy * vy) * sv) }) ∧
    (∀ (env : Env) (size : ℤ) (j k : Fin MAX_ASTEROIDS) (t : AstroLib),
      t.findInactiveAsteroidSlot = some k →
      0 ≤ (t.asteroids j).pos.x → 0 ≤ (t.asteroids j).pos.y →
      ((t.spawnAsteroid env size (t.asteroids j).pos.x (t.asteroids j).pos.y
          (t.asteroids j).vel.x (t.asteroids j).vel.y).asteroids k).vel =
        (t.spawnVelocity env (t.asteroids j).vel.x (t.asteroids j).vel.y).1 ∧
      (k = j →
        ((t.spawnAsteroid env size (t.asteroids j).pos.x (t.asteroids j).pos.y
          (t.asteroids j).vel.x (t.asteroids j).vel.y).asteroids j).vel =
        (t.spawnVelocity env (t.asteroids j).vel.x (t.asteroids j).vel.y).1) ∧
      (k ≠ j →
        (t.spawnAsteroid env size (t.asteroids j).pos.x (t.asteroids j).pos.y
          (t.asteroids j).vel.x (t.asteroids j).vel.y).asteroids j = t.asteroids j)) ∧
    (∀ (env : Env) (j : Fin MAX_ASTEROIDS) (t : AstroLib) (size : ℤ),
      (((t.asteroids j).size = ASTEROID_SIZE_LARGE ∧ size = ASTEROID_SIZE_MEDIUM) ∨
        ((t.asteroids j).size = ASTEROID_SIZE_MEDIUM ∧ size = ASTEROID_SIZE_SMALL)) →
      t.breakAsteroid env j =
        (t.spawnAsteroid env size (t.asteroids j).pos.x (t.asteroids j).pos.y
          (t.asteroids j).vel.x (t.asteroids j).vel.y).spawnAsteroid env size
          ((t.spawnAsteroid env size (t.asteroids j).pos.x (t.asteroids j).pos.y
            (t.asteroids j).vel.x (t.asteroids j).vel.y).asteroids j).pos.x
          ((t.spawnAsteroid env size (t.asteroids j).pos.x (t.asteroids j).pos.y
            (t.asteroids j).vel.x (t.asteroids j).vel.y).asteroids j).pos.y
          ((t.spawnAsteroid env size (t.asteroids j).pos.x (t.asteroids j).pos.y
            (t.asteroids j).vel.x (t.asteroids j).vel.y).asteroids j).vel.x
          ((t.spawnAsteroid env size (t.asteroids j).pos.x (t.asteroids j).pos.y
            (t.asteroids j).vel.x (t.asteroids j).vel.y).asteroids j).vel.y) ∧
    rockView (driftRockState.asteroids 0) =
      (true, ASTEROID_SIZE_LARGE, { x := 64, y := 32 }, { x := 1, y := 0 }) ∧
    firstHit driftRockState 0 = some 0 ∧
    rockView ((driftRockState.handleCollisions driftEnv 0).asteroids 0) =
      (true, ASTEROID_SIZE_MEDIUM, { x := 64, y := 32 }, { x := 4 / 5, y := 0 }) ∧
    rockView ((driftRockState.handleCollisions driftEnv 0).asteroids 1) =
      (true, ASTEROID_SIZE_MEDIUM, { x := 64, y := 32 }, { x := 16 / 25, y := 0 }) ∧
    (∀ sv : ℚ, 4 / 5 ≤ sv → (16 / 25 : ℚ) < max ASTEROID_SPEED_MIN (1 * sv)) ∧
    rockView ((driftRockLaterState.handleCollisions driftEnv 0).asteroids 0) =
      (true, ASTEROID_SIZE_MEDIUM, { x := 64, y := 32 }, { x := 4 / 5, y := 0 }) ∧
    rockView ((driftRockLaterState.handleCollisions driftEnv 0).asteroids 1) =
      (true, ASTEROID_SIZE_MEDIUM, { x := 64, y := 32 }, { x := 4 / 5, y := 0 }) := by
  refine ⟨?_, ?_, ?_, ?_, ?_, ?_, ?_, ?_, ?_, ?_⟩
  · intro env vx vy t hv
    exact AstroLib.spawnVelocity_fragment env vx vy t hv
  · intro env size j k t hk hx hy
    obtain ⟨c1, -, -, c4⟩ := AstroLib.spawnAsteroid_child_vel env size _ _
      (t.asteroids j).vel.x (t.asteroids j).vel.y t k hk hx hy
    refine ⟨c1, ?_, ?_⟩
    · intro hkj
      subst hkj
      exact c1
    · intro hkj
      exact c4 j (Ne.symm hkj)
  · intro env j t size h
    exact AstroLib.breakAsteroid_eq env j t size h
  · with_unfolding_all rfl
  · with_unfolding_all decide
  · with_unfolding_all rfl
  · with_unfolding_all rfl
  · intro sv hsv
    refine lt_of_lt_of_le ?_ (le_max_right _ _)
    linarith
  · with_unfolding_all rfl
  · with_unfolding_all rfl

/-! ## The two `wrapAround` implementations -/

theorem asteroidsGame_wrapAround_eq (obj : GameObject) :
    AsteroidsGame.wrapAround obj = AstroLib.wrapAround obj := by
  obtain ⟨⟨x, y⟩, vel, angle, radius, active, lifetime, size⟩ := obj
  unfold AsteroidsGame.wrapAround AstroLib.wrapAround
  dsimp only
  have hw : ¬ ((SCREEN_WIDTH : ℚ) + radius > (SCREEN_WIDTH : ℚ) + radius) := lt_irrefl _
  have hh : ¬ ((SCREEN_HEIGHT : ℚ) + radius > (SCREEN_HEIGHT : ℚ) + radius) := lt_irrefl _
  by_cases hx1 : x < -radius <;> by_cases hx2 : x > (SCREEN_WIDTH : ℚ) + radius <;>
    by_cases hy1 : y < -radius <;> by_cases hy2 : y > (SCREEN_HEIGHT : ℚ) + radius <;>
    simp only [hx1, hx2, hy1, hy2, hw, hh, if_true, if_false]

theorem wrapAround_idempotent (obj : GameObject) :
    AstroLib.wrapAround (AstroLib.wrapAround obj) = AstroLib.wrapAround obj := by
  obtain ⟨⟨x, y⟩, vel, angle, radius, active, lifetime, size⟩ := obj
  unfold AstroLib.wrapAround
  dsimp only
  congr 2
  · split_ifs <;> first | rfl | (exfalso; linarith)
  · split_ifs <;> first | rfl | (exfalso; linarith)

/-- C34: the two wrap implementations agree. For every object (any position, any radius) the
  four independent `if`s of `AsteroidsGame::wrapAround` and the `if` / `else if` pairs of
  `AstroLib::wrapAround` produce the same object, and wrapping twice is the same as wrapping
  once (for every radius, so in particular for radius `≥ 0`, where the result also lies in the
  wrap envelope). -/
theorem wrap_implementations_agree (obj : GameObject) :
    AsteroidsGame.wrapAround obj = AstroLib.wrapAround obj ∧
    AstroLib.wrapAround (AstroLib.wrapAround obj) = AstroLib.wrapAround obj ∧
    AsteroidsGame.wrapAround (AsteroidsGame.wrapAround obj) = AsteroidsGame.wrapAround obj ∧
    (0 ≤ obj.radius → InEnvelope (AstroLib.wrapAround obj)) := by
  refine ⟨asteroidsGame_wrapAround_eq obj, wrapAround_idempotent obj, ?_,
    AstroLib.wrapAround_inEnvelope obj⟩
  rw [asteroidsGame_wrapAround_eq, asteroidsGame_wrapAround_eq]
  exact wrapAround_idempotent obj

/-! ## Hyperspace after a reset -/

theorem cooldown_after_reset (clock0 clock : ℕ) (h0 : clock0 ≤ clock)
    (hlt : clock - clock0 < U32 - HYPERSPACE_COOLDOWN) :
    usub (millis clock) (usub (millis clock0) HYPERSPACE_COOLDOWN) =
      clock - clock0 + HYPERSPACE_COOLDOWN := by
  simp only [usub, millis, U32, HYPERSPACE_COOLDOWN] at *
  omega

/-- C36: hyperspace is available right after any reset despite unsigned wrap-around.
  `resetGame` at clock `t0` returns on every fair random stream, and whenever it returns it has
  stored `lastHyperspaceTime = (millis t0 − HYPERSPACE_COOLDOWN) mod 2^32` (below `5000` the
  subtraction wraps to `millis t0 + 2^32 − 5000`); for every later clock `t` with
  `t − t0 < 2^32 − 5000` the cooldown test of `handleInput`,
  `(millis t − lastHyperspaceTime) mod 2^32 > HYPERSPACE_COOLDOWN`, holds iff `t > t0`. -/
theorem hyperspace_after_reset (env : Env) (t0 : ℕ) (s : AstroLib) :
    (FairAt env.rand screenCentre resetClearance2 →
      ∃ fuel r, s.resetGame env fuel t0 = some r) ∧
    (∀ fuel r, s.resetGame env fuel t0 = some r →
      (r.lastHyperspaceTime : ℤ) = ((millis t0 : ℤ) - (HYPERSPACE_COOLDOWN : ℤ)) % (U32 : ℤ) ∧
      (millis t0 < HYPERSPACE_COOLDOWN →
        r.lastHyperspaceTime = millis t0 + U32 - HYPERSPACE_COOLDOWN) ∧
      (HYPERSPACE_COOLDOWN ≤ millis t0 →
        r.lastHyperspaceTime = millis t0 - HYPERSPACE_COOLDOWN) ∧
      ∀ t, t0 ≤ t → t - t0 < U32 - HYPERSPACE_COOLDOWN →
        (usub (millis t) r.lastHyperspaceTime > HYPERSPACE_COOLDOWN ↔ t0 < t)) ∧
    (∃ fuel r, powerOnState.resetGame demoEnv fuel 1000 = some r ∧
      r.lastHyperspaceTime = 4294963296 ∧
      ¬ usub (millis 1000) r.lastHyperspaceTime > HYPERSPACE_COOLDOWN ∧
      usub (millis 1001) r.lastHyperspaceTime > HYPERSPACE_COOLDOWN) := by
  refine ⟨AstroLib.resetGame_of_fair env t0 s, ?_, ?_⟩
  · intro fuel r hr
    have hlast := (AstroLib.resetGame_spec env fuel t0 s r hr).2.2.2.2.2.2.2.2.2.2.2.2.2.2.2
    refine ⟨?_, ?_, ?_, ?_⟩
    · rw [hlast]
      simp only [usub, millis, U32, HYPERSPACE_COOLDOWN]
      omega
    · intro hsmall
      rw [hlast]
      simp only [usub, millis, U32, HYPERSPACE_COOLDOWN] at *
      omega
    · intro hbig
      rw [hlast]
      simp only [usub, millis, U32, HYPERSPACE_COOLDOWN] at *
      omega
    · intro t h0 hlt
      rw [hlast, cooldown_after_reset t0 t h0 hlt]
      omega
  · obtain ⟨fuel, r, hr⟩ := AstroLib.resetGame_of_fair demoEnv 1000 powerOnState demoEnv_fair_reset
    have hlast :=
      (AstroLib.resetGame_spec demoEnv fuel 1000 powerOnState r hr).2.2.2.2.2.2.2.2.2.2.2.2.2.2.2
    refine ⟨fuel, r, hr, ?_, ?_, ?_⟩
    · rw [hlast]; decide
    · rw [hlast]; decide
    · rw [hlast]; decide

/-! ## Ramming -/

namespace AstroLib

theorem shipPass_asteroids (clock : ℕ) (s : AstroLib) (j : Fin MAX_ASTEROIDS) :
    (s.shipPass clock).asteroids j = s.asteroids j ∨
    (s.shipPass clock).asteroids j = { s.asteroids j with active := false } := by
  rw [shipPass_eq]
  split_ifs
  · cases h : shipFirstHit s with
    | none => exact Or.inl rfl
    | some k =>
      dsimp only
      rw [(shipHit_lives clock k s).2]
      by_cases hjk : j = k
      · subst hjk
        right
        simp
      · left
        simp [Function.update_noteq hjk]
  · exact Or.inl rfl

end AstroLib

/-- C37: ramming gives nothing. The ship–asteroid pass of `handleCollisions` never changes
  the score and never activates an asteroid slot: it leaves every slot as it was or only
  clears its `active` flag. So for every state with no active bullet, after
  `handleCollisions` the score is unchanged and the set of active asteroid slots is a subset
  of the one before. In `rammedLargeState` the ship runs into a `LARGE` asteroid: a life is
  lost, the score stays `70` and no slot is active afterwards (no children). -/
theorem ramming_gives_nothing (env : Env) (clock : ℕ) (s : AstroLib) :
    (s.shipPass clock).score = s.score ∧
    (∀ j, (s.shipPass clock).asteroids j = s.asteroids j ∨
      (s.shipPass clock).asteroids j = { s.asteroids j with active := false }) ∧
    ((∀ i, (s.bullets i).active = false) →
      (s.handleCollisions env clock).score = s.score ∧
      (∀ j, ((s.handleCollisions env clock).asteroids j).active = true →
        (s.asteroids j).active = true) ∧
      activeCount (s.handleCollisions env clock).asteroids ≤ activeCount s.asteroids) ∧
    ((∀ i, (rammedLargeState.bullets i).active = false) ∧
      shipFirstHit rammedLargeState = some 0 ∧
      (rammedLargeState.asteroids 0).size = ASTEROID_SIZE_LARGE ∧
      (rammedLargeState.handleCollisions demoEnv 0).score = 70 ∧
      (rammedLargeState.handleCollisions demoEnv 0).lives = 2 ∧
      ∀ j, ((rammedLargeState.handleCollisions demoEnv 0).asteroids j).active = false) := by
  refine ⟨AstroLib.shipPass_score clock s, AstroLib.shipPass_asteroids clock s, ?_, ?_⟩
  · intro hb
    have hsub : ∀ j, ((s.handleCollisions env clock).asteroids j).active = true →
        (s.asteroids j).active = true := by
      intro j hj
      unfold AstroLib.handleCollisions at hj
      rw [AstroLib.bulletPass_no_bullet env clock s hb] at hj
      rcases AstroLib.shipPass_asteroids clock s j with h | h
      · rw [h] at hj; exact hj
      · rw [h] at hj; exact absurd hj (by simp)
    refine ⟨?_, hsub, ?_⟩
    · unfold AstroLib.handleCollisions
      rw [AstroLib.shipPass_score, AstroLib.bulletPass_no_bullet env clock s hb]
    · unfold activeCount
      apply Finset.card_le_card
      intro j hj
      rw [Finset.mem_filter] at hj ⊢
      exact ⟨hj.1, hsub j hj.2⟩
  · refine ⟨?_, ?_, ?_, ?_, ?_, ?_⟩ <;> with_unfolding_all decide

/-! ## Thrust pitch -/

theorem clamp_unit (i : ℚ) : 0 ≤ max 0 (min 1 i) ∧ max 0 (min 1 i) ≤ 1 :=
  ⟨le_max_left _ _, max_le (by norm_num) (min_le_left _ _)⟩

theorem thrust_span : ((((SND_THRUST_FREQ_HIGH : ℤ) - (SND_THRUST_FREQ_LOW : ℤ) : ℤ) : ℚ)) = 150 := by
  norm_num [SND_THRUST_FREQ_HIGH, SND_THRUST_FREQ_LOW]

theorem f32_thrust_span : f32 150 = 150 := by with_unfolding_all rfl

theorem f32_zero : f32 0 = 0 := by with_unfolding_all rfl

theorem truncQ_of_nonneg (q : ℚ) (h : 0 ≤ q) : truncQ q = ⌊q⌋ := by
  unfold truncQ
  rw [if_pos h]

theorem thrust_product_range (i : ℚ) :
    0 ≤ f32 ((((SND_THRUST_FREQ_HIGH : ℤ) - (SND_THRUST_FREQ_LOW : ℤ) : ℤ) : ℚ) *
      max 0 (min 1 i)) ∧
    f32 ((((SND_THRUST_FREQ_HIGH : ℤ) - (SND_THRUST_FREQ_LOW : ℤ) : ℤ) : ℚ) *
      max 0 (min 1 i)) ≤ 150 := by
  obtain ⟨h0, h1⟩ := clamp_unit i
  rw [thrust_span]
  have hq : (0 : ℚ) ≤ 150 * max 0 (min 1 i) := by positivity
  have hq' : (150 : ℚ) * max 0 (min 1 i) ≤ 150 := by nlinarith
  refine ⟨f32_nonneg _ hq, ?_⟩
  have := f32_mono _ _ hq'
  rwa [f32_thrust_span] at this

theorem thrust_offset_range (i : ℚ) :
    0 ≤ truncQ (f32 ((((SND_THRUST_FREQ_HIGH : ℤ) - (SND_THRUST_FREQ_LOW : ℤ) : ℤ) : ℚ) *
      max 0 (min 1 i))) ∧
    truncQ (f32 ((((SND_THRUST_FREQ_HIGH : ℤ) - (SND_THRUST_FREQ_LOW : ℤ) : ℤ) : ℚ) *
      max 0 (min 1 i))) ≤ 150 := by
  obtain ⟨h0, h150⟩ := thrust_product_range i
  rw [truncQ_of_nonneg _ h0]
  refine ⟨Int.floor_nonneg.2 h0, ?_⟩
  have h150' : f32 ((((SND_THRUST_FREQ_HIGH : ℤ) - (SND_THRUST_FREQ_LOW : ℤ) : ℤ) : ℚ) *
      max 0 (min 1 i)) ≤ ((150 : ℤ) : ℚ) := by
    push_cast
    exact h150
  exact (Int.floor_le_floor h150').trans (le_of_eq (Int.floor_intCast 150))

theorem thrust_offset_mono (i i' : ℚ) (h : i ≤ i') :
    truncQ (f32 ((((SND_THRUST_FREQ_HIGH : ℤ) - (SND_THRUST_FREQ_LOW : ℤ) : ℤ) : ℚ) *
      max 0 (min 1 i))) ≤
    truncQ (f32 ((((SND_THRUST_FREQ_HIGH : ℤ) - (SND_THRUST_FREQ_LOW : ℤ) : ℤ) : ℚ) *
      max 0 (min 1 i'))) := by
  rw [truncQ_of_nonneg _ (thrust_product_range i).1, truncQ_of_nonneg _ (thrust_product_range i').1]
  apply Int.floor_le_floor
  apply f32_mono
  rw [thrust_span]
  have : max 0 (min 1 i) ≤ max 0 (min 1 i') := max_le_max le_rfl (min_le_min le_rfl h)
  linarith

theorem startThrustSound_start (a : AudioEngine) (clock : ℕ) (i : ℚ)
    (hinit : a.initialized = true) (hoff : a.thrustSoundActive = false)
    (hfree : a.soundEndTime = 0 ∨ a.soundEndTime ≤ millis clock) :
    ∃ f : ℕ, (f : ℤ) = (SND_THRUST_FREQ_LOW : ℤ) +
        truncQ (f32 ((((SND_THRUST_FREQ_HIGH : ℤ) - (SND_THRUST_FREQ_LOW : ℤ) : ℤ) : ℚ) *
          max 0 (min 1 i))) ∧
      a.startThrustSound clock i =
        { a with thrustSoundActive := true, buzzer := a.buzzer ++ [BuzzerCall.tone f none],
                 soundEndTime := 0, currentContinuousFreq := f } := by
  obtain ⟨h0, h150⟩ := thrust_offset_range i
  refine ⟨(SND_THRUST_FREQ_LOW +
      (truncQ (f32 (((SND_THRUST_FREQ_HIGH : ℤ) - (SND_THRUST_FREQ_LOW : ℤ) : ℤ) *
        max 0 (min 1 i)))).toNat % 65536) % 65536, ?_, ?_⟩
  · generalize truncQ (f32 (((SND_THRUST_FREQ_HIGH : ℤ) - (SND_THRUST_FREQ_LOW : ℤ) : ℤ) *
        max 0 (min 1 i))) = z at h0 h150 ⊢
    simp only [SND_THRUST_FREQ_LOW, Nat.cast_ofNat]
    omega
  · unfold AudioEngine.startThrustSound
    rw [if_neg (by simp [hinit, hoff])]
    dsimp only
    rw [if_pos hfree]
    unfold AudioEngine.playTone
    dsimp only
    rw [if_neg (by simp [hinit]), if_pos, if_neg (lt_irrefl 0)]
    generalize truncQ (f32 (((SND_THRUST_FREQ_HIGH : ℤ) - (SND_THRUST_FREQ_LOW : ℤ) : ℤ) *
        max 0 (min 1 i))) = z at h0 h150 ⊢
    simp only [SND_THRUST_FREQ_LOW]
    omega

/-- C33 as stated fails with the exact product. At intensity `0.02f = 5368709 / 2^28`, a
  binary32 number, on a freshly initialized engine, the exact product `150 · i` is just below
  `3` and truncates to `2`, so the stated formula gives `102`; `startThrustSound` rounds the
  product to binary32, which is `3`, and the continuous frequency is `103`. Likewise `0.04f`
  gives `106` against `105` and `0.12f` gives `118` against `117`. -/
theorem thrust_pitch_counterexample :
    (AudioEngine.new.begin 25).initialized = true ∧
    (AudioEngine.new.begin 25).thrustSoundActive = false ∧
    (AudioEngine.new.begin 25).soundEndTime = 0 ∧
    f32 (5368709 / 268435456) = 5368709 / 268435456 ∧
    f32 (2 / 100) = 5368709 / 268435456 ∧
    (150 : ℚ) * (5368709 / 268435456) < 3 ∧
    (SND_THRUST_FREQ_LOW : ℤ) +
      truncQ ((((SND_THRUST_FREQ_HIGH : ℤ) - (SND_THRUST_FREQ_LOW : ℤ) : ℤ) : ℚ) *
        max 0 (min 1 (5368709 / 268435456))) = 102 ∧
    f32 ((((SND_THRUST_FREQ_HIGH : ℤ) - (SND_THRUST_FREQ_LOW : ℤ) : ℤ) : ℚ) *
      max 0 (min 1 (5368709 / 268435456))) = 3 ∧
    ((AudioEngine.new.begin 25).startThrustSound 0
      (5368709 / 268435456)).currentContinuousFreq = 103 ∧
    ((AudioEngine.new.begin 25).startThrustSound 0 (5368709 / 268435456)).buzzer =
      [BuzzerCall.tone 103 none] ∧
    (f32 (4 / 100) = 5368709 / 134217728 ∧
      (SND_THRUST_FREQ_LOW : ℤ) +
        truncQ ((((SND_THRUST_FREQ_HIGH : ℤ) - (SND_THRUST_FREQ_LOW : ℤ) : ℤ) : ℚ) *
          max 0 (min 1 (5368709 / 134217728))) = 105 ∧
      ((AudioEngine.new.begin 25).startThrustSound 0
        (5368709 / 134217728)).currentContinuousFreq = 106) ∧
    (f32 (12 / 100) = 16106127 / 134217728 ∧
      (SND_THRUST_FREQ_LOW : ℤ) +
        truncQ ((((SND_THRUST_FREQ_HIGH : ℤ) - (SND_THRUST_FREQ_LOW : ℤ) : ℤ) : ℚ) *
          max 0 (min 1 (16106127 / 134217728))) = 117 ∧
      ((AudioEngine.new.begin 25).startThrustSound 0
        (16106127 / 134217728)).currentContinuousFreq = 118) := by
  refine ⟨rfl, rfl, rfl, ?_, ?_, by norm_num, ?_, ?_, ?_, ?_, ⟨?_, ?_, ?_⟩, ⟨?_, ?_, ?_⟩⟩ <;>
    with_unfolding_all rfl

/-- C33, amended: thrust pitch. When `startThrustSound(i)` starts a tone (engine initialized,
  intent not yet active, no timed tone in flight: `soundEndTime` is `0` or not after now), it
  sends one continuous `tone` and the continuous frequency is
  `SND_THRUST_FREQ_LOW + trunc(fl((SND_THRUST_FREQ_HIGH − SND_THRUST_FREQ_LOW) · clamp(i, 0, 1)))`,
  where `fl` rounds the product to binary32 before the truncation; it is `100` for `i ≤ 0`,
  `250` for `i ≥ 1`, non-decreasing in `i` and always within `[100, 250]`. -/
theorem thrust_pitch (a : AudioEngine) (clock : ℕ) (i : ℚ)
    (hinit : a.initialized = true) (hoff : a.thrustSoundActive = false)
    (hfree : a.soundEndTime = 0 ∨ a.soundEndTime ≤ millis clock) :
    ((a.startThrustSound clock i).currentContinuousFreq : ℤ) =
      (SND_THRUST_FREQ_LOW : ℤ) +
        truncQ (f32 ((((SND_THRUST_FREQ_HIGH : ℤ) - (SND_THRUST_FREQ_LOW : ℤ) : ℤ) : ℚ) *
          max 0 (min 1 i))) ∧
    (a.startThrustSound clock i).buzzer =
      a.buzzer ++ [BuzzerCall.tone (a.startThrustSound clock i).currentContinuousFreq none] ∧
    (a.startThrustSound clock i).soundEndTime = 0 ∧
    (a.startThrustSound clock i).thrustSoundActive = true ∧
    (i ≤ 0 → (a.startThrustSound clock i).currentContinuousFreq = 100) ∧
    (1 ≤ i → (a.startThrustSound clock i).currentContinuousFreq = 250) ∧
    (∀ i', i ≤ i' → (a.startThrustSound clock i).currentContinuousFreq ≤
      (a.startThrustSound clock i').currentContinuousFreq) ∧
    SND_THRUST_FREQ_LOW ≤ (a.startThrustSound clock i).currentContinuousFreq ∧
    (a.startThrustSound clock i).currentContinuousFreq ≤ SND_THRUST_FREQ_HIGH := by
  obtain ⟨f, hf, heq⟩ := startThrustSound_start a clock i hinit hoff hfree
  obtain ⟨h0, h150⟩ := thrust_offset_range i
  have hfreq : (a.startThrustSound clock i).currentContinuousFreq = f := by rw [heq]
  rw [hfreq]
  refine ⟨hf, by rw [heq], by rw [heq], by rw [heq], ?_, ?_, ?_, ?_, ?_⟩
  · intro hi
    have hc : max 0 (min 1 i) = 0 := max_eq_left ((min_le_right _ _).trans hi)
    rw [hc, mul_zero, f32_zero] at hf
    have ht : truncQ 0 = 0 := by simp [truncQ]
    rw [ht] at hf
    simp only [SND_THRUST_FREQ_LOW, Nat.cast_ofNat] at hf
    omega
  · intro hi
    have hc : max 0 (min 1 i) = 1 := by
      rw [min_eq_left hi]
      norm_num
    rw [hc, mul_one, thrust_span, f32_thrust_span] at hf
    have ht : truncQ (150 : ℚ) = 150 := by
      rw [truncQ_of_nonneg _ (by norm_num)]
      exact Int.floor_intCast 150
    rw [ht] at hf
    simp only [SND_THRUST_FREQ_LOW, Nat.cast_ofNat] at hf
    omega
  · intro i' hle
    obtain ⟨f', hf', heq'⟩ := startThrustSound_start a clock i' hinit hoff hfree
    have hfreq' : (a.startThrustSound clock i').currentContinuousFreq = f' := by rw [heq']
    rw [hfreq']
    have := thrust_offset_mono i i' hle
    omega
  · generalize truncQ (f32 ((((SND_THRUST_FREQ_HIGH : ℤ) - (SND_THRUST_FREQ_LOW : ℤ) : ℤ) : ℚ) *
        max 0 (min 1 i))) = z at hf h0 h150
    have h100 : ((SND_THRUST_FREQ_LOW : ℕ) : ℤ) ≤ (f : ℤ) := by
      rw [hf]
      omega
    exact_mod_cast h100
  · generalize truncQ (f32 ((((SND_THRUST_FREQ_HIGH : ℤ) - (SND_THRUST_FREQ_LOW : ℤ) : ℤ) : ℚ) *
        max 0 (min 1 i))) = z at hf h0 h150
    have h250 : (f : ℤ) ≤ ((SND_THRUST_FREQ_HIGH : ℕ) : ℤ) := by
      rw [hf]
      simp only [SND_THRUST_FREQ_LOW, SND_THRUST_FREQ_HIGH, Nat.cast_ofNat]
      omega
    exact_mod_cast h250

theorem thrust_pitch_witness :
    (AudioEngine.new.begin 25).initialized = true ∧
    (AudioEngine.new.begin 25).thrustSoundActive = false ∧
    ((AudioEngine.new.begin 25).startThrustSound 0 (1 / 2)).currentContinuousFreq = 175 ∧
    ((AudioEngine.new.begin 25).startThrustSound 0 (1 / 2)).buzzer =
      [BuzzerCall.tone 175 none] ∧
    ((AudioEngine.new.begin 25).startThrustSound 0 (199 / 300)).currentContinuousFreq = 199 ∧
    SND_THRUST_FREQ_LOW ≤
      ((AudioEngine.new.begin 25).startThrustSound 0 (1 / 2)).currentContinuousFreq :=
  ⟨rfl, rfl, by with_unfolding_all decide, by with_unfolding_all decide,
    by with_unfolding_all decide,
    (thrust_pitch (AudioEngine.new.begin 25) 0 (1 / 2) rfl rfl (Or.inl rfl)).2.2.2.2.2.2.2.1⟩

/-! ## Audio channel state -/

theorem stopTone_inv (a : AudioEngine) (h : ChannelInv a) : ChannelInv a.stopTone := by
  unfold AudioEngine.stopTone
  split_ifs
  · exact h
  · exact ⟨Or.inl rfl, Or.inl rfl⟩

theorem playTone_inv (a : AudioEngine) (t f d : ℕ) (h : ChannelInv a)
    (hf : 0 < d ∨ f = 0 ∨ (SND_THRUST_FREQ_LOW ≤ f ∧ f ≤ SND_THRUST_FREQ_HIGH)) :
    ChannelInv (a.playTone t f d) := by
  unfold AudioEngine.playTone
  split_ifs with h1 h2 h3
  · exact h
  · exact ⟨Or.inr rfl, Or.inl rfl⟩
  · refine ⟨Or.inl rfl, Or.inr ?_⟩
    rcases hf with hd | hz | hr
    · exact absurd hd h3
    · exact absurd hz (Nat.pos_iff_ne_zero.1 h2)
    · exact hr
  · exact stopTone_inv a h

theorem startThrustSound_inv (a : AudioEngine) (t : ℕ) (i : ℚ) (h : ChannelInv a) :
    ChannelInv (a.startThrustSound t i) := by
  unfold AudioEngine.startThrustSound
  dsimp only
  obtain ⟨h0, h150⟩ := thrust_offset_range i
  split_ifs
  · exact h
  · refine playTone_inv _ t _ 0 h (Or.inr (Or.inr ?_))
    generalize truncQ (f32 (((SND_THRUST_FREQ_HIGH : ℤ) - (SND_THRUST_FREQ_LOW : ℤ) : ℤ) *
        max 0 (min 1 i))) = z at h0 h150 ⊢
    simp only [SND_THRUST_FREQ_LOW, SND_THRUST_FREQ_HIGH]
    omega
  · exact h

theorem call_inv (a : AudioEngine) (c : AudioCall) (h : ChannelInv a) :
    ChannelInv (a.call c) := by
  cases c with
  | begin pin =>
    have h1 : ChannelInv ({ a with buzzerPin := pin } : AudioEngine) := h
    exact stopTone_inv _ h1
  | update clock =>
    show ChannelInv (a.update clock)
    unfold AudioEngine.update
    dsimp only
    split_ifs
    · exact h
    · exact startThrustSound_inv _ clock 1 ⟨Or.inl rfl, Or.inl rfl⟩
    · exact ⟨Or.inl rfl, Or.inl rfl⟩
    · exact startThrustSound_inv _ clock 1 h
    · exact h
  | playShootSound clock =>
    show ChannelInv (a.playShootSound clock)
    unfold AudioEngine.playShootSound
    dsimp only
    split_ifs
    · exact h
    · exact playTone_inv _ clock _ _ (stopTone_inv a h) (Or.inl (by decide))
    · exact playTone_inv _ clock _ _ h (Or.inl (by decide))
  | playExplosionSound clock =>
    show ChannelInv (a.playExplosionSound clock)
    have h1 : ChannelInv ({ a with thrustSoundActive := false } : AudioEngine) := h
    unfold AudioEngine.playExplosionSound
    dsimp only
    split_ifs
    · exact h
    · exact playTone_inv _ clock _ _ (stopTone_inv _ h1) (Or.inl (by decide))
    · exact playTone_inv _ clock _ _ h1 (Or.inl (by decide))
  | playHyperspaceSound clock =>
    show ChannelInv (a.playHyperspaceSound clock)
    have h1 : ChannelInv ({ a with thrustSoundActive := false } : AudioEngine) := h
    unfold AudioEngine.playHyperspaceSound
    dsimp only
    split_ifs
    · exact h
    · exact playTone_inv _ clock _ _ (stopTone_inv _ h1) (Or.inl (by decide))
    · exact playTone_inv _ clock _ _ h1 (Or.inl (by decide))
  | startThrustSound clock intensity => exact startThrustSound_inv a clock intensity h
  | stopThrustSound =>
    show ChannelInv a.stopThrustSound
    have h1 : ChannelInv ({ a with thrustSoundActive := false } : AudioEngine) := h
    unfold AudioEngine.stopThrustSound
    dsimp only
    split_ifs
    · exact h
    · exact stopTone_inv _ h1
    · exact h1
  | stopAllSounds =>
    have h1 : ChannelInv ({ a with thrustSoundActive := false } : AudioEngine) := h
    exact stopTone_inv _ h1

theorem run_inv (calls : List AudioCall) :
    ∀ a : AudioEngine, ChannelInv a → ChannelInv (a.run calls) := by
  induction calls with
  | nil => intro a h; exact h
  | cons c cs ih =>
    intro a h
    exact ih (a.call c) (call_inv a c h)

theorem reachable_inv (a : AudioEngine) (h : AudioReachable a) : ChannelInv a := by
  obtain ⟨calls, rfl⟩ := h
  exact run_inv calls AudioEngine.new ⟨Or.inl rfl, Or.inl rfl⟩

/-- C35: audio channel state invariant. In every state reached from a constructed
  `AudioEngine` by any sequence of calls of its public member functions (`begin`, `update`,
  the three cues, `startThrustSound`, `stopThrustSound`, `stopAllSounds`), at any clock
  readings and so in particular at non-decreasing ones, `soundEndTime` and
  `currentContinuousFreq` are never both non-zero, and `currentContinuousFreq` is `0` or
  within `[SND_THRUST_FREQ_LOW, SND_THRUST_FREQ_HIGH]`. The three channel states occur: timed
  after a cue, continuous after `startThrustSound`, idle after the cue has run out. -/
theorem audio_channel_invariant (calls : List AudioCall) :
    ¬ ((AudioEngine.new.run calls).soundEndTime ≠ 0 ∧
      (AudioEngine.new.run calls).currentContinuousFreq ≠ 0) ∧
    ((AudioEngine.new.run calls).currentContinuousFreq = 0 ∨
      (SND_THRUST_FREQ_LOW ≤ (AudioEngine.new.run calls).currentContinuousFreq ∧
        (AudioEngine.new.run calls).currentContinuousFreq ≤ SND_THRUST_FREQ_HIGH)) ∧
    audioView (AudioEngine.new.run [AudioCall.begin 25, AudioCall.playShootSound 1000]) =
      (true, false, 0, 1055) ∧
    audioView (AudioEngine.new.run [AudioCall.begin 25, AudioCall.startThrustSound 0 (1 / 2)]) =
      (true, true, 175, 0) ∧
    audioView (AudioEngine.new.run [AudioCall.begin 25, AudioCall.playShootSound 1000,
      AudioCall.update 1055]) = (true, false, 0, 0) := by
  obtain ⟨h1, h2⟩ := reachable_inv (AudioEngine.new.run calls) ⟨calls, rfl⟩
  refine ⟨?_, h2, ?_, ?_, ?_⟩
  · rintro ⟨he, hf⟩
    rcases h1 with h | h
    · exact he h
    · exact hf h
  · with_unfolding_all rfl
  · with_unfolding_all rfl
  · with_unfolding_all rfl

/-! ## Thrust during a timed tone -/

theorem thrustFlag_eta (a : AudioEngine) :
    { a with thrustSoundActive := a.thrustSoundActive } = a := by
  cases a
  rfl

/-- C32: thrust never interrupts a timed tone. For an initialized `AudioEngine` with a timed
  tone in flight (`soundEndTime ≠ 0` and now `< soundEndTime`), `startThrustSound(i)` for
  every intensity `i` changes only the thrust-intent flag (it is set): `soundEndTime` and
  `currentContinuousFreq` are unchanged and nothing is sent to the buzzer. Likewise, in every
  such state that the public member functions can produce, `stopThrustSound` only clears the
  flag: `soundEndTime` is unchanged and nothing is sent to the buzzer. -/
theorem thrust_keeps_timed_tone (a : AudioEngine) (clock : ℕ) (i : ℚ)
    (hinit : a.initialized = true) (hend : a.soundEndTime ≠ 0)
    (hnow : millis clock < a.soundEndTime) :
    a.startThrustSound clock i = { a with thrustSoundActive := true } ∧
    (a.startThrustSound clock i).soundEndTime = a.soundEndTime ∧
    (a.startThrustSound clock i).currentContinuousFreq = a.currentContinuousFreq ∧
    (a.startThrustSound clock i).buzzer = a.buzzer ∧
    (AudioReachable a →
      a.stopThrustSound = { a with thrustSoundActive := false } ∧
      a.stopThrustSound.soundEndTime = a.soundEndTime ∧
      a.stopThrustSound.currentContinuousFreq = a.currentContinuousFreq ∧
      a.stopThrustSound.buzzer = a.buzzer) := by
  have hstart : a.startThrustSound clock i = { a with thrustSoundActive := true } := by
    unfold AudioEngine.startThrustSound
    dsimp only
    cases hact : a.thrustSoundActive with
    | true =>
      rw [if_pos (by simp)]
      conv_lhs => rw [← thrustFlag_eta a, hact]
    | false =>
      rw [if_neg (by simp [hinit]), if_neg]
      intro h
      rcases h with h | h
      · exact hend h
      · exact absurd hnow (not_lt.2 h)
  refine ⟨hstart, by rw [hstart], by rw [hstart], by rw [hstart], ?_⟩
  intro hreach
  have hfreq : a.currentContinuousFreq = 0 := by
    rcases (reachable_inv a hreach).1 with h | h
    · exact absurd h hend
    · exact h
  have hstop : a.stopThrustSound = { a with thrustSoundActive := false } := by
    unfold AudioEngine.stopThrustSound
    dsimp only
    cases hact : a.thrustSoundActive with
    | false =>
      rw [if_pos (by simp)]
      conv_lhs => rw [← thrustFlag_eta a, hact]
    | true =>
      rw [if_neg (by simp [hinit]), if_neg]
      unfold AudioEngine.inThrustRange
      dsimp only
      rw [hfreq]
      decide
  exact ⟨hstop, by rw [hstop], by rw [hstop], by rw [hstop]⟩

theorem thrust_keeps_timed_tone_witness :
    (AudioEngine.new.run [AudioCall.begin 25, AudioCall.playShootSound 1000]).initialized = true ∧
    (AudioEngine.new.run [AudioCall.begin 25, AudioCall.playShootSound 1000]).soundEndTime
      = 1055 ∧
    audioView ((AudioEngine.new.run [AudioCall.begin 25,
      AudioCall.playShootSound 1000]).startThrustSound 1010 (1 / 2)) = (true, true, 0, 1055) ∧
    ((AudioEngine.new.run [AudioCall.begin 25,
        AudioCall.playShootSound 1000]).startThrustSound 1010 (1 / 2)).buzzer =
      (AudioEngine.new.run [AudioCall.begin 25, AudioCall.playShootSound 1000]).buzzer ∧
    audioView (AudioEngine.new.run [AudioCall.begin 25, AudioCall.startThrustSound 0 1,
      AudioCall.playShootSound 1000]) = (true, true, 0, 1055) ∧
    (AudioEngine.new.run [AudioCall.begin 25, AudioCall.startThrustSound 0 1,
      AudioCall.playShootSound 1000]).stopThrustSound.soundEndTime = 1055 ∧
    audioView (AudioEngine.new.run [AudioCall.begin 25, AudioCall.startThrustSound 0 1,
      AudioCall.playShootSound 1000]).stopThrustSound = (true, false, 0, 1055) :=
  ⟨by with_unfolding_all rfl, by with_unfolding_all rfl, by with_unfolding_all rfl,
    (thrust_keeps_timed_tone
      (AudioEngine.new.run [AudioCall.begin 25, AudioCall.playShootSound 1000]) 1010 (1 / 2)
      (by with_unfolding_all rfl) (by with_unfolding_all decide)
      (by with_unfolding_all decide)).2.2.2.1,
    by with_unfolding_all rfl,
    ((thrust_keeps_timed_tone
      (AudioEngine.new.run [AudioCall.begin 25, AudioCall.startThrustSound 0 1,
        AudioCall.playShootSound 1000]) 1010 (1 / 2)
      (by with_unfolding_all rfl) (by with_unfolding_all decide)
      (by with_unfolding_all decide)).2.2.2.2 ⟨_, rfl⟩).2.1.trans (by with_unfolding_all rfl),
    by with_unfolding_all rfl⟩

/-! ## One asteroid per bullet -/

theorem activeCount_eq_filter {n : ℕ} (a : Fin n → GameObject) :
    activeCount a = ((List.finRange n).filter (fun i => (a i).active)).length := by
  unfold activeCount
  rw [← List.toFinset_card_of_nodup ((List.nodup_finRange n).filter _)]
  congr 1
  ext i
  simp

theorem award_le (size : ℤ) : AstroLib.award size ≤ 100 := by
  unfold AstroLib.award
  split_ifs <;> norm_num

theorem sum_award_le (l : List ℤ) : (l.map AstroLib.award).sum ≤ 100 * (l.length : ℤ) := by
  induction l with
  | nil => simp
  | cons a l ih =>
    rw [List.map_cons, List.sum_cons, List.length_cons]
    have := award_le a
    push_cast
    omega

theorem filter_cons_length {α : Type} (p : α → Bool) (a : α) (l : List α) :
    ((a :: l).filter p).length = (if p a = true then 1 else 0) + (l.filter p).length := by
  rw [List.filter_cons]
  split_ifs <;> simp [Nat.add_comm]

namespace AstroLib

theorem destroyedSizes_count (env : Env) (clock : ℕ) :
    ∀ (is : List (Fin MAX_BULLETS)) (s : AstroLib), is.Nodup →
      (destroyedSizes env clock is s).length +
          (is.filter (fun i => ((is.foldl (bulletStep env clock) s).bullets i).active)).length
        = (is.filter (fun i => (s.bullets i).active)).length := by
  intro is
  induction is with
  | nil => intro s _; rfl
  | cons i is ih =>
    intro s hnd
    rw [List.nodup_cons] at hnd
    have hih := ih (s.bulletStep env clock i) hnd.2
    have hother : is.filter (fun k => ((s.bulletStep env clock i).bullets k).active)
        = is.filter (fun k => (s.bullets k).active) := by
      apply List.filter_congr
      intro k hk
      rw [bulletStep_bullets_other env clock s i k (fun h => hnd.1 (h ▸ hk))]
    rw [hother] at hih
    have hself : (is.foldl (bulletStep env clock) (s.bulletStep env clock i)).bullets i
        = (s.bulletStep env clock i).bullets i :=
      foldl_bulletStep_bullets_other env clock i is _ hnd.1
    rw [destroyedSizes, List.length_append, List.foldl_cons, filter_cons_length,
      filter_cons_length]
    rw [hself]
    by_cases hact : (s.bullets i).active = true
    · rw [if_pos hact, if_pos hact]
      cases hfh : firstHit s i with
      | none =>
        have hst : s.bulletStep env clock i = s := by rw [bulletStep_eq, if_pos hact, hfh]
        rw [hst] at hih ⊢
        rw [if_pos hact]
        simp only [List.length_nil]
        omega
      | some j =>
        have hst : ((s.bulletStep env clock i).bullets i).active = false := by
          rw [bulletStep_eq, if_pos hact, hfh]
          dsimp only
          rw [bulletHit_bullets, Function.update_same]
        rw [hst]
        simp only [List.length_singleton, Bool.false_eq_true, if_false]
        omega
    · have hst : s.bulletStep env clock i = s := by rw [bulletStep_eq, if_neg hact]
      rw [hst] at hih ⊢
      rw [if_neg hact, if_neg hact]
      simp only [List.length_nil]
      omega

theorem bulletPass_count (env : Env) (clock : ℕ) (s : AstroLib) :
    (destroyedSizes env clock (List.finRange MAX_BULLETS) s).length +
        activeCount (s.handleCollisions env clock).bullets
      = activeCount s.bullets := by
  rw [activeCount_eq_filter, activeCount_eq_filter]
  unfold handleCollisions
  rw [shipPass_bullets]
  exact destroyedSizes_count env clock _ s (List.nodup_finRange _)

end AstroLib

/-- C31: one asteroid per bullet. In one `handleCollisions` call the scan of a bullet that is
  inactive at entry changes nothing; the scan of a bullet active at entry either changes
  nothing (the bullet is still active at the end of the call) or hits exactly one asteroid
  `j`, which `hitEffects` deactivates (no other slot is deactivated), and the bullet is
  inactive at the end of the call. So the number of asteroids destroyed by bullets equals
  the number of bullets that the call consumes: it is at most the number of bullets active at
  entry, and the score gain (the sum of the awards) is at most 100 times that number. In
  `twoRocksState` one bullet lies inside two asteroids and destroys one; in `twoBulletsState`
  two bullets lie inside one asteroid and one of them destroys it. -/
theorem one_asteroid_per_bullet (env : Env) (clock : ℕ) (s : AstroLib) :
    (∀ i, (s.bullets i).active = false →
      (s.scanStart env clock i).bulletStep env clock i = s.scanStart env clock i) ∧
    (∀ i, (s.bullets i).active = true →
      ((s.scanStart env clock i).bulletStep env clock i = s.scanStart env clock i ∧
        ((s.handleCollisions env clock).bullets i).active = true) ∨
      (∃ j, ((s.scanStart env clock i).asteroids j).active = true ∧
        (s.scanStart env clock i).bulletStep env clock i =
          ((s.scanStart env clock i).hitEffects clock i j).breakAsteroid env j ∧
        ((s.scanStart env clock i).hitEffects clock i j).asteroids =
          Function.update (s.scanStart env clock i).asteroids j
            { (s.scanStart env clock i).asteroids j with active := false } ∧
        ((s.handleCollisions env clock).bullets i).active = false)) ∧
    (destroyedSizes env clock (List.finRange MAX_BULLETS) s).length +
        activeCount (s.handleCollisions env clock).bullets = activeCount s.bullets ∧
    (destroyedSizes env clock (List.finRange MAX_BULLETS) s).length ≤ activeCount s.bullets ∧
    (s.handleCollisions env clock).score = s.score +
      ((destroyedSizes env clock (List.finRange MAX_BULLETS) s).map AstroLib.award).sum ∧
    (s.handleCollisions env clock).score ≤
      s.score + 100 * ((destroyedSizes env clock (List.finRange MAX_BULLETS) s).length : ℤ) ∧
    (s.handleCollisions env clock).score ≤ s.score + 100 * (activeCount s.bullets : ℤ) ∧
    (activeCount twoRocksState.bullets = 1 ∧ activeCount twoRocksState.asteroids = 2 ∧
      destroyedSizes demoEnv 0 (List.finRange MAX_BULLETS) twoRocksState
        = [ASTEROID_SIZE_SMALL] ∧
      activeCount (twoRocksState.handleCollisions demoEnv 0).asteroids = 1 ∧
      (twoRocksState.handleCollisions demoEnv 0).score = 100) ∧
    (activeCount twoBulletsState.bullets = 2 ∧
      destroyedSizes demoEnv 0 (List.finRange MAX_BULLETS) twoBulletsState
        = [ASTEROID_SIZE_SMALL] ∧
      activeCount (twoBulletsState.handleCollisions demoEnv 0).bullets = 1 ∧
      (twoBulletsState.handleCollisions demoEnv 0).score = 100) := by
  have hcount := AstroLib.bulletPass_count env clock s
  have hscore : (s.handleCollisions env clock).score = s.score +
      ((destroyedSizes env clock (List.finRange MAX_BULLETS) s).map AstroLib.award).sum := by
    unfold AstroLib.handleCollisions
    rw [AstroLib.shipPass_score]
    exact AstroLib.foldl_bulletStep_score env clock _ s
  have hsum := sum_award_le (destroyedSizes env clock (List.finRange MAX_BULLETS) s)
  have hlen : (destroyedSizes env clock (List.finRange MAX_BULLETS) s).length
      ≤ activeCount s.bullets := by omega
  have hlenZ : ((destroyedSizes env clock (List.finRange MAX_BULLETS) s).length : ℤ)
      ≤ (activeCount s.bullets : ℤ) := by exact_mod_cast hlen
  refine ⟨?_, ?_, hcount, hlen, hscore, by rw [hscore]; omega, by rw [hscore]; omega, ?_, ?_⟩
  · intro i hoff
    rw [AstroLib.bulletStep_eq, if_neg]
    rw [AstroLib.scanStart_bullet, hoff]
    decide
  · intro i hact
    have hact' : ((s.scanStart env clock i).bullets i).active = true := by
      rw [AstroLib.scanStart_bullet]; exact hact
    have hend := AstroLib.handleCollisions_bullet env clock s i
    cases hfh : firstHit (s.scanStart env clock i) i with
    | none =>
      left
      have hstep : (s.scanStart env clock i).bulletStep env clock i = s.scanStart env clock i := by
        rw [AstroLib.bulletStep_eq, if_pos hact', hfh]
      exact ⟨hstep, by rw [hend, hstep]; exact hact'⟩
    | some j =>
      right
      have hstep : (s.scanStart env clock i).bulletStep env clock i
          = ((s.scanStart env clock i).hitEffects clock i j).breakAsteroid env j := by
        rw [AstroLib.bulletStep_eq, if_pos hact', hfh]
        rfl
      refine ⟨j, (AstroLib.firstHit_some _ i j hfh).1, hstep, rfl, ?_⟩
      rw [hend, AstroLib.bulletStep_eq, if_pos hact', hfh]
      dsimp only
      rw [AstroLib.bulletHit_bullets, Function.update_same]
  · refine ⟨?_, ?_, ?_, ?_, ?_⟩ <;> with_unfolding_all decide
  · refine ⟨?_, ?_, ?_, ?_⟩ <;> with_unfolding_all decide
